import Mathlib

/-!
The libvips TIFF reader (`libvips/foreign/tiff2vips.c`): a shallow embedding.

The reader state `Rtiff`, the per-directory `RtiffHeader`, the pipeline
selector, the scanline kernels and the multi-page verifier are embedded as
Lean definitions that follow the C source function by function.  C `int`
values are `Int`, `guint32` and byte values are `Nat`; wrap-around is written
out with an explicit `%` wherever the C arithmetic can leave its range.
-/

namespace Tiff2Vips

/-! ## Constants of the TIFF container (`tiff.h`) and of libvips -/

def PHOTOMETRIC_MINISWHITE : Int := 0
def PHOTOMETRIC_MINISBLACK : Int := 1
def PHOTOMETRIC_RGB : Int := 2
def PHOTOMETRIC_PALETTE : Int := 3
def PHOTOMETRIC_SEPARATED : Int := 5
def PHOTOMETRIC_YCBCR : Int := 6
def PHOTOMETRIC_CIELAB : Int := 8
def PHOTOMETRIC_LOGLUV : Int := 32845

def SAMPLEFORMAT_UINT : Int := 1
def SAMPLEFORMAT_INT : Int := 2
def SAMPLEFORMAT_IEEEFP : Int := 3
def SAMPLEFORMAT_VOID : Int := 4
def SAMPLEFORMAT_COMPLEXINT : Int := 5
def SAMPLEFORMAT_COMPLEXIEEEFP : Int := 6

def COMPRESSION_OJPEG : Nat := 6
def COMPRESSION_JPEG : Nat := 7
def COMPRESSION_SGILOG : Nat := 34676
def COMPRESSION_SGILOG24 : Nat := 34677
def JP2K_YCC : Nat := 33003
def JP2K_RGB : Nat := 33004
def JP2K_LOSSY : Nat := 33005

def PLANARCONFIG_SEPARATE : Int := 2
def ORIENTATION_TOPLEFT : Int := 1
def INKSET_CMYK : Int := 1
def EXTRASAMPLE_ASSOCALPHA : Nat := 1
def RESUNIT_NONE : Int := 1
def RESUNIT_INCH : Int := 2
def RESUNIT_CENTIMETER : Int := 3

def VIPS_MAX_COORD : Nat := 10000000

/-- The libvips band formats (`VipsBandFormat`). -/
inductive VipsBandFormat where
  | NOTSET | UCHAR | CHAR | USHORT | SHORT | UINT | INT
  | FLOAT | COMPLEX | DOUBLE | DPCOMPLEX
  deriving DecidableEq

/-- The libvips codings used by the reader (`VipsCoding`). -/
inductive VipsCoding where
  | NONE | LABQ
  deriving DecidableEq

/-- The libvips interpretations used by the reader (`VipsInterpretation`). -/
inductive VipsInterpretation where
  | MULTIBAND | B_W | XYZ | LAB | CMYK | LABQ | sRGB | LABS | RGB16 | GREY16 | scRGB
  deriving DecidableEq

/-- Demand hints passed to `vips_image_pipelinev`. -/
inductive VipsDemandStyle where
  | SMALLTILE | THINSTRIP
  deriving DecidableEq

/-- Modelled from the spec: `vips_band_format_isuint` lives in the libvips
core, outside the reader; it is true for the unsigned-integer formats. -/
def vips_band_format_isuint : VipsBandFormat → Bool
  | .UCHAR | .USHORT | .UINT => true
  | _ => false

/-- Modelled from the spec: `vips_band_format_isint` lives in the libvips
core, outside the reader; it is true for the integer formats. -/
def vips_band_format_isint : VipsBandFormat → Bool
  | .UCHAR | .CHAR | .USHORT | .SHORT | .UINT | .INT => true
  | _ => false

/-- Modelled from the spec: `vips_band_format_iscomplex` lives in the libvips
core, outside the reader; it is true for the two complex formats. -/
def vips_band_format_iscomplex : VipsBandFormat → Bool
  | .COMPLEX | .DPCOMPLEX => true
  | _ => false

/-! ## The directory header -/

/-- `RtiffHeader`: what is read from one TIFF directory.  `stonits` is kept as
the bit pattern of the C double. -/
structure RtiffHeader where
  width : Nat
  height : Nat
  samples_per_pixel : Int
  bits_per_sample : Int
  photometric_interpretation : Int
  inkset : Int
  sample_format : Int
  separate : Bool
  orientation : Int
  alpha_band : Int
  compression : Nat
  tiled : Bool
  tile_width : Nat
  tile_height : Nat
  tile_size : Int
  tile_row_size : Int
  rows_per_strip : Nat
  strip_size : Int
  scanline_size : Int
  number_of_strips : Int
  read_scanlinewise : Bool
  read_height : Nat
  read_size : Int
  stonits : Nat
  subifd_count : Int
  image_description : Option String
  we_decompress : Bool
  read_as_rgba : Bool
  deriving DecidableEq

/-- A zero-filled header, as `VIPS_NEW` leaves it inside a fresh `Rtiff`. -/
def RtiffHeader.zero : RtiffHeader :=
  { width := 0, height := 0, samples_per_pixel := 0, bits_per_sample := 0,
    photometric_interpretation := 0, inkset := 0, sample_format := 0,
    separate := false, orientation := 0, alpha_band := 0, compression := 0,
    tiled := false, tile_width := 0, tile_height := 0, tile_size := 0,
    tile_row_size := 0, rows_per_strip := 0, strip_size := 0,
    scanline_size := 0, number_of_strips := 0, read_scanlinewise := false,
    read_height := 0, read_size := 0, stonits := 0, subifd_count := 0,
    image_description := none, we_decompress := false, read_as_rgba := false }

/-! ## Pipeline selection -/

/-- The `reader_fn` values `rtiff_pick_reader` can return. -/
inductive Reader where
  | rtiff_parse_rgba
  | rtiff_parse_lab_with_alpha
  | rtiff_parse_labpack
  | rtiff_parse_labs
  | rtiff_parse_logluv
  | rtiff_parse_onebit
  | rtiff_parse_twobit
  | rtiff_parse_fourbit
  | rtiff_parse_greyscale
  | rtiff_parse_palette
  | rtiff_parse_copy
  deriving DecidableEq

/-- `rtiff_pick_reader`: route a header to one of the output paths. -/
def rtiff_pick_reader (header : RtiffHeader) : Reader :=
  let bits_per_sample := header.bits_per_sample
  let photometric_interpretation := header.photometric_interpretation
  let samples_per_pixel := header.samples_per_pixel
  if header.read_as_rgba then
    Reader.rtiff_parse_rgba
  else if photometric_interpretation = PHOTOMETRIC_CIELAB ∧ bits_per_sample = 8 then
    (if samples_per_pixel > 3 then Reader.rtiff_parse_lab_with_alpha
     else Reader.rtiff_parse_labpack)
  else if photometric_interpretation = PHOTOMETRIC_CIELAB ∧ bits_per_sample = 16 then
    Reader.rtiff_parse_labs
  else if photometric_interpretation = PHOTOMETRIC_LOGLUV then
    Reader.rtiff_parse_logluv
  else if photometric_interpretation = PHOTOMETRIC_MINISWHITE ∨
      photometric_interpretation = PHOTOMETRIC_MINISBLACK then
    (if bits_per_sample = 1 then Reader.rtiff_parse_onebit
     else if bits_per_sample = 2 then Reader.rtiff_parse_twobit
     else if bits_per_sample = 4 then Reader.rtiff_parse_fourbit
     else Reader.rtiff_parse_greyscale)
  else if photometric_interpretation = PHOTOMETRIC_PALETTE then
    Reader.rtiff_parse_palette
  else
    Reader.rtiff_parse_copy

/-- `rtiff_guess_format`: the band format for a (bits, sample format) pair,
`NOTSET` (after raising "unsupported tiff image type") when there is none. -/
def rtiff_guess_format (header : RtiffHeader) : VipsBandFormat :=
  let bits_per_sample := header.bits_per_sample
  let sample_format := header.sample_format
  if bits_per_sample = 1 ∨ bits_per_sample = 2 ∨ bits_per_sample = 4 ∨
      bits_per_sample = 8 then
    (if sample_format = SAMPLEFORMAT_INT then VipsBandFormat.CHAR
     else if sample_format = SAMPLEFORMAT_UINT then VipsBandFormat.UCHAR
     else VipsBandFormat.NOTSET)
  else if bits_per_sample = 16 then
    (if sample_format = SAMPLEFORMAT_INT then VipsBandFormat.SHORT
     else if sample_format = SAMPLEFORMAT_UINT then VipsBandFormat.USHORT
     else if sample_format = SAMPLEFORMAT_IEEEFP then VipsBandFormat.FLOAT
     else VipsBandFormat.NOTSET)
  else if bits_per_sample = 32 then
    (if sample_format = SAMPLEFORMAT_INT then VipsBandFormat.INT
     else if sample_format = SAMPLEFORMAT_UINT then VipsBandFormat.UINT
     else if sample_format = SAMPLEFORMAT_IEEEFP then VipsBandFormat.FLOAT
     else VipsBandFormat.NOTSET)
  else if bits_per_sample = 64 then
    (if sample_format = SAMPLEFORMAT_IEEEFP then VipsBandFormat.DOUBLE
     else if sample_format = SAMPLEFORMAT_COMPLEXIEEEFP then VipsBandFormat.COMPLEX
     else VipsBandFormat.NOTSET)
  else if bits_per_sample = 128 then
    (if sample_format = SAMPLEFORMAT_COMPLEXIEEEFP then VipsBandFormat.DPCOMPLEX
     else VipsBandFormat.NOTSET)
  else
    VipsBandFormat.NOTSET

/-- `rtiff_header_equal`: the comparison used by multi-page verification. -/
def rtiff_header_equal (h1 h2 : RtiffHeader) : Bool :=
  if h1.width ≠ h2.width ∨
      h1.height ≠ h2.height ∨
      h1.samples_per_pixel ≠ h2.samples_per_pixel ∨
      h1.bits_per_sample ≠ h2.bits_per_sample ∨
      h1.photometric_interpretation ≠ h2.photometric_interpretation ∨
      h1.sample_format ≠ h2.sample_format ∨
      h1.compression ≠ h2.compression ∨
      h1.separate ≠ h2.separate ∨
      h1.tiled ≠ h2.tiled ∨
      h1.orientation ≠ h2.orientation then
    false
  else if h1.tiled then
    (if h1.tile_width ≠ h2.tile_width ∨ h1.tile_height ≠ h2.tile_height then false
     else true)
  else
    (if h1.read_height ≠ h2.read_height ∨
        h1.read_size ≠ h2.read_size ∨
        h1.number_of_strips ≠ h2.number_of_strips then false
     else true)

/-! ## The container, the output image and the reader state -/

/-- What the TIFF container (libtiff) answers for the tags and size queries
of one directory.  A field is `none` when the corresponding get call fails.
`bad_strips` and `warn_strips` list the strips (or scanlines) whose read
returns -1, respectively raises a warning. -/
structure TiffTags where
  imagewidth : Option Nat
  imagelength : Option Nat
  samplesperpixel : Option Nat
  bitspersample : Option Nat
  photometric : Option Nat
  inkset : Option Nat
  compression : Nat
  ycbcrsubsampling : Nat × Nat
  stonits : Option Nat
  sampleformat : Option Nat
  orientation : Option Nat
  planarconfig : Option Nat
  subifd : Option Nat
  imagedescription : Option String
  is_tiled : Bool
  tilewidth : Option Nat
  tilelength : Option Nat
  tile_size : Int
  tile_row_size : Int
  rowsperstrip : Option Nat
  number_of_strips : Int
  scanline_size : Int
  strip_size : Int
  extrasamples : List Nat
  colormap : Option (List Nat × List Nat × List Nat)
  iccprofile : Option (List Nat)
  xmlpacket : Option (List Nat)
  richtiffiptc : Option (List Nat)
  photoshop : Option (List Nat)
  xresolution : Option ℚ
  yresolution : Option ℚ
  resolutionunit : Option Nat
  rgba_ok : Bool
  bad_strips : List Int
  warn_strips : List Int

/-- A top-level directory with its SubIFDs; a SubIFD that cannot be selected
is `none`. -/
structure TiffDir where
  tags : TiffTags
  subdirs : List (Option TiffTags)

/-- The buffers a strip read can be directed to: the output region itself,
the contiguous strip buffer `contig_buf`, or the plane buffer `plane_buf`. -/
inductive ReadBuf where
  | region
  | contig_buf
  | plane_buf
  deriving DecidableEq

/-- One container read issued by the strip reader: the page selected, the
strip (or scanline) number and the buffer read into. -/
structure ReadEvent where
  page : Int
  strip : Int
  buf : ReadBuf
  deriving DecidableEq

/-- The open container: its directories, the directory currently selected,
and the log of strip reads issued so far. -/
structure TiffHandle where
  dirs : List TiffDir
  cur : TiffDir
  read_log : List ReadEvent

/-- The fields of the output `VipsImage` the reader writes. -/
structure VipsImage where
  Xsize : Int
  Ysize : Int
  Bands : Int
  BandFmt : VipsBandFormat
  Coding : VipsCoding
  Type_ : VipsInterpretation
  Xres : ℚ
  Yres : ℚ
  dhint : Option VipsDemandStyle
  meta_int : List (String × Int)
  meta_double : List (String × Nat)
  meta_string : List (String × String)
  meta_blob : List (String × List Nat)

/-- A fresh image, as `vips_image_new` returns it. -/
def VipsImage.new : VipsImage :=
  { Xsize := 1, Ysize := 1, Bands := 1, BandFmt := VipsBandFormat.UCHAR,
    Coding := VipsCoding.NONE, Type_ := VipsInterpretation.MULTIBAND,
    Xres := 1, Yres := 1, dhint := none,
    meta_int := [], meta_double := [], meta_string := [], meta_blob := [] }

/-- Modelled from the spec: `vips_image_set_int` lives in the libvips core;
it attaches an integer metadata item, replacing an item of the same name. -/
def vips_image_set_int (out : VipsImage) (name : String) (v : Int) : VipsImage :=
  { out with meta_int := (name, v) :: out.meta_int.filter (fun e => e.1 ≠ name) }

/-- Modelled from the spec: `vips_image_get_int`, the lookup matching
`vips_image_set_int`. -/
def vips_image_get_int (out : VipsImage) (name : String) : Option Int :=
  (out.meta_int.find? (fun e => e.1 = name)).map (fun e => e.2)

/-- Modelled from the spec: `vips_image_set_double` of the libvips core. -/
def vips_image_set_double (out : VipsImage) (name : String) (v : Nat) : VipsImage :=
  { out with meta_double := (name, v) :: out.meta_double.filter (fun e => e.1 ≠ name) }

/-- Modelled from the spec: `vips_image_set_string` of the libvips core. -/
def vips_image_set_string (out : VipsImage) (name : String) (v : String) : VipsImage :=
  { out with meta_string := (name, v) :: out.meta_string.filter (fun e => e.1 ≠ name) }

/-- Modelled from the spec: `vips_image_set_blob_copy` of the libvips core. -/
def vips_image_set_blob_copy (out : VipsImage) (name : String) (v : List Nat) : VipsImage :=
  { out with meta_blob := (name, v) :: out.meta_blob.filter (fun e => e.1 ≠ name) }

def VIPS_META_PAGE_HEIGHT : String := "page-height"
def VIPS_META_N_PAGES : String := "n-pages"
def VIPS_META_N_SUBIFDS : String := "n-subifds"
def VIPS_META_BITS_PER_SAMPLE : String := "bits-per-sample"
def VIPS_META_ORIENTATION : String := "orientation"
def VIPS_META_RESOLUTION_UNIT : String := "resolution-unit"
def VIPS_META_IMAGEDESCRIPTION : String := "image-description"
def VIPS_META_ICC_NAME : String := "icc-profile-data"
def VIPS_META_XMP_NAME : String := "xmp-data"
def VIPS_META_IPTC_NAME : String := "iptc-data"
def VIPS_META_PHOTOSHOP_NAME : String := "photoshop-data"

/-- The scanline process functions (`scanline_process_fn` values). -/
inductive ScanlineFn where
  | rtiff_labpack_line
  | rtiff_lab_with_alpha_line
  | rtiff_labs_line
  | rtiff_logluv_line
  | rtiff_1bit_line
  | rtiff_2bit_line
  | rtiff_4bit_line
  | rtiff_greyscale_line
  | rtiff_palette_line_bit
  | rtiff_palette_line8
  | rtiff_palette_line16
  | rtiff_memcpy_line
  | rtiff_memcpy_f16_line
  deriving DecidableEq

/-- `PaletteRead`: the colour maps of a palette image. -/
structure PaletteRead where
  red8 : List Nat
  green8 : List Nat
  blue8 : List Nat
  red16 : List Nat
  green16 : List Nat
  blue16 : List Nat
  mono : Bool
  deriving DecidableEq

/-- The `client` pointer of the reader: null, the output image, or the
palette tables. -/
inductive Client where
  | null
  | image
  | palette (read : PaletteRead)
  deriving DecidableEq

/-- `VipsFailOn`, in increasing strictness. -/
def VIPS_FAIL_ON_NONE : Nat := 0
def VIPS_FAIL_ON_TRUNCATED : Nat := 1
def VIPS_FAIL_ON_ERROR : Nat := 2
def VIPS_FAIL_ON_WARNING : Nat := 3

/-- `Rtiff`: what is tracked during a read.  The source, the lock and the two
scratch buffers carry no information the embedded functions use. -/
structure Rtiff where
  page : Int
  n : Int
  autorotate : Bool
  subifd : Int
  fail_on : Nat
  tiff : TiffHandle
  n_pages : Int
  current_page : Int
  sfn : Option ScanlineFn
  client : Client
  memcpy : Bool
  header : RtiffHeader
  y_pos : Int
  failed : Bool

/-- Conversion of a C `int` to `guint32`. -/
def to_u32 (x : Int) : Nat := (x % 4294967296).toNat

/-- Conversion of an integer value to a C `int` (two-complement wrap). -/
def to_int32 (x : Int) : Int := (x + 2147483648) % 4294967296 - 2147483648

/-- Conversion of an integer value to a C `short`. -/
def to_int16 (x : Int) : Int := (x + 32768) % 65536 - 32768

/-! ## Sanity checks of the readers -/

/-- `rtiff_check_samples` -/
def rtiff_check_samples (rtiff : Rtiff) (samples_per_pixel : Int) : Int :=
  if rtiff.header.samples_per_pixel ≠ samples_per_pixel then -1 else 0

/-- `rtiff_check_min_samples` -/
def rtiff_check_min_samples (rtiff : Rtiff) (samples_per_pixel : Int) : Int :=
  if rtiff.header.samples_per_pixel < samples_per_pixel then -1 else 0

/-- `rtiff_non_fractional`: only whole-byte samples. -/
def rtiff_non_fractional (rtiff : Rtiff) : Int :=
  if Int.tmod rtiff.header.bits_per_sample 8 ≠ 0 ∨ rtiff.header.bits_per_sample = 0 then -1
  else 0

/-- `rtiff_check_interpretation` -/
def rtiff_check_interpretation (rtiff : Rtiff) (photometric_interpretation : Int) : Int :=
  if rtiff.header.photometric_interpretation ≠ photometric_interpretation then -1 else 0

/-- `rtiff_check_bits` -/
def rtiff_check_bits (rtiff : Rtiff) (bits_per_sample : Int) : Int :=
  if rtiff.header.bits_per_sample ≠ bits_per_sample then -1 else 0

/-- `rtiff_check_bits_palette` -/
def rtiff_check_bits_palette (rtiff : Rtiff) : Int :=
  if rtiff.header.bits_per_sample ≠ 16 ∧
      rtiff.header.bits_per_sample ≠ 8 ∧
      rtiff.header.bits_per_sample ≠ 4 ∧
      rtiff.header.bits_per_sample ≠ 2 ∧
      rtiff.header.bits_per_sample ≠ 1 then -1
  else 0

/-- Modelled from the spec: `vips_check_noncomplex` of the libvips core; it
fails (non-zero) on an image whose band format is complex. -/
def vips_check_noncomplex (out : VipsImage) : Int :=
  if vips_band_format_iscomplex out.BandFmt then -1 else 0

/-! ## The readers: output descriptor and scanline kernel per image type -/

/-- `rtiff_parse_labpack`: read an 8-bit LAB image. -/
def rtiff_parse_labpack (rtiff : Rtiff) (out : VipsImage) : Int × Rtiff × VipsImage :=
  if rtiff_check_min_samples rtiff 3 ≠ 0 ∨
      rtiff_check_bits rtiff 8 ≠ 0 ∨
      rtiff_check_interpretation rtiff PHOTOMETRIC_CIELAB ≠ 0 then
    (-1, rtiff, out)
  else
    (0, { rtiff with sfn := some ScanlineFn.rtiff_labpack_line },
      { out with Bands := 4, BandFmt := VipsBandFormat.UCHAR,
                 Coding := VipsCoding.LABQ, Type_ := VipsInterpretation.LAB })

/-- `rtiff_parse_lab_with_alpha`: 8-bit LAB with alpha bands into 16-bit LabS. -/
def rtiff_parse_lab_with_alpha (rtiff : Rtiff) (out : VipsImage) : Int × Rtiff × VipsImage :=
  if rtiff_check_min_samples rtiff 4 ≠ 0 ∨
      rtiff_check_bits rtiff 8 ≠ 0 ∨
      rtiff_check_interpretation rtiff PHOTOMETRIC_CIELAB ≠ 0 then
    (-1, rtiff, out)
  else
    (0, { rtiff with sfn := some ScanlineFn.rtiff_lab_with_alpha_line },
      { out with Bands := rtiff.header.samples_per_pixel, BandFmt := VipsBandFormat.SHORT,
                 Coding := VipsCoding.NONE, Type_ := VipsInterpretation.LABS })

/-- `rtiff_parse_labs`: read a 16-bit LAB image. -/
def rtiff_parse_labs (rtiff : Rtiff) (out : VipsImage) : Int × Rtiff × VipsImage :=
  if rtiff_check_min_samples rtiff 3 ≠ 0 ∨
      rtiff_check_bits rtiff 16 ≠ 0 ∨
      rtiff_check_interpretation rtiff PHOTOMETRIC_CIELAB ≠ 0 then
    (-1, rtiff, out)
  else
    (0, { rtiff with sfn := some ScanlineFn.rtiff_labs_line },
      { out with Bands := rtiff.header.samples_per_pixel, BandFmt := VipsBandFormat.SHORT,
                 Coding := VipsCoding.NONE, Type_ := VipsInterpretation.LABS })

/-- `rtiff_parse_logluv`: LOGLUV arrives from the container as float XYZ. -/
def rtiff_parse_logluv (rtiff : Rtiff) (out : VipsImage) : Int × Rtiff × VipsImage :=
  if rtiff_check_min_samples rtiff 3 ≠ 0 ∨
      rtiff_check_interpretation rtiff PHOTOMETRIC_LOGLUV ≠ 0 then
    (-1, rtiff, out)
  else
    (0, { rtiff with sfn := some ScanlineFn.rtiff_logluv_line },
      { out with Bands := rtiff.header.samples_per_pixel, BandFmt := VipsBandFormat.FLOAT,
                 Coding := VipsCoding.NONE, Type_ := VipsInterpretation.XYZ })

/-- `rtiff_parse_onebit`: read a 1-bit image. -/
def rtiff_parse_onebit (rtiff : Rtiff) (out : VipsImage) : Int × Rtiff × VipsImage :=
  if rtiff_check_samples rtiff 1 ≠ 0 ∨ rtiff_check_bits rtiff 1 ≠ 0 then
    (-1, rtiff, out)
  else
    (0, { rtiff with sfn := some ScanlineFn.rtiff_1bit_line },
      { out with Bands := 1, BandFmt := VipsBandFormat.UCHAR,
                 Coding := VipsCoding.NONE, Type_ := VipsInterpretation.B_W })

/-- `rtiff_parse_twobit`: read a 2-bit image. -/
def rtiff_parse_twobit (rtiff : Rtiff) (out : VipsImage) : Int × Rtiff × VipsImage :=
  if rtiff_check_samples rtiff 1 ≠ 0 ∨ rtiff_check_bits rtiff 2 ≠ 0 then
    (-1, rtiff, out)
  else
    (0, { rtiff with sfn := some ScanlineFn.rtiff_2bit_line },
      { out with Bands := 1, BandFmt := VipsBandFormat.UCHAR,
                 Coding := VipsCoding.NONE, Type_ := VipsInterpretation.B_W })

/-- `rtiff_parse_fourbit`: read a 4-bit image. -/
def rtiff_parse_fourbit (rtiff : Rtiff) (out : VipsImage) : Int × Rtiff × VipsImage :=
  if rtiff_check_samples rtiff 1 ≠ 0 ∨ rtiff_check_bits rtiff 4 ≠ 0 then
    (-1, rtiff, out)
  else
    (0, { rtiff with sfn := some ScanlineFn.rtiff_4bit_line },
      { out with Bands := 1, BandFmt := VipsBandFormat.UCHAR,
                 Coding := VipsCoding.NONE, Type_ := VipsInterpretation.B_W })

/-- `rtiff_parse_greyscale`: read a grey-scale image. -/
def rtiff_parse_greyscale (rtiff : Rtiff) (out : VipsImage) : Int × Rtiff × VipsImage :=
  if rtiff_check_min_samples rtiff 1 ≠ 0 ∨ rtiff_non_fractional rtiff ≠ 0 then
    (-1, rtiff, out)
  else
    let out1 := { out with Bands := rtiff.header.samples_per_pixel,
                           BandFmt := rtiff_guess_format rtiff.header }
    if out1.BandFmt = VipsBandFormat.NOTSET then
      (-1, rtiff, out1)
    else
      let out2 := { out1 with
        Coding := VipsCoding.NONE,
        Type_ := if rtiff.header.bits_per_sample = 16 then VipsInterpretation.GREY16
                 else VipsInterpretation.B_W }
      if vips_check_noncomplex out2 ≠ 0 then
        (-1, rtiff, out2)
      else
        (0, { rtiff with sfn := some ScanlineFn.rtiff_greyscale_line }, out2)

/-- The colour-map part of `rtiff_parse_palette`: the 8-bit tables and the
mono flag computed from the three 16-bit maps of `len` entries. -/
def palette_read (len : Nat) (red16 green16 blue16 : List Nat) : PaletteRead :=
  let idx := List.range len
  let high := idx.any (fun i =>
    ((red16.getD i 0 >>> 8) ||| (green16.getD i 0 >>> 8) ||| (blue16.getD i 0 >>> 8)) ≠ 0)
  let conv : Nat → Nat := fun v => if high then v >>> 8 else v &&& 0xff
  { red8 := idx.map (fun i => conv (red16.getD i 0)),
    green8 := idx.map (fun i => conv (green16.getD i 0)),
    blue8 := idx.map (fun i => conv (blue16.getD i 0)),
    red16 := red16, green16 := green16, blue16 := blue16,
    mono := !(idx.any (fun i =>
      red16.getD i 0 ≠ green16.getD i 0 ∨ green16.getD i 0 ≠ blue16.getD i 0)) }

/-- `rtiff_parse_palette`: read a palette-ised image. -/
def rtiff_parse_palette (rtiff : Rtiff) (out : VipsImage) : Int × Rtiff × VipsImage :=
  let samples_per_pixel := rtiff.header.samples_per_pixel
  let bits_per_sample := rtiff.header.bits_per_sample
  if rtiff_check_bits_palette rtiff ≠ 0 ∨ rtiff_check_min_samples rtiff 1 ≠ 0 then
    (-1, rtiff, out)
  else
    let len := 1 <<< bits_per_sample.toNat
    match rtiff.tiff.cur.tags.colormap with
    | none => (-1, rtiff, out)
    | some (red16, green16, blue16) =>
      let read := palette_read len red16 green16 blue16
      let out1 := { out with
        BandFmt := if bits_per_sample ≤ 8 then VipsBandFormat.UCHAR else VipsBandFormat.USHORT,
        Coding := VipsCoding.NONE }
      let out2 :=
        if read.mono then
          { out1 with Bands := samples_per_pixel,
                      Type_ := if bits_per_sample ≤ 8 then VipsInterpretation.B_W
                               else VipsInterpretation.GREY16 }
        else
          { out1 with Bands := samples_per_pixel + 2,
                      Type_ := if bits_per_sample ≤ 8 then VipsInterpretation.sRGB
                               else VipsInterpretation.RGB16 }
      let sfn :=
        if bits_per_sample < 8 then some ScanlineFn.rtiff_palette_line_bit
        else if bits_per_sample = 8 then some ScanlineFn.rtiff_palette_line8
        else if bits_per_sample = 16 then some ScanlineFn.rtiff_palette_line16
        else rtiff.sfn
      (0, { rtiff with client := Client.palette read, sfn := sfn }, out2)

/-- `rtiff_parse_copy`: a regular multiband image whose pixels are copied. -/
def rtiff_parse_copy (rtiff : Rtiff) (out : VipsImage) : Int × Rtiff × VipsImage :=
  let samples_per_pixel := rtiff.header.samples_per_pixel
  let photometric_interpretation := rtiff.header.photometric_interpretation
  let bits_per_sample := rtiff.header.bits_per_sample
  let sample_format := rtiff.header.sample_format
  let inkset := rtiff.header.inkset
  if rtiff_non_fractional rtiff ≠ 0 then
    (-1, rtiff, out)
  else
    let out1 := { out with Bands := samples_per_pixel,
                           BandFmt := rtiff_guess_format rtiff.header }
    if out1.BandFmt = VipsBandFormat.NOTSET then
      (-1, rtiff, out1)
    else
      let interpretation :=
        if samples_per_pixel ≥ 3 ∧
            (photometric_interpretation = PHOTOMETRIC_RGB ∨
              photometric_interpretation = PHOTOMETRIC_YCBCR) then
          (if out1.BandFmt = VipsBandFormat.USHORT then VipsInterpretation.RGB16
           else if !vips_band_format_isint out1.BandFmt then VipsInterpretation.scRGB
           else VipsInterpretation.sRGB)
        else if samples_per_pixel ≥ 3 ∧ photometric_interpretation = PHOTOMETRIC_CIELAB then
          VipsInterpretation.LAB
        else if photometric_interpretation = PHOTOMETRIC_SEPARATED ∧
            samples_per_pixel ≥ 4 ∧ inkset = INKSET_CMYK then
          VipsInterpretation.CMYK
        else
          VipsInterpretation.MULTIBAND
      let out2 := { out1 with Coding := VipsCoding.NONE, Type_ := interpretation }
      let rtiff1 := { rtiff with client := Client.image }
      if bits_per_sample = 16 ∧ sample_format = SAMPLEFORMAT_IEEEFP then
        (0, { rtiff1 with sfn := some ScanlineFn.rtiff_memcpy_f16_line }, out2)
      else
        (0, { rtiff1 with
                sfn := some ScanlineFn.rtiff_memcpy_line,
                memcpy := decide (photometric_interpretation ≠ PHOTOMETRIC_YCBCR) }, out2)

/-- `rtiff_parse_rgba`: read through the container RGBA path. -/
def rtiff_parse_rgba (rtiff : Rtiff) (out : VipsImage) : Int × Rtiff × VipsImage :=
  (0, { rtiff with client := Client.image,
                   sfn := some ScanlineFn.rtiff_memcpy_line,
                   memcpy := true },
    { out with Bands := 4, Type_ := VipsInterpretation.sRGB,
               BandFmt := VipsBandFormat.UCHAR, Coding := VipsCoding.NONE })

/-- Calling the `reader_fn` returned by `rtiff_pick_reader`. -/
def Reader.run : Reader → Rtiff → VipsImage → Int × Rtiff × VipsImage
  | .rtiff_parse_rgba => Tiff2Vips.rtiff_parse_rgba
  | .rtiff_parse_lab_with_alpha => Tiff2Vips.rtiff_parse_lab_with_alpha
  | .rtiff_parse_labpack => Tiff2Vips.rtiff_parse_labpack
  | .rtiff_parse_labs => Tiff2Vips.rtiff_parse_labs
  | .rtiff_parse_logluv => Tiff2Vips.rtiff_parse_logluv
  | .rtiff_parse_onebit => Tiff2Vips.rtiff_parse_onebit
  | .rtiff_parse_twobit => Tiff2Vips.rtiff_parse_twobit
  | .rtiff_parse_fourbit => Tiff2Vips.rtiff_parse_fourbit
  | .rtiff_parse_greyscale => Tiff2Vips.rtiff_parse_greyscale
  | .rtiff_parse_palette => Tiff2Vips.rtiff_parse_palette
  | .rtiff_parse_copy => Tiff2Vips.rtiff_parse_copy

/-! ## Single-precision arithmetic

`get_resolution` holds the resolution in C `float` variables and divides
them in single precision (float expressions evaluated in float, that is
`FLT_EVAL_METHOD` 0).  A finite float is an exact rational; an operation on
floats is the exact rational operation followed by rounding to the nearest
binary32 value, ties to the even significand. -/

/-- The integer nearest to `num / den`, ties to even. -/
def round_half_even (num den : Nat) : Nat :=
  let f := num / den
  let r := num % den
  if 2 * r < den then f else if den < 2 * r then f + 1 else f + f % 2

/-- The number of binary digits of `n`, for `n` below `2 ^ fuel`. -/
def bit_length : Nat → Nat → Nat
  | 0, _ => 0
  | fuel + 1, n => if n = 0 then 0 else bit_length fuel (n / 2) + 1

/-- The exponent `e` of a positive `n / d`: `2 ^ e ≤ n / d < 2 ^ (e + 1)`. -/
def floor_log2_ratio (n d : Nat) : Int :=
  let a := bit_length n n
  let b := bit_length d d
  if d * 2 ^ a ≤ n * 2 ^ b then (a : Int) - b else (a : Int) - b - 1

/-- The binary32 value nearest to `n / d`, as an integer significand `m`
and a power of two `k`, the value being `m * 2 ^ k`: 24 significant bits
for a normal number, the fixed exponent `2 ^ -149` below `2 ^ -126`. -/
def binary32_parts (n d : Nat) : Nat × Int :=
  let e := floor_log2_ratio n d
  let k := (if e < -126 then -126 else e) - 23
  let m := if 0 ≤ k then round_half_even n (d * 2 ^ k.toNat)
           else round_half_even (n * 2 ^ (-k).toNat) d
  (m, k)

/-- Rounding of an exact result to a C `float` (IEEE 754 binary32, round to
nearest, ties to even).  Overflow to infinity is not represented: the values
`get_resolution` rounds are quotients of a finite float by a divisor above 1,
and a product of small constants. -/
def binary32_round (q : ℚ) : ℚ :=
  let parts := binary32_parts q.num.natAbs q.den
  let v : ℚ := (parts.1 : ℚ) * 2 ^ parts.2
  if 0 ≤ q then v else -v

/-- `get_resolution`: resolution in pixels per millimetre.  `x` and `y` are C
floats: the tag values are the floats delivered by `TIFFGetFieldDefaulted`,
the divisor `10.0F * 2.54F` is a single-precision product of single-precision
constants, and `x /= ...` rounds the quotient to a float.  The final
assignment to the double fields `Xres` and `Yres` is exact. -/
def get_resolution (tags : TiffTags) (out : VipsImage) : Int × VipsImage :=
  match tags.xresolution, tags.yresolution, tags.resolutionunit with
  | some x, some y, some ru =>
    if (ru : Int) = RESUNIT_NONE then
      (0, { out with Xres := x, Yres := y })
    else if (ru : Int) = RESUNIT_INCH then
      let out1 := vips_image_set_string out VIPS_META_RESOLUTION_UNIT "in"
      (0, { out1 with
              Xres := binary32_round (x / binary32_round (10 * binary32_round (254 / 100))),
              Yres := binary32_round (y / binary32_round (10 * binary32_round (254 / 100))) })
    else if (ru : Int) = RESUNIT_CENTIMETER then
      let out1 := vips_image_set_string out VIPS_META_RESOLUTION_UNIT "cm"
      (0, { out1 with Xres := binary32_round (x / 10), Yres := binary32_round (y / 10) })
    else
      (-1, out)
  | _, _, _ => (0, { out with Xres := 1, Yres := 1 })

/-- The first part of `rtiff_set_header`, up to the call of the reader: the
size of the output image and the page metadata.  The product
`header.height * n` is computed in `guint32` and stored in the `int`
`Ysize`. -/
def set_header_geometry (rtiff : Rtiff) (out : VipsImage) : VipsImage :=
  let out1 :=
    if rtiff.header.photometric_interpretation = PHOTOMETRIC_LOGLUV then
      vips_image_set_double out "stonits" rtiff.header.stonits
    else out
  let out2 := { out1 with
    Xsize := to_int32 rtiff.header.width,
    Ysize := to_int32 ((rtiff.header.height * to_u32 rtiff.n) % 4294967296 : Nat) }
  let out3 :=
    if rtiff.n > 1 then
      vips_image_set_int out2 VIPS_META_PAGE_HEIGHT (to_int32 rtiff.header.height)
    else out2
  let out4 :=
    if rtiff.header.subifd_count > 0 then
      vips_image_set_int out3 VIPS_META_N_SUBIFDS rtiff.header.subifd_count
    else out3
  vips_image_set_int out4 VIPS_META_N_PAGES rtiff.n_pages

/-- Attach a metadata blob when the container has the tag: the pattern
`if (TIFFGetField (...)) vips_image_set_blob_copy (...)`. -/
def set_blob_if_present (out : VipsImage) (name : String) (data : Option (List Nat)) :
    VipsImage :=
  match data with
  | some d => vips_image_set_blob_copy out name d
  | none => out

/-- Attach the image description when the header has one. -/
def set_description_if_present (out : VipsImage) (d : Option String) : VipsImage :=
  match d with
  | some v => vips_image_set_string out VIPS_META_IMAGEDESCRIPTION v
  | none => out

/-- The metadata blobs and the image description attached by
`rtiff_set_header` after the reader has run; IPTC data is attached under
its name and under the misspelt legacy name. -/
def set_header_blobs (rtiff1 : Rtiff) (out6 : VipsImage) : VipsImage :=
  let tags := rtiff1.tiff.cur.tags
  let out7 := set_blob_if_present out6 VIPS_META_ICC_NAME tags.iccprofile
  let out8 := set_blob_if_present out7 VIPS_META_XMP_NAME tags.xmlpacket
  let out9 := set_blob_if_present
    (set_blob_if_present out8 VIPS_META_IPTC_NAME tags.richtiffiptc)
    "ipct-data" tags.richtiffiptc
  let out10 := set_blob_if_present out9 VIPS_META_PHOTOSHOP_NAME tags.photoshop
  set_description_if_present out10 rtiff1.header.image_description

/-- The last part of `rtiff_set_header`, after the reader has run: the
metadata blobs, the resolution, and the remaining scalar items. -/
def set_header_metadata (rtiff1 : Rtiff) (out6 : VipsImage) : Int × VipsImage :=
  match get_resolution rtiff1.tiff.cur.tags (set_header_blobs rtiff1 out6) with
  | (rc2, out12) =>
    if rc2 ≠ 0 then (-1, out12)
    else
      let out13 := vips_image_set_int out12 VIPS_META_BITS_PER_SAMPLE
        rtiff1.header.bits_per_sample
      let out14 := vips_image_set_int out13 VIPS_META_ORIENTATION rtiff1.header.orientation
      (0, { out14 with
        dhint := some (if rtiff1.header.tiled then VipsDemandStyle.SMALLTILE
                       else VipsDemandStyle.THINSTRIP) })

/-- `rtiff_set_header`: set the header on `out` from the reader state, after
`rtiff_header_read` has been called.  The decode-format hint and the filename
only touch the container and the source. -/
def rtiff_set_header (rtiff : Rtiff) (out : VipsImage) : Int × Rtiff × VipsImage :=
  match (rtiff_pick_reader rtiff.header).run rtiff (set_header_geometry rtiff out) with
  | (rc, rtiff1, out6) =>
    if rc ≠ 0 then (-1, rtiff1, out6)
    else
      match set_header_metadata rtiff1 out6 with
      | (rc2, out14) => (rc2, rtiff1, out14)

/-! ## Opening, page selection and the directory header reader -/

/-- The container call `TIFFSetDirectory`: select directory `page`; it fails
when there is no such directory. -/
def TIFFSetDirectory (tiff : TiffHandle) (page : Int) : Option TiffHandle :=
  if page < 0 then none
  else
    match tiff.dirs.get? page.toNat with
    | some d => some { tiff with cur := d }
    | none => none

/-- The container call `TIFFSetSubDirectory` on the offset of SubIFD number
`subifd` of the current directory. -/
def TIFFSetSubDirectory (tiff : TiffHandle) (subifd : Int) : Option TiffHandle :=
  if subifd < 0 then none
  else
    match tiff.cur.subdirs.get? subifd.toNat with
    | some (some t) => some { tiff with cur := { tags := t, subdirs := [] } }
    | _ => none

/-- `rtiff_new`: the reader state for a request; `opened` is the result of
opening the source with the container (`none` when that fails).  The state
is zero-filled before the fields are set. -/
def rtiff_new (opened : Option TiffHandle) (page n : Int) (autorotate : Bool)
    (subifd : Int) (fail_on : Nat) : Option Rtiff :=
  if page < 0 ∨ page > 1000000 then none
  else if n ≠ -1 ∧ (n < 1 ∨ n > 1000000) then none
  else
    match opened with
    | none => none
    | some tiff =>
      some { page := page, n := n, autorotate := autorotate, subifd := subifd,
             fail_on := fail_on, tiff := tiff, n_pages := 0, current_page := -1,
             sfn := none, client := Client.null, memcpy := false,
             header := RtiffHeader.zero, y_pos := 0, failed := false }

/-- `rtiff_set_page`: select a directory (and SubIFD) unless it is the
current one already. -/
def rtiff_set_page (rtiff : Rtiff) (page : Int) : Int × Rtiff :=
  if rtiff.current_page ≠ page then
    match TIFFSetDirectory rtiff.tiff page with
    | none => (-1, rtiff)
    | some tiff1 =>
      let rtiff1 := { rtiff with tiff := tiff1 }
      if rtiff.subifd ≥ 0 then
        match tiff1.cur.tags.subifd with
        | none => (-1, rtiff1)
        | some subifd_count =>
          if rtiff.subifd ≥ (subifd_count : Int) then (-1, rtiff1)
          else
            match TIFFSetSubDirectory tiff1 rtiff.subifd with
            | none => (-1, rtiff1)
            | some tiff2 => (0, { rtiff with tiff := tiff2, current_page := page })
      else
        (0, { rtiff1 with current_page := page })
  else
    (0, rtiff)

/-- `rtiff_n_pages`: count the directories by walking them from index 0; the
container is left on the last directory and `current_page` is reset. -/
def rtiff_n_pages (rtiff : Rtiff) : Int × Rtiff :=
  let tiff1 := match rtiff.tiff.dirs.getLast? with
    | some d => { rtiff.tiff with cur := d }
    | none => rtiff.tiff
  (((1 + (rtiff.tiff.dirs.length - 1) : Nat) : Int),
    { rtiff with tiff := tiff1, current_page := -1 })

/-- `rtiff_we_decompress`: the compression types the reader decompresses
itself; JPEG is in the table only when the JPEG engine is built in. -/
def rtiff_we_decompress (have_jpeg : Bool) : List Nat :=
  (if have_jpeg then [COMPRESSION_JPEG] else []) ++ [JP2K_YCC, JP2K_RGB, JP2K_LOSSY]

/-- `get_sample_format` -/
def get_sample_format (tags : TiffTags) : Int :=
  match tags.sampleformat with
  | some v => if (v : Int) = SAMPLEFORMAT_VOID then SAMPLEFORMAT_UINT else (v : Int)
  | none => SAMPLEFORMAT_INT

/-- `VIPS_CLIP (A, V, B)` -/
def VIPS_CLIP (a v b : Int) : Int := max a (min b v)

/-- `get_orientation` -/
def get_orientation (tags : TiffTags) : Int :=
  match tags.orientation with
  | some v => VIPS_CLIP 1 v 8
  | none => ORIENTATION_TOPLEFT

/-- `VIPS_ROUND_UP (N, P)` on unsigned values. -/
def VIPS_ROUND_UP (n p : Nat) : Nat := (n + p - 1) - (n + p - 1) % p

/-- The bit pattern of the C double `1.0`. -/
def DOUBLE_ONE : Nat := 4607182418800017408

/-- The required tags read first by `rtiff_header_read` (`tfget32` and
`tfget16`); any missing one fails the read. -/
def header_read_required (tags : TiffTags) (header : RtiffHeader) : Option RtiffHeader :=
  match tags.imagewidth with
  | none => none
  | some w =>
  match tags.imagelength with
  | none => none
  | some l =>
  match tags.samplesperpixel with
  | none => none
  | some spp =>
  match tags.bitspersample with
  | none => none
  | some bps =>
  match tags.photometric with
  | none => none
  | some phot =>
  match tags.inkset with
  | none => none
  | some ink =>
    some { header with
      width := w, height := l, samples_per_pixel := spp, bits_per_sample := bps,
      photometric_interpretation := phot, inkset := ink }

/-- The test `can_read_as_rgba` of `rtiff_header_read`. -/
def can_read_as_rgba (header : RtiffHeader) : Bool :=
  decide ((header.samples_per_pixel = 1 ∨ header.samples_per_pixel = 3 ∨
      header.samples_per_pixel = 4) ∧
    (header.bits_per_sample = 1 ∨ header.bits_per_sample = 2 ∨
      header.bits_per_sample = 4 ∨ header.bits_per_sample = 8 ∨
      header.bits_per_sample = 16))

/-- The part of `rtiff_header_read` that looks at the compression: old-style
JPEG, the compressions decoded by the reader, subsampled YCbCr and LOGLUV. -/
def header_read_compression (have_jpeg : Bool) (tags : TiffTags) (h0 : RtiffHeader) :
    Except String RtiffHeader :=
  let h1 := { h0 with read_as_rgba := false }
  let h2 := { h1 with compression := tags.compression }
  if h2.compression = COMPRESSION_OJPEG ∧ can_read_as_rgba h1 = false then
    Except.error "unsupported tiff image type"
  else
    let h3 := if h2.compression = COMPRESSION_OJPEG then { h2 with read_as_rgba := true }
              else h2
    let h4 := if h3.compression ∈ rtiff_we_decompress have_jpeg then
                { h3 with we_decompress := true }
              else h3
    let subsampled : Bool :=
      !h4.read_as_rgba && decide (h4.compression ≠ COMPRESSION_JPEG) &&
      decide (h4.photometric_interpretation = PHOTOMETRIC_YCBCR) &&
      decide (tags.ycbcrsubsampling.1 ≠ 1 ∨ tags.ycbcrsubsampling.2 ≠ 1)
    if subsampled = true ∧ can_read_as_rgba h1 = false then
      Except.error "subsampled images not supported"
    else
      let h5 := if subsampled then { h4 with read_as_rgba := true } else h4
      if h5.photometric_interpretation = PHOTOMETRIC_LOGLUV ∧
          h5.compression ≠ COMPRESSION_SGILOG ∧ h5.compression ≠ COMPRESSION_SGILOG24 then
        Except.error "not SGI-compressed LOGLUV"
      else
        Except.ok { h5 with stonits := tags.stonits.getD DOUBLE_ONE }

/-- The sanity limits of `rtiff_header_read` and the fields read after them,
up to the rewrite of a header that is read as RGBA. -/
def header_read_limits (tags : TiffTags) (h6 : RtiffHeader) : Except String RtiffHeader :=
  if h6.width ≤ 0 ∨ h6.width ≥ VIPS_MAX_COORD ∨
      h6.height ≤ 0 ∨ h6.height ≥ VIPS_MAX_COORD then
    Except.error "width/height out of range"
  else if h6.samples_per_pixel ≤ 0 ∨ h6.samples_per_pixel > 10000 ∨
      h6.bits_per_sample ≤ 0 ∨ h6.bits_per_sample > 32 then
    Except.error "samples out of range"
  else
    let h7 := { h6 with
      sample_format := get_sample_format tags,
      orientation := get_orientation tags,
      separate := match tags.planarconfig with
        | some v => decide ((v : Int) = PLANARCONFIG_SEPARATE)
        | none => false }
    let h8 := match tags.subifd with
      | some c => { h7 with subifd_count := c }
      | none => h7
    let h9 := match tags.imagedescription with
      | some d => { h8 with image_description := some d }
      | none => h8
    let h10 := { h9 with tiled := tags.is_tiled }
    Except.ok
      (if h10.read_as_rgba then
        { h10 with we_decompress := false,
                   photometric_interpretation := PHOTOMETRIC_RGB,
                   samples_per_pixel := 4, bits_per_sample := 8,
                   sample_format := SAMPLEFORMAT_UINT, separate := false }
       else h10)

/-- The first half of `rtiff_header_read`, up to the tiled or stripped
branch. -/
def header_read_tags (have_jpeg : Bool) (tags : TiffTags) (header : RtiffHeader) :
    Except String RtiffHeader :=
  match header_read_required tags header with
  | none => Except.error "required field missing"
  | some h0 =>
    match header_read_compression have_jpeg tags h0 with
    | Except.error e => Except.error e
    | Except.ok h6 => header_read_limits tags h6

/-- The tiled branch of `rtiff_header_read`. -/
def header_read_tiled (tags : TiffTags) (header : RtiffHeader) : Except String RtiffHeader :=
  match tags.tilewidth, tags.tilelength with
  | some tw, some tl =>
    let h1 := { header with tile_width := tw, tile_height := tl }
    let max_tile_dimension := min 8192 (VIPS_ROUND_UP (2 * max h1.width h1.height) 256)
    if h1.tile_width ≤ 0 ∨ h1.tile_width > max_tile_dimension ∨ h1.tile_width % 16 ≠ 0 ∨
        h1.tile_height ≤ 0 ∨ h1.tile_height > max_tile_dimension ∨
        h1.tile_height % 16 ≠ 0 then
      Except.error "tile size out of range"
    else
      let h2 :=
        if h1.read_as_rgba then
          { h1 with tile_row_size := ((h1.tile_width * 4 : Nat) : Int),
                    tile_size := ((h1.tile_width * 4 : Nat) : Int) * h1.tile_height }
        else
          { h1 with tile_size := tags.tile_size, tile_row_size := tags.tile_row_size }
      let limit : Int := 100 * 1000 * 1000
      if h2.tile_size ≤ (0 : Int) ∨ limit < h2.tile_size ∨
          h2.tile_row_size ≤ (0 : Int) ∨ limit < h2.tile_row_size then
        Except.error "tile size out of range"
      else
        Except.ok { h2 with rows_per_strip := 0, strip_size := 0, number_of_strips := 0,
                            read_height := 0, read_size := 0 }
  | _, _ => Except.error "required field missing"

/-- The stripped branch of `rtiff_header_read`.  `outer_scanline_size` is the
value of `rtiff->header.scanline_size` when `header` is not `&rtiff->header`
itself, and `none` when it is. -/
def header_read_strips (tags : TiffTags) (outer_scanline_size : Option Int)
    (header : RtiffHeader) : Except String RtiffHeader :=
  match tags.rowsperstrip with
  | some rps =>
    let h1 := { header with rows_per_strip := (VIPS_CLIP 1 rps header.height).toNat }
    let h2 := { h1 with number_of_strips := tags.number_of_strips }
    let h3 :=
      if h2.read_as_rgba then
        { h2 with scanline_size := ((h2.width * 4 : Nat) : Int),
                  strip_size := ((h2.width * 4 : Nat) : Int) * h2.rows_per_strip }
      else
        { h2 with scanline_size := tags.scanline_size, strip_size := tags.strip_size }
    let h4 :=
      if h3.rows_per_strip > 128 ∧ !h3.separate ∧
          h3.photometric_interpretation ≠ PHOTOMETRIC_YCBCR ∧ !h3.read_as_rgba then
        { h3 with read_scanlinewise := true, read_height := 1,
                  read_size := outer_scanline_size.getD h3.scanline_size }
      else
        { h3 with read_scanlinewise := false, read_height := h3.rows_per_strip,
                  read_size := h3.strip_size }
    Except.ok { h4 with tile_width := 0, tile_height := 0, tile_size := 0, tile_row_size := 0 }
  | none => Except.error "required field missing"

/-- The extra-samples scan at the end of `rtiff_header_read`: the loop
assigns `alpha_band` at every sample tagged as associated alpha. -/
def header_read_alpha (tags : TiffTags) (header : RtiffHeader) : RtiffHeader :=
  let extra_samples_count := tags.extrasamples.length
  (List.range extra_samples_count).foldl
    (fun h i =>
      if tags.extrasamples.getD i 0 = EXTRASAMPLE_ASSOCALPHA then
        { h with alpha_band := h.samples_per_pixel - extra_samples_count + i }
      else h)
    { header with alpha_band := -1 }

/-- `rtiff_header_read`: load the current directory of the container into a
header.  `header` holds the previous contents of the struct being filled;
`outer` is `none` when that struct is `rtiff->header` itself and
`some rtiff->header` when it is a separate struct.  The decode-format hint
the C function sends to the container does not change any header field.  On
failure the C function leaves the struct partly written and every caller
abandons the read, so no header is returned then. -/
def rtiff_header_read (have_jpeg : Bool) (tags : TiffTags) (outer : Option RtiffHeader)
    (header : RtiffHeader) : Except String RtiffHeader :=
  match header_read_tags have_jpeg tags header with
  | Except.error e => Except.error e
  | Except.ok h1 =>
    match (if h1.tiled then header_read_tiled tags h1
           else header_read_strips tags (outer.map (fun o => o.scanline_size)) h1) with
    | Except.error e => Except.error e
    | Except.ok h2 => Except.ok (header_read_alpha tags h2)

/-- The verification loop of `rtiff_header_read_all`: `k` pages remain to be
compared, the next one being `rtiff->page + i`.  `junk` is the indeterminate
initial content of the loop-local header. -/
def header_verify_loop (have_jpeg : Bool) (junk : RtiffHeader) :
    Nat → Int → Rtiff → Int × Rtiff
  | 0, _, rtiff => (0, rtiff)
  | k + 1, i, rtiff =>
    match rtiff_set_page rtiff (rtiff.page + i) with
    | (rc, rtiff1) =>
      if rc ≠ 0 then (-1, rtiff1)
      else
        match rtiff_header_read have_jpeg rtiff1.tiff.cur.tags (some rtiff1.header) junk with
        | Except.error _ => (-1, rtiff1)
        | Except.ok header =>
          if !rtiff_header_equal rtiff1.header header then (-1, rtiff1)
          else header_verify_loop have_jpeg junk k (i + 1) rtiff1

/-- The second half of `rtiff_header_read_all`, entered once the header of
the first page is in `rtiff->header`: settle `n` and verify the other pages
of a multi-page read. -/
def header_read_all_verify (have_jpeg : Bool) (junk : RtiffHeader) (rtiff3 : Rtiff) :
    Int × Rtiff :=
  let rtiff4 :=
    if rtiff3.n = -1 then { rtiff3 with n := rtiff3.n_pages - rtiff3.page }
    else rtiff3
  if rtiff4.n > 1 then
    match header_verify_loop have_jpeg junk (rtiff4.n - 1).toNat 1 rtiff4 with
    | (rc2, rtiff5) =>
      if rc2 ≠ 0 then (-1, rtiff5)
      else (0, { rtiff5 with current_page := -1 })
  else
    (0, rtiff4)

/-- `rtiff_header_read_all`: count the pages, read the header of the first
page and, for a multi-page read, verify that the other pages match it. -/
def rtiff_header_read_all (have_jpeg : Bool) (junk : RtiffHeader) (rtiff : Rtiff) :
    Int × Rtiff :=
  match rtiff_n_pages rtiff with
  | (n_pages, rtiff0) =>
    let rtiff1 := { rtiff0 with n_pages := n_pages }
    match rtiff_set_page rtiff1 rtiff1.page with
    | (rc, rtiff2) =>
      if rc ≠ 0 then (-1, rtiff2)
      else
        match rtiff_header_read have_jpeg rtiff2.tiff.cur.tags none rtiff2.header with
        | Except.error _ => (-1, rtiff2)
        | Except.ok header =>
          header_read_all_verify have_jpeg junk { rtiff2 with header := header }

/-! ## Scanline kernels

A source scanline is a list of bytes read through a moving pointer; a read
past the end of the list (undefined in C) yields 0. -/

/-- `EXPAND1`: expand the top bit down a byte with a sign-extending shift. -/
def EXPAND1 (bits : Nat) : Nat :=
  let sc : Int := ((bits &&& 128 : Nat) : Int)
  let signed_char : Int := (sc + 128) % 256 - 128
  ((signed_char >>> 7) % 256).toNat

/-- `EXPAND2`: expand the top two bits down a byte. -/
def EXPAND2 (bits : Nat) : Nat :=
  let twobits := (bits >>> 6) % 256
  let fourbits := (twobits ||| (twobits <<< 2)) % 256
  (fourbits ||| (fourbits <<< 4)) % 256

/-- `EXPAND4`: expand the top four bits down a byte. -/
def EXPAND4 (bits : Nat) : Nat :=
  ((bits &&& 0xf0) ||| (bits >>> 4)) % 256

/-- The loop of `NBIT_LINE`: `k` pixels remain, `x` is the loop counter, `p`
the source from the read pointer on, `bits` the byte being shifted out. -/
def nbit_loop (expand : Nat → Nat) (mask : Nat) (bps load : Int) :
    Nat → Nat → List Nat → Nat → List Nat
  | 0, _, _, _ => []
  | k + 1, x, p, bits =>
    let bits1 := if Int.land (x : Int) load = 0 then (p.headD 0 ^^^ mask) % 256 else bits
    let p1 := if Int.land (x : Int) load = 0 then p.tail else p
    expand bits1 :: nbit_loop expand mask bps load k (x + 1) p1 ((bits1 <<< bps.toNat) % 256)

/-- `NBIT_LINE (N, EXPAND)`: the body shared by the 1-, 2- and 4-bit kernels;
the result is the `n` bytes written to `q`. -/
def NBIT_LINE (expand : Nat → Nat) (header : RtiffHeader) (p : List Nat) (n : Nat) :
    List Nat :=
  let photometric := header.photometric_interpretation
  let mask := if photometric = PHOTOMETRIC_MINISBLACK then 0 else 0xff
  let bps := header.bits_per_sample
  let load := Int.tdiv 8 bps - 1
  nbit_loop expand mask bps load n 0 p 0

/-- `rtiff_1bit_line` -/
def rtiff_1bit_line (header : RtiffHeader) (p : List Nat) (n : Nat) : List Nat :=
  NBIT_LINE EXPAND1 header p n

/-- `rtiff_2bit_line` -/
def rtiff_2bit_line (header : RtiffHeader) (p : List Nat) (n : Nat) : List Nat :=
  NBIT_LINE EXPAND2 header p n

/-- `rtiff_4bit_line` -/
def rtiff_4bit_line (header : RtiffHeader) (p : List Nat) (n : Nat) : List Nat :=
  NBIT_LINE EXPAND4 header p n

/-- The extra-band loop of `rtiff_lab_with_alpha_line`, for the bands from
`i` up to `i + k - 1`. -/
def lab_with_alpha_extra (p1 : List Nat) : Nat → Nat → List Int
  | 0, _ => []
  | k + 1, i =>
    to_int16 (((p1.getD i 0 <<< 8) + p1.getD i 0 : Nat) : Int) ::
      lab_with_alpha_extra p1 k (i + 1)

/-- One pixel of `rtiff_lab_with_alpha_line`: the `samples_per_pixel` shorts
written for the samples at `p1` (at least three are written). -/
def lab_with_alpha_pel (samples_per_pixel : Int) (p1 : List Nat) : List Int :=
  [to_int16 ((p1.getD 0 0 * 32767 / 255 : Nat) : Int),
   to_int16 ((to_int16 (p1.getD 1 0) : Int) * 256),
   to_int16 ((to_int16 (p1.getD 2 0) : Int) * 256)] ++
  lab_with_alpha_extra p1 (samples_per_pixel - 3).toNat 3

/-- `rtiff_lab_with_alpha_line`: 8-bit LAB with alpha to 16-bit LabS, for `n`
pixels; the result is the sequence of shorts written to `q`.  The reader
installs this kernel only when `samples_per_pixel` is at least 4, so the
writes of successive pixels do not overlap. -/
def rtiff_lab_with_alpha_line (header : RtiffHeader) : List Nat → Nat → List Int
  | _, 0 => []
  | p1, n + 1 =>
    lab_with_alpha_pel header.samples_per_pixel p1 ++
      rtiff_lab_with_alpha_line header (p1.drop header.samples_per_pixel.toNat) n

/-! ## The strip reader -/

/-- `VipsRect` -/
structure VipsRect where
  left : Int
  top : Int
  width : Int
  height : Int
  deriving DecidableEq

/-- Modelled from the spec: `vips_rect_intersectrect` of the libvips core,
the intersection of two rectangles; an empty intersection has zero width or
height. -/
def vips_rect_intersectrect (r1 r2 : VipsRect) : VipsRect :=
  let left := max r1.left r2.left
  let top := max r1.top r2.top
  let right := min (r1.left + r1.width) (r2.left + r2.width)
  let bottom := min (r1.top + r1.height) (r2.top + r2.height)
  { left := left, top := top, width := max 0 (right - left), height := max 0 (bottom - top) }

/-- The container reads `TIFFReadScanline` and `TIFFReadEncodedStrip` on
the current directory: the read is logged, the warning handler
(`rtiff_handler_warning`) sets `failed` when the read warns and the policy
is to fail on warnings, and the returned length is -1 for a bad strip. -/
def container_read (rtiff : Rtiff) (strip : Int) (buf : ReadBuf) : Int × Rtiff :=
  let tags := rtiff.tiff.cur.tags
  let tiff1 := { rtiff.tiff with
    read_log := rtiff.tiff.read_log ++
      [{ page := rtiff.current_page, strip := strip, buf := buf }] }
  let failed1 :=
    if strip ∈ tags.warn_strips ∧ rtiff.fail_on ≥ VIPS_FAIL_ON_WARNING then true
    else rtiff.failed
  ((if strip ∈ tags.bad_strips then -1 else 0), { rtiff with tiff := tiff1, failed := failed1 })

/-- `rtiff_strip_read` -/
def rtiff_strip_read (rtiff : Rtiff) (strip : Int) (buf : ReadBuf) : Int × Rtiff :=
  match container_read rtiff strip buf with
  | (length, rtiff1) =>
    if length = -1 ∧ rtiff1.fail_on ≥ VIPS_FAIL_ON_WARNING then (-1, rtiff1)
    else if rtiff1.failed then (-1, rtiff1)
    else (0, rtiff1)

/-- `rtiff_rgba_strip_read`: a strip through the container RGBA image
interface. -/
def rtiff_rgba_strip_read (rtiff : Rtiff) (strip : Int) (buf : ReadBuf) : Int × Rtiff :=
  if !rtiff.tiff.cur.tags.rgba_ok then (-1, rtiff)
  else
    match container_read rtiff strip buf with
    | (length, rtiff1) =>
      if length = -1 then (-1, rtiff1)
      else if rtiff1.failed then (-1, rtiff1)
      else (0, rtiff1)

/-- The plane loop of `rtiff_strip_read_interleaved`: read the strip of
each of the remaining `k` planes, starting at plane `i`. -/
def strip_read_planes (strips_per_plane strip : Int) : Nat → Int → Rtiff → Int × Rtiff
  | 0, _, rtiff => (0, rtiff)
  | k + 1, i, rtiff =>
    match rtiff_strip_read rtiff (strips_per_plane * i + strip) ReadBuf.plane_buf with
    | (rc, rtiff1) =>
      if rc ≠ 0 then (-1, rtiff1)
      else strip_read_planes strips_per_plane strip k (i + 1) rtiff1

/-- `rtiff_strip_read_interleaved`: read a strip from a page into `buf`,
plane by plane when the planes are separate.  Only the reads and their
outcome are represented, not the bytes moved. -/
def rtiff_strip_read_interleaved (rtiff : Rtiff) (page strip : Int) (buf : ReadBuf) :
    Int × Rtiff :=
  let samples_per_pixel := rtiff.header.samples_per_pixel
  let read_height : Int := rtiff.header.read_height
  match rtiff_set_page rtiff page with
  | (rc, rtiff1) =>
    if rc ≠ 0 then (-1, rtiff1)
    else if rtiff1.header.read_as_rgba then
      (match rtiff_rgba_strip_read rtiff1 strip buf with
       | (rc1, rtiff2) => if rc1 ≠ 0 then (-1, rtiff2) else (0, rtiff2))
    else if rtiff1.header.separate then
      let page_height : Int := rtiff1.header.height
      let strips_per_plane := 1 + Int.tdiv (page_height - 1) read_height
      strip_read_planes strips_per_plane strip samples_per_pixel.toNat 0 rtiff1
    else
      (match rtiff_strip_read rtiff1 strip buf with
       | (rc1, rtiff2) => if rc1 ≠ 0 then (-1, rtiff2) else (0, rtiff2))

/-- The hit rectangle of one iteration of `rtiff_stripwise_generate`: the
strip holding row `r.top + y`, clipped to its page and to the image, and
intersected with the requested region.  Returns the clipped strip and the
hit. -/
def stripwise_hit (rtiff : Rtiff) (out : VipsImage) (r : VipsRect) (y : Int) :
    VipsRect × VipsRect :=
  let read_height : Int := rtiff.header.read_height
  let page_height : Int := rtiff.header.height
  let y_page := Int.tmod (r.top + y) page_height
  let strip_no := Int.tdiv y_page read_height
  let image : VipsRect := { left := 0, top := 0, width := out.Xsize, height := out.Ysize }
  let page : VipsRect :=
    { left := 0, top := page_height * Int.tdiv (r.top + y) page_height,
      width := out.Xsize, height := page_height }
  let strip0 : VipsRect :=
    { left := 0, top := page.top + strip_no * read_height,
      width := out.Xsize, height := read_height }
  let strip1 := vips_rect_intersectrect strip0 image
  let strip2 := vips_rect_intersectrect strip1 page
  (strip2, vips_rect_intersectrect strip2 r)

/-- The `while (y < r->height)` loop of `rtiff_stripwise_generate`; `fuel`
bounds the number of iterations, `none` means the bound was reached. -/
def stripwise_loop (out : VipsImage) (r : VipsRect) : Nat → Int → Rtiff → Option (Int × Rtiff)
  | 0, _, _ => none
  | fuel + 1, y, rtiff =>
    if y < r.height then
      let read_height : Int := rtiff.header.read_height
      let page_height : Int := rtiff.header.height
      let page_no := Int.tdiv (r.top + y) page_height
      let y_page := Int.tmod (r.top + y) page_height
      let strip_no := Int.tdiv y_page read_height
      let strip := (stripwise_hit rtiff out r y).1
      let hit := (stripwise_hit rtiff out r y).2
      let buf :=
        if rtiff.memcpy ∧ hit.top = strip.top ∧ hit.height = strip.height then ReadBuf.region
        else ReadBuf.contig_buf
      match rtiff_strip_read_interleaved rtiff (rtiff.page + page_no) strip_no buf with
      | (rc, rtiff1) =>
        if rc ≠ 0 then some (-1, rtiff1)
        else
          stripwise_loop out r fuel (y + hit.height)
            { rtiff1 with y_pos := rtiff1.y_pos + hit.height }
    else
      some (0, rtiff)

/-- `rtiff_stripwise_generate`: fill the region `r` of the output image
from strips, which must be requested top to bottom.  The two branches of
the C loop body issue the same strip read, into the region itself or into
the strip buffer (from which the scanline kernel then unpacks the rows of
the hit); the buffer chosen is recorded with the read.  The `g_assert`
lines of the C function state what the caller guarantees and do not change
the result. -/
def rtiff_stripwise_generate (fuel : Nat) (out : VipsImage) (r : VipsRect) (rtiff : Rtiff) :
    Option (Int × Rtiff) :=
  if r.top ≠ rtiff.y_pos then some (-1, rtiff)
  else stripwise_loop out r fuel 0 rtiff

/-! ## Example inputs -/

/-- A stripped, single-band, 8-bit grey directory of the given size with one
strip, as the container would report it. -/
def grey_tags (width height : Nat) : TiffTags :=
  { imagewidth := some width, imagelength := some height,
    samplesperpixel := some 1, bitspersample := some 8,
    photometric := some 1, inkset := some 1, compression := 1,
    ycbcrsubsampling := (2, 2), stonits := none, sampleformat := some 1,
    orientation := some 1, planarconfig := some 1, subifd := none,
    imagedescription := none, is_tiled := false, tilewidth := none, tilelength := none,
    tile_size := 0, tile_row_size := 0, rowsperstrip := some height,
    number_of_strips := 1, scanline_size := width, strip_size := width * height,
    extrasamples := [], colormap := none, iccprofile := none, xmlpacket := none,
    richtiffiptc := none, photoshop := none, xresolution := none, yresolution := none,
    resolutionunit := some 2, rgba_ok := true, bad_strips := [], warn_strips := [] }

/-- A container holding the given directories, none with SubIFDs, positioned
on the first one (on a 1x1 grey directory when there is none). -/
def tiff_of_tags (pages : List TiffTags) : TiffHandle :=
  { dirs := pages.map (fun t => { tags := t, subdirs := [] }),
    cur := { tags := pages.headD (grey_tags 1 1), subdirs := [] },
    read_log := [] }

/-- The reader state for a request of `n` pages from `page` on the given
pages: `rtiff_new` on the opened container, with the default options. -/
def rtiff_of_tags (pages : List TiffTags) (page n : Int) : Rtiff :=
  (rtiff_new (some (tiff_of_tags pages)) page n false (-1) VIPS_FAIL_ON_NONE).getD
    { page := page, n := n, autorotate := false, subifd := -1,
      fail_on := VIPS_FAIL_ON_NONE, tiff := tiff_of_tags pages, n_pages := 0,
      current_page := -1, sfn := none, client := Client.null, memcpy := false,
      header := RtiffHeader.zero, y_pos := 0, failed := false }

/-- A header with the given bits per sample and sample format, the other
fields zero. -/
def header_of_format (bits_per_sample sample_format : Int) : RtiffHeader :=
  { RtiffHeader.zero with bits_per_sample := bits_per_sample, sample_format := sample_format }

/-- A header with the given bits per sample, photometric interpretation and
samples per pixel, the other fields zero. -/
def header_of_bits (bits_per_sample photometric_interpretation samples_per_pixel : Int) :
    RtiffHeader :=
  { RtiffHeader.zero with
    bits_per_sample := bits_per_sample,
    photometric_interpretation := photometric_interpretation,
    samples_per_pixel := samples_per_pixel }

/-! ## Headers as multi-page verification sees them -/

/-- The header `rtiff_header_read_all` reads for the first page: the page
`rtiff->page` is selected and read into `rtiff->header`; `none` when the
page cannot be selected or its header is rejected. -/
def first_page_header (have_jpeg : Bool) (rtiff : Rtiff) : Option RtiffHeader :=
  match rtiff_set_page { rtiff with current_page := -1 } rtiff.page with
  | (rc, rtiff1) =>
    if rc ≠ 0 then none
    else (rtiff_header_read have_jpeg rtiff1.tiff.cur.tags none rtiff1.header).toOption

/-- The header the verification loop of `rtiff_header_read_all` reads for a
later page `pg` while `rtiff->header` holds `first`: the page is selected and
read into a local header; `none` when the page cannot be selected or its
header is rejected. -/
def later_page_header (have_jpeg : Bool) (junk : RtiffHeader) (rtiff : Rtiff)
    (first : RtiffHeader) (pg : Int) : Option RtiffHeader :=
  match rtiff_set_page { rtiff with current_page := -1 } pg with
  | (rc, rtiff1) =>
    if rc ≠ 0 then none
    else (rtiff_header_read have_jpeg rtiff1.tiff.cur.tags (some first) junk).toOption

/-- The directory `rtiff_set_page` leaves the container on when it has to
switch to page `pg`; `none` when the switch fails. -/
def select_page (dirs : List TiffDir) (subifd : Int) (pg : Int) : Option TiffDir :=
  if pg < 0 then none
  else
    match dirs.get? pg.toNat with
    | none => none
    | some d =>
      if subifd ≥ 0 then
        match d.tags.subifd with
        | none => none
        | some subifd_count =>
          if subifd ≥ (subifd_count : Int) then none
          else
            match d.subdirs.get? subifd.toNat with
            | some (some t) => some { tags := t, subdirs := [] }
            | _ => none
      else some d

/-! ## Auxiliary notions used in the statements -/

/-- The (bits per sample, sample format) pairs for which `rtiff_guess_format`
has an entry. -/
def guess_format_table : List (Int × Int) :=
  [(1, SAMPLEFORMAT_INT), (1, SAMPLEFORMAT_UINT),
   (2, SAMPLEFORMAT_INT), (2, SAMPLEFORMAT_UINT),
   (4, SAMPLEFORMAT_INT), (4, SAMPLEFORMAT_UINT),
   (8, SAMPLEFORMAT_INT), (8, SAMPLEFORMAT_UINT),
   (16, SAMPLEFORMAT_INT), (16, SAMPLEFORMAT_UINT), (16, SAMPLEFORMAT_IEEEFP),
   (32, SAMPLEFORMAT_INT), (32, SAMPLEFORMAT_UINT), (32, SAMPLEFORMAT_IEEEFP),
   (64, SAMPLEFORMAT_IEEEFP), (64, SAMPLEFORMAT_COMPLEXIEEEFP),
   (128, SAMPLEFORMAT_COMPLEXIEEEFP)]

/-- The `k`-th `N`-bit field of the byte `b`, counted from the most
significant bit. -/
def bit_field (N b k : Nat) : Nat := (b / 2 ^ (8 - N * (k + 1))) % 2 ^ N

/-- The facts about one step of the `NBIT_LINE` loop behind the complement
law: when `s` fields of `N` bits have been shifted out of the byte `bb`,
the MINISWHITE run holds `256 - 2 ^ (N * s) - bb`, the two expansions are
complements, and the relation survives the next shift. -/
def nbit_step_ok (expand : Nat → Nat) (N m : Nat) : Prop :=
  ∀ s, s < m → ∀ bb, bb < 256 → 2 ^ (N * s) ∣ bb →
    expand (256 - 2 ^ (N * s) - bb) = 255 - expand bb ∧
    (s + 1 < m →
      2 ^ (N * (s + 1)) ∣ (bb <<< N) % 256 ∧
      ((256 - 2 ^ (N * s) - bb) <<< N) % 256 = 256 - 2 ^ (N * (s + 1)) - (bb <<< N) % 256)

instance nbit_step_ok_decidable (expand : Nat → Nat) (N m : Nat) :
    Decidable (nbit_step_ok expand N m) := by
  unfold nbit_step_ok
  infer_instance

/-- A later page is readable and its header equals the first page header. -/
def page_matches (have_jpeg : Bool) (junk : RtiffHeader) (rtiff : Rtiff)
    (first : RtiffHeader) (pg : Int) : Prop :=
  ∃ h, later_page_header have_jpeg junk rtiff first pg = some h ∧
    rtiff_header_equal first h = true

/-- The state of `rtiff_header_read_all` after the pages have been counted. -/
def counted (rtiff : Rtiff) : Rtiff :=
  { (rtiff_n_pages rtiff).2 with n_pages := (rtiff_n_pages rtiff).1 }

/-- The reader state after `rtiff_header_read_all` on `count` identical grey
pages of the given size, all of them requested. -/
def rtiff_of_grey_pages (width height count : Nat) : Rtiff :=
  (rtiff_header_read_all true RtiffHeader.zero
    (rtiff_of_tags (List.replicate count (grey_tags width height)) 0 count)).2

/-- The reader state after `rtiff_set_header` on two identical 1x1 grey
pages read with `n = 2`. -/
def two_page_reader : Rtiff :=
  (rtiff_set_header (rtiff_of_grey_pages 1 1 2) VipsImage.new).2.1

/-- The output image after `rtiff_set_header` on two identical 1x1 grey
pages read with `n = 2`. -/
def two_page_image : VipsImage :=
  (rtiff_set_header (rtiff_of_grey_pages 1 1 2) VipsImage.new).2.2

/-- The fields of the output image that carry its size and page height. -/
def size_fields (out : VipsImage) : Int × Int × Option Int :=
  (out.Xsize, out.Ysize, vips_image_get_int out VIPS_META_PAGE_HEIGHT)

/-- The size of the output image and its integer metadata. -/
def geom_fields (out : VipsImage) : Int × Int × List (String × Int) :=
  (out.Xsize, out.Ysize, out.meta_int)

/-! ## Half-precision floats -/

/-- A value of the C type `float` as far as `half_2_float` can produce one: a
finite number or an infinity with its sign.  Every step of `half_2_float` is
a product or quotient of a power of two and a number of at most 11 significant
bits, which binary32 represents without rounding, so finite results are kept
as exact rationals. -/
inductive FloatValue where
  | finite (v : ℚ)
  | infinity (negative : Bool)
  deriving DecidableEq

/-- `half_2_float`: convert an IEEE 754-2008 16-bit float to a 32-bit float.
The argument is converted to `gushort` on entry. -/
def half_2_float (h0 : Nat) : FloatValue :=
  let h := h0 % 65536
  let sign : ℚ := ((((h >>> 15 : Nat) : Int) * -2 + 1 : Int) : ℚ)
  let exp : Int := (((h &&& 0x7C00) >>> 10 : Nat) : Int) - 15
  let prec : ℚ := ((h &&& 0x03FF : Nat) : ℚ)
  if exp = 16 then
    FloatValue.infinity (decide (sign < 0))
  else if exp = -15 then
    FloatValue.finite (sign / ((1 <<< 14 : Nat) : ℚ) * (prec / 1024))
  else if exp > 0 then
    FloatValue.finite (sign * ((1 <<< exp.toNat : Nat) : ℚ) * (1 + prec / 1024))
  else
    FloatValue.finite (sign / ((1 <<< (-exp).toNat : Nat) : ℚ) * (1 + prec / 1024))

/-- The C expression `1.0 - v` on a value of `half_2_float`, stored to a
`float`. -/
def FloatValue.one_minus : FloatValue → FloatValue
  | FloatValue.finite v => FloatValue.finite (1 - v)
  | FloatValue.infinity negative => FloatValue.infinity (!negative)

/-! ## The greyscale kernel -/

/-- One element written by `rtiff_greyscale_line`.  `raw bits` is an element of
the kernel's element type with this bit pattern, `float v` a 32-bit float made
by `half_2_float`, and `one_minus bits` stands for the float or double
`1.0 - x` where `x` is the source element with this bit pattern. -/
inductive GreySample where
  | raw (bits : Nat)
  | float (v : FloatValue)
  | one_minus (bits : Nat)
  deriving DecidableEq

/-- The inner loop `for (i = 1; i < samples_per_pixel; i++) q1[i] = f (p1[i])`
of the greyscale loops, for the bands from `i` up to `i + k - 1`. -/
def grey_extra (f : Nat → GreySample) (p1 : List Nat) : Nat → Nat → List GreySample
  | 0, _ => []
  | k + 1, i => f (p1.getD i 0) :: grey_extra f p1 k (i + 1)

/-- One pixel of `GREY_LOOP` and `GREY_LOOP_F16`: `first` computes the first
band, `copy` every other one. -/
def grey_pel (first copy : Nat → GreySample) (samples_per_pixel : Int) (p1 : List Nat) :
    List GreySample :=
  first (p1.getD 0 0) :: grey_extra copy p1 (samples_per_pixel - 1).toNat 1

/-- The pixel loop of `GREY_LOOP` and `GREY_LOOP_F16` over `n` pixels; `p1` is
the source as a sequence of elements of the loop's source type. -/
def grey_loop (first copy : Nat → GreySample) (samples_per_pixel : Int) :
    List Nat → Nat → List GreySample
  | _, 0 => []
  | p1, n + 1 =>
    grey_pel first copy samples_per_pixel p1 ++
      grey_loop first copy samples_per_pixel (p1.drop samples_per_pixel.toNat) n

/-- `GREY_LOOP (TYPE, MAX)`: `complement` is the expression `MAX - p1[0]`
evaluated in `TYPE`. -/
def GREY_LOOP (complement : Nat → GreySample) (invert : Bool) (samples_per_pixel : Int)
    (p : List Nat) (n : Nat) : List GreySample :=
  grey_loop (fun v => if invert then complement v else GreySample.raw v) GreySample.raw
    samples_per_pixel p n

/-- `GREY_LOOP_F16`: the source elements are 16-bit floats, every element
written is a 32-bit float. -/
def GREY_LOOP_F16 (invert : Bool) (samples_per_pixel : Int) (p : List Nat) (n : Nat) :
    List GreySample :=
  grey_loop
    (fun v => if invert then GreySample.float (half_2_float v).one_minus
              else GreySample.float (half_2_float v))
    (fun v => GreySample.float (half_2_float v)) samples_per_pixel p n

/-- `MAX - p1[0]` in an unsigned integer type with largest value `MAX`. -/
def unsigned_complement (MAX : Nat) (v : Nat) : GreySample :=
  GreySample.raw (MAX - v)

/-- `0 - p1[0]` in a signed integer type of `w` bits, on bit patterns. -/
def signed_complement (w : Nat) (v : Nat) : GreySample :=
  GreySample.raw ((2 ^ w - v % 2 ^ w) % 2 ^ w)

/-- `rtiff_greyscale_line`: the per-scanline function for greyscale images, on
`n` pixels of source elements `p`.  The result is the sequence of elements
written to `q`, or `none` when the format switch falls to its default branch. -/
def rtiff_greyscale_line (header : RtiffHeader) (p : List Nat) (n : Nat) :
    Option (List GreySample) :=
  let samples_per_pixel := header.samples_per_pixel
  let bits_per_sample := header.bits_per_sample
  let photometric_interpretation := header.photometric_interpretation
  let format := rtiff_guess_format header
  let invert : Bool :=
    decide (photometric_interpretation = PHOTOMETRIC_MINISWHITE) &&
      vips_band_format_isuint format
  match format with
  | VipsBandFormat.CHAR => some (GREY_LOOP (signed_complement 8) invert samples_per_pixel p n)
  | VipsBandFormat.UCHAR =>
    some (GREY_LOOP (unsigned_complement 255) invert samples_per_pixel p n)
  | VipsBandFormat.SHORT =>
    some (GREY_LOOP (signed_complement 16) invert samples_per_pixel p n)
  | VipsBandFormat.USHORT =>
    some (GREY_LOOP (unsigned_complement 65535) invert samples_per_pixel p n)
  | VipsBandFormat.INT => some (GREY_LOOP (signed_complement 32) invert samples_per_pixel p n)
  | VipsBandFormat.UINT =>
    some (GREY_LOOP (unsigned_complement 4294967295) invert samples_per_pixel p n)
  | VipsBandFormat.FLOAT =>
    if bits_per_sample = 16 then some (GREY_LOOP_F16 invert samples_per_pixel p n)
    else some (GREY_LOOP GreySample.one_minus invert samples_per_pixel p n)
  | VipsBandFormat.DOUBLE =>
    some (GREY_LOOP GreySample.one_minus invert samples_per_pixel p n)
  | _ => none

/-! ## The palette kernels -/

/-- The inner loop `for (s = 1; s < samples_per_pixel; s++) q[s] = p[s]` of
the 8- and 16-bit palette kernels, for the samples from `s` up to
`s + k - 1`. -/
def palette_extra (p : List Nat) : Nat → Nat → List Nat
  | 0, _ => []
  | k + 1, s => p.getD s 0 :: palette_extra p k (s + 1)

/-- What the palette kernels write for the index `i`: one table value for a
mono palette, red, green and blue otherwise. -/
def palette_lookup (mono : Bool) (red green blue : List Nat) (i : Nat) : List Nat :=
  if mono then [red.getD i 0]
  else [red.getD i 0, green.getD i 0, blue.getD i 0]

/-- `rtiff_palette_line8`: 8-bit samples with an 8-bit palette, `n` pixels;
the result is the sequence of bytes written to `q`. -/
def rtiff_palette_line8 (header : RtiffHeader) (read : PaletteRead) :
    List Nat → Nat → List Nat
  | _, 0 => []
  | p, n + 1 =>
    palette_lookup read.mono read.red8 read.green8 read.blue8 (p.getD 0 0) ++
      palette_extra p (header.samples_per_pixel - 1).toNat 1 ++
      rtiff_palette_line8 header read (p.drop header.samples_per_pixel.toNat) n

/-- `rtiff_palette_line16`: 16-bit samples with a 16-bit palette, `n` pixels;
`p` is the source as 16-bit elements and the result is the sequence of 16-bit
elements written to `q`. -/
def rtiff_palette_line16 (header : RtiffHeader) (read : PaletteRead) :
    List Nat → Nat → List Nat
  | _, 0 => []
  | p, n + 1 =>
    palette_lookup read.mono read.red16 read.green16 read.blue16 (p.getD 0 0) ++
      palette_extra p (header.samples_per_pixel - 1).toNat 1 ++
      rtiff_palette_line16 header read (p.drop header.samples_per_pixel.toNat) n

/-- The sample loop of `rtiff_palette_line_bit`: `k` samples remain, `x` is the
loop counter, `bit` the number of unread bits in `data`, `p` the source from
the read pointer on. -/
def palette_bit_loop (header : RtiffHeader) (read : PaletteRead) :
    Nat → Nat → Int → Nat → List Nat → List Nat
  | 0, _, _, _, _ => []
  | k + 1, x, bit, data, p =>
    let bits_per_sample := header.bits_per_sample
    let data1 := if bit ≤ 0 then p.headD 0 else data
    let p1 := if bit ≤ 0 then p.tail else p
    let bit1 := if bit ≤ 0 then 8 else bit
    let i := data1 >>> (8 - bits_per_sample).toNat
    let data2 := (data1 <<< bits_per_sample.toNat) % 256
    let bit2 := bit1 - bits_per_sample
    (if Int.tmod (x : Int) header.samples_per_pixel = 0 then
      palette_lookup read.mono read.red8 read.green8 read.blue8 i
     else [(i <<< (8 - bits_per_sample).toNat) % 256]) ++
      palette_bit_loop header read k (x + 1) bit2 data2 p1

/-- `rtiff_palette_line_bit`: 1-, 2- and 4-bit samples with an 8-bit palette,
`n` pixels; the result is the sequence of bytes written to `q`.  The loop
bound `n * samples_per_pixel` is a product of two C `int`s, so it is taken
in 32 bits: the loop `for (x = 0; x < n * samples_per_pixel; x++)` runs that
many times, not at all when the wrapped product is negative. -/
def rtiff_palette_line_bit (header : RtiffHeader) (read : PaletteRead) (p : List Nat)
    (n : Nat) : List Nat :=
  palette_bit_loop header read
    (to_int32 ((n : Int) * header.samples_per_pixel)).toNat 0 0 0 p

/-! ## The RGBA tile reader -/

/-- The inner loop of `rtiff_read_rgba_tile`: `VIPS_SWAP` of `up[xx]` and
`down[xx]` for the `k` columns from `xx` on.  A buffer of 32-bit pixels is a
map from the element index to the pixel; `up` and `down` are element
offsets into it. -/
def swap_row (up down : Nat) : Nat → Nat → (Nat → Nat) → Nat → Nat
  | 0, _, buf => buf
  | k + 1, xx, buf =>
    let t := buf (up + xx)
    let buf1 := Function.update buf (up + xx) (buf (down + xx))
    let buf2 := Function.update buf1 (down + xx) t
    swap_row up down k (xx + 1) buf2

/-- The outer loop of `rtiff_read_rgba_tile`: `k` row pairs remain to be
swapped. -/
def flip_rows (tile_width : Nat) : Nat → Nat → Nat → (Nat → Nat) → Nat → Nat
  | 0, _, _, buf => buf
  | k + 1, up, down, buf =>
    flip_rows tile_width k (up + tile_width) (down - tile_width)
      (swap_row up down tile_width 0 buf)

/-- The flip of `rtiff_read_rgba_tile`, applied to the buffer `u32_buf`. -/
def rgba_tile_flip (header : RtiffHeader) (u32_buf : Nat → Nat) : Nat → Nat :=
  let tile_width := header.tile_width
  let tile_height := header.tile_height
  flip_rows tile_width (tile_height / 2) 0 ((tile_height - 1) * tile_width) u32_buf

/-- `rtiff_read_rgba_tile`: decompress a tile to RGBA.  `delivered` is what
`TIFFReadRGBATile` leaves in the buffer, `none` when it fails; the result is
the return code and the buffer. -/
def rtiff_read_rgba_tile (header : RtiffHeader) (delivered : Option (Nat → Nat))
    (u32_buf : Nat → Nat) : Int × (Nat → Nat) :=
  match delivered with
  | none => (-1, u32_buf)
  | some d => (0, rgba_tile_flip header d)

/-! ## Example inputs for the palette reader -/

/-- A stripped 4x4 palette directory with the given bits per sample and
colormap, as the container would report it. -/
def palette_tags (bits : Nat) (map : List Nat × List Nat × List Nat) : TiffTags :=
  { grey_tags 4 4 with bitspersample := some bits, photometric := some 3,
                       colormap := some map }

/-- The reader state on such a directory once its header is loaded, with
`samples_per_pixel` samples per pixel. -/
def palette_reader (bits : Nat) (samples_per_pixel : Int)
    (map : List Nat × List Nat × List Nat) : Rtiff :=
  { rtiff_of_tags [palette_tags bits map] 0 1 with
    header := header_of_bits bits PHOTOMETRIC_PALETTE samples_per_pixel }

/-- The extra samples of pixel `x` in a scanline `p` of `samples_per_pixel`
samples per pixel: the samples after the first. -/
def extra_samples (samples_per_pixel : Int) (p : List Nat) (x : Nat) : List Nat :=
  (List.range (samples_per_pixel.toNat - 1)).map
    (fun s => p.getD (x * samples_per_pixel.toNat + 1 + s) 0)

/-! ## Example directories for the header reader -/

/-- A LOGLUV directory with SGILOG compression, three samples per pixel and
the given bits per sample, as the container would report it. -/
def logluv_tags (bits : Nat) : TiffTags :=
  { grey_tags 4 4 with samplesperpixel := some 3, bitspersample := some bits,
                       photometric := some 32845, compression := COMPRESSION_SGILOG }

/-- A tiled 8-bit grey directory of the given size with square tiles of
`tile` pixels a side, one byte per pixel. -/
def tiled_tags (width height tile : Nat) : TiffTags :=
  { grey_tags width height with
    is_tiled := true, tilewidth := some tile, tilelength := some tile,
    tile_size := ((tile * tile : Nat) : Int), tile_row_size := (tile : Int),
    rowsperstrip := none }

/-- The test applied to each tile dimension by `rtiff_header_read` as the
specification words it: a positive multiple of 16 no larger than `bound`. -/
def tile_dimension_in_range (bound v : Nat) : Prop :=
  0 < v ∧ v % 16 = 0 ∧ v ≤ bound

instance tile_dimension_in_range_decidable (bound v : Nat) :
    Decidable (tile_dimension_in_range bound v) := by
  unfold tile_dimension_in_range
  exact inferInstance

/-- The sanity limit on `tile_size` and `tile_row_size`: positive and at most
100 MB. -/
def tile_bytes_in_range (size : Int) : Prop :=
  0 < size ∧ size ≤ 100 * 1000 * 1000

instance tile_bytes_in_range_decidable (size : Int) : Decidable (tile_bytes_in_range size) := by
  unfold tile_bytes_in_range
  exact inferInstance

/-- Results of `rtiff_header_read` can be compared. -/
instance header_result_decidable_eq : DecidableEq (Except String RtiffHeader)
  | Except.ok a, Except.ok b =>
    if h : a = b then isTrue (by rw [h]) else isFalse (fun h2 => h (Except.ok.inj h2))
  | Except.error a, Except.error b =>
    if h : a = b then isTrue (by rw [h]) else isFalse (fun h2 => h (Except.error.inj h2))
  | Except.ok _, Except.error _ => isFalse (fun h => Except.noConfusion h)
  | Except.error _, Except.ok _ => isFalse (fun h => Except.noConfusion h)

/-- The header `rtiff_header_read` fills for a directory when the struct
being filled is `rtiff->header` itself and starts zeroed; the zero header
when the directory is rejected. -/
def header_of_tags (tags : TiffTags) : RtiffHeader :=
  (rtiff_header_read true tags none RtiffHeader.zero).toOption.getD RtiffHeader.zero

/-- The reader state on a single directory once its header is loaded by
`rtiff_header_read`. -/
def reader_of_tags (tags : TiffTags) : Rtiff :=
  { rtiff_of_tags [tags] 0 1 with header := header_of_tags tags }

/-! ## Example inputs and auxiliary notions for the greyscale kernel -/

/-- The largest value of an unsigned integer band format (0 for the other
formats). -/
def grey_max : VipsBandFormat → Nat
  | VipsBandFormat.UCHAR => 255
  | VipsBandFormat.USHORT => 65535
  | VipsBandFormat.UINT => 4294967295
  | _ => 0

/-- A reader state whose loaded header is `header`. -/
def reader_with_header (header : RtiffHeader) : Rtiff :=
  { rtiff_of_tags [grey_tags 4 4] 0 1 with header := header }

/-- A greyscale header of `samples_per_pixel` samples with the given bits per
sample, sample format and photometric interpretation. -/
def grey_header (bits_per_sample sample_format photometric_interpretation
    samples_per_pixel : Int) : RtiffHeader :=
  { header_of_format bits_per_sample sample_format with
    photometric_interpretation := photometric_interpretation,
    samples_per_pixel := samples_per_pixel }

/-! ## The tile reader -/

/-- What the container and the decoders answer for one tile: the size
`TIFFReadRawTile` returns, the return code of `rtiff_decompress_tile` (whose
decoders live outside the reader), the value `TIFFReadTile` returns, the
buffer `TIFFReadRGBATile` delivers (`none` when it fails), and whether the
container raises a warning during the read. -/
structure TileAnswer where
  raw_size : Int
  decompress : Int
  read_tile : Int
  rgba : Option (Nat → Nat)
  warns : Bool

/-- `rtiff_handler_warning`: the warning handler registered with the
container; under the policy of failing on warnings it sets `failed`. -/
def rtiff_handler_warning (rtiff : Rtiff) : Rtiff :=
  if rtiff.fail_on ≥ VIPS_FAIL_ON_WARNING then { rtiff with failed := true } else rtiff

/-- The container call of `rtiff_read_tile`: the warning handler runs when
the container warns. -/
def tile_container_call (rtiff : Rtiff) (tile : TileAnswer) : Rtiff :=
  if tile.warns then rtiff_handler_warning rtiff else rtiff

/-- `rtiff_read_tile`: select a page and read, or read and decompress, a
tile.  The result is the return code, the reader state and the tile buffer;
the bytes the container or a decoder writes on the paths other than RGBA are
not represented. -/
def rtiff_read_tile (rtiff : Rtiff) (buf : Nat → Nat) (page : Int) (tile : TileAnswer) :
    Int × Rtiff × (Nat → Nat) :=
  if rtiff.header.we_decompress then
    match rtiff_set_page rtiff page with
    | (rc, rtiff1) =>
      if rc ≠ 0 then (-1, rtiff1, buf)
      else
        let rtiff2 := tile_container_call rtiff1 tile
        let size := tile.raw_size
        if size ≤ 0 then (-1, rtiff2, buf)
        else if tile.decompress ≠ 0 then (-1, rtiff2, buf)
        else (0, rtiff2, buf)
  else
    match rtiff_set_page rtiff page with
    | (rc, rtiff1) =>
      if rc ≠ 0 then (-1, rtiff1, buf)
      else
        let rtiff2 := tile_container_call rtiff1 tile
        let result : Bool × (Nat → Nat) :=
          if rtiff2.header.read_as_rgba then
            (decide ((rtiff_read_rgba_tile rtiff2.header tile.rgba buf).1 ≠ 0),
              (rtiff_read_rgba_tile rtiff2.header tile.rgba buf).2)
          else (decide (tile.read_tile < 0), buf)
        if result.1 = true ∧ rtiff2.fail_on ≥ VIPS_FAIL_ON_WARNING then (-1, rtiff2, result.2)
        else (0, rtiff2, result.2)

/-! ## Example inputs for the header reader and the tile reader -/

/-- A stripped 4x4 YCbCr directory of three 8-bit samples with the given
compression and chroma subsampling, as the container would report it. -/
def ycbcr_tags (compression : Nat) (subsampling : Nat × Nat) : TiffTags :=
  { grey_tags 4 4 with samplesperpixel := some 3, photometric := some 6,
                       compression := compression, ycbcrsubsampling := subsampling }

/-- A stripped 4x4 directory of `samples_per_pixel` 8-bit samples whose
extra samples carry the given types. -/
def extra_tags (samples_per_pixel : Nat) (extrasamples : List Nat) : TiffTags :=
  { grey_tags 4 4 with samplesperpixel := some samples_per_pixel,
                       extrasamples := extrasamples }

/-- A stripped 4x4 grey directory with the given resolution tags and unit. -/
def resolution_tags (x y : ℚ) (unit : Nat) : TiffTags :=
  { grey_tags 4 4 with xresolution := some x, yresolution := some y,
                       resolutionunit := some unit }

/-- A tile for which the container succeeds on every call without a
warning. -/
def good_tile : TileAnswer :=
  { raw_size := 1, decompress := 0, read_tile := 1, rgba := some (fun _ => 0), warns := false }

/-- The reader state on a tiled 64x64 grey directory with tiles of 16x16,
with the given policy and `failed` flag. -/
def tiled_reader (fail_on : Nat) (failed : Bool) : Rtiff :=
  { reader_of_tags (tiled_tags 64 64 16) with fail_on := fail_on, failed := failed }

/-! ## Auxiliary notions for the header reader -/

/-- The fields of a header that the tiled and stripped branches and the
extra-samples scan of `rtiff_header_read` leave alone. -/
def header_core_fields (h : RtiffHeader) :
    Bool × Bool × Int × Int × Int × Int × Bool × Nat × Nat × Nat :=
  (h.we_decompress, h.read_as_rgba, h.photometric_interpretation, h.samples_per_pixel,
   h.bits_per_sample, h.sample_format, h.separate, h.compression, h.width, h.height)

/-- A stripped 4x4 grey directory whose strip 0 the container fails to
read. -/
def bad_strip_tags : TiffTags :=
  { grey_tags 4 4 with bad_strips := [0] }

/-- The reader state on a stripped 4x4 grey directory whose strip 0 the
container fails to read, with the given policy and `failed` flag. -/
def bad_strip_reader (fail_on : Nat) (failed : Bool) : Rtiff :=
  { reader_of_tags bad_strip_tags with fail_on := fail_on, failed := failed }

/-- The band `rtiff_header_read` would note if it kept the first extra sample
tagged as associated alpha: `samples_per_pixel - extra_samples_count + i` for
the smallest such index `i`, and -1 when there is none. -/
def first_alpha_band (samples_per_pixel : Int) (extrasamples : List Nat) : Int :=
  match (List.range extrasamples.length).find?
      (fun i => extrasamples.getD i 0 = EXTRASAMPLE_ASSOCALPHA) with
  | some i => samples_per_pixel - extrasamples.length + i
  | none => -1

/-- The band noted when the last extra sample tagged as associated alpha is
kept. -/
def last_alpha_band (samples_per_pixel : Int) (extrasamples : List Nat) : Int :=
  match ((List.range extrasamples.length).filter
      (fun i => extrasamples.getD i 0 = EXTRASAMPLE_ASSOCALPHA)).getLast? with
  | some i => samples_per_pixel - extrasamples.length + i
  | none => -1

/-- The reader state on a stripped 4x4 grey directory whose strips the
container reads without error, with the given policy and `failed` flag. -/
def strip_reader (fail_on : Nat) (failed : Bool) : Rtiff :=
  { reader_of_tags (grey_tags 4 4) with fail_on := fail_on, failed := failed }

/-! ## Exactness of the half-precision conversion -/

/-- A rational number that the C type `float` (IEEE 754 binary32) holds
exactly: an integer of fewer than 24 bits times a power of two within the
exponent range, subnormals included. -/
def binary32_exact (q : ℚ) : Prop :=
  ∃ (m e : Int), m.natAbs < 2 ^ 24 ∧ -149 ≤ e ∧ e ≤ 104 ∧ q = m * (2 : ℚ) ^ e

/-- The values of the `float` subexpressions `half_2_float` evaluates on its
way to a finite result, in evaluation order, the result last; for an infinite
result the two values computed before the switch. -/
def half_2_float_steps (h0 : Nat) : List ℚ :=
  let h := h0 % 65536
  let sign : ℚ := ((((h >>> 15 : Nat) : Int) * -2 + 1 : Int) : ℚ)
  let exp : Int := (((h &&& 0x7C00) >>> 10 : Nat) : Int) - 15
  let prec : ℚ := ((h &&& 0x03FF : Nat) : ℚ)
  if exp = 16 then
    [sign, prec]
  else if exp = -15 then
    [sign, prec, ((1 <<< 14 : Nat) : ℚ), sign / ((1 <<< 14 : Nat) : ℚ), prec / 1024,
     sign / ((1 <<< 14 : Nat) : ℚ) * (prec / 1024)]
  else if exp > 0 then
    [sign, prec, ((1 <<< exp.toNat : Nat) : ℚ), sign * ((1 <<< exp.toNat : Nat) : ℚ),
     prec / 1024, 1 + prec / 1024,
     sign * ((1 <<< exp.toNat : Nat) : ℚ) * (1 + prec / 1024)]
  else
    [sign, prec, ((1 <<< (-exp).toNat : Nat) : ℚ), sign / ((1 <<< (-exp).toNat : Nat) : ℚ),
     prec / 1024, 1 + prec / 1024,
     sign / ((1 <<< (-exp).toNat : Nat) : ℚ) * (1 + prec / 1024)]

/-! ## The tile generator -/

/-- The part of a `VipsRegion` the tile generator looks at: the rectangle
`valid`, and the values of `VIPS_REGION_LSKIP` and `VIPS_REGION_SIZEOF_LINE`
for the region. -/
structure VipsRegion where
  valid : VipsRect
  lskip : Int
  sizeof_line : Int

/-- The generate functions `rtiff_fill_region` chooses between. -/
inductive GenerateFn where
  | rtiff_fill_region_aligned
  | rtiff_fill_region_unaligned
  deriving DecidableEq

/-- The tiles of the container as the tile reader sees them: what the
container and the decoders answer for the tile at `(x, y)` of a page. -/
abbrev TileSource := Int → Int → Int → TileAnswer

/-- The choice of `generate` in `rtiff_fill_region`. -/
def fill_region_generate (rtiff : Rtiff) (out : VipsRegion) : GenerateFn :=
  let tile_width : Int := rtiff.header.tile_width
  let tile_height : Int := rtiff.header.tile_height
  let page_width : Int := rtiff.header.width
  let page_height : Int := rtiff.header.height
  let r := out.valid
  let page_no := Int.tdiv r.top page_height
  let page_y := Int.tmod r.top page_height
  if (page_no = 0 ∨ Int.tmod page_height tile_height = 0) ∧
      Int.tmod r.left tile_width = 0 ∧
      Int.tmod r.top tile_height = 0 ∧
      r.width = tile_width ∧
      r.height = tile_height ∧
      r.left + tile_width ≤ page_width ∧
      page_y + tile_height ≤ page_height ∧
      out.lskip = out.sizeof_line ∧
      rtiff.memcpy = true then
    GenerateFn.rtiff_fill_region_aligned
  else
    GenerateFn.rtiff_fill_region_unaligned

/-- `rtiff_fill_region_aligned`: read the tile the region coincides with
directly into the region, whose memory is `region_buf`. -/
def rtiff_fill_region_aligned (rtiff : Rtiff) (out : VipsRegion) (tiles : TileSource)
    (region_buf : Nat → Nat) : Int × Rtiff × (Nat → Nat) :=
  let r := out.valid
  let page_height : Int := rtiff.header.height
  let page_no := Int.tdiv r.top page_height
  let page_y := Int.tmod r.top page_height
  match rtiff_read_tile rtiff region_buf (rtiff.page + page_no)
      (tiles (rtiff.page + page_no) r.left page_y) with
  | (rc, rtiff1, buf1) => if rc ≠ 0 then (-1, rtiff1, buf1) else (0, rtiff1, buf1)

/-- The rectangles of one inner iteration of `rtiff_fill_region_unaligned`:
the tile that `(x, y)` of the region falls in, clipped to its page and moved
to image coordinates, and its intersection `hit` with the region.
`tile_width`, `tile_height` and `page_height` are the locals of the C
function; the page rectangle is read from `rtiff->header`. -/
def unaligned_hit (tile_width tile_height page_height : Int) (rtiff : Rtiff) (r : VipsRect)
    (x y : Int) : VipsRect × VipsRect :=
  let page_no := Int.tdiv (r.top + y) page_height
  let page_y := Int.tmod (r.top + y) page_height
  let xs := Int.tdiv (r.left + x) tile_width * tile_width
  let ys := Int.tdiv page_y tile_height * tile_height
  let tile0 : VipsRect := { left := xs, top := ys, width := tile_width, height := tile_height }
  let page : VipsRect :=
    { left := 0, top := 0, width := rtiff.header.width, height := rtiff.header.height }
  let tile1 := vips_rect_intersectrect tile0 page
  let tile2 := { tile1 with top := tile1.top + page_no * page_height }
  (tile2, vips_rect_intersectrect tile2 r)

/-- The `while (x < r->width)` loop of `rtiff_fill_region_unaligned` for the
row of tiles at `y`.  `hit_height` is the current value of `hit.height`.  The
result is the return code (non-zero when a tile read failed and the function
returns), the reader state, the tile buffer, `hit.height`, and the hit
rectangles painted into the region through the scanline kernel, in order.
`fuel` bounds the number of iterations, `none` means the bound was
reached. -/
def unaligned_row (tile_width tile_height page_height : Int) (tiles : TileSource)
    (r : VipsRect) (y : Int) :
    Nat → Int → Rtiff → (Nat → Nat) → Int →
      Option (Int × Rtiff × (Nat → Nat) × Int × List VipsRect)
  | 0, _, _, _, _ => none
  | fuel + 1, x, rtiff, buf, hit_height =>
    if x < r.width then
      let page_no := Int.tdiv (r.top + y) page_height
      let page_y := Int.tmod (r.top + y) page_height
      let xs := Int.tdiv (r.left + x) tile_width * tile_width
      let ys := Int.tdiv page_y tile_height * tile_height
      match rtiff_read_tile rtiff buf (rtiff.page + page_no)
          (tiles (rtiff.page + page_no) xs ys) with
      | (rc, rtiff1, buf1) =>
        if rc ≠ 0 then some (-1, rtiff1, buf1, hit_height, [])
        else
          let hit := (unaligned_hit tile_width tile_height page_height rtiff1 r x y).2
          match unaligned_row tile_width tile_height page_height tiles r y fuel
              (x + hit.width) rtiff1 buf1 hit.height with
          | none => none
          | some (rc2, rtiff2, buf2, hit_height2, hits) =>
            some (rc2, rtiff2, buf2, hit_height2, hit :: hits)
    else
      some (0, rtiff, buf, hit_height, [])

/-- The `while (y < r->height)` loop of `rtiff_fill_region_unaligned`;
`xfuel` bounds each run of the inner loop and `fuel` the number of rows of
tiles, `none` means a bound was reached. -/
def unaligned_loop (tile_width tile_height page_height : Int) (tiles : TileSource)
    (r : VipsRect) (xfuel : Nat) :
    Nat → Int → Rtiff → (Nat → Nat) → Option (Int × Rtiff × (Nat → Nat) × List VipsRect)
  | 0, _, _, _ => none
  | fuel + 1, y, rtiff, buf =>
    if y < r.height then
      match unaligned_row tile_width tile_height page_height tiles r y xfuel 0 rtiff buf 0 with
      | none => none
      | some (rc, rtiff1, buf1, hit_height, hits) =>
        if rc ≠ 0 then some (-1, rtiff1, buf1, hits)
        else
          match unaligned_loop tile_width tile_height page_height tiles r xfuel fuel
              (y + hit_height) rtiff1 buf1 with
          | none => none
          | some (rc2, rtiff2, buf2, hits2) => some (rc2, rtiff2, buf2, hits ++ hits2)
    else
      some (0, rtiff, buf, [])

/-- `rtiff_fill_region_unaligned`: loop over the output region `r`, painting
in tiles from the file through the tile buffer `buf`.  The result is the
return code, the reader state, the tile buffer and the rectangles painted;
`none` when `fuel` iterations of a loop were not enough. -/
def rtiff_fill_region_unaligned (fuel : Nat) (rtiff : Rtiff) (r : VipsRect)
    (tiles : TileSource) (buf : Nat → Nat) :
    Option (Int × Rtiff × (Nat → Nat) × List VipsRect) :=
  let tile_width : Int := rtiff.header.tile_width
  let tile_height : Int := rtiff.header.tile_height
  let page_height : Int := rtiff.header.height
  unaligned_loop tile_width tile_height page_height tiles r fuel fuel 0 rtiff buf

/-- `rtiff_fill_region`: paint the region with the generate function chosen
for it. -/
def rtiff_fill_region (fuel : Nat) (rtiff : Rtiff) (out : VipsRegion) (tiles : TileSource)
    (seq_buf region_buf : Nat → Nat) : Option (Int × Rtiff) :=
  match fill_region_generate rtiff out with
  | GenerateFn.rtiff_fill_region_aligned =>
    match rtiff_fill_region_aligned rtiff out tiles region_buf with
    | (rc, rtiff1, _) => some ((if rc ≠ 0 then -1 else 0), rtiff1)
  | GenerateFn.rtiff_fill_region_unaligned =>
    match rtiff_fill_region_unaligned fuel rtiff out.valid tiles seq_buf with
    | none => none
    | some (rc, rtiff1, _, _) => some ((if rc ≠ 0 then -1 else 0), rtiff1)

/-- Whether the pixel `(px, py)` lies in the rectangle `r`. -/
def rect_includes (r : VipsRect) (px py : Int) : Bool :=
  decide (r.left ≤ px ∧ px < r.left + r.width ∧ r.top ≤ py ∧ py < r.top + r.height)

/-- The first row of the band of `t` rows that row `row` of the output image
falls in, the bands (strips, or rows of tiles) being counted from the top of
each page of `H` rows. -/
def band_top (H t row : Int) : Int :=
  H * Int.tdiv row H + Int.tdiv (Int.tmod row H) t * t

/-- The left edge of the tile of width `t` that column `col` falls in. -/
def tile_left (t col : Int) : Int := Int.tdiv col t * t

/-! ## The iterations of the strip generator -/

/-- The loop `for (k = 0; k < bytes_per_sample; k++) q[k] = p[k]` of
`rtiff_strip_read_interleaved`, from `k` on with `m` iterations left: the
stores made, each as the offset written in `buf` and the byte written.
`plane` is the content of `plane_buf`, `p` and `q` the offsets of the two
pointers. -/
def interleave_bytes (plane : Nat → Nat) (p q : Nat) : Nat → Nat → List (Nat × Nat)
  | 0, _ => []
  | m + 1, k => (q + k, plane (p + k)) :: interleave_bytes plane p q m (k + 1)

/-- The loop over the `pels_per_strip` pixels of one plane, with `m`
iterations left. -/
def interleave_pels (plane : Nat → Nat) (bytes_per_sample samples_per_pixel : Nat) :
    Nat → Nat → Nat → List (Nat × Nat)
  | 0, _, _ => []
  | m + 1, p, q =>
    interleave_bytes plane p q bytes_per_sample 0 ++
      interleave_pels plane bytes_per_sample samples_per_pixel m (p + bytes_per_sample)
        (q + bytes_per_sample * samples_per_pixel)

/-- The plane loop of `rtiff_strip_read_interleaved` with the bytes it moves:
`strip_data s` is what a read of strip `s` of the current directory leaves in
the buffer it reads into.  The result is the return code, the reader state
and the stores made into `buf`, in order. -/
def strip_read_planes_stores (strip_data : Int → Nat → Nat) (strips_per_plane strip : Int)
    (bytes_per_sample samples_per_pixel pels_per_strip : Int) :
    Nat → Int → Rtiff → Int × Rtiff × List (Nat × Nat)
  | 0, _, rtiff => (0, rtiff, [])
  | k + 1, i, rtiff =>
    match rtiff_strip_read rtiff (strips_per_plane * i + strip) ReadBuf.plane_buf with
    | (rc, rtiff1) =>
      if rc ≠ 0 then (-1, rtiff1, [])
      else
        let plane := strip_data (strips_per_plane * i + strip)
        let stores := interleave_pels plane bytes_per_sample.toNat samples_per_pixel.toNat
          pels_per_strip.toNat 0 (i * bytes_per_sample).toNat
        match strip_read_planes_stores strip_data strips_per_plane strip bytes_per_sample
            samples_per_pixel pels_per_strip k (i + 1) rtiff1 with
        | (rc2, rtiff2, rest) => (rc2, rtiff2, stores ++ rest)

/-- `rtiff_strip_read_interleaved` with the bytes its interleave loops move
into `buf`.  The bytes the container itself writes on the two other branches
are not represented.  `strip_y` and `pels_per_strip` are products stored in
a C `int` and are taken in 32 bits; the loop over `j < pels_per_strip` does
not run when the wrapped product is negative. -/
def rtiff_strip_read_interleaved_stores (rtiff : Rtiff) (page strip : Int) (buf : ReadBuf)
    (strip_data : Int → Nat → Nat) : Int × Rtiff × List (Nat × Nat) :=
  let samples_per_pixel := rtiff.header.samples_per_pixel
  let read_height : Int := rtiff.header.read_height
  let bits_per_sample := rtiff.header.bits_per_sample
  let strip_y := to_int32 (strip * read_height)
  match rtiff_set_page rtiff page with
  | (rc, rtiff1) =>
    if rc ≠ 0 then (-1, rtiff1, [])
    else if rtiff1.header.read_as_rgba then
      (match rtiff_rgba_strip_read rtiff1 strip buf with
       | (rc1, rtiff2) => if rc1 ≠ 0 then (-1, rtiff2, []) else (0, rtiff2, []))
    else if rtiff1.header.separate then
      let page_width : Int := rtiff1.header.width
      let page_height : Int := rtiff1.header.height
      let strips_per_plane := 1 + Int.tdiv (page_height - 1) read_height
      let strip_height := min read_height (page_height - strip_y)
      let pels_per_strip := to_int32 (page_width * strip_height)
      let bytes_per_sample := bits_per_sample >>> 3
      strip_read_planes_stores strip_data strips_per_plane strip bytes_per_sample
        samples_per_pixel pels_per_strip samples_per_pixel.toNat 0 rtiff1
    else
      (match rtiff_strip_read rtiff1 strip buf with
       | (rc1, rtiff2) => if rc1 ≠ 0 then (-1, rtiff2, []) else (0, rtiff2, []))

/-- The buffer after a sequence of byte stores. -/
def apply_stores (buf : Nat → Nat) : List (Nat × Nat) → Nat → Nat
  | [] => buf
  | (a, v) :: rest => apply_stores (Function.update buf a v) rest

/-! ## The source bytes read by the bit-expanding kernels -/

/-- Sample number `x` of a scanline `p` packed with `N` bits per sample, most
significant bits first. -/
def packed_sample (N : Nat) (p : List Nat) (x : Nat) : Nat :=
  bit_field N (p.getD (x / (8 / N)) 0) (x % (8 / N))

/-- The relation between the shift register of `rtiff_palette_line_bit` and
the packed samples: when `s` fields of `N` bits have been taken from the
byte `b`, the next index is the field `s` of `b` and the register then holds
`b` shifted by one field more. -/
def palette_step_ok (N m : Nat) : Prop :=
  ∀ b, b < 256 → ∀ s, s < m →
    ((b <<< (N * s)) % 256) >>> (8 - N) = bit_field N b s ∧
    (((b <<< (N * s)) % 256) <<< N) % 256 = (b <<< (N * (s + 1))) % 256

instance palette_step_ok_decidable (N m : Nat) : Decidable (palette_step_ok N m) := by
  unfold palette_step_ok
  infer_instance

/-! ## Example inputs for the generators and the multi-page check -/

/-- A stripped 4x4 directory of four 8-bit samples, RGB with associated
alpha, in one strip, with the given compression. -/
def rgb_alpha_tags (compression : Nat) : TiffTags :=
  { grey_tags 4 4 with samplesperpixel := some 4, photometric := some 2,
                       compression := compression, extrasamples := [1],
                       scanline_size := 16, strip_size := 64 }

/-- The reader state after `rtiff_header_read_all` on the two given pages,
both requested. -/
def reader_of_two_pages (first second : TiffTags) : Int × Rtiff :=
  rtiff_header_read_all true RtiffHeader.zero (rtiff_of_tags [first, second] 0 2)

/-- A stripped 4x2 directory of three 8-bit samples in separate planes, one
strip per plane. -/
def separate_tags : TiffTags :=
  { grey_tags 4 2 with samplesperpixel := some 3, photometric := some 2,
                       planarconfig := some 2, number_of_strips := 3 }

/-- A container in which every tile reads without error or warning. -/
def good_tiles : TileSource := fun _ _ _ => good_tile

/-- A container in which `TIFFReadTile` fails for every tile. -/
def bad_tiles : TileSource := fun _ _ _ => { good_tile with read_tile := -1 }

/-- An all-zero buffer. -/
def zero_buf : Nat → Nat := fun _ => 0

/-! ## Example directories whose sample counts leave the range of a C `int` -/

/-- A stripped palette directory of 5000000 x 1 pixels with 430 one-bit
samples per pixel, in one strip of 268750000 bytes, with a two-entry
colormap. -/
def wide_palette_tags : TiffTags :=
  { grey_tags 5000000 1 with
      samplesperpixel := some 430, bitspersample := some 1, photometric := some 3,
      colormap := some ([0, 65535], [0, 65535], [0, 65535]),
      scanline_size := 268750000, strip_size := 268750000 }

/-- A stripped 50000 x 50000 directory of three 8-bit samples in separate
planes, one strip of 2500000000 bytes per plane. -/
def huge_separate_tags : TiffTags :=
  { grey_tags 50000 50000 with samplesperpixel := some 3, photometric := some 2,
                               planarconfig := some 2, number_of_strips := 3 }

/-! # Theorems -/

/-! ## Pipeline selection and format guessing -/

/-- C1: for every directory header `rtiff_pick_reader` selects the reader by
first match, in this order: read-as-RGBA, then CIELAB with 8 bits and more
than 3 samples (LAB with alpha), CIELAB with 8 bits (LAB pack), CIELAB with
16 bits (LAB 16), LOGLUV, MINISWHITE or MINISBLACK with 1, 2 or 4 bits (the
bit expanders) and with any other depth (greyscale), PALETTE, and the copy
reader for every other header. -/
theorem rtiff_pick_reader_decision_table (h : RtiffHeader) :
    rtiff_pick_reader h =
      if h.read_as_rgba = true then Reader.rtiff_parse_rgba
      else if h.photometric_interpretation = PHOTOMETRIC_CIELAB ∧ h.bits_per_sample = 8 ∧
          h.samples_per_pixel > 3 then Reader.rtiff_parse_lab_with_alpha
      else if h.photometric_interpretation = PHOTOMETRIC_CIELAB ∧ h.bits_per_sample = 8 then
        Reader.rtiff_parse_labpack
      else if h.photometric_interpretation = PHOTOMETRIC_CIELAB ∧ h.bits_per_sample = 16 then
        Reader.rtiff_parse_labs
      else if h.photometric_interpretation = PHOTOMETRIC_LOGLUV then Reader.rtiff_parse_logluv
      else if (h.photometric_interpretation = PHOTOMETRIC_MINISWHITE ∨
          h.photometric_interpretation = PHOTOMETRIC_MINISBLACK) ∧ h.bits_per_sample = 1 then
        Reader.rtiff_parse_onebit
      else if (h.photometric_interpretation = PHOTOMETRIC_MINISWHITE ∨
          h.photometric_interpretation = PHOTOMETRIC_MINISBLACK) ∧ h.bits_per_sample = 2 then
        Reader.rtiff_parse_twobit
      else if (h.photometric_interpretation = PHOTOMETRIC_MINISWHITE ∨
          h.photometric_interpretation = PHOTOMETRIC_MINISBLACK) ∧ h.bits_per_sample = 4 then
        Reader.rtiff_parse_fourbit
      else if h.photometric_interpretation = PHOTOMETRIC_MINISWHITE ∨
          h.photometric_interpretation = PHOTOMETRIC_MINISBLACK then
        Reader.rtiff_parse_greyscale
      else if h.photometric_interpretation = PHOTOMETRIC_PALETTE then Reader.rtiff_parse_palette
      else Reader.rtiff_parse_copy := by
  unfold rtiff_pick_reader
  simp only [PHOTOMETRIC_CIELAB, PHOTOMETRIC_LOGLUV, PHOTOMETRIC_MINISWHITE,
    PHOTOMETRIC_MINISBLACK, PHOTOMETRIC_PALETTE]
  generalize h.photometric_interpretation = p
  generalize h.bits_per_sample = b
  generalize h.samples_per_pixel = s
  generalize h.read_as_rgba = rgba
  cases rgba
  · by_cases hlab : p = 8
    · subst hlab
      by_cases hb8 : b = 8
      · subst hb8
        by_cases hs : s > 3 <;> simp [hs]
      · by_cases hb16 : b = 16
        · subst hb16; simp
        · simp [hb8, hb16]
    · by_cases hluv : p = 32845
      · subst hluv; simp
      · by_cases hgrey : p = 0 ∨ p = 1
        · by_cases hb1 : b = 1
          · subst hb1; simp [hlab, hluv, hgrey]
          · by_cases hb2 : b = 2
            · subst hb2; simp [hlab, hluv, hgrey]
            · by_cases hb4 : b = 4
              · subst hb4; simp [hlab, hluv, hgrey]
              · simp [hlab, hluv, hgrey, hb1, hb2, hb4]
        · simp [hlab, hluv, hgrey]
  · simp

/-- C2 (counterexample): 3 bits per sample lies between 1 and 8, yet
`rtiff_guess_format` returns the not-set format for it, with sample format
UINT as well as INT, instead of the unsigned or signed 8-bit format. -/
theorem rtiff_guess_format_three_bits_notset :
    (1 : Int) ≤ 3 ∧ (3 : Int) ≤ 8 ∧
    rtiff_guess_format (header_of_format 3 SAMPLEFORMAT_UINT) = VipsBandFormat.NOTSET ∧
    rtiff_guess_format (header_of_format 3 SAMPLEFORMAT_INT) = VipsBandFormat.NOTSET := by
  decide

/-- C2 (amended): for bits_per_sample 1, 2, 4 or 8 `rtiff_guess_format`
returns the signed 8-bit format when the sample format is INT and the
unsigned 8-bit format when it is UINT; for 3, 5, 6 and 7 bits it returns the
not-set format whatever the sample format. -/
theorem rtiff_guess_format_small_bits (h : RtiffHeader) :
    ((h.bits_per_sample = 1 ∨ h.bits_per_sample = 2 ∨ h.bits_per_sample = 4 ∨
        h.bits_per_sample = 8) →
      (h.sample_format = SAMPLEFORMAT_INT → rtiff_guess_format h = VipsBandFormat.CHAR) ∧
      (h.sample_format = SAMPLEFORMAT_UINT → rtiff_guess_format h = VipsBandFormat.UCHAR)) ∧
    ((h.bits_per_sample = 3 ∨ h.bits_per_sample = 5 ∨ h.bits_per_sample = 6 ∨
        h.bits_per_sample = 7) →
      rtiff_guess_format h = VipsBandFormat.NOTSET) := by
  unfold rtiff_guess_format
  simp only [SAMPLEFORMAT_INT, SAMPLEFORMAT_UINT]
  generalize h.bits_per_sample = b at *
  generalize h.sample_format = s at *
  constructor
  · intro hb
    constructor
    · intro hs; subst hs; simp [hb]
    · intro hs; subst hs; simp [hb]
  · intro hb
    rcases hb with hb | hb | hb | hb <;> subst hb <;> simp

/-- Witness for C2 (amended): an 8-bit UINT header and a 5-bit UINT header. -/
theorem rtiff_guess_format_small_bits_witness :
    rtiff_guess_format (header_of_format 8 SAMPLEFORMAT_UINT) = VipsBandFormat.UCHAR ∧
    rtiff_guess_format (header_of_format 5 SAMPLEFORMAT_UINT) = VipsBandFormat.NOTSET :=
  ⟨((rtiff_guess_format_small_bits (header_of_format 8 SAMPLEFORMAT_UINT)).1
      (by decide)).2 (by decide),
   (rtiff_guess_format_small_bits (header_of_format 5 SAMPLEFORMAT_UINT)).2 (by decide)⟩

theorem rtiff_guess_format_absent (h : RtiffHeader)
    (habs : (h.bits_per_sample, h.sample_format) ∉ guess_format_table) :
    rtiff_guess_format h = VipsBandFormat.NOTSET := by
  unfold rtiff_guess_format
  simp only [guess_format_table, SAMPLEFORMAT_INT, SAMPLEFORMAT_UINT, SAMPLEFORMAT_IEEEFP,
    SAMPLEFORMAT_COMPLEXIEEEFP, List.mem_cons, Prod.mk.injEq, List.mem_singleton,
    List.not_mem_nil, not_or, not_and, or_false] at habs ⊢
  generalize h.bits_per_sample = b at *
  generalize h.sample_format = s at *
  split_ifs <;> first | rfl | (exfalso; simp_all)

theorem rtiff_parse_copy_notset (rtiff : Rtiff) (out : VipsImage)
    (hfmt : rtiff_guess_format rtiff.header = VipsBandFormat.NOTSET) :
    (rtiff_parse_copy rtiff out).1 = -1 := by
  unfold rtiff_parse_copy
  by_cases hfrac : rtiff_non_fractional rtiff ≠ 0
  · rw [if_pos hfrac]
  · rw [if_neg hfrac]
    simp only []
    rw [if_pos hfmt]

theorem rtiff_parse_greyscale_notset (rtiff : Rtiff) (out : VipsImage)
    (hfmt : rtiff_guess_format rtiff.header = VipsBandFormat.NOTSET) :
    (rtiff_parse_greyscale rtiff out).1 = -1 := by
  unfold rtiff_parse_greyscale
  by_cases hchk : rtiff_check_min_samples rtiff 1 ≠ 0 ∨ rtiff_non_fractional rtiff ≠ 0
  · rw [if_pos hchk]
  · rw [if_neg hchk]
    simp only []
    rw [if_pos hfmt]

/-- C3: `rtiff_guess_format` returns I16, U16, F32 for 16 bits with INT,
UINT, IEEEFP; I32, U32, F32 for 32 bits with INT, UINT, IEEEFP; F64 and C64
for 64 bits with IEEEFP and COMPLEXIEEEFP; C128 for 128 bits with
COMPLEXIEEEFP; for every pair without an entry it returns the not-set
format, and its callers `rtiff_parse_copy` and `rtiff_parse_greyscale` then
fail. -/
theorem rtiff_guess_format_table_spec (h : RtiffHeader) :
    (h.bits_per_sample = 16 →
      (h.sample_format = SAMPLEFORMAT_INT → rtiff_guess_format h = VipsBandFormat.SHORT) ∧
      (h.sample_format = SAMPLEFORMAT_UINT → rtiff_guess_format h = VipsBandFormat.USHORT) ∧
      (h.sample_format = SAMPLEFORMAT_IEEEFP → rtiff_guess_format h = VipsBandFormat.FLOAT)) ∧
    (h.bits_per_sample = 32 →
      (h.sample_format = SAMPLEFORMAT_INT → rtiff_guess_format h = VipsBandFormat.INT) ∧
      (h.sample_format = SAMPLEFORMAT_UINT → rtiff_guess_format h = VipsBandFormat.UINT) ∧
      (h.sample_format = SAMPLEFORMAT_IEEEFP → rtiff_guess_format h = VipsBandFormat.FLOAT)) ∧
    (h.bits_per_sample = 64 →
      (h.sample_format = SAMPLEFORMAT_IEEEFP → rtiff_guess_format h = VipsBandFormat.DOUBLE) ∧
      (h.sample_format = SAMPLEFORMAT_COMPLEXIEEEFP →
        rtiff_guess_format h = VipsBandFormat.COMPLEX)) ∧
    (h.bits_per_sample = 128 →
      (h.sample_format = SAMPLEFORMAT_COMPLEXIEEEFP →
        rtiff_guess_format h = VipsBandFormat.DPCOMPLEX)) ∧
    ((h.bits_per_sample, h.sample_format) ∉ guess_format_table →
      rtiff_guess_format h = VipsBandFormat.NOTSET) ∧
    (∀ (rtiff : Rtiff) (out : VipsImage), rtiff.header = h →
      rtiff_guess_format h = VipsBandFormat.NOTSET →
      (rtiff_parse_copy rtiff out).1 = -1 ∧ (rtiff_parse_greyscale rtiff out).1 = -1) := by
  refine ⟨?_, ?_, ?_, ?_, rtiff_guess_format_absent h, ?_⟩
  · intro hb
    unfold rtiff_guess_format
    simp only [hb, SAMPLEFORMAT_INT, SAMPLEFORMAT_UINT, SAMPLEFORMAT_IEEEFP]
    refine ⟨?_, ?_, ?_⟩ <;> intro hs <;> simp [hs]
  · intro hb
    unfold rtiff_guess_format
    simp only [hb, SAMPLEFORMAT_INT, SAMPLEFORMAT_UINT, SAMPLEFORMAT_IEEEFP]
    refine ⟨?_, ?_, ?_⟩ <;> intro hs <;> simp [hs]
  · intro hb
    unfold rtiff_guess_format
    simp only [hb, SAMPLEFORMAT_IEEEFP, SAMPLEFORMAT_COMPLEXIEEEFP]
    refine ⟨?_, ?_⟩ <;> intro hs <;> simp [hs]
  · intro hb
    unfold rtiff_guess_format
    simp only [hb, SAMPLEFORMAT_COMPLEXIEEEFP]
    intro hs
    simp [hs]
  · intro rtiff out hh hfmt
    rw [← hh] at hfmt
    exact ⟨rtiff_parse_copy_notset rtiff out hfmt, rtiff_parse_greyscale_notset rtiff out hfmt⟩

/-- Witness for C3: 16-bit INT gives I16, and 16-bit complex-integer samples
have no entry, so the copy reader fails on them. -/
theorem rtiff_guess_format_table_spec_witness :
    rtiff_guess_format (header_of_format 16 SAMPLEFORMAT_INT) = VipsBandFormat.SHORT ∧
    rtiff_guess_format (header_of_format 16 SAMPLEFORMAT_COMPLEXINT) = VipsBandFormat.NOTSET ∧
    (rtiff_parse_copy
      { rtiff_of_tags [grey_tags 1 1] 0 1 with
        header := header_of_format 16 SAMPLEFORMAT_COMPLEXINT } VipsImage.new).1 = -1 :=
  ⟨((rtiff_guess_format_table_spec (header_of_format 16 SAMPLEFORMAT_INT)).1
      (by decide)).1 (by decide),
   (rtiff_guess_format_table_spec (header_of_format 16 SAMPLEFORMAT_COMPLEXINT)).2.2.2.2.1
      (by decide),
   ((rtiff_guess_format_table_spec (header_of_format 16 SAMPLEFORMAT_COMPLEXINT)).2.2.2.2.2
      { rtiff_of_tags [grey_tags 1 1] 0 1 with
        header := header_of_format 16 SAMPLEFORMAT_COMPLEXINT } VipsImage.new rfl
      (by decide)).1⟩

/-! ## Multi-page verification -/

/-- C4: two headers are equal under `rtiff_header_equal` if and only if
they agree on width, height, samples_per_pixel, bits_per_sample,
photometric_interpretation, sample_format, compression, separate, tiled and
orientation, and additionally on tile_width and tile_height when tiled, or
on read_height, read_size and number_of_strips when stripped; changing any
other field of either header leaves the result unchanged. -/
theorem rtiff_header_equal_iff (h1 h2 : RtiffHeader) :
    (rtiff_header_equal h1 h2 = true ↔
      (h1.width = h2.width ∧ h1.height = h2.height ∧
        h1.samples_per_pixel = h2.samples_per_pixel ∧
        h1.bits_per_sample = h2.bits_per_sample ∧
        h1.photometric_interpretation = h2.photometric_interpretation ∧
        h1.sample_format = h2.sample_format ∧
        h1.compression = h2.compression ∧
        h1.separate = h2.separate ∧
        h1.tiled = h2.tiled ∧
        h1.orientation = h2.orientation ∧
        (if h1.tiled = true then
          h1.tile_width = h2.tile_width ∧ h1.tile_height = h2.tile_height
         else
          h1.read_height = h2.read_height ∧ h1.read_size = h2.read_size ∧
            h1.number_of_strips = h2.number_of_strips))) ∧
    (∀ (i1 i2 a1 a2 ts1 ts2 tr1 tr2 ss1 ss2 sl1 sl2 sc1 sc2 : Int)
        (rps1 rps2 st1 st2 : Nat) (d1 d2 : Option String)
        (rs1 rs2 wd1 wd2 ra1 ra2 : Bool),
      rtiff_header_equal
        { h1 with inkset := i1, alpha_band := a1, tile_size := ts1, tile_row_size := tr1,
                  rows_per_strip := rps1, strip_size := ss1, scanline_size := sl1,
                  read_scanlinewise := rs1, stonits := st1, subifd_count := sc1,
                  image_description := d1, we_decompress := wd1, read_as_rgba := ra1 }
        { h2 with inkset := i2, alpha_band := a2, tile_size := ts2, tile_row_size := tr2,
                  rows_per_strip := rps2, strip_size := ss2, scanline_size := sl2,
                  read_scanlinewise := rs2, stonits := st2, subifd_count := sc2,
                  image_description := d2, we_decompress := wd2, read_as_rgba := ra2 } =
      rtiff_header_equal h1 h2) := by
  constructor
  · unfold rtiff_header_equal
    cases ht : h1.tiled <;> cases ht2 : h2.tiled <;>
      simp only [ne_eq, ite_eq_left_iff, Bool.if_false_left, Bool.if_true_right,
        Bool.false_eq_true, if_false, if_true, not_or, not_not, not_true, not_false_eq_true,
        or_false, or_true, false_or, true_or, and_true, true_and, and_false, false_and,
        Bool.true_eq_false, reduceCtorEq] <;>
      simp only [Bool.or_false, Bool.and_eq_true, Bool.not_eq_true', decide_eq_false_iff_not,
        not_or, not_not] <;>
      tauto
  · intros
    rfl



theorem rtiff_set_page_select (rtiff : Rtiff) (pg : Int) (d : TiffDir)
    (hcur : rtiff.current_page ≠ pg)
    (hsel : select_page rtiff.tiff.dirs rtiff.subifd pg = some d) :
    rtiff_set_page rtiff pg =
      (0, { rtiff with tiff := { rtiff.tiff with cur := d }, current_page := pg }) := by
  unfold select_page at hsel
  unfold rtiff_set_page TIFFSetDirectory
  rw [if_pos hcur]
  by_cases hpg : pg < 0
  · simp [hpg] at hsel
  · simp only [hpg, if_false] at hsel ⊢
    cases hget : rtiff.tiff.dirs.get? pg.toNat with
    | none => rw [hget] at hsel; simp at hsel
    | some d0 =>
      simp only [hget] at hsel ⊢
      by_cases hsub : rtiff.subifd ≥ 0
      · simp only [hsub, if_true] at hsel ⊢
        cases hcount : d0.tags.subifd with
        | none => rw [hcount] at hsel; simp at hsel
        | some c =>
          simp only [hcount] at hsel ⊢
          by_cases hrange : rtiff.subifd ≥ (c : Int)
          · simp [hrange] at hsel
          · simp only [hrange, if_false] at hsel ⊢
            unfold TIFFSetSubDirectory
            have hnn : ¬ rtiff.subifd < 0 := by omega
            simp only [hnn, if_false]
            cases hs : d0.subdirs.get? rtiff.subifd.toNat with
            | none => rw [hs] at hsel; simp at hsel
            | some o =>
              cases o with
              | none => rw [hs] at hsel; simp at hsel
              | some t =>
                simp only [hs, Option.some.injEq] at hsel ⊢
                subst hsel
                rfl
      · simp only [hsub, if_false, Option.some.injEq] at hsel ⊢
        subst hsel
        rfl

theorem rtiff_set_page_select_none (rtiff : Rtiff) (pg : Int)
    (hcur : rtiff.current_page ≠ pg)
    (hsel : select_page rtiff.tiff.dirs rtiff.subifd pg = none) :
    (rtiff_set_page rtiff pg).1 = -1 := by
  unfold select_page at hsel
  unfold rtiff_set_page TIFFSetDirectory
  rw [if_pos hcur]
  by_cases hpg : pg < 0
  · simp [hpg]
  · simp only [hpg, if_false] at hsel ⊢
    cases hget : rtiff.tiff.dirs.get? pg.toNat with
    | none => simp
    | some d0 =>
      simp only [hget] at hsel ⊢
      by_cases hsub : rtiff.subifd ≥ 0
      · simp only [hsub, if_true] at hsel ⊢
        cases hcount : d0.tags.subifd with
        | none => simp
        | some c =>
          simp only [hcount] at hsel ⊢
          by_cases hrange : rtiff.subifd ≥ (c : Int)
          · simp [hrange]
          · simp only [hrange, if_false] at hsel ⊢
            unfold TIFFSetSubDirectory
            have hnn : ¬ rtiff.subifd < 0 := by omega
            simp only [hnn, if_false]
            cases hs : d0.subdirs.get? rtiff.subifd.toNat with
            | none => simp
            | some o =>
              cases o with
              | none => simp
              | some t => rw [hs] at hsel; simp at hsel
      · simp [hsub] at hsel



theorem later_page_header_eq (have_jpeg : Bool) (junk : RtiffHeader) (rtiff : Rtiff)
    (first : RtiffHeader) (pg : Int) (hpg : 0 ≤ pg) :
    later_page_header have_jpeg junk rtiff first pg =
      (select_page rtiff.tiff.dirs rtiff.subifd pg).bind
        (fun d => (rtiff_header_read have_jpeg d.tags (some first) junk).toOption) := by
  unfold later_page_header
  have hcur : ({ rtiff with current_page := -1 } : Rtiff).current_page ≠ pg := by
    show (-1 : Int) ≠ pg
    omega
  cases hsel : select_page rtiff.tiff.dirs rtiff.subifd pg with
  | none =>
    have h1 := rtiff_set_page_select_none { rtiff with current_page := -1 } pg hcur hsel
    rcases hq : rtiff_set_page { rtiff with current_page := -1 } pg with ⟨rc, r1⟩
    rw [hq] at h1
    simp only at h1
    subst h1
    simp
  | some d =>
    have h1 := rtiff_set_page_select { rtiff with current_page := -1 } pg d hcur hsel
    rw [h1]
    simp

theorem first_page_header_eq (have_jpeg : Bool) (rtiff : Rtiff) (hpg : 0 ≤ rtiff.page) :
    first_page_header have_jpeg rtiff =
      (select_page rtiff.tiff.dirs rtiff.subifd rtiff.page).bind
        (fun d => (rtiff_header_read have_jpeg d.tags none rtiff.header).toOption) := by
  unfold first_page_header
  have hcur : ({ rtiff with current_page := -1 } : Rtiff).current_page ≠ rtiff.page := by
    show (-1 : Int) ≠ rtiff.page
    omega
  cases hsel : select_page rtiff.tiff.dirs rtiff.subifd rtiff.page with
  | none =>
    have h1 := rtiff_set_page_select_none { rtiff with current_page := -1 } rtiff.page hcur hsel
    rcases hq : rtiff_set_page { rtiff with current_page := -1 } rtiff.page with ⟨rc, r1⟩
    rw [hq] at h1
    simp only at h1
    subst h1
    simp
  | some d =>
    have h1 := rtiff_set_page_select { rtiff with current_page := -1 } rtiff.page d hcur hsel
    rw [h1]
    simp

theorem header_verify_loop_spec (have_jpeg : Bool) (junk : RtiffHeader) :
    ∀ (k : Nat) (i : Int) (r : Rtiff), 1 ≤ i → 0 ≤ r.page → r.current_page ≠ r.page + i →
      ((header_verify_loop have_jpeg junk k i r).1 = 0 ∨
        (header_verify_loop have_jpeg junk k i r).1 = -1) ∧
      ((header_verify_loop have_jpeg junk k i r).1 = 0 ↔
        ∀ j : Int, i ≤ j → j < i + k →
          page_matches have_jpeg junk r r.header (r.page + j)) ∧
      ((header_verify_loop have_jpeg junk k i r).1 = 0 →
        (header_verify_loop have_jpeg junk k i r).2.header = r.header ∧
        (header_verify_loop have_jpeg junk k i r).2.page = r.page ∧
        (header_verify_loop have_jpeg junk k i r).2.n = r.n ∧
        (header_verify_loop have_jpeg junk k i r).2.n_pages = r.n_pages) := by
  intro k
  induction k with
  | zero =>
    intro i r _ _ _
    simp only [header_verify_loop, true_or, true_and, and_self, implies_true, and_true]
    constructor
    · intro _ j h1 h2
      simp only [Nat.cast_zero, add_zero] at h2
      omega
    · intro _
      trivial
  | succ k ih =>
    intro i r hi hpage hcur
    have hpg : 0 ≤ r.page + i := by omega
    have hlater := later_page_header_eq have_jpeg junk r r.header (r.page + i) hpg
    rw [header_verify_loop]
    cases hsel : select_page r.tiff.dirs r.subifd (r.page + i) with
    | none =>
      have h1 := rtiff_set_page_select_none r (r.page + i) hcur hsel
      rcases hq : rtiff_set_page r (r.page + i) with ⟨rc, r1⟩
      rw [hq] at h1
      simp only at h1
      subst h1
      simp only [ne_eq, Int.reduceNeg, neg_eq_zero, one_ne_zero, not_false_eq_true, if_true,
        or_true, false_iff, false_implies, and_true, true_and, not_forall]
      refine ⟨i, le_refl _, by push_cast; omega, ?_⟩
      rintro ⟨h, hh, _⟩
      rw [hlater, hsel] at hh
      simp at hh
    | some d =>
      have h1 := rtiff_set_page_select r (r.page + i) d hcur hsel
      rw [h1]
      simp only [ne_eq, not_true_eq_false, if_false]
      rw [hsel] at hlater
      simp only [Option.some_bind] at hlater
      cases hread : rtiff_header_read have_jpeg d.tags (some r.header) junk with
      | error e =>
        rw [hread] at hlater
        simp only [Int.reduceNeg, neg_eq_zero, one_ne_zero, or_true, false_iff, false_implies,
          and_true, true_and, not_forall]
        refine ⟨i, le_refl _, by push_cast; omega, ?_⟩
        rintro ⟨h, hh, _⟩
        rw [hlater] at hh
        simp [Except.toOption] at hh
      | ok h =>
        rw [hread] at hlater
        simp only [Except.toOption] at hlater
        by_cases heq : rtiff_header_equal r.header h = true
        · simp only [heq, Bool.not_true, Bool.false_eq_true, if_false]
          have hih := ih (i + 1)
            { r with tiff := { r.tiff with cur := d }, current_page := r.page + i }
            (by omega) hpage (by show r.page + i ≠ r.page + (i + 1); omega)
          refine ⟨hih.1, ?_, hih.2.2⟩
          rw [hih.2.1]
          constructor
          · intro hall j hj1 hj2
            by_cases hji : j = i
            · subst hji
              exact ⟨h, hlater, heq⟩
            · have hpj : 0 ≤ r.page + j := by omega
              have hm : page_matches have_jpeg junk
                  { r with tiff := { r.tiff with cur := d }, current_page := r.page + i }
                  r.header (r.page + j) :=
                hall j (by omega) (by push_cast at hj2 ⊢; omega)
              unfold page_matches at hm ⊢
              rw [later_page_header_eq _ _ _ _ _ hpj] at hm ⊢
              exact hm
          · intro hall j hj1 hj2
            have hpj : 0 ≤ r.page + j := by omega
            have hm := hall j (by omega) (by push_cast at hj2 ⊢; omega)
            show page_matches have_jpeg junk
                  { r with tiff := { r.tiff with cur := d }, current_page := r.page + i }
                  r.header (r.page + j)
            unfold page_matches at hm ⊢
            rw [later_page_header_eq _ _ _ _ _ hpj] at hm ⊢
            exact hm
        · have heq' : rtiff_header_equal r.header h = false := by
            cases hb : rtiff_header_equal r.header h <;> simp_all
          simp only [heq', Bool.not_false, if_true, Int.reduceNeg, neg_eq_zero, one_ne_zero,
            or_true, false_iff, false_implies, and_true, true_and, not_forall]
          refine ⟨i, le_refl _, by push_cast; omega, ?_⟩
          rintro ⟨h', hh, he⟩
          rw [hlater] at hh
          simp only [Option.some.injEq] at hh
          subst hh
          rw [heq'] at he
          exact Bool.noConfusion he

theorem counted_fields (rtiff : Rtiff) :
    (counted rtiff).page = rtiff.page ∧ (counted rtiff).subifd = rtiff.subifd ∧
    (counted rtiff).tiff.dirs = rtiff.tiff.dirs ∧ (counted rtiff).current_page = -1 ∧
    (counted rtiff).header = rtiff.header ∧ (counted rtiff).n = rtiff.n ∧
    (counted rtiff).n_pages = ((1 + (rtiff.tiff.dirs.length - 1) : Nat) : Int) := by
  unfold counted rtiff_n_pages
  refine ⟨rfl, rfl, ?_, rfl, rfl, rfl, rfl⟩
  simp only
  cases rtiff.tiff.dirs.getLast? <;> rfl

theorem rtiff_header_read_all_unfold (have_jpeg : Bool) (junk : RtiffHeader) (rtiff : Rtiff) :
    rtiff_header_read_all have_jpeg junk rtiff =
      match rtiff_set_page (counted rtiff) (counted rtiff).page with
      | (rc, rtiff2) =>
        if rc ≠ 0 then (-1, rtiff2)
        else
          match rtiff_header_read have_jpeg rtiff2.tiff.cur.tags none rtiff2.header with
          | Except.error _ => (-1, rtiff2)
          | Except.ok header =>
            header_read_all_verify have_jpeg junk { rtiff2 with header := header } := by
  rfl

theorem rtiff_header_read_all_ok (have_jpeg : Bool) (junk : RtiffHeader) (rtiff r2 : Rtiff)
    (H : RtiffHeader)
    (hset : rtiff_set_page (counted rtiff) (counted rtiff).page = (0, r2))
    (hread : rtiff_header_read have_jpeg r2.tiff.cur.tags none r2.header = Except.ok H) :
    rtiff_header_read_all have_jpeg junk rtiff =
      header_read_all_verify have_jpeg junk { r2 with header := H } := by
  rw [rtiff_header_read_all_unfold, hset]
  simp only [ne_eq, not_true_eq_false, if_false]
  rw [hread]

theorem rtiff_header_read_all_bad_header (have_jpeg : Bool) (junk : RtiffHeader)
    (rtiff r2 : Rtiff) (e : String)
    (hset : rtiff_set_page (counted rtiff) (counted rtiff).page = (0, r2))
    (hread : rtiff_header_read have_jpeg r2.tiff.cur.tags none r2.header = Except.error e) :
    (rtiff_header_read_all have_jpeg junk rtiff).1 = -1 := by
  rw [rtiff_header_read_all_unfold, hset]
  simp only [ne_eq, not_true_eq_false, if_false]
  rw [hread]

theorem rtiff_header_read_all_bad_page (have_jpeg : Bool) (junk : RtiffHeader)
    (rtiff : Rtiff)
    (hset : (rtiff_set_page (counted rtiff) (counted rtiff).page).1 = -1) :
    (rtiff_header_read_all have_jpeg junk rtiff).1 = -1 := by
  rw [rtiff_header_read_all_unfold]
  rcases hq : rtiff_set_page (counted rtiff) (counted rtiff).page with ⟨rc, r2⟩
  rw [hq] at hset
  simp only at hset
  subst hset
  simp

theorem page_matches_congr (have_jpeg : Bool) (junk : RtiffHeader) (r r' : Rtiff)
    (first : RtiffHeader) (pg : Int) (hpg : 0 ≤ pg) (hd : r'.tiff.dirs = r.tiff.dirs)
    (hs : r'.subifd = r.subifd) :
    page_matches have_jpeg junk r' first pg ↔ page_matches have_jpeg junk r first pg := by
  unfold page_matches
  rw [later_page_header_eq _ _ _ _ _ hpg, later_page_header_eq _ _ _ _ _ hpg, hd, hs]

theorem header_read_all_verify_spec (have_jpeg : Bool) (junk : RtiffHeader) (r : Rtiff)
    (hpage : 0 ≤ r.page) (hcur : r.current_page = r.page) :
    ∀ n : Int, n = (if r.n = -1 then r.n_pages - r.page else r.n) →
      ((header_read_all_verify have_jpeg junk r).1 = 0 ∨
        (header_read_all_verify have_jpeg junk r).1 = -1) ∧
      (n ≤ 1 → (header_read_all_verify have_jpeg junk r).1 = 0) ∧
      (n > 1 →
        ((header_read_all_verify have_jpeg junk r).1 = 0 ↔
          ∀ i : Int, 1 ≤ i → i < n → page_matches have_jpeg junk r r.header (r.page + i))) ∧
      ((header_read_all_verify have_jpeg junk r).1 = 0 →
        (header_read_all_verify have_jpeg junk r).2.header = r.header ∧
        (header_read_all_verify have_jpeg junk r).2.n = n ∧
        (header_read_all_verify have_jpeg junk r).2.n_pages = r.n_pages ∧
        (n > 1 → (header_read_all_verify have_jpeg junk r).2.current_page = -1)) := by
  intro n hn
  -- the state with `n` settled
  obtain ⟨r4, hr4, h4page, h4cur, h4hdr, h4n, h4np, h4dirs, h4sub⟩ :
      ∃ r4 : Rtiff,
        r4 = (if r.n = -1 then { r with n := r.n_pages - r.page } else r) ∧
        r4.page = r.page ∧ r4.current_page = r.current_page ∧ r4.header = r.header ∧
        r4.n = n ∧ r4.n_pages = r.n_pages ∧ r4.tiff.dirs = r.tiff.dirs ∧
        r4.subifd = r.subifd := by
    refine ⟨_, rfl, ?_⟩
    by_cases h : r.n = -1
    · rw [if_pos h] at hn
      rw [if_pos h]
      exact ⟨rfl, rfl, rfl, hn.symm, rfl, rfl, rfl⟩
    · rw [if_neg h] at hn
      rw [if_neg h]
      exact ⟨rfl, rfl, rfl, hn.symm, rfl, rfl, rfl⟩
  have hunf : header_read_all_verify have_jpeg junk r =
      (if r4.n > 1 then
        match header_verify_loop have_jpeg junk (r4.n - 1).toNat 1 r4 with
        | (rc2, rtiff5) =>
          if rc2 ≠ 0 then (-1, rtiff5)
          else (0, { rtiff5 with current_page := -1 })
      else (0, r4)) := by
    rw [hr4]; rfl
  rw [hunf, h4n]
  by_cases hn1 : n > 1
  · rw [if_pos hn1]
    have hspec := header_verify_loop_spec have_jpeg junk (n - 1).toNat 1 r4 (le_refl _)
      (by rw [h4page]; exact hpage) (by rw [h4cur, h4page, hcur]; omega)
    rcases hL : header_verify_loop have_jpeg junk (n - 1).toNat 1 r4 with ⟨rc2, r5⟩
    rw [hL] at hspec
    simp only at hspec
    obtain ⟨hrc, hiff, hkeep⟩ := hspec
    have hall : (∀ j : Int, 1 ≤ j → j < 1 + ((n - 1).toNat : Int) →
          page_matches have_jpeg junk r4 r4.header (r4.page + j)) ↔
        (∀ i : Int, 1 ≤ i → i < n → page_matches have_jpeg junk r r.header (r.page + i)) := by
      have hcast : (1 : Int) + ((n - 1).toNat : Int) = n := by
        rw [Int.toNat_of_nonneg (by omega)]; ring
      rw [hcast, h4hdr, h4page]
      constructor
      · intro h i hi1 hi2
        exact (page_matches_congr have_jpeg junk r r4 r.header (r.page + i) (by omega)
          h4dirs h4sub).1 (h i hi1 hi2)
      · intro h i hi1 hi2
        exact (page_matches_congr have_jpeg junk r r4 r.header (r.page + i) (by omega)
          h4dirs h4sub).2 (h i hi1 hi2)
    rcases hrc with hrc | hrc
    · subst hrc
      have hred : (match ((0 : Int), r5) with
          | (rc2, rtiff5) =>
            if rc2 ≠ 0 then ((-1 : Int), rtiff5)
            else (0, { rtiff5 with current_page := -1 })) =
          (0, { r5 with current_page := -1 }) := rfl
      rw [hred]
      have hk := hkeep rfl
      refine ⟨Or.inl rfl, fun _ => rfl, fun _ => ⟨fun _ => hall.1 (hiff.1 rfl), fun _ => rfl⟩,
        fun _ => ⟨?_, ?_, ?_, fun _ => rfl⟩⟩
      · show r5.header = r.header
        rw [hk.1, h4hdr]
      · show r5.n = n
        rw [hk.2.2.1, h4n]
      · show r5.n_pages = r.n_pages
        rw [hk.2.2.2, h4np]
    · subst hrc
      have hred : (match ((-1 : Int), r5) with
          | (rc2, rtiff5) =>
            if rc2 ≠ 0 then ((-1 : Int), rtiff5)
            else (0, { rtiff5 with current_page := -1 })) =
          (-1, r5) := rfl
      rw [hred]
      have hne : ¬ ((-1 : Int) = 0) := by decide
      refine ⟨Or.inr rfl, fun h => absurd h (by omega),
        fun _ => ⟨fun h => absurd h hne, fun hcontra => ?_⟩, fun h => absurd h hne⟩
      exact absurd (hiff.2 (hall.2 hcontra)) hne
  · rw [if_neg hn1]
    exact ⟨Or.inl rfl, fun _ => rfl, fun h => absurd h hn1,
      fun _ => ⟨h4hdr, h4n, h4np, fun h => absurd h hn1⟩⟩

/-- C5: for a request starting at a valid page, `rtiff_header_read_all`
returns 0 or -1; it fails when the first page cannot be read; otherwise,
with `n` the requested page count after `n = -1` has been replaced by
`n_pages - page`: a single-page read succeeds, a read of `n > 1` pages
succeeds exactly when every page `page + 1 .. page + n - 1` is readable and
its header is equal (`rtiff_header_equal`) to the header of the first page,
so it fails whenever some page differs; and after success the state holds
the first header, the settled `n`, the page count, and, when `n > 1`,
`current_page = -1`. -/
theorem rtiff_header_read_all_spec (have_jpeg : Bool) (junk : RtiffHeader) (rtiff : Rtiff)
    (hpage : 0 ≤ rtiff.page) :
    ((rtiff_header_read_all have_jpeg junk rtiff).1 = 0 ∨
      (rtiff_header_read_all have_jpeg junk rtiff).1 = -1) ∧
    (first_page_header have_jpeg rtiff = none →
      (rtiff_header_read_all have_jpeg junk rtiff).1 = -1) ∧
    (∀ first, first_page_header have_jpeg rtiff = some first →
      ∀ n_pages n : Int, n_pages = ((1 + (rtiff.tiff.dirs.length - 1) : Nat) : Int) →
        n = (if rtiff.n = -1 then n_pages - rtiff.page else rtiff.n) →
        (n ≤ 1 → (rtiff_header_read_all have_jpeg junk rtiff).1 = 0) ∧
        (n > 1 →
          ((rtiff_header_read_all have_jpeg junk rtiff).1 = 0 ↔
            ∀ i : Int, 1 ≤ i → i < n →
              ∃ h, later_page_header have_jpeg junk rtiff first (rtiff.page + i) = some h ∧
                rtiff_header_equal first h = true)) ∧
        ((rtiff_header_read_all have_jpeg junk rtiff).1 = 0 →
          (rtiff_header_read_all have_jpeg junk rtiff).2.header = first ∧
          (rtiff_header_read_all have_jpeg junk rtiff).2.n = n ∧
          (rtiff_header_read_all have_jpeg junk rtiff).2.n_pages = n_pages ∧
          (n > 1 → (rtiff_header_read_all have_jpeg junk rtiff).2.current_page = -1))) := by
  have hfirst := first_page_header_eq have_jpeg rtiff hpage
  obtain ⟨hcp, hcs, hcd, hcc, hch, hcn, hcnp⟩ := counted_fields rtiff
  have hcur : (counted rtiff).current_page ≠ (counted rtiff).page := by
    rw [hcc, hcp]; omega
  cases hsel : select_page rtiff.tiff.dirs rtiff.subifd rtiff.page with
  | none =>
    rw [hsel] at hfirst
    have h1 := rtiff_set_page_select_none (counted rtiff) (counted rtiff).page hcur
      (by rw [hcd, hcs, hcp]; exact hsel)
    have hbad := rtiff_header_read_all_bad_page have_jpeg junk rtiff h1
    refine ⟨Or.inr hbad, fun _ => hbad, ?_⟩
    intro first hf
    rw [hfirst] at hf
    exact absurd hf (by simp)
  | some d =>
    rw [hsel] at hfirst
    simp only [Option.some_bind] at hfirst
    have h1 := rtiff_set_page_select (counted rtiff) (counted rtiff).page d hcur
      (by rw [hcd, hcs, hcp]; exact hsel)
    cases hread : rtiff_header_read have_jpeg d.tags none rtiff.header with
    | error e =>
      rw [hread] at hfirst
      have hbad := rtiff_header_read_all_bad_header have_jpeg junk rtiff _ e h1
        (by rw [← hread, ← hch])
      refine ⟨Or.inr hbad, fun _ => hbad, ?_⟩
      intro first hf
      rw [hfirst] at hf
      exact absurd hf (by simp [Except.toOption])
    | ok H =>
      rw [hread] at hfirst
      simp only [Except.toOption] at hfirst
      have hok := rtiff_header_read_all_ok have_jpeg junk rtiff _ H h1 (by rw [← hread, ← hch])
      obtain ⟨r3, hr3⟩ : ∃ r3 : Rtiff, r3 =
          { ({ counted rtiff with
              tiff := { (counted rtiff).tiff with cur := d },
              current_page := (counted rtiff).page } : Rtiff) with header := H } := ⟨_, rfl⟩
      rw [← hr3] at hok
      have h3page : r3.page = rtiff.page := by rw [hr3]; exact hcp
      have h3cur : r3.current_page = r3.page := by rw [hr3]
      have h3hdr : r3.header = H := by rw [hr3]
      have h3n : r3.n = rtiff.n := by rw [hr3]; exact hcn
      have h3np : r3.n_pages = ((1 + (rtiff.tiff.dirs.length - 1) : Nat) : Int) := by
        rw [hr3]; exact hcnp
      have h3dirs : r3.tiff.dirs = rtiff.tiff.dirs := by rw [hr3]; exact hcd
      have h3sub : r3.subifd = rtiff.subifd := by rw [hr3]; exact hcs
      rw [hok, hfirst]
      have hv := header_read_all_verify_spec have_jpeg junk r3 (by rw [h3page]; exact hpage) h3cur
      refine ⟨(hv _ rfl).1, fun h => absurd h (by simp), ?_⟩
      intro first hf n_pages n hnp hn
      simp only [Option.some.injEq] at hf
      subst hf
      have hn' : n = (if r3.n = -1 then r3.n_pages - r3.page else r3.n) := by
        rw [h3n, h3np, h3page, ← hnp]; exact hn
      obtain ⟨_, hle, hgt, hkeep⟩ := hv n hn'
      rw [h3hdr, h3page] at hgt
      refine ⟨hle, ?_, ?_⟩
      · intro hn1
        rw [hgt hn1]
        constructor
        · intro h i hi1 hi2
          exact (page_matches_congr have_jpeg junk rtiff r3 H (rtiff.page + i) (by omega)
            h3dirs h3sub).1 (h i hi1 hi2)
        · intro h i hi1 hi2
          exact (page_matches_congr have_jpeg junk rtiff r3 H (rtiff.page + i) (by omega)
            h3dirs h3sub).2 (h i hi1 hi2)
      · intro h0
        have hk := hkeep h0
        exact ⟨by rw [hk.1, h3hdr], hk.2.1, by rw [hk.2.2.1, h3np, hnp], hk.2.2.2⟩


/-- Witness for C5: two identical 1x1 grey pages read with `n = 2` from
page 0 are verified, and `current_page` is invalidated afterwards. -/
theorem rtiff_header_read_all_spec_witness :
    (0 : Int) ≤ (rtiff_of_tags [grey_tags 1 1, grey_tags 1 1] 0 2).page ∧
    (rtiff_header_read_all true RtiffHeader.zero
      (rtiff_of_tags [grey_tags 1 1, grey_tags 1 1] 0 2)).1 = 0 ∧
    (rtiff_header_read_all true RtiffHeader.zero
      (rtiff_of_tags [grey_tags 1 1, grey_tags 1 1] 0 2)).2.current_page = -1 ∧
    (rtiff_header_read_all true RtiffHeader.zero
      (rtiff_of_tags [grey_tags 1 1, grey_tags 1 1] 0 2)).2.n = 2 := by
  have hspec := rtiff_header_read_all_spec true RtiffHeader.zero
    (rtiff_of_tags [grey_tags 1 1, grey_tags 1 1] 0 2) (by decide)
  have hfirst : first_page_header true (rtiff_of_tags [grey_tags 1 1, grey_tags 1 1] 0 2) =
      some ((first_page_header true
        (rtiff_of_tags [grey_tags 1 1, grey_tags 1 1] 0 2)).getD RtiffHeader.zero) := by
    rfl
  have h := hspec.2.2 _ hfirst 2 2 (by decide) (by decide)
  have hok := (h.2.1 (by decide)).2 (by
    intro i h1 h2
    have hi : i = 1 := by omega
    subst hi
    exact ⟨_, rfl, rfl⟩)
  exact ⟨by decide, hok, (h.2.2 hok).2.2.2 (by decide), (h.2.2 hok).2.1⟩

/-! ## The output header -/

set_option maxRecDepth 10000000 in
set_option maxHeartbeats 4000000 in
/-- C6 (the code at the failing input): for two 1x1 pages read with `n = 2`
`rtiff_set_header` gives height 2 and page-height 1; for 215 verified pages
of 9999999 rows it succeeds and sets the output height to -2144967511,
although page_height * n is 2149999785: the 32-bit product wraps. -/
theorem rtiff_set_header_height_overflow :
    two_page_image.Xsize = 1 ∧ two_page_image.Ysize = 2 ∧
    vips_image_get_int two_page_image VIPS_META_PAGE_HEIGHT = some 1 ∧
    (rtiff_header_read_all true RtiffHeader.zero
      (rtiff_of_tags (List.replicate 215 (grey_tags 1 9999999)) 0 215)).1 = 0 ∧
    (rtiff_of_grey_pages 1 9999999 215).n = 215 ∧
    (rtiff_of_grey_pages 1 9999999 215).header.height = 9999999 ∧
    (rtiff_set_header (rtiff_of_grey_pages 1 9999999 215) VipsImage.new).1 = 0 ∧
    (rtiff_set_header (rtiff_of_grey_pages 1 9999999 215) VipsImage.new).2.2.Ysize =
      -2144967511 ∧
    ((rtiff_of_grey_pages 1 9999999 215).header.height : Int) *
      (rtiff_of_grey_pages 1 9999999 215).n = 2149999785 := by
  decide

/-! ### The size set by `rtiff_set_header` when nothing wraps -/


theorem find_filter_ne (l : List (String × Int)) (k k' : String) (hk : k ≠ k') :
    (l.filter (fun e => e.1 ≠ k)).find? (fun e => e.1 = k') = l.find? (fun e => e.1 = k') := by
  induction l with
  | nil => rfl
  | cons e l ih =>
    by_cases he : e.1 = k
    · have hne : ¬ e.1 = k' := by rw [he]; exact hk
      have h1 : decide (e.1 ≠ k) = false := by simp [he]
      have h2 : decide (e.1 = k') = false := by simp [hne]
      rw [List.filter_cons, List.find?_cons]
      simp only [h1, h2, Bool.false_eq_true, if_false]
      exact ih
    · have h1 : decide (e.1 ≠ k) = true := by simp [he]
      rw [List.filter_cons]
      simp only [h1, if_true]
      rw [List.find?_cons, List.find?_cons, ih]

theorem vips_image_get_set_int_ne (out : VipsImage) (k k' : String) (v : Int) (hk : k ≠ k') :
    vips_image_get_int (vips_image_set_int out k v) k' = vips_image_get_int out k' := by
  unfold vips_image_get_int vips_image_set_int
  simp only [List.find?]
  have hne : ¬ k = k' := hk
  simp only [hne, decide_False]
  rw [find_filter_ne _ _ _ hk]

theorem vips_image_get_set_int_eq (out : VipsImage) (k : String) (v : Int) :
    vips_image_get_int (vips_image_set_int out k v) k = some v := by
  unfold vips_image_get_int vips_image_set_int
  simp [List.find?]

theorem size_of_geom (a b : VipsImage) (h : geom_fields a = geom_fields b) :
    size_fields a = size_fields b := by
  unfold geom_fields at h
  simp only [Prod.mk.injEq] at h
  unfold size_fields vips_image_get_int
  rw [h.1, h.2.1, h.2.2]

theorem reader_run_geom (rd : Reader) (rtiff : Rtiff) (out : VipsImage) :
    geom_fields (rd.run rtiff out).2.2 = geom_fields out := by
  cases rd <;> simp only [Reader.run]
  · rfl
  · unfold rtiff_parse_lab_with_alpha; split_ifs <;> rfl
  · unfold rtiff_parse_labpack; split_ifs <;> rfl
  · unfold rtiff_parse_labs; split_ifs <;> rfl
  · unfold rtiff_parse_logluv; split_ifs <;> rfl
  · unfold rtiff_parse_onebit; split_ifs <;> rfl
  · unfold rtiff_parse_twobit; split_ifs <;> rfl
  · unfold rtiff_parse_fourbit; split_ifs <;> rfl
  · unfold rtiff_parse_greyscale; simp only []; split_ifs <;> rfl
  · unfold rtiff_parse_palette
    simp only []
    cases rtiff.tiff.cur.tags.colormap with
    | none => split_ifs <;> rfl
    | some c =>
      obtain ⟨r16, g16, b16⟩ := c
      simp only []
      split_ifs <;> rfl
  · unfold rtiff_parse_copy; simp only []; split_ifs <;> rfl

theorem get_resolution_geom (tags : TiffTags) (out : VipsImage) :
    geom_fields (get_resolution tags out).2 = geom_fields out := by
  unfold get_resolution
  cases tags.xresolution <;> cases tags.yresolution <;> cases tags.resolutionunit <;>
    simp only [] <;> first | rfl | (split_ifs <;> rfl)

theorem set_int_size (out : VipsImage) (k : String) (v : Int)
    (hk : k ≠ VIPS_META_PAGE_HEIGHT) :
    size_fields (vips_image_set_int out k v) = size_fields out := by
  unfold size_fields
  rw [vips_image_get_set_int_ne out k _ v hk]
  rfl

theorem set_blob_if_present_geom (out : VipsImage) (k : String) (o : Option (List Nat)) :
    geom_fields (set_blob_if_present out k o) = geom_fields out := by
  cases o <;> rfl

theorem set_description_if_present_geom (out : VipsImage) (o : Option String) :
    geom_fields (set_description_if_present out o) = geom_fields out := by
  cases o <;> rfl

theorem set_header_blobs_geom (rtiff : Rtiff) (out : VipsImage) :
    geom_fields (set_header_blobs rtiff out) = geom_fields out := by
  unfold set_header_blobs
  simp only []
  rw [set_description_if_present_geom, set_blob_if_present_geom, set_blob_if_present_geom,
    set_blob_if_present_geom, set_blob_if_present_geom, set_blob_if_present_geom]

theorem set_dhint_size (out : VipsImage) (d : Option VipsDemandStyle) :
    size_fields { out with dhint := d } = size_fields out := rfl

theorem set_header_metadata_size (rtiff : Rtiff) (out : VipsImage) :
    size_fields (set_header_metadata rtiff out).2 = size_fields out := by
  unfold set_header_metadata
  have hr := get_resolution_geom rtiff.tiff.cur.tags (set_header_blobs rtiff out)
  rw [set_header_blobs_geom] at hr
  rcases hres : get_resolution rtiff.tiff.cur.tags (set_header_blobs rtiff out) with ⟨rc2, out12⟩
  rw [hres] at hr
  have hr' : size_fields out12 = size_fields out := size_of_geom _ _ hr
  have hb : VIPS_META_BITS_PER_SAMPLE ≠ VIPS_META_PAGE_HEIGHT := by decide
  have ho : VIPS_META_ORIENTATION ≠ VIPS_META_PAGE_HEIGHT := by decide
  simp only []
  by_cases hrc : rc2 ≠ 0
  · rw [if_pos hrc]
    exact hr'
  · rw [if_neg hrc]
    simp only []
    rw [set_dhint_size, set_int_size _ _ _ ho, set_int_size _ _ _ hb]
    exact hr'

theorem set_size_size (out : VipsImage) (x y : Int) :
    size_fields { out with Xsize := x, Ysize := y } =
      (x, y, vips_image_get_int out VIPS_META_PAGE_HEIGHT) := rfl

theorem set_stonits_size (out : VipsImage) (c : Prop) [Decidable c] (v : Nat) :
    size_fields (if c then vips_image_set_double out "stonits" v else out) =
      size_fields out := by
  split_ifs <;> rfl

theorem set_header_geometry_size (rtiff : Rtiff) (out : VipsImage) :
    size_fields (set_header_geometry rtiff out) =
      (to_int32 rtiff.header.width,
       to_int32 ((rtiff.header.height * to_u32 rtiff.n) % 4294967296 : Nat),
       if rtiff.n > 1 then some (to_int32 rtiff.header.height)
       else vips_image_get_int out VIPS_META_PAGE_HEIGHT) := by
  unfold set_header_geometry
  simp only []
  have hp : VIPS_META_N_PAGES ≠ VIPS_META_PAGE_HEIGHT := by decide
  have hs : VIPS_META_N_SUBIFDS ≠ VIPS_META_PAGE_HEIGHT := by decide
  rw [set_int_size _ _ _ hp]
  have h4 : ∀ o : VipsImage, size_fields (if rtiff.header.subifd_count > 0 then
      vips_image_set_int o VIPS_META_N_SUBIFDS rtiff.header.subifd_count else o) =
      size_fields o := by
    intro o; split_ifs
    · exact set_int_size _ _ _ hs
    · rfl
  rw [h4]
  have hget := congrArg (fun t => t.2.2)
    (set_stonits_size out (rtiff.header.photometric_interpretation = PHOTOMETRIC_LOGLUV)
      rtiff.header.stonits)
  by_cases hn : rtiff.n > 1
  · rw [if_pos hn, if_pos hn]
    unfold size_fields
    rw [vips_image_get_set_int_eq]
    rfl
  · rw [if_neg hn, if_neg hn, set_size_size]
    exact congrArg (fun t => (_, _, t)) hget

/-- The in-range behaviour of `rtiff_set_header`: when it succeeds and the
page width, the page height and the product of the page height and `n` fit
a C `int`, the output width is the page width, the output height is
`page_height * n`, and the page-height item is the page height when `n > 1`
and is left as it was otherwise. -/
theorem rtiff_set_header_size_in_range (rtiff : Rtiff) (out : VipsImage)
    (hw : rtiff.header.width < 2147483648) (hh : rtiff.header.height < 2147483648)
    (hn : 0 ≤ rtiff.n) (hfit : (rtiff.header.height : Int) * rtiff.n < 2147483648) :
    (rtiff_set_header rtiff out).2.2.Xsize = rtiff.header.width ∧
    (rtiff_set_header rtiff out).2.2.Ysize = rtiff.header.height * rtiff.n ∧
    vips_image_get_int (rtiff_set_header rtiff out).2.2 VIPS_META_PAGE_HEIGHT =
      (if rtiff.n > 1 then some (rtiff.header.height : Int)
       else vips_image_get_int out VIPS_META_PAGE_HEIGHT) := by
  have hsize : size_fields (rtiff_set_header rtiff out).2.2 =
      size_fields (set_header_geometry rtiff out) := by
    unfold rtiff_set_header
    have hrun := size_of_geom _ _ (reader_run_geom (rtiff_pick_reader rtiff.header) rtiff
      (set_header_geometry rtiff out))
    rcases hq : (rtiff_pick_reader rtiff.header).run rtiff (set_header_geometry rtiff out)
      with ⟨rc, rtiff1, out6⟩
    rw [hq] at hrun
    simp only [] at hrun ⊢
    by_cases hrc : rc ≠ 0
    · rw [if_pos hrc]
      exact hrun
    · rw [if_neg hrc, ← hrun]
      exact set_header_metadata_size rtiff1 out6
  rw [set_header_geometry_size] at hsize
  unfold size_fields at hsize
  simp only [Prod.mk.injEq] at hsize
  obtain ⟨hx, hy, hp⟩ := hsize
  have hprod : (((rtiff.header.height * to_u32 rtiff.n) % 4294967296 : Nat) : Int) =
      (rtiff.header.height : Int) * rtiff.n := by
    unfold to_u32
    push_cast
    rw [Int.toNat_of_nonneg (Int.emod_nonneg _ (by norm_num)), Int.mul_emod, Int.emod_emod,
      ← Int.mul_emod]
    apply Int.emod_eq_of_lt
    · exact mul_nonneg (Int.ofNat_nonneg _) hn
    · omega
  have hxw : to_int32 (rtiff.header.width : Int) = rtiff.header.width := by
    unfold to_int32; omega
  have hhh : to_int32 (rtiff.header.height : Int) = rtiff.header.height := by
    unfold to_int32; omega
  have hyy : to_int32 (((rtiff.header.height * to_u32 rtiff.n) % 4294967296 : Nat) : Int) =
      rtiff.header.height * rtiff.n := by
    rw [hprod]
    have hnn : 0 ≤ (rtiff.header.height : Int) * rtiff.n :=
      mul_nonneg (Int.ofNat_nonneg _) hn
    generalize (rtiff.header.height : Int) * rtiff.n = v at hfit hnn
    unfold to_int32; omega
  refine ⟨by rw [hx, hxw], by rw [hy, hyy], ?_⟩
  rw [hp, hhh]

set_option maxRecDepth 100000 in
/-- The claim's own example through `rtiff_set_header_size_in_range`: two
1x1 pages read with `n = 2` give width 1, height 2 and page-height 1. -/
theorem rtiff_set_header_size_in_range_witness :
    (rtiff_set_header (rtiff_of_grey_pages 1 1 2) VipsImage.new).2.2.Xsize = 1 ∧
    (rtiff_set_header (rtiff_of_grey_pages 1 1 2) VipsImage.new).2.2.Ysize = 2 ∧
    vips_image_get_int (rtiff_set_header (rtiff_of_grey_pages 1 1 2) VipsImage.new).2.2
      VIPS_META_PAGE_HEIGHT = some 1 :=
  rtiff_set_header_size_in_range (rtiff_of_grey_pages 1 1 2) VipsImage.new
    (by decide) (by decide) (by decide) (by decide)


/-! ## The strip reader -/

/-- C7: when the top of the requested region differs from the running
`y_pos`, `rtiff_stripwise_generate` fails (returns -1) whatever the fuel,
and the reader state it returns is the state it was given: no strip read is
logged and `y_pos` is unchanged. -/
theorem rtiff_stripwise_generate_out_of_order (fuel : Nat) (out : VipsImage) (r : VipsRect)
    (rtiff : Rtiff) (htop : r.top ≠ rtiff.y_pos) :
    rtiff_stripwise_generate fuel out r rtiff = some (-1, rtiff) ∧
    ∀ res, rtiff_stripwise_generate fuel out r rtiff = some res →
      res.1 = -1 ∧ res.2.y_pos = rtiff.y_pos ∧
      res.2.tiff.read_log = rtiff.tiff.read_log := by
  have hgen : rtiff_stripwise_generate fuel out r rtiff = some (-1, rtiff) := by
    unfold rtiff_stripwise_generate
    rw [if_pos htop]
  refine ⟨hgen, ?_⟩
  intro res hres
  rw [hgen] at hres
  cases hres
  exact ⟨rfl, rfl, rfl⟩

set_option maxRecDepth 100000 in
/-- Witness for C7: on the two-page image, whose reader is at `y_pos = 0`, a
request for the row at top 1 fails and leaves the reader untouched. -/
theorem rtiff_stripwise_generate_out_of_order_witness :
    (1 : Int) ≠ two_page_reader.y_pos ∧
    rtiff_stripwise_generate 4 two_page_image
      { left := 0, top := 1, width := 1, height := 1 } two_page_reader =
        some (-1, two_page_reader) :=
  ⟨by decide,
   (rtiff_stripwise_generate_out_of_order 4 two_page_image
      { left := 0, top := 1, width := 1, height := 1 } two_page_reader (by decide)).1⟩

/-! ## The bit-expanding kernels -/

set_option maxRecDepth 100000 in
theorem nbit1_byte : ∀ b, b < 256 →
    nbit_loop EXPAND1 0 1 7 8 0 [b] 0 =
      (List.range 8).map (fun k => if bit_field 1 b k = 1 then 255 else 0) := by
  decide

set_option maxRecDepth 100000 in
theorem nbit2_byte : ∀ b, b < 256 →
    nbit_loop EXPAND2 0 2 3 4 0 [b] 0 = (List.range 4).map (fun k => bit_field 2 b k * 85) := by
  decide

set_option maxRecDepth 100000 in
theorem nbit4_byte : ∀ b, b < 256 →
    nbit_loop EXPAND4 0 4 1 2 0 [b] 0 = (List.range 2).map (fun k => bit_field 4 b k * 17) := by
  decide

theorem NBIT_LINE_minisblack (expand : Nat → Nat) (header : RtiffHeader) (N load : Int)
    (hphot : header.photometric_interpretation = PHOTOMETRIC_MINISBLACK)
    (hbps : header.bits_per_sample = N) (hload : Int.tdiv 8 N - 1 = load)
    (p : List Nat) (n : Nat) :
    NBIT_LINE expand header p n = nbit_loop expand 0 N load n 0 p 0 := by
  unfold NBIT_LINE
  simp only [hphot, hbps, hload, if_true]

/-- C8: under MINISBLACK, for every source byte `b`, the N-bit kernel
applied to `[b]` with `n = 8 / N` writes, for `k = 0 .. 8 / N - 1`, the
`k`-th N-bit field `v` of `b` (counted from the most significant bit)
expanded to 8 bits: 0 or 255 for N = 1, `v * 85` for N = 2, `v * 17` for
N = 4.  In particular the 1-bit rows 0b10000000 and 0b01000000 of width 2
give 0xFF, 0x00 and 0x00, 0xFF. -/
theorem nbit_line_expands_byte (header : RtiffHeader)
    (hphot : header.photometric_interpretation = PHOTOMETRIC_MINISBLACK)
    (b : Nat) (hb : b < 256) :
    (header.bits_per_sample = 1 →
      rtiff_1bit_line header [b] 8 =
        (List.range 8).map (fun k => if bit_field 1 b k = 1 then 255 else 0)) ∧
    (header.bits_per_sample = 2 →
      rtiff_2bit_line header [b] 4 = (List.range 4).map (fun k => bit_field 2 b k * 85)) ∧
    (header.bits_per_sample = 4 →
      rtiff_4bit_line header [b] 2 = (List.range 2).map (fun k => bit_field 4 b k * 17)) ∧
    (header.bits_per_sample = 1 →
      rtiff_1bit_line header [128] 2 = [255, 0] ∧ rtiff_1bit_line header [64] 2 = [0, 255]) := by
  refine ⟨?_, ?_, ?_, ?_⟩
  · intro hbps
    unfold rtiff_1bit_line
    rw [NBIT_LINE_minisblack EXPAND1 header 1 7 hphot hbps (by decide)]
    exact nbit1_byte b hb
  · intro hbps
    unfold rtiff_2bit_line
    rw [NBIT_LINE_minisblack EXPAND2 header 2 3 hphot hbps (by decide)]
    exact nbit2_byte b hb
  · intro hbps
    unfold rtiff_4bit_line
    rw [NBIT_LINE_minisblack EXPAND4 header 4 1 hphot hbps (by decide)]
    exact nbit4_byte b hb
  · intro hbps
    unfold rtiff_1bit_line
    rw [NBIT_LINE_minisblack EXPAND1 header 1 7 hphot hbps (by decide),
      NBIT_LINE_minisblack EXPAND1 header 1 7 hphot hbps (by decide)]
    exact ⟨by decide, by decide⟩

/-- Witness for C8: the byte 0xA5 through the three kernels, and the 1-bit
row 0b10000000 of width 2. -/
theorem nbit_line_expands_byte_witness :
    rtiff_1bit_line (header_of_bits 1 PHOTOMETRIC_MINISBLACK 1) [0xA5] 8 =
      [255, 0, 255, 0, 0, 255, 0, 255] ∧
    rtiff_2bit_line (header_of_bits 2 PHOTOMETRIC_MINISBLACK 1) [0xA5] 4 =
      [170, 170, 85, 85] ∧
    rtiff_4bit_line (header_of_bits 4 PHOTOMETRIC_MINISBLACK 1) [0xA5] 2 = [170, 85] ∧
    rtiff_1bit_line (header_of_bits 1 PHOTOMETRIC_MINISBLACK 1) [128] 2 = [255, 0] :=
  ⟨(nbit_line_expands_byte (header_of_bits 1 PHOTOMETRIC_MINISBLACK 1) rfl 0xA5
      (by decide)).1 rfl,
   (nbit_line_expands_byte (header_of_bits 2 PHOTOMETRIC_MINISBLACK 1) rfl 0xA5
      (by decide)).2.1 rfl,
   (nbit_line_expands_byte (header_of_bits 4 PHOTOMETRIC_MINISBLACK 1) rfl 0xA5
      (by decide)).2.2.1 rfl,
   ((nbit_line_expands_byte (header_of_bits 1 PHOTOMETRIC_MINISBLACK 1) rfl 0xA5
      (by decide)).2.2.2 rfl).1⟩

theorem xor_mod_256 (v m : Nat) : (v ^^^ m) % 256 = ((v % 256) ^^^ m) % 256 := by
  apply Nat.eq_of_testBit_eq
  intro i
  have h256 : (256 : Nat) = 2 ^ 8 := rfl
  rw [h256]
  simp only [Nat.testBit_mod_two_pow, Nat.testBit_xor]
  by_cases hi : i < 8 <;> simp [hi]

set_option maxRecDepth 100000 in
theorem xor_255_byte : ∀ w, w < 256 → (w ^^^ 255) % 256 = 255 - w := by decide

theorem xor_255_mod (v : Nat) : (v ^^^ 255) % 256 = 255 - v % 256 := by
  rw [xor_mod_256]
  exact xor_255_byte _ (Nat.mod_lt _ (by norm_num))

set_option maxRecDepth 1000000 in
theorem nbit_step_ok_1 : nbit_step_ok EXPAND1 1 8 := by decide
set_option maxRecDepth 1000000 in
theorem nbit_step_ok_2 : nbit_step_ok EXPAND2 2 4 := by decide
set_option maxRecDepth 1000000 in
theorem nbit_step_ok_4 : nbit_step_ok EXPAND4 4 2 := by decide

theorem nbit_loop_complement (expand : Nat → Nat) (N m : Nat) (hm : 0 < m)
    (hstep : nbit_step_ok expand N m)
    (hland : ∀ x : Nat, Int.land (x : Int) ((m : Int) - 1) = 0 ↔ x % m = 0) :
    ∀ (k x : Nat) (p : List Nat) (bb bw : Nat),
      (x % m = 0 ∨ (bb < 256 ∧ 2 ^ (N * (x % m)) ∣ bb ∧ bw = 256 - 2 ^ (N * (x % m)) - bb)) →
      nbit_loop expand 255 (N : Int) ((m : Int) - 1) k x p bw =
        (nbit_loop expand 0 (N : Int) ((m : Int) - 1) k x p bb).map (fun v => 255 - v) := by
  intro k
  induction k with
  | zero => intros; rfl
  | succ k ih =>
    intro x p bb bw hinv
    simp only [nbit_loop, List.map_cons, Int.toNat_ofNat]
    have hs : x % m < m := Nat.mod_lt _ hm
    by_cases hx : x % m = 0
    · have hl := (hland x).2 hx
      simp only [hl, if_true, Nat.xor_zero]
      have hb : p.headD 0 % 256 < 256 := Nat.mod_lt _ (by norm_num)
      have h1 := hstep 0 hm (p.headD 0 % 256) hb (by simp)
      rw [xor_255_mod]
      have e0 : 256 - 2 ^ (N * 0) - p.headD 0 % 256 = 255 - p.headD 0 % 256 := by
        simp
      rw [e0] at h1
      rw [h1.1]
      congr 1
      apply ih
      by_cases hx1 : (x + 1) % m = 0
      · exact Or.inl hx1
      · right
        have hm1 : 0 + 1 < m := by
          by_contra hcon
          have : m = 1 := by omega
          subst this
          exact hx1 (Nat.mod_one _)
        have hxm : (x + 1) % m = 0 + 1 := by
          rw [Nat.add_mod, hx, Nat.zero_add, Nat.mod_mod, Nat.mod_eq_of_lt hm1]
        rw [hxm]
        exact ⟨Nat.mod_lt _ (by norm_num), (h1.2 hm1).1, (h1.2 hm1).2⟩
    · have hl : ¬ (Int.land (x : Int) ((m : Int) - 1) = 0) := fun h => hx ((hland x).1 h)
      simp only [hl, if_false]
      rcases hinv with h0 | ⟨hbb, hdvd, hbw⟩
      · exact absurd h0 hx
      · have h1 := hstep (x % m) hs bb hbb hdvd
        rw [hbw, h1.1]
        congr 1
        apply ih
        by_cases hx1 : (x + 1) % m = 0
        · exact Or.inl hx1
        · right
          have hlt : x % m + 1 < m := by
            by_contra hcon
            have he : x % m + 1 = m := by omega
            apply hx1
            have h1m : 1 % m = 1 := Nat.mod_eq_of_lt (by omega)
            rw [Nat.add_mod, h1m, he, Nat.mod_self]
          have hxm : (x + 1) % m = x % m + 1 := by
            have h1m : 1 % m = 1 := Nat.mod_eq_of_lt (by omega)
            rw [Nat.add_mod, h1m, Nat.mod_eq_of_lt hlt]
          rw [hxm]
          exact ⟨Nat.mod_lt _ (by norm_num), (h1.2 hlt).1, (h1.2 hlt).2⟩

theorem land_pow_two (j : Nat) (x : Nat) :
    Int.land (x : Int) (((2 ^ j : Nat) : Int) - 1) = 0 ↔ x % 2 ^ j = 0 := by
  have hpos : 1 ≤ 2 ^ j := Nat.one_le_two_pow
  have hc : (((2 ^ j : Nat) : Int) - 1) = ((2 ^ j - 1 : Nat) : Int) := by
    rw [Nat.cast_sub hpos]; rfl
  rw [hc]
  have hl : Int.land (x : Int) ((2 ^ j - 1 : Nat) : Int) = ((x &&& (2 ^ j - 1) : Nat) : Int) := rfl
  rw [hl, Nat.and_pow_two_sub_one_eq_mod]
  exact Int.natCast_eq_zero

theorem NBIT_LINE_complement (expand : Nat → Nat) (N m j : Nat) (hm : m = 2 ^ j)
    (hload : Int.tdiv 8 (N : Int) - 1 = (m : Int) - 1)
    (hstep : nbit_step_ok expand N m) (header : RtiffHeader)
    (hbps : header.bits_per_sample = (N : Int)) (p : List Nat) (n : Nat) :
    NBIT_LINE expand { header with photometric_interpretation := PHOTOMETRIC_MINISWHITE } p n =
      (NBIT_LINE expand { header with photometric_interpretation := PHOTOMETRIC_MINISBLACK }
        p n).map (fun v => 255 - v) := by
  unfold NBIT_LINE
  simp only [hbps, hload, PHOTOMETRIC_MINISWHITE, PHOTOMETRIC_MINISBLACK, if_true]
  have hmask : (if (0 : Int) = 1 then (0 : Nat) else 255) = 255 := by decide
  rw [hmask]
  subst hm
  apply nbit_loop_complement expand N (2 ^ j) (Nat.pos_pow_of_pos j (by norm_num)) hstep
  · intro x
    exact land_pow_two j x
  · left; simp


/-- C9: for N in 1, 2, 4, every packed scanline `p` and every pixel count
`n`, each output byte of the N-bit kernel under MINISWHITE is 255 minus the
byte it produces under MINISBLACK for the same input.  In particular the
MINISWHITE 1-bit rows 0b10000000 and 0b01000000 of width 2 give 0x00, 0xFF
and 0xFF, 0x00. -/
theorem nbit_line_miniswhite_complement (header : RtiffHeader) (p : List Nat) (n : Nat) :
    (header.bits_per_sample = 1 →
      rtiff_1bit_line { header with photometric_interpretation := PHOTOMETRIC_MINISWHITE } p n =
        (rtiff_1bit_line { header with photometric_interpretation := PHOTOMETRIC_MINISBLACK }
          p n).map (fun v => 255 - v)) ∧
    (header.bits_per_sample = 2 →
      rtiff_2bit_line { header with photometric_interpretation := PHOTOMETRIC_MINISWHITE } p n =
        (rtiff_2bit_line { header with photometric_interpretation := PHOTOMETRIC_MINISBLACK }
          p n).map (fun v => 255 - v)) ∧
    (header.bits_per_sample = 4 →
      rtiff_4bit_line { header with photometric_interpretation := PHOTOMETRIC_MINISWHITE } p n =
        (rtiff_4bit_line { header with photometric_interpretation := PHOTOMETRIC_MINISBLACK }
          p n).map (fun v => 255 - v)) ∧
    (header.bits_per_sample = 1 →
      rtiff_1bit_line { header with photometric_interpretation := PHOTOMETRIC_MINISWHITE }
        [128] 2 = [0, 255] ∧
      rtiff_1bit_line { header with photometric_interpretation := PHOTOMETRIC_MINISWHITE }
        [64] 2 = [255, 0]) := by
  refine ⟨?_, ?_, ?_, ?_⟩
  · intro hbps
    exact NBIT_LINE_complement EXPAND1 1 8 3 (by decide) (by decide) nbit_step_ok_1 header
      hbps p n
  · intro hbps
    exact NBIT_LINE_complement EXPAND2 2 4 2 (by decide) (by decide) nbit_step_ok_2 header
      hbps p n
  · intro hbps
    exact NBIT_LINE_complement EXPAND4 4 2 1 (by decide) (by decide) nbit_step_ok_4 header
      hbps p n
  · intro hbps
    have h1 := NBIT_LINE_complement EXPAND1 1 8 3 (by decide) (by decide) nbit_step_ok_1 header
      hbps
    have h2 := NBIT_LINE_minisblack EXPAND1
      { header with photometric_interpretation := PHOTOMETRIC_MINISBLACK } 1 7 rfl hbps
      (by decide)
    unfold rtiff_1bit_line
    rw [h1 [128] 2, h1 [64] 2, h2 [128] 2, h2 [64] 2]
    exact ⟨by decide, by decide⟩

/-- Witness for C9: the 1-bit row 0b10000000 of width 2 under MINISWHITE,
and a two-byte 2-bit scanline of 7 pixels under both photometrics. -/
theorem nbit_line_miniswhite_complement_witness :
    rtiff_1bit_line (header_of_bits 1 PHOTOMETRIC_MINISWHITE 1) [128] 2 = [0, 255] ∧
    rtiff_2bit_line (header_of_bits 2 PHOTOMETRIC_MINISWHITE 1) [0x1B, 0xE4] 7 =
      (rtiff_2bit_line (header_of_bits 2 PHOTOMETRIC_MINISBLACK 1) [0x1B, 0xE4] 7).map
        (fun v => 255 - v) :=
  ⟨((nbit_line_miniswhite_complement (header_of_bits 1 PHOTOMETRIC_MINISWHITE 1) [] 0).2.2.2
      rfl).1,
   (nbit_line_miniswhite_complement (header_of_bits 2 PHOTOMETRIC_MINISWHITE 1)
      [0x1B, 0xE4] 7).2.1 rfl⟩

/-! ## The LAB-with-alpha kernel -/

theorem floor_scale (p : Nat) : ⌊((p : ℚ) * 32767 / 255)⌋ = ((p * 32767 / 255 : Nat) : Int) := by
  have : ((p : ℚ) * 32767 / 255) = (((p * 32767 : Nat) : ℚ) / ((255 : Nat) : ℚ)) := by
    push_cast; ring
  rw [this, Rat.floor_natCast_div_natCast]
  norm_cast

theorem lab_with_alpha_extra_length (p1 : List Nat) (k i : Nat) :
    (lab_with_alpha_extra p1 k i).length = k := by
  induction k generalizing i with
  | zero => rfl
  | succ k ih => simp [lab_with_alpha_extra, ih]

theorem lab_with_alpha_pel_length (spp : Int) (hspp : 3 ≤ spp) (p1 : List Nat) :
    (lab_with_alpha_pel spp p1).length = spp.toNat := by
  simp [lab_with_alpha_pel, lab_with_alpha_extra_length]
  omega

theorem lab_with_alpha_L (header : RtiffHeader) (hspp : 3 ≤ header.samples_per_pixel)
    (n : Nat) : ∀ (p : List Nat) (x : Nat), x < n →
    (rtiff_lab_with_alpha_line header p n).getD (x * header.samples_per_pixel.toNat) 0 =
      to_int16 ((p.getD (x * header.samples_per_pixel.toNat) 0 * 32767 / 255 : Nat) : Int) := by
  induction n with
  | zero => intro p x hx; omega
  | succ n ih =>
    intro p x hx
    have hlen := lab_with_alpha_pel_length header.samples_per_pixel hspp p
    have hpos : 0 < header.samples_per_pixel.toNat := by omega
    rw [rtiff_lab_with_alpha_line]
    cases x with
    | zero =>
      simp only [Nat.zero_mul]
      simp [lab_with_alpha_pel, List.getD]
    | succ x =>
      have hx' : x < n := by omega
      have hidx : (x + 1) * header.samples_per_pixel.toNat =
          (lab_with_alpha_pel header.samples_per_pixel p).length +
            x * header.samples_per_pixel.toNat := by
        rw [hlen]; ring
      rw [hidx, List.getD_append_right _ _ _ _ (Nat.le_add_right _ _)]
      simp only [Nat.add_sub_cancel_left]
      rw [ih (p.drop header.samples_per_pixel.toNat) x hx']
      have hget : (List.drop header.samples_per_pixel.toNat p).getD
            (x * header.samples_per_pixel.toNat) 0 =
          p.getD ((lab_with_alpha_pel header.samples_per_pixel p).length +
            x * header.samples_per_pixel.toNat) 0 := by
        rw [hlen]
        simp [List.getD, List.getElem?_drop]
      rw [hget]


/-- C10 (counterexample): for the L sample 2 the kernel writes 256, while
2 * 32767 / 255 rounds to 257. -/
theorem lab_with_alpha_L_not_rounded :
    rtiff_lab_with_alpha_line (header_of_bits 8 PHOTOMETRIC_CIELAB 4) [2, 0, 0, 0] 1 =
      [256, 0, 0, 0] ∧
    round ((2 : ℚ) * 32767 / 255) = 257 := by
  constructor
  · decide
  · rw [round_eq]
    norm_num [Int.floor_eq_iff]

/-- C10 (amended): in the LAB-with-alpha kernel, for every pixel `x` of the
scanline whose L sample `p` is an 8-bit value, the 16-bit output L is
`p * 32767 / 255` rounded down (the integer division of the code), that is
the floor of the exact quotient. -/
theorem rtiff_lab_with_alpha_line_L_floor (header : RtiffHeader)
    (hspp : 3 ≤ header.samples_per_pixel) (p : List Nat) (n x : Nat) (hx : x < n)
    (hbyte : p.getD (x * header.samples_per_pixel.toNat) 0 ≤ 255) :
    (rtiff_lab_with_alpha_line header p n).getD (x * header.samples_per_pixel.toNat) 0 =
      ⌊((p.getD (x * header.samples_per_pixel.toNat) 0 : ℚ) * 32767 / 255)⌋ := by
  rw [lab_with_alpha_L header hspp n p x hx, floor_scale]
  unfold to_int16
  have hle : p.getD (x * header.samples_per_pixel.toNat) 0 * 32767 / 255 ≤ 32767 := by
    apply Nat.div_le_of_le_mul
    omega
  omega

/-- Witness for C10 (amended): the second pixel of a two-pixel scanline with
four samples per pixel and L sample 2. -/
theorem rtiff_lab_with_alpha_line_L_floor_witness :
    (rtiff_lab_with_alpha_line (header_of_bits 8 PHOTOMETRIC_CIELAB 4)
      [255, 0, 0, 0, 2, 0, 0, 0] 2).getD (1 * 4) 0 = ⌊((2 : ℕ) : ℚ) * 32767 / 255⌋ :=
  rtiff_lab_with_alpha_line_L_floor (header_of_bits 8 PHOTOMETRIC_CIELAB 4) (by decide)
    [255, 0, 0, 0, 2, 0, 0, 0] 2 1 (by decide) (by decide)

/-! ## Kernels that work pixel by pixel -/

theorem pel_line_length {α β : Type} (f : List α → List β) (k L : Nat)
    (line : List α → Nat → List β) (h0 : ∀ p, line p 0 = [])
    (hs : ∀ p n, line p (n + 1) = f p ++ line (p.drop k) n)
    (hL : ∀ p, (f p).length = L) :
    ∀ (n : Nat) (p : List α), (line p n).length = n * L := by
  intro n
  induction n with
  | zero => intro p; simp [h0]
  | succ n ih =>
    intro p
    rw [hs, List.length_append, hL, ih]
    ring

theorem pel_line_getD {α β : Type} (f : List α → List β) (k L : Nat)
    (line : List α → Nat → List β)
    (hs : ∀ p n, line p (n + 1) = f p ++ line (p.drop k) n)
    (hL : ∀ p, (f p).length = L) (d : β) :
    ∀ (n : Nat) (p : List α) (x j : Nat), x < n → j < L →
      (line p n).getD (x * L + j) d = (f (p.drop (x * k))).getD j d := by
  intro n
  induction n with
  | zero => intro p x j hx; omega
  | succ n ih =>
    intro p x j hx hj
    rw [hs]
    cases x with
    | zero =>
      simp only [Nat.zero_mul, Nat.zero_add, List.drop_zero]
      rw [List.getD_append _ _ _ _ (by rw [hL]; exact hj)]
    | succ x =>
      have hidx : (x + 1) * L + j = (f p).length + (x * L + j) := by
        rw [hL]; ring
      rw [hidx, List.getD_append_right _ _ _ _ (Nat.le_add_right _ _)]
      simp only [Nat.add_sub_cancel_left]
      rw [ih (p.drop k) x j (by omega) hj, List.drop_drop]
      have : k + x * k = (x + 1) * k := by ring
      rw [this]

theorem getD_drop_add {α : Type} (p : List α) (a i : Nat) (d : α) :
    (p.drop a).getD i d = p.getD (a + i) d := by
  simp [List.getD, List.getElem?_drop]

theorem lab_with_alpha_extra_getD (p1 : List Nat) (k i j : Nat) (hj : j < k) :
    (lab_with_alpha_extra p1 k i).getD j 0 =
      to_int16 (((p1.getD (i + j) 0 <<< 8) + p1.getD (i + j) 0 : Nat) : Int) := by
  induction k generalizing i j with
  | zero => omega
  | succ k ih =>
    cases j with
    | zero => simp [lab_with_alpha_extra]
    | succ j =>
      rw [lab_with_alpha_extra, List.getD_cons_succ, ih (i + 1) j (by omega)]
      have : i + 1 + j = i + (j + 1) := by omega
      rw [this]

theorem lab_line_getD (header : RtiffHeader) (hspp : 3 ≤ header.samples_per_pixel)
    (p : List Nat) (n x j : Nat) (hx : x < n) (hj : j < header.samples_per_pixel.toNat) :
    (rtiff_lab_with_alpha_line header p n).getD (x * header.samples_per_pixel.toNat + j) 0 =
      (lab_with_alpha_pel header.samples_per_pixel
        (p.drop (x * header.samples_per_pixel.toNat))).getD j 0 :=
  pel_line_getD (lab_with_alpha_pel header.samples_per_pixel) header.samples_per_pixel.toNat
    header.samples_per_pixel.toNat (rtiff_lab_with_alpha_line header)
    (fun p n => by rw [rtiff_lab_with_alpha_line])
    (lab_with_alpha_pel_length header.samples_per_pixel hspp) 0 n p x j hx hj

theorem lab_line_length (header : RtiffHeader) (hspp : 3 ≤ header.samples_per_pixel)
    (p : List Nat) (n : Nat) :
    (rtiff_lab_with_alpha_line header p n).length = n * header.samples_per_pixel.toNat :=
  pel_line_length (lab_with_alpha_pel header.samples_per_pixel) header.samples_per_pixel.toNat
    header.samples_per_pixel.toNat (rtiff_lab_with_alpha_line header)
    (fun p => by rw [rtiff_lab_with_alpha_line])
    (fun p n => by rw [rtiff_lab_with_alpha_line])
    (lab_with_alpha_pel_length header.samples_per_pixel hspp) n p

set_option maxRecDepth 100000 in
theorem byte_shl_or : ∀ v, v < 256 → (v <<< 8) ||| v = v * 257 := by decide

/-- C11: in the LAB-with-alpha kernel the scanline of `n` pixels is written as
`n * samples_per_pixel` shorts; for every pixel `x` the a and b outputs of an
8-bit sample `v` are `v << 8` as a signed 16-bit value (`v * 256` below 128,
`v * 256 - 65536` from 128 on), and every extra band of an 8-bit sample `v`
is `(v << 8) | v = v * 257` stored in the signed 16-bit output. -/
theorem rtiff_lab_with_alpha_line_ab_extra (header : RtiffHeader)
    (hspp : 3 ≤ header.samples_per_pixel) (p : List Nat) (n x : Nat) (hx : x < n) :
    (rtiff_lab_with_alpha_line header p n).length = n * header.samples_per_pixel.toNat ∧
    (∀ i, (i = 1 ∨ i = 2) → p.getD (x * header.samples_per_pixel.toNat + i) 0 ≤ 255 →
      (rtiff_lab_with_alpha_line header p n).getD (x * header.samples_per_pixel.toNat + i) 0 =
        if p.getD (x * header.samples_per_pixel.toNat + i) 0 < 128 then
          ((p.getD (x * header.samples_per_pixel.toNat + i) 0 : Nat) : Int) * 256
        else ((p.getD (x * header.samples_per_pixel.toNat + i) 0 : Nat) : Int) * 256 - 65536) ∧
    (∀ i, 3 ≤ i → i < header.samples_per_pixel.toNat →
      p.getD (x * header.samples_per_pixel.toNat + i) 0 ≤ 255 →
      ((p.getD (x * header.samples_per_pixel.toNat + i) 0 <<< 8) |||
          p.getD (x * header.samples_per_pixel.toNat + i) 0 =
        p.getD (x * header.samples_per_pixel.toNat + i) 0 * 257) ∧
      (rtiff_lab_with_alpha_line header p n).getD (x * header.samples_per_pixel.toNat + i) 0 =
        to_int16 (((p.getD (x * header.samples_per_pixel.toNat + i) 0 * 257 : Nat) : Int))) := by
  refine ⟨lab_line_length header hspp p n, ?_, ?_⟩
  · intro i hi hb
    have hj : i < header.samples_per_pixel.toNat := by omega
    rw [lab_line_getD header hspp p n x i hx hj]
    rcases hi with rfl | rfl
    · simp only [lab_with_alpha_pel, List.cons_append, List.getD_cons_succ, List.getD_cons_zero,
        getD_drop_add]
      unfold to_int16
      split_ifs <;> omega
    · simp only [lab_with_alpha_pel, List.cons_append, List.getD_cons_succ, List.getD_cons_zero,
        getD_drop_add]
      unfold to_int16
      split_ifs <;> omega
  · intro i h3 hi hb
    refine ⟨byte_shl_or _ (by omega), ?_⟩
    rw [lab_line_getD header hspp p n x i hx hi]
    obtain ⟨j, rfl⟩ : ∃ j, i = 3 + j := ⟨i - 3, by omega⟩
    have hpel : (lab_with_alpha_pel header.samples_per_pixel
        (p.drop (x * header.samples_per_pixel.toNat))).getD (3 + j) 0 =
        (lab_with_alpha_extra (p.drop (x * header.samples_per_pixel.toNat))
          (header.samples_per_pixel - 3).toNat 3).getD j 0 := by
      have h3j : 3 + j = j + 1 + 1 + 1 := by omega
      rw [h3j]
      simp only [lab_with_alpha_pel, List.cons_append, List.getD_cons_succ, List.nil_append]
    rw [hpel, lab_with_alpha_extra_getD _ _ _ _ (by omega), getD_drop_add]
    have hv : p.getD (x * header.samples_per_pixel.toNat + (3 + j)) 0 <<< 8 =
        p.getD (x * header.samples_per_pixel.toNat + (3 + j)) 0 * 256 := by
      rw [Nat.shiftLeft_eq]
    rw [hv]
    congr 2

/-- Witness for C11: the second pixel of a two-pixel scanline with five
samples per pixel. -/
theorem rtiff_lab_with_alpha_line_ab_extra_witness :
    (rtiff_lab_with_alpha_line (header_of_bits 8 PHOTOMETRIC_CIELAB 5)
        [255, 0, 0, 0, 0, 2, 127, 128, 255, 3] 2).getD (1 * 5 + 1) 0 = 127 * 256 ∧
    (rtiff_lab_with_alpha_line (header_of_bits 8 PHOTOMETRIC_CIELAB 5)
        [255, 0, 0, 0, 0, 2, 127, 128, 255, 3] 2).getD (1 * 5 + 2) 0 = 128 * 256 - 65536 ∧
    (rtiff_lab_with_alpha_line (header_of_bits 8 PHOTOMETRIC_CIELAB 5)
        [255, 0, 0, 0, 0, 2, 127, 128, 255, 3] 2).getD (1 * 5 + 3) 0 = 255 * 257 - 65536 := by
  have h := rtiff_lab_with_alpha_line_ab_extra (header_of_bits 8 PHOTOMETRIC_CIELAB 5)
    (by decide) [255, 0, 0, 0, 0, 2, 127, 128, 255, 3] 2 1 (by decide)
  refine ⟨?_, ?_, ?_⟩
  · exact (h.2.1 1 (Or.inl rfl) (by decide)).trans (by decide)
  · exact (h.2.1 2 (Or.inr rfl) (by decide)).trans (by decide)
  · exact ((h.2.2 3 (by decide) (by decide) (by decide)).2).trans (by decide)

/-! ## The palette reader -/

theorem pel_line_segment {α β : Type} (f : List α → List β) (k L : Nat)
    (line : List α → Nat → List β)
    (hs : ∀ p n, line p (n + 1) = f p ++ line (p.drop k) n)
    (hL : ∀ p, (f p).length = L) :
    ∀ (n : Nat) (p : List α) (x : Nat), x < n →
      ((line p n).drop (x * L)).take L = f (p.drop (x * k)) := by
  intro n
  induction n with
  | zero => intro p x hx; omega
  | succ n ih =>
    intro p x hx
    rw [hs]
    cases x with
    | zero =>
      simp only [Nat.zero_mul, List.drop_zero]
      rw [List.take_append_of_le_length (by rw [hL]), List.take_of_length_le (by rw [hL])]
    | succ x =>
      have hidx : (x + 1) * L = (f p).length + x * L := by
        rw [hL]; ring
      rw [hidx, List.drop_append, ih (p.drop k) x (by omega), List.drop_drop]
      have : k + x * k = (x + 1) * k := by ring
      rw [this]

theorem palette_read_getD (len : Nat) (red16 green16 blue16 : List Nat) (i : Nat)
    (hi : i < len) :
    (palette_read len red16 green16 blue16).red8.getD i 0 =
      (if (List.range len).any (fun i =>
          ((red16.getD i 0 >>> 8) ||| (green16.getD i 0 >>> 8) |||
            (blue16.getD i 0 >>> 8)) ≠ 0) then red16.getD i 0 >>> 8
        else red16.getD i 0 &&& 0xff) ∧
    (palette_read len red16 green16 blue16).green8.getD i 0 =
      (if (List.range len).any (fun i =>
          ((red16.getD i 0 >>> 8) ||| (green16.getD i 0 >>> 8) |||
            (blue16.getD i 0 >>> 8)) ≠ 0) then green16.getD i 0 >>> 8
        else green16.getD i 0 &&& 0xff) ∧
    (palette_read len red16 green16 blue16).blue8.getD i 0 =
      (if (List.range len).any (fun i =>
          ((red16.getD i 0 >>> 8) ||| (green16.getD i 0 >>> 8) |||
            (blue16.getD i 0 >>> 8)) ≠ 0) then blue16.getD i 0 >>> 8
        else blue16.getD i 0 &&& 0xff) := by
  simp only [palette_read]
  refine ⟨?_, ?_, ?_⟩ <;>
    simp [List.getD, List.getElem?_map, List.getElem?_range, hi]

theorem lor_eq_zero (a b : Nat) : a ||| b = 0 ↔ a = 0 ∧ b = 0 := by
  constructor
  · intro h
    have ht : ∀ i, (a ||| b).testBit i = false := by
      intro i
      rw [h]
      simp
    constructor
    · apply Nat.eq_of_testBit_eq
      intro i
      have := ht i
      simp only [Nat.testBit_or, Bool.or_eq_false_iff] at this
      simp [this.1]
    · apply Nat.eq_of_testBit_eq
      intro i
      have := ht i
      simp only [Nat.testBit_or, Bool.or_eq_false_iff] at this
      simp [this.2]
  · rintro ⟨rfl, rfl⟩
    simp

theorem lor_ne_zero (a b c : Nat) : (a ||| b ||| c) ≠ 0 ↔ (a ≠ 0 ∨ b ≠ 0 ∨ c ≠ 0) := by
  simp only [ne_eq, lor_eq_zero]
  tauto

theorem palette_high_iff (len : Nat) (red16 green16 blue16 : List Nat) :
    (List.range len).any (fun i =>
        ((red16.getD i 0 >>> 8) ||| (green16.getD i 0 >>> 8) |||
          (blue16.getD i 0 >>> 8)) ≠ 0) = true ↔
      ∃ i, i < len ∧ (red16.getD i 0 >>> 8 ≠ 0 ∨ green16.getD i 0 >>> 8 ≠ 0 ∨
        blue16.getD i 0 >>> 8 ≠ 0) := by
  simp only [List.any_eq_true, List.mem_range, decide_eq_true_eq, lor_ne_zero]

theorem rtiff_parse_palette_ok (rtiff : Rtiff) (out : VipsImage)
    (red16 green16 blue16 : List Nat)
    (hmap : rtiff.tiff.cur.tags.colormap = some (red16, green16, blue16))
    (hok : (rtiff_parse_palette rtiff out).1 = 0) :
    (rtiff_parse_palette rtiff out).2.1.client =
        Client.palette (palette_read (1 <<< rtiff.header.bits_per_sample.toNat)
          red16 green16 blue16) ∧
      (rtiff_parse_palette rtiff out).2.2.Bands =
        (if (palette_read (1 <<< rtiff.header.bits_per_sample.toNat)
            red16 green16 blue16).mono then rtiff.header.samples_per_pixel
         else rtiff.header.samples_per_pixel + 2) ∧
      rtiff_check_bits_palette rtiff = 0 ∧ 1 ≤ rtiff.header.samples_per_pixel := by
  unfold rtiff_parse_palette at hok ⊢
  by_cases hc : rtiff_check_bits_palette rtiff ≠ 0 ∨ rtiff_check_min_samples rtiff 1 ≠ 0
  · rw [if_pos hc] at hok
    simp at hok
  · rw [if_neg hc]
    rw [hmap]
    dsimp only
    push_neg at hc
    refine ⟨rfl, ?_, hc.1, ?_⟩
    · split_ifs <;> rfl
    · have := hc.2
      unfold rtiff_check_min_samples at this
      split_ifs at this with h
      exact not_lt.mp h

/-- C13: when `rtiff_parse_palette` accepts an image whose colormap has the
three channels `red16`, `green16`, `blue16`, the 8-bit tables it builds for the
`1 << bits_per_sample` entries are: the high byte `v >> 8` of every entry if
some entry of some channel has a non-zero high byte, and the low byte
`v & 0xff` of every entry if none has. -/
theorem rtiff_parse_palette_tables (rtiff : Rtiff) (out : VipsImage)
    (red16 green16 blue16 : List Nat)
    (hmap : rtiff.tiff.cur.tags.colormap = some (red16, green16, blue16))
    (hok : (rtiff_parse_palette rtiff out).1 = 0) :
    ∃ read, (rtiff_parse_palette rtiff out).2.1.client = Client.palette read ∧
      ((∃ i, i < 1 <<< rtiff.header.bits_per_sample.toNat ∧
          (red16.getD i 0 >>> 8 ≠ 0 ∨ green16.getD i 0 >>> 8 ≠ 0 ∨
            blue16.getD i 0 >>> 8 ≠ 0)) →
        ∀ i, i < 1 <<< rtiff.header.bits_per_sample.toNat →
          read.red8.getD i 0 = red16.getD i 0 >>> 8 ∧
          read.green8.getD i 0 = green16.getD i 0 >>> 8 ∧
          read.blue8.getD i 0 = blue16.getD i 0 >>> 8) ∧
      ((¬ ∃ i, i < 1 <<< rtiff.header.bits_per_sample.toNat ∧
          (red16.getD i 0 >>> 8 ≠ 0 ∨ green16.getD i 0 >>> 8 ≠ 0 ∨
            blue16.getD i 0 >>> 8 ≠ 0)) →
        ∀ i, i < 1 <<< rtiff.header.bits_per_sample.toNat →
          read.red8.getD i 0 = red16.getD i 0 &&& 0xff ∧
          read.green8.getD i 0 = green16.getD i 0 &&& 0xff ∧
          read.blue8.getD i 0 = blue16.getD i 0 &&& 0xff) := by
  refine ⟨_, (rtiff_parse_palette_ok rtiff out red16 green16 blue16 hmap hok).1, ?_, ?_⟩
  · intro hhigh i hi
    have h := palette_read_getD (1 <<< rtiff.header.bits_per_sample.toNat)
      red16 green16 blue16 i hi
    rw [if_pos ((palette_high_iff _ _ _ _).2 hhigh), if_pos ((palette_high_iff _ _ _ _).2 hhigh),
      if_pos ((palette_high_iff _ _ _ _).2 hhigh)] at h
    exact h
  · intro hlow i hi
    have h := palette_read_getD (1 <<< rtiff.header.bits_per_sample.toNat)
      red16 green16 blue16 i hi
    have hn : ¬ ((List.range (1 <<< rtiff.header.bits_per_sample.toNat)).any (fun i =>
        ((red16.getD i 0 >>> 8) ||| (green16.getD i 0 >>> 8) |||
          (blue16.getD i 0 >>> 8)) ≠ 0) = true) := fun hh =>
      hlow ((palette_high_iff _ _ _ _).1 hh)
    rw [if_neg hn, if_neg hn, if_neg hn] at h
    exact h

set_option maxRecDepth 100000 in
/-- Witness for C13: a 1-bit palette whose entries all have a zero high byte;
the tables hold the low bytes. -/
theorem rtiff_parse_palette_tables_witness :
    ∃ read, (rtiff_parse_palette (palette_reader 1 1 ([0, 255], [0, 128], [0, 7]))
        VipsImage.new).2.1.client = Client.palette read ∧
      read.red8.getD 1 0 = 255 ∧ read.green8.getD 1 0 = 128 ∧ read.blue8.getD 1 0 = 7 := by
  obtain ⟨read, hclient, _, hlow⟩ :=
    rtiff_parse_palette_tables (palette_reader 1 1 ([0, 255], [0, 128], [0, 7]))
      VipsImage.new [0, 255] [0, 128] [0, 7] rfl (by decide)
  have h := hlow (by decide) 1 (by decide)
  exact ⟨read, hclient, h.1.trans (by decide), h.2.1.trans (by decide),
    h.2.2.trans (by decide)⟩

theorem palette_extra_eq (p : List Nat) (k s : Nat) :
    palette_extra p k s = (List.range k).map (fun j => p.getD (s + j) 0) := by
  induction k generalizing s with
  | zero => rfl
  | succ k ih =>
    rw [palette_extra, ih, List.range_succ_eq_map, List.map_cons, List.map_map]
    simp only [Nat.add_zero, List.cons.injEq, true_and]
    apply List.map_congr_left
    intro j _
    simp only [Function.comp]
    congr 1
    omega

theorem palette_pel_length (mono : Bool) (red green blue : List Nat) (spp : Int) (p : List Nat) :
    (palette_lookup mono red green blue (p.getD 0 0) ++
      palette_extra p (spp - 1).toNat 1).length = (if mono then 1 else 3) + (spp - 1).toNat := by
  rw [List.length_append, palette_extra_eq]
  unfold palette_lookup
  cases mono <;> simp

theorem palette_pel_eq (mono : Bool) (red green blue : List Nat) (spp : Int) (p : List Nat)
    (x : Nat) :
    palette_lookup mono red green blue ((p.drop (x * spp.toNat)).getD 0 0) ++
        palette_extra (p.drop (x * spp.toNat)) (spp - 1).toNat 1 =
      palette_lookup mono red green blue (p.getD (x * spp.toNat) 0) ++
        extra_samples spp p x := by
  rw [palette_extra_eq, getD_drop_add, Nat.add_zero]
  congr 1
  unfold extra_samples
  have hk : (spp - 1).toNat = spp.toNat - 1 := by omega
  rw [hk]
  apply List.map_congr_left
  intro j _
  rw [getD_drop_add, Nat.add_assoc]

theorem rtiff_palette_line8_segment (header : RtiffHeader) (read : PaletteRead)
    (p : List Nat) (n x : Nat) (hx : x < n) :
    ((rtiff_palette_line8 header read p n).drop
        (x * ((if read.mono then 1 else 3) + (header.samples_per_pixel - 1).toNat))).take
        ((if read.mono then 1 else 3) + (header.samples_per_pixel - 1).toNat) =
      palette_lookup read.mono read.red8 read.green8 read.blue8
          (p.getD (x * header.samples_per_pixel.toNat) 0) ++
        extra_samples header.samples_per_pixel p x := by
  rw [pel_line_segment
    (fun p => palette_lookup read.mono read.red8 read.green8 read.blue8 (p.getD 0 0) ++
      palette_extra p (header.samples_per_pixel - 1).toNat 1)
    header.samples_per_pixel.toNat _ (rtiff_palette_line8 header read)
    (fun p n => by rw [rtiff_palette_line8])
    (palette_pel_length read.mono read.red8 read.green8 read.blue8 header.samples_per_pixel)
    n p x hx]
  exact palette_pel_eq _ _ _ _ _ _ _

theorem rtiff_palette_line16_segment (header : RtiffHeader) (read : PaletteRead)
    (p : List Nat) (n x : Nat) (hx : x < n) :
    ((rtiff_palette_line16 header read p n).drop
        (x * ((if read.mono then 1 else 3) + (header.samples_per_pixel - 1).toNat))).take
        ((if read.mono then 1 else 3) + (header.samples_per_pixel - 1).toNat) =
      palette_lookup read.mono read.red16 read.green16 read.blue16
          (p.getD (x * header.samples_per_pixel.toNat) 0) ++
        extra_samples header.samples_per_pixel p x := by
  rw [pel_line_segment
    (fun p => palette_lookup read.mono read.red16 read.green16 read.blue16 (p.getD 0 0) ++
      palette_extra p (header.samples_per_pixel - 1).toNat 1)
    header.samples_per_pixel.toNat _ (rtiff_palette_line16 header read)
    (fun p n => by rw [rtiff_palette_line16])
    (palette_pel_length read.mono read.red16 read.green16 read.blue16 header.samples_per_pixel)
    n p x hx]
  exact palette_pel_eq _ _ _ _ _ _ _

theorem palette_read_mono_iff (len : Nat) (red16 green16 blue16 : List Nat) :
    (palette_read len red16 green16 blue16).mono = true ↔
      ∀ i, i < len → red16.getD i 0 = green16.getD i 0 ∧ green16.getD i 0 = blue16.getD i 0 := by
  have hm : (palette_read len red16 green16 blue16).mono =
      !((List.range len).any (fun i =>
        decide (red16.getD i 0 ≠ green16.getD i 0 ∨ green16.getD i 0 ≠ blue16.getD i 0))) := rfl
  rw [hm, Bool.not_eq_true_eq_eq_false, List.any_eq_false]
  simp only [List.mem_range, decide_eq_true_eq, not_or, not_not]

/-- C14: when `rtiff_parse_palette` accepts an image with the colormap
`red16`, `green16`, `blue16`, the palette is mono exactly when the three maps
agree on every index below `1 << bits_per_sample`.  For a mono palette the
output has `samples_per_pixel` bands and the 8- and 16-bit kernels write, for
every pixel, one table value followed by the extra samples unchanged;
otherwise the output has `samples_per_pixel + 2` bands and the kernels write
red, green and blue followed by the extra samples unchanged. -/
theorem rtiff_parse_palette_mono_bands (rtiff : Rtiff) (out : VipsImage)
    (red16 green16 blue16 : List Nat)
    (hmap : rtiff.tiff.cur.tags.colormap = some (red16, green16, blue16))
    (hok : (rtiff_parse_palette rtiff out).1 = 0)
    (p : List Nat) (n x : Nat) (hx : x < n) :
    ∃ read, (rtiff_parse_palette rtiff out).2.1.client = Client.palette read ∧
      (read.mono = true ↔
        ∀ i, i < 1 <<< rtiff.header.bits_per_sample.toNat →
          red16.getD i 0 = green16.getD i 0 ∧ green16.getD i 0 = blue16.getD i 0) ∧
      (read.mono = true →
        (rtiff_parse_palette rtiff out).2.2.Bands = rtiff.header.samples_per_pixel ∧
        ((rtiff_palette_line8 rtiff.header read p n).drop
            (x * rtiff.header.samples_per_pixel.toNat)).take
            rtiff.header.samples_per_pixel.toNat =
          [read.red8.getD (p.getD (x * rtiff.header.samples_per_pixel.toNat) 0) 0] ++
            extra_samples rtiff.header.samples_per_pixel p x ∧
        ((rtiff_palette_line16 rtiff.header read p n).drop
            (x * rtiff.header.samples_per_pixel.toNat)).take
            rtiff.header.samples_per_pixel.toNat =
          [read.red16.getD (p.getD (x * rtiff.header.samples_per_pixel.toNat) 0) 0] ++
            extra_samples rtiff.header.samples_per_pixel p x) ∧
      (read.mono = false →
        (rtiff_parse_palette rtiff out).2.2.Bands = rtiff.header.samples_per_pixel + 2 ∧
        ((rtiff_palette_line8 rtiff.header read p n).drop
            (x * (rtiff.header.samples_per_pixel.toNat + 2))).take
            (rtiff.header.samples_per_pixel.toNat + 2) =
          [read.red8.getD (p.getD (x * rtiff.header.samples_per_pixel.toNat) 0) 0,
           read.green8.getD (p.getD (x * rtiff.header.samples_per_pixel.toNat) 0) 0,
           read.blue8.getD (p.getD (x * rtiff.header.samples_per_pixel.toNat) 0) 0] ++
            extra_samples rtiff.header.samples_per_pixel p x ∧
        ((rtiff_palette_line16 rtiff.header read p n).drop
            (x * (rtiff.header.samples_per_pixel.toNat + 2))).take
            (rtiff.header.samples_per_pixel.toNat + 2) =
          [read.red16.getD (p.getD (x * rtiff.header.samples_per_pixel.toNat) 0) 0,
           read.green16.getD (p.getD (x * rtiff.header.samples_per_pixel.toNat) 0) 0,
           read.blue16.getD (p.getD (x * rtiff.header.samples_per_pixel.toNat) 0) 0] ++
            extra_samples rtiff.header.samples_per_pixel p x) := by
  obtain ⟨hclient, hbands, _, hspp⟩ :=
    rtiff_parse_palette_ok rtiff out red16 green16 blue16 hmap hok
  refine ⟨_, hclient, palette_read_mono_iff _ _ _ _, ?_, ?_⟩
  · intro hmono
    have h8 := rtiff_palette_line8_segment rtiff.header
      (palette_read (1 <<< rtiff.header.bits_per_sample.toNat) red16 green16 blue16) p n x hx
    have h16 := rtiff_palette_line16_segment rtiff.header
      (palette_read (1 <<< rtiff.header.bits_per_sample.toNat) red16 green16 blue16) p n x hx
    have hL : 1 + (rtiff.header.samples_per_pixel - 1).toNat =
        rtiff.header.samples_per_pixel.toNat := by omega
    rw [hmono] at h8 h16
    simp only [if_true, hL, palette_lookup] at h8 h16
    rw [hbands, hmono]
    exact ⟨rfl, h8, h16⟩
  · intro hmono
    have h8 := rtiff_palette_line8_segment rtiff.header
      (palette_read (1 <<< rtiff.header.bits_per_sample.toNat) red16 green16 blue16) p n x hx
    have h16 := rtiff_palette_line16_segment rtiff.header
      (palette_read (1 <<< rtiff.header.bits_per_sample.toNat) red16 green16 blue16) p n x hx
    have hL : 3 + (rtiff.header.samples_per_pixel - 1).toNat =
        rtiff.header.samples_per_pixel.toNat + 2 := by omega
    rw [hmono] at h8 h16
    simp only [Bool.false_eq_true, if_false, hL, palette_lookup] at h8 h16
    rw [hbands, hmono]
    exact ⟨rfl, h8, h16⟩

set_option maxRecDepth 100000 in
/-- Witness for C14: with one bit per sample and the colormap [0, 65535] in
all three channels the palette is mono, the output has one band, and the
1-bit kernel writes one byte per pixel. -/
theorem rtiff_parse_palette_mono_bands_witness :
    ∃ read, (rtiff_parse_palette (palette_reader 1 1 ([0, 65535], [0, 65535], [0, 65535]))
        VipsImage.new).2.1.client = Client.palette read ∧
      read.mono = true ∧
      (rtiff_parse_palette (palette_reader 1 1 ([0, 65535], [0, 65535], [0, 65535]))
        VipsImage.new).2.2.Bands = 1 ∧
      rtiff_palette_line_bit (header_of_bits 1 PHOTOMETRIC_PALETTE 1) read [0xA5] 8 =
        [255, 0, 255, 0, 0, 255, 0, 255] := by
  obtain ⟨read, hclient, hiff, hmono, _⟩ :=
    rtiff_parse_palette_mono_bands (palette_reader 1 1 ([0, 65535], [0, 65535], [0, 65535]))
      VipsImage.new [0, 65535] [0, 65535] [0, 65535] rfl (by decide) [0xA5] 8 1 (by decide)
  have hread : read = palette_read 2 [0, 65535] [0, 65535] [0, 65535] := by
    have h : Client.palette read =
        Client.palette (palette_read 2 [0, 65535] [0, 65535] [0, 65535]) :=
      hclient.symm.trans (by decide)
    exact Client.palette.inj h
  have hm := hiff.2 (by decide)
  refine ⟨read, hclient, hm, (hmono hm).1, ?_⟩
  rw [hread]
  decide

/-! ## Half-precision floats -/

/-- C15: `half_2_float` gives 1.0 for 0x3C00, -2.0 for 0xC000, plus infinity
for 0x7C00 and 2^-24 for 0x0001. -/
theorem half_2_float_values :
    half_2_float 0x3C00 = FloatValue.finite 1 ∧
    half_2_float 0xC000 = FloatValue.finite (-2) ∧
    half_2_float 0x7C00 = FloatValue.infinity false ∧
    half_2_float 0x0001 = FloatValue.finite (1 / 2 ^ 24) := by
  refine ⟨?_, ?_, ?_, ?_⟩
  · have h1 : (0x3C00 % 65536 : Nat) >>> 15 = 0 := by decide
    have h2 : ((0x3C00 % 65536 : Nat) &&& 0x7C00) >>> 10 = 15 := by decide
    have h3 : (0x3C00 % 65536 : Nat) &&& 0x03FF = 0 := by decide
    simp only [half_2_float, h1, h2, h3]
    norm_num [Nat.shiftLeft_eq]
  · have h1 : (0xC000 % 65536 : Nat) >>> 15 = 1 := by decide
    have h2 : ((0xC000 % 65536 : Nat) &&& 0x7C00) >>> 10 = 16 := by decide
    have h3 : (0xC000 % 65536 : Nat) &&& 0x03FF = 0 := by decide
    simp only [half_2_float, h1, h2, h3]
    norm_num [Nat.shiftLeft_eq]
  · have h1 : (0x7C00 % 65536 : Nat) >>> 15 = 0 := by decide
    have h2 : ((0x7C00 % 65536 : Nat) &&& 0x7C00) >>> 10 = 31 := by decide
    have h3 : (0x7C00 % 65536 : Nat) &&& 0x03FF = 0 := by decide
    simp only [half_2_float, h1, h2, h3]
    norm_num [Nat.shiftLeft_eq]
  · have h1 : (0x0001 % 65536 : Nat) >>> 15 = 0 := by decide
    have h2 : ((0x0001 % 65536 : Nat) &&& 0x7C00) >>> 10 = 0 := by decide
    have h3 : (0x0001 % 65536 : Nat) &&& 0x03FF = 1 := by decide
    simp only [half_2_float, h1, h2, h3]
    norm_num [Nat.shiftLeft_eq]

/-! ## The RGBA tile flip -/

theorem swap_row_spec (up down : Nat) (k : Nat) : ∀ (xx : Nat) (buf : Nat → Nat) (j : Nat),
    up + xx + k ≤ down + xx →
    swap_row up down k xx buf j =
      if up + xx ≤ j ∧ j < up + xx + k then buf (j - up + down)
      else if down + xx ≤ j ∧ j < down + xx + k then buf (j - down + up)
      else buf j := by
  induction k with
  | zero =>
    intro xx buf j _
    rw [swap_row]
    split_ifs with h1 h2
    · omega
    · omega
    · rfl
  | succ k ih =>
    intro xx buf j hd
    rw [swap_row]
    rw [ih (xx + 1) _ j (by omega)]
    simp only [Function.update_apply]
    split_ifs <;> first | rfl | omega | (congr 1; omega)

theorem flip_rows_untouched (tw : Nat) (k : Nat) : ∀ (up down : Nat) (buf : Nat → Nat) (j : Nat),
    up + k * tw + k * tw ≤ down + tw →
    (j < up ∨ (up + k * tw ≤ j ∧ j + k * tw < down + tw) ∨ down + tw ≤ j) →
    flip_rows tw k up down buf j = buf j := by
  induction k with
  | zero => intro up down buf j _ _; rw [flip_rows]
  | succ k ih =>
    intro up down buf j hd hj
    have hm : (k + 1) * tw = k * tw + tw := by ring
    rw [hm] at hd hj
    rw [flip_rows, ih (up + tw) (down - tw) _ j (by omega) (by omega),
      swap_row_spec up down tw 0 buf j (by omega)]
    rw [if_neg (by omega), if_neg (by omega)]

theorem flip_rows_up (tw : Nat) (k : Nat) : ∀ (up down : Nat) (buf : Nat → Nat) (i x : Nat),
    up + k * tw + k * tw ≤ down + tw → i < k → x < tw →
    flip_rows tw k up down buf (up + i * tw + x) = buf (down - i * tw + x) := by
  induction k with
  | zero => intro up down buf i x _ hi; omega
  | succ k ih =>
    intro up down buf i x hd hi hx
    have hm : (k + 1) * tw = k * tw + tw := by ring
    rw [hm] at hd
    rw [flip_rows]
    cases i with
    | zero =>
      rw [flip_rows_untouched tw k (up + tw) (down - tw) _ _ (by omega) (by omega),
        swap_row_spec up down tw 0 buf _ (by omega), if_pos (by omega)]
      congr 1
      omega
    | succ i =>
      have hi1 : (i + 1) * tw = i * tw + tw := by ring
      have hle : (i + 1) * tw ≤ k * tw := Nat.mul_le_mul_right _ (by omega)
      rw [hi1] at hle ⊢
      have hidx : up + (i * tw + tw) + x = (up + tw) + i * tw + x := by omega
      rw [hidx, ih (up + tw) (down - tw) _ i x (by omega) (by omega) hx,
        swap_row_spec up down tw 0 buf _ (by omega), if_neg (by omega), if_neg (by omega)]
      congr 1
      omega

theorem flip_rows_down (tw : Nat) (k : Nat) : ∀ (up down : Nat) (buf : Nat → Nat) (i x : Nat),
    up + k * tw + k * tw ≤ down + tw → i < k → x < tw →
    flip_rows tw k up down buf (down - i * tw + x) = buf (up + i * tw + x) := by
  induction k with
  | zero => intro up down buf i x _ hi; omega
  | succ k ih =>
    intro up down buf i x hd hi hx
    have hm : (k + 1) * tw = k * tw + tw := by ring
    rw [hm] at hd
    rw [flip_rows]
    cases i with
    | zero =>
      rw [flip_rows_untouched tw k (up + tw) (down - tw) _ _ (by omega) (by omega),
        swap_row_spec up down tw 0 buf _ (by omega), if_neg (by omega), if_pos (by omega)]
      congr 1
      omega
    | succ i =>
      have hi1 : (i + 1) * tw = i * tw + tw := by ring
      have hle : (i + 1) * tw ≤ k * tw := Nat.mul_le_mul_right _ (by omega)
      rw [hi1] at hle ⊢
      have hidx : down - (i * tw + tw) + x = (down - tw) - i * tw + x := by omega
      rw [hidx, ih (up + tw) (down - tw) _ i x (by omega) (by omega) hx,
        swap_row_spec up down tw 0 buf _ (by omega), if_neg (by omega), if_neg (by omega)]
      congr 1
      omega

theorem flip_rows_zero_width (k : Nat) : ∀ (up down : Nat) (buf : Nat → Nat),
    flip_rows 0 k up down buf = buf := by
  induction k with
  | zero => intro up down buf; rw [flip_rows]
  | succ k ih =>
    intro up down buf
    rw [flip_rows, ih, swap_row]

theorem flip_rows_row (tw th : Nat) (d : Nat → Nat) (y x : Nat) (hy : y < th) (hx : x < tw) :
    flip_rows tw (th / 2) 0 ((th - 1) * tw) d (y * tw + x) = d ((th - 1 - y) * tw + x) := by
  have hk : (th / 2) * tw + (th / 2) * tw ≤ th * tw := by
    rw [← Nat.add_mul]
    exact Nat.mul_le_mul_right _ (by omega)
  have hthm : th * tw = (th - 1) * tw + tw := by
    obtain ⟨t, rfl⟩ : ∃ t, th = t + 1 := ⟨th - 1, by omega⟩
    simp only [Nat.add_sub_cancel]
    ring
  have hd : 0 + (th / 2) * tw + (th / 2) * tw ≤ (th - 1) * tw + tw := by omega
  by_cases h1 : y < th / 2
  · have hidx : y * tw + x = 0 + y * tw + x := by omega
    rw [hidx, flip_rows_up tw (th / 2) 0 ((th - 1) * tw) d y x hd h1 hx, ← Nat.sub_mul]
  · by_cases h2 : th ≤ y + th / 2
    · have hi : th - 1 - y < th / 2 := by omega
      have hyy : th - 1 - (th - 1 - y) = y := by omega
      have hidx : y * tw + x = (th - 1) * tw - (th - 1 - y) * tw + x := by
        rw [← Nat.sub_mul, hyy]
      rw [hidx, flip_rows_down tw (th / 2) 0 ((th - 1) * tw) d (th - 1 - y) x hd hi hx,
        Nat.zero_add]
    · have hyk : y = th / 2 := by omega
      have hself : th - 1 - y = y := by omega
      have hlo : (th / 2) * tw ≤ y * tw := Nat.mul_le_mul_right _ (by omega)
      have hhi : (y + th / 2 + 1) * tw ≤ th * tw := Nat.mul_le_mul_right _ (by omega)
      have hexp : (y + th / 2 + 1) * tw = y * tw + (th / 2) * tw + tw := by ring
      rw [flip_rows_untouched tw (th / 2) 0 ((th - 1) * tw) d _ hd (by omega), hself]

theorem flip_rows_outside (tw th : Nat) (d : Nat → Nat) (j : Nat) (hj : th * tw ≤ j) :
    flip_rows tw (th / 2) 0 ((th - 1) * tw) d j = d j := by
  by_cases h0 : th = 0
  · subst h0
    rfl
  · have hk : (th / 2) * tw + (th / 2) * tw ≤ th * tw := by
      rw [← Nat.add_mul]
      exact Nat.mul_le_mul_right _ (by omega)
    have hthm : th * tw = (th - 1) * tw + tw := by
      obtain ⟨t, rfl⟩ : ∃ t, th = t + 1 := ⟨th - 1, by omega⟩
      simp only [Nat.add_sub_cancel]
      ring
    exact flip_rows_untouched tw (th / 2) 0 ((th - 1) * tw) d j (by omega) (by omega)

theorem rgba_tile_flip_row (header : RtiffHeader) (d : Nat → Nat) (y x : Nat)
    (hy : y < header.tile_height) (hx : x < header.tile_width) :
    rgba_tile_flip header d (y * header.tile_width + x) =
      d ((header.tile_height - 1 - y) * header.tile_width + x) :=
  flip_rows_row header.tile_width header.tile_height d y x hy hx

theorem rgba_tile_flip_outside (header : RtiffHeader) (d : Nat → Nat) (j : Nat)
    (hj : header.tile_height * header.tile_width ≤ j) :
    rgba_tile_flip header d j = d j :=
  flip_rows_outside header.tile_width header.tile_height d j hj

theorem rgba_tile_flip_flip (header : RtiffHeader) (d : Nat → Nat) :
    rgba_tile_flip header (rgba_tile_flip header d) = d := by
  funext j
  by_cases htw : header.tile_width = 0
  · unfold rgba_tile_flip
    simp only [htw, flip_rows_zero_width]
  · have hpos : 0 < header.tile_width := Nat.pos_of_ne_zero htw
    have hx : j % header.tile_width < header.tile_width := Nat.mod_lt _ hpos
    obtain ⟨y, hyv⟩ : ∃ y, y = j / header.tile_width := ⟨_, rfl⟩
    obtain ⟨x, hxv⟩ : ∃ x, x = j % header.tile_width := ⟨_, rfl⟩
    have hj : j = y * header.tile_width + x := by
      rw [hyv, hxv, Nat.mul_comm]
      exact (Nat.div_add_mod j header.tile_width).symm
    rw [← hxv] at hx
    by_cases hy : y < header.tile_height
    · rw [hj, rgba_tile_flip_row header _ _ _ hy hx,
        rgba_tile_flip_row header d _ _ (by omega) hx]
      have : header.tile_height - 1 - (header.tile_height - 1 - y) = y := by omega
      rw [this]
    · have hout : header.tile_height * header.tile_width ≤ j := by
        have : header.tile_height * header.tile_width ≤ y * header.tile_width :=
          Nat.mul_le_mul_right _ (by omega)
        omega
      rw [rgba_tile_flip_outside header _ j hout, rgba_tile_flip_outside header d j hout]

/-- C16: after a successful `rtiff_read_rgba_tile`, the pixel at column `x` of
row `y` of the tile buffer is the pixel the container delivered at column `x`
of row `tile_height - 1 - y`; applying the flip twice gives the delivered
buffer back. -/
theorem rtiff_read_rgba_tile_flips (header : RtiffHeader) (d buf : Nat → Nat) (y x : Nat)
    (hy : y < header.tile_height) (hx : x < header.tile_width) :
    (rtiff_read_rgba_tile header (some d) buf).1 = 0 ∧
    (rtiff_read_rgba_tile header (some d) buf).2 (y * header.tile_width + x) =
      d ((header.tile_height - 1 - y) * header.tile_width + x) ∧
    rgba_tile_flip header (rgba_tile_flip header d) = d :=
  ⟨rfl, rgba_tile_flip_row header d y x hy hx, rgba_tile_flip_flip header d⟩

/-- Witness for C16: a tile of width 2 and height 3 whose delivered pixel at
index `i` is `10 + i`; the second pixel of the first row is the second pixel
of the delivered last row. -/
theorem rtiff_read_rgba_tile_flips_witness :
    (rtiff_read_rgba_tile { RtiffHeader.zero with tile_width := 2, tile_height := 3 }
      (some (fun i => 10 + i)) (fun _ => 0)).2 (0 * 2 + 1) = 15 :=
  (rtiff_read_rgba_tile_flips { RtiffHeader.zero with tile_width := 2, tile_height := 3 }
    (fun i => 10 + i) (fun _ => 0) 0 1 (by decide) (by decide)).2.1

/-! ## The header reader: what an accepted header satisfies -/

theorem header_read_alpha_eq (tags : TiffTags) (header : RtiffHeader) :
    ∃ a, header_read_alpha tags header = { header with alpha_band := a } := by
  unfold header_read_alpha
  have key : ∀ (l : List Nat) (h0 : RtiffHeader),
      ∃ a, l.foldl (fun h i =>
        if tags.extrasamples.getD i 0 = EXTRASAMPLE_ASSOCALPHA then
          { h with alpha_band := h.samples_per_pixel - tags.extrasamples.length + i }
        else h) h0 = { h0 with alpha_band := a } := by
    intro l
    induction l with
    | nil => intro h0; exact ⟨h0.alpha_band, rfl⟩
    | cons i l ih =>
      intro h0
      rw [List.foldl_cons]
      by_cases hc : tags.extrasamples.getD i 0 = EXTRASAMPLE_ASSOCALPHA
      · rw [if_pos hc]
        obtain ⟨a, ha⟩ := ih { h0 with alpha_band := h0.samples_per_pixel -
          tags.extrasamples.length + i }
        exact ⟨a, ha⟩
      · rw [if_neg hc]
        exact ih h0
  obtain ⟨a, ha⟩ := key (List.range tags.extrasamples.length) { header with alpha_band := -1 }
  exact ⟨a, ha⟩

theorem rtiff_header_read_ok (have_jpeg : Bool) (tags : TiffTags) (outer : Option RtiffHeader)
    (junk h : RtiffHeader) (hok : rtiff_header_read have_jpeg tags outer junk = Except.ok h) :
    ∃ h1 h2 a, header_read_tags have_jpeg tags junk = Except.ok h1 ∧
      (if h1.tiled then header_read_tiled tags h1
       else header_read_strips tags (outer.map (fun o => o.scanline_size)) h1) = Except.ok h2 ∧
      h = { h2 with alpha_band := a } := by
  unfold rtiff_header_read at hok
  cases h1eq : header_read_tags have_jpeg tags junk with
  | error e => rw [h1eq] at hok; simp at hok
  | ok h1 =>
    rw [h1eq] at hok
    simp only [] at hok
    cases h2eq : (if h1.tiled then header_read_tiled tags h1
       else header_read_strips tags (outer.map (fun o => o.scanline_size)) h1) with
    | error e => rw [h2eq] at hok; simp at hok
    | ok h2 =>
      rw [h2eq] at hok
      simp only [Except.ok.injEq] at hok
      obtain ⟨a, ha⟩ := header_read_alpha_eq tags h2
      exact ⟨h1, h2, a, rfl, h2eq, by rw [← hok, ha]⟩

theorem header_read_strips_ok (tags : TiffTags) (osz : Option Int) (h1 h2 : RtiffHeader)
    (hok : header_read_strips tags osz h1 = Except.ok h2) :
    ∃ rps, tags.rowsperstrip = some rps ∧
      h2.rows_per_strip = (VIPS_CLIP 1 rps h1.height).toNat ∧
      h2.height = h1.height ∧ h2.width = h1.width ∧ h2.separate = h1.separate ∧
      h2.photometric_interpretation = h1.photometric_interpretation ∧
      h2.read_as_rgba = h1.read_as_rgba ∧ h2.tiled = h1.tiled ∧
      h2.bits_per_sample = h1.bits_per_sample ∧
      h2.samples_per_pixel = h1.samples_per_pixel ∧
      (h2.read_scanlinewise = true ↔
        (128 < h2.rows_per_strip ∧ h2.separate = false ∧
          h2.photometric_interpretation ≠ PHOTOMETRIC_YCBCR ∧ h2.read_as_rgba = false)) ∧
      h2.read_height = (if h2.read_scanlinewise then 1 else h2.rows_per_strip) ∧
      h2.read_size = (if h2.read_scanlinewise then osz.getD h2.scanline_size
                      else h2.strip_size) := by
  cases hr : tags.rowsperstrip with
  | none => simp [header_read_strips, hr] at hok
  | some rps =>
    refine ⟨rps, rfl, ?_⟩
    cases hb : h1.read_as_rgba <;> cases hs : h1.separate <;>
      by_cases hlarge : 128 < (VIPS_CLIP 1 (↑rps) (↑h1.height)).toNat <;>
      by_cases hy : h1.photometric_interpretation = PHOTOMETRIC_YCBCR <;>
      simp [header_read_strips, hr, hb, hs, hlarge, hy] at hok <;>
      subst hok <;>
      simp [hb, hs, hlarge, hy]

theorem header_read_required_ok (tags : TiffTags) (junk h0 : RtiffHeader)
    (hok : header_read_required tags junk = some h0) :
    tags.imagewidth = some h0.width ∧ tags.imagelength = some h0.height ∧
      (∃ spp : Nat, tags.samplesperpixel = some spp ∧ h0.samples_per_pixel = spp) ∧
      (∃ bps : Nat, tags.bitspersample = some bps ∧ h0.bits_per_sample = bps) ∧
      (∃ phot : Nat, tags.photometric = some phot ∧ h0.photometric_interpretation = phot) := by
  unfold header_read_required at hok
  cases hw : tags.imagewidth <;> cases hl : tags.imagelength <;>
    cases hs : tags.samplesperpixel <;> cases hb : tags.bitspersample <;>
    cases hp : tags.photometric <;> cases hi : tags.inkset <;>
    simp only [hw, hl, hs, hb, hp, hi, Option.some.injEq, reduceCtorEq] at hok
  subst hok
  simp

theorem header_read_compression_ok (have_jpeg : Bool) (tags : TiffTags) (h0 h6 : RtiffHeader)
    (hok : header_read_compression have_jpeg tags h0 = Except.ok h6) :
    h6.width = h0.width ∧ h6.height = h0.height ∧
      h6.samples_per_pixel = h0.samples_per_pixel ∧
      h6.bits_per_sample = h0.bits_per_sample ∧
      h6.photometric_interpretation = h0.photometric_interpretation ∧
      h6.compression = tags.compression := by
  unfold header_read_compression at hok
  simp only [] at hok
  split_ifs at hok <;> simp only [Except.ok.injEq, reduceCtorEq] at hok <;> subst hok <;>
    (refine ⟨?_, ?_, ?_, ?_, ?_, ?_⟩ <;> rfl)

theorem header_read_limits_ok (tags : TiffTags) (h6 h1 : RtiffHeader)
    (hok : header_read_limits tags h6 = Except.ok h1) :
    h1.width = h6.width ∧ h1.height = h6.height ∧
      0 < h1.width ∧ h1.width < VIPS_MAX_COORD ∧ 0 < h1.height ∧ h1.height < VIPS_MAX_COORD ∧
      h1.tiled = tags.is_tiled ∧ h1.read_as_rgba = h6.read_as_rgba ∧
      h1.compression = h6.compression ∧
      1 ≤ h1.bits_per_sample ∧ h1.bits_per_sample ≤ 32 ∧
      1 ≤ h1.samples_per_pixel ∧ h1.samples_per_pixel ≤ 10000 ∧
      (h1.read_as_rgba = true → h1.bits_per_sample = 8 ∧ h1.samples_per_pixel = 4) ∧
      (h1.read_as_rgba = false → h1.bits_per_sample = h6.bits_per_sample ∧
        h1.samples_per_pixel = h6.samples_per_pixel ∧
        h1.photometric_interpretation = h6.photometric_interpretation) := by
  unfold header_read_limits at hok
  by_cases hsz : h6.width ≤ 0 ∨ h6.width ≥ VIPS_MAX_COORD ∨
      h6.height ≤ 0 ∨ h6.height ≥ VIPS_MAX_COORD
  · rw [if_pos hsz] at hok
    simp at hok
  · rw [if_neg hsz] at hok
    by_cases hsp : h6.samples_per_pixel ≤ 0 ∨ h6.samples_per_pixel > 10000 ∨
        h6.bits_per_sample ≤ 0 ∨ h6.bits_per_sample > 32
    · rw [if_pos hsp] at hok
      simp at hok
    · rw [if_neg hsp] at hok
      simp only [Except.ok.injEq] at hok
      push_neg at hsz hsp
      cases hr : h6.read_as_rgba <;> cases hsub : tags.subifd <;>
        cases hd : tags.imagedescription <;>
        simp only [hr, hsub, hd, Bool.false_eq_true, if_false, if_true] at hok <;>
        subst hok <;>
        simp only [true_and, and_true, Bool.false_eq_true, false_implies, implies_true,
          reduceCtorEq] <;>
        omega

theorem header_read_tags_ok (have_jpeg : Bool) (tags : TiffTags) (junk h1 : RtiffHeader)
    (hok : header_read_tags have_jpeg tags junk = Except.ok h1) :
    tags.imagewidth = some h1.width ∧ tags.imagelength = some h1.height ∧
      0 < h1.width ∧ h1.width < VIPS_MAX_COORD ∧ 0 < h1.height ∧ h1.height < VIPS_MAX_COORD ∧
      h1.tiled = tags.is_tiled ∧
      1 ≤ h1.bits_per_sample ∧ h1.bits_per_sample ≤ 32 ∧
      1 ≤ h1.samples_per_pixel ∧ h1.samples_per_pixel ≤ 10000 ∧
      (h1.read_as_rgba = true → h1.bits_per_sample = 8 ∧ h1.samples_per_pixel = 4) := by
  unfold header_read_tags at hok
  cases h0eq : header_read_required tags junk with
  | none => rw [h0eq] at hok; simp at hok
  | some h0 =>
    rw [h0eq] at hok
    simp only [] at hok
    cases h6eq : header_read_compression have_jpeg tags h0 with
    | error e => rw [h6eq] at hok; simp at hok
    | ok h6 =>
      rw [h6eq] at hok
      simp only [] at hok
      have hr := header_read_required_ok tags junk h0 h0eq
      have hc := header_read_compression_ok have_jpeg tags h0 h6 h6eq
      have hl := header_read_limits_ok tags h6 h1 hok
      obtain ⟨hw, hh, _⟩ := hr
      obtain ⟨cw, ch, _⟩ := hc
      obtain ⟨lw, lh, l1, l2, l3, l4, l5, _, _, l6, l7, l8, l9, l10, _⟩ := hl
      refine ⟨?_, ?_, l1, l2, l3, l4, l5, l6, l7, l8, l9, l10⟩
      · rw [hw, lw, cw]
      · rw [hh, lh, ch]

theorem header_read_tiled_eval (tags : TiffTags) (h1 : RtiffHeader) (tw tl : Nat)
    (htw : tags.tilewidth = some tw) (htl : tags.tilelength = some tl) :
    (¬ (tile_dimension_in_range
          (min 8192 (VIPS_ROUND_UP (2 * max h1.width h1.height) 256)) tw ∧
        tile_dimension_in_range
          (min 8192 (VIPS_ROUND_UP (2 * max h1.width h1.height) 256)) tl) →
      header_read_tiled tags h1 = Except.error "tile size out of range") ∧
    (tile_dimension_in_range
          (min 8192 (VIPS_ROUND_UP (2 * max h1.width h1.height) 256)) tw →
      tile_dimension_in_range
          (min 8192 (VIPS_ROUND_UP (2 * max h1.width h1.height) 256)) tl →
      tile_bytes_in_range (if h1.read_as_rgba then ((tw * 4 : Nat) : Int) * tl
                           else tags.tile_size) →
      tile_bytes_in_range (if h1.read_as_rgba then ((tw * 4 : Nat) : Int)
                           else tags.tile_row_size) →
      ∃ h2, header_read_tiled tags h1 = Except.ok h2 ∧ h2.tile_width = tw ∧
        h2.tile_height = tl ∧ h2.tiled = h1.tiled ∧
        h2.bits_per_sample = h1.bits_per_sample ∧ h2.read_as_rgba = h1.read_as_rgba ∧
        h2.samples_per_pixel = h1.samples_per_pixel ∧
        h2.photometric_interpretation = h1.photometric_interpretation) := by
  unfold header_read_tiled tile_dimension_in_range tile_bytes_in_range
  rw [htw, htl]
  simp only []
  constructor
  · intro hbad
    rw [if_pos (by omega)]
  · intro h1w h1l hsz hrow
    rw [if_neg (by omega)]
    cases hr : h1.read_as_rgba
    · simp only [hr, Bool.false_eq_true, if_false] at hsz hrow ⊢
      rw [if_neg (by omega)]
      exact ⟨_, rfl, rfl, rfl, rfl, rfl, rfl, rfl, rfl⟩
    · simp only [hr, if_true] at hsz hrow ⊢
      rw [if_neg (by omega)]
      exact ⟨_, rfl, rfl, rfl, rfl, rfl, rfl, rfl, rfl⟩

theorem header_read_tiled_bytes (tags : TiffTags) (h1 : RtiffHeader) (tw tl : Nat)
    (htw : tags.tilewidth = some tw) (htl : tags.tilelength = some tl)
    (h1w : tile_dimension_in_range
          (min 8192 (VIPS_ROUND_UP (2 * max h1.width h1.height) 256)) tw)
    (h1l : tile_dimension_in_range
          (min 8192 (VIPS_ROUND_UP (2 * max h1.width h1.height) 256)) tl)
    (hs : ¬ (tile_bytes_in_range (if h1.read_as_rgba then ((tw * 4 : Nat) : Int) * tl
                           else tags.tile_size) ∧
        tile_bytes_in_range (if h1.read_as_rgba then ((tw * 4 : Nat) : Int)
                           else tags.tile_row_size))) :
    header_read_tiled tags h1 = Except.error "tile size out of range" := by
  unfold header_read_tiled tile_dimension_in_range tile_bytes_in_range at *
  rw [htw, htl]
  simp only []
  rw [if_neg (by omega)]
  cases hr : h1.read_as_rgba
  · simp only [hr, Bool.false_eq_true, if_false] at hs ⊢
    rw [if_pos (by omega)]
  · simp only [hr, if_true] at hs ⊢
    rw [if_pos (by omega)]

theorem header_read_tiled_ok (tags : TiffTags) (h1 h2 : RtiffHeader)
    (hok : header_read_tiled tags h1 = Except.ok h2) :
    h2.tiled = h1.tiled ∧ h2.bits_per_sample = h1.bits_per_sample ∧
      h2.read_as_rgba = h1.read_as_rgba ∧ h2.samples_per_pixel = h1.samples_per_pixel ∧
      h2.photometric_interpretation = h1.photometric_interpretation := by
  cases htw : tags.tilewidth with
  | none => simp [header_read_tiled, htw] at hok
  | some tw =>
    cases htl : tags.tilelength with
    | none => simp [header_read_tiled, htw, htl] at hok
    | some tl =>
      obtain ⟨hbad, hgood⟩ := header_read_tiled_eval tags h1 tw tl htw htl
      by_cases hd : tile_dimension_in_range
          (min 8192 (VIPS_ROUND_UP (2 * max h1.width h1.height) 256)) tw ∧
        tile_dimension_in_range
          (min 8192 (VIPS_ROUND_UP (2 * max h1.width h1.height) 256)) tl
      · by_cases hs : tile_bytes_in_range (if h1.read_as_rgba then ((tw * 4 : Nat) : Int) * tl
                           else tags.tile_size) ∧
            tile_bytes_in_range (if h1.read_as_rgba then ((tw * 4 : Nat) : Int)
                           else tags.tile_row_size)
        · obtain ⟨h3, he, _, _, r1, r2, r3, r4, r5⟩ := hgood hd.1 hd.2 hs.1 hs.2
          rw [he] at hok
          simp only [Except.ok.injEq] at hok
          subst hok
          exact ⟨r1, r2, r3, r4, r5⟩
        · exfalso
          unfold header_read_tiled tile_dimension_in_range tile_bytes_in_range at *
          rw [htw, htl] at hok
          simp only [] at hok
          rw [if_neg (by omega)] at hok
          cases hr : h1.read_as_rgba
          · simp only [hr, Bool.false_eq_true, if_false] at hs hok
            rw [if_pos (by omega)] at hok
            simp at hok
          · simp only [hr, if_true] at hs hok
            rw [if_pos (by omega)] at hok
            simp at hok
      · rw [hbad hd] at hok
        simp at hok

/-- C18 (counterexample): a 64 x 64 tiled directory with tiles of 512 x 512
pixels.  512 is a positive multiple of 16 no larger than
max (8192, round-up (2 * 64, 256)) = 8192 and the tile byte sizes are within
their limit, yet `rtiff_header_read` rejects the directory with
"tile size out of range". -/
theorem tile_512_of_64_rejected :
    tile_dimension_in_range (max 8192 (VIPS_ROUND_UP (2 * max 64 64) 256)) 512 ∧
    tile_bytes_in_range (tiled_tags 64 64 512).tile_size ∧
    tile_bytes_in_range (tiled_tags 64 64 512).tile_row_size ∧
    rtiff_header_read true (tiled_tags 64 64 512) none RtiffHeader.zero =
      Except.error "tile size out of range" := by
  decide

/-- C18 (amended): for a tiled directory of size width x height that passes
the checks before the tile branch, `rtiff_header_read` rejects the directory
with "tile size out of range" unless `tile_width` and `tile_height` are each
a positive multiple of 16 no larger than
min (8192, round-up (2 * max (width, height), 256)); when they are, it
raises the same error if `tile_size` or `tile_row_size` is not positive or
is above 100 MB, and otherwise accepts the directory with these tile
dimensions. -/
theorem rtiff_header_read_tile_limits (have_jpeg : Bool) (tags : TiffTags)
    (outer : Option RtiffHeader) (junk h1 : RtiffHeader) (tw tl : Nat)
    (htags : header_read_tags have_jpeg tags junk = Except.ok h1)
    (htiled : tags.is_tiled = true)
    (htw : tags.tilewidth = some tw) (htl : tags.tilelength = some tl) :
    tags.imagewidth = some h1.width ∧ tags.imagelength = some h1.height ∧
    (¬ (tile_dimension_in_range
          (min 8192 (VIPS_ROUND_UP (2 * max h1.width h1.height) 256)) tw ∧
        tile_dimension_in_range
          (min 8192 (VIPS_ROUND_UP (2 * max h1.width h1.height) 256)) tl) →
      rtiff_header_read have_jpeg tags outer junk = Except.error "tile size out of range") ∧
    (tile_dimension_in_range
          (min 8192 (VIPS_ROUND_UP (2 * max h1.width h1.height) 256)) tw →
      tile_dimension_in_range
          (min 8192 (VIPS_ROUND_UP (2 * max h1.width h1.height) 256)) tl →
      ¬ (tile_bytes_in_range (if h1.read_as_rgba then ((tw * 4 : Nat) : Int) * tl
                              else tags.tile_size) ∧
         tile_bytes_in_range (if h1.read_as_rgba then ((tw * 4 : Nat) : Int)
                              else tags.tile_row_size)) →
      rtiff_header_read have_jpeg tags outer junk = Except.error "tile size out of range") ∧
    (tile_dimension_in_range
          (min 8192 (VIPS_ROUND_UP (2 * max h1.width h1.height) 256)) tw →
      tile_dimension_in_range
          (min 8192 (VIPS_ROUND_UP (2 * max h1.width h1.height) 256)) tl →
      tile_bytes_in_range (if h1.read_as_rgba then ((tw * 4 : Nat) : Int) * tl
                           else tags.tile_size) →
      tile_bytes_in_range (if h1.read_as_rgba then ((tw * 4 : Nat) : Int)
                           else tags.tile_row_size) →
      ∃ h, rtiff_header_read have_jpeg tags outer junk = Except.ok h ∧
        h.tile_width = tw ∧ h.tile_height = tl) := by
  obtain ⟨hw, hh, _, _, _, _, ht, _⟩ := header_read_tags_ok have_jpeg tags junk h1 htags
  obtain ⟨hbad, hgood⟩ := header_read_tiled_eval tags h1 tw tl htw htl
  have ht1 : h1.tiled = true := by rw [ht, htiled]
  refine ⟨hw, hh, ?_, ?_, ?_⟩
  · intro hd
    unfold rtiff_header_read
    rw [htags]
    simp only []
    rw [if_pos ht1, hbad hd]
  · intro h1w h1l hs
    unfold rtiff_header_read
    rw [htags]
    simp only []
    rw [if_pos ht1, header_read_tiled_bytes tags h1 tw tl htw htl h1w h1l hs]
  · intro h1w h1l hsz hrow
    obtain ⟨h2, he, e1, e2, _⟩ := hgood h1w h1l hsz hrow
    obtain ⟨a, ha⟩ := header_read_alpha_eq tags h2
    refine ⟨header_read_alpha tags h2, ?_, ?_, ?_⟩
    · unfold rtiff_header_read
      rw [htags]
      simp only []
      rw [if_pos ht1, he]
    · rw [ha]
      exact e1
    · rw [ha]
      exact e2

set_option maxRecDepth 100000 in
/-- Witness for C18 (amended): a 64 x 64 directory with tiles of 256 x 256,
the bound being min (8192, 256) = 256, is accepted with these tiles. -/
theorem rtiff_header_read_tile_limits_witness :
    ∃ h, rtiff_header_read true (tiled_tags 64 64 256) none RtiffHeader.zero = Except.ok h ∧
      h.tile_width = 256 ∧ h.tile_height = 256 :=
  (rtiff_header_read_tile_limits true (tiled_tags 64 64 256) none RtiffHeader.zero
    ((header_read_tags true (tiled_tags 64 64 256) RtiffHeader.zero).toOption.getD
      RtiffHeader.zero) 256 256 (by decide) rfl rfl rfl).2.2.2.2
    (by decide) (by decide) (by decide) (by decide)

theorem rtiff_header_read_stripped (have_jpeg : Bool) (tags : TiffTags)
    (outer : Option RtiffHeader) (junk h : RtiffHeader)
    (hok : rtiff_header_read have_jpeg tags outer junk = Except.ok h)
    (hstrip : h.tiled = false) :
    ∃ h1 h2 a, header_read_tags have_jpeg tags junk = Except.ok h1 ∧
      header_read_strips tags (outer.map (fun o => o.scanline_size)) h1 = Except.ok h2 ∧
      h = { h2 with alpha_band := a } := by
  obtain ⟨h1, h2, a, e1, e2, e3⟩ := rtiff_header_read_ok have_jpeg tags outer junk h hok
  refine ⟨h1, h2, a, e1, ?_, e3⟩
  cases ht : h1.tiled
  · rw [ht] at e2
    exact e2
  · rw [ht] at e2
    simp only [if_true] at e2
    have := (header_read_tiled_ok tags h1 h2 e2).1
    rw [e3] at hstrip
    simp only [] at hstrip
    rw [this, ht] at hstrip
    exact absurd hstrip (by decide)

/-- C19: for every stripped directory accepted by `rtiff_header_read`,
`rows_per_strip` is the tag value clipped into [1, height];
`read_scanlinewise` is true exactly when the clipped `rows_per_strip` is above
128, the planes are not separate, photometric is not YCBCR and `read_as_rgba`
is false; `read_height` is 1 when `read_scanlinewise` and `rows_per_strip`
otherwise. -/
theorem rtiff_header_read_strip_geometry (have_jpeg : Bool) (tags : TiffTags)
    (outer : Option RtiffHeader) (junk h : RtiffHeader)
    (hok : rtiff_header_read have_jpeg tags outer junk = Except.ok h)
    (hstrip : h.tiled = false) :
    ∃ rps, tags.rowsperstrip = some rps ∧
      (h.rows_per_strip : Int) = VIPS_CLIP 1 rps h.height ∧
      1 ≤ h.rows_per_strip ∧ h.rows_per_strip ≤ h.height ∧
      (h.read_scanlinewise = true ↔
        (128 < h.rows_per_strip ∧ h.separate = false ∧
          h.photometric_interpretation ≠ PHOTOMETRIC_YCBCR ∧ h.read_as_rgba = false)) ∧
      h.read_height = (if h.read_scanlinewise then 1 else h.rows_per_strip) := by
  obtain ⟨h1, h2, a, e1, e2, e3⟩ :=
    rtiff_header_read_stripped have_jpeg tags outer junk h hok hstrip
  obtain ⟨rps, hr, hrows, hh, _, _, _, _, _, _, _, hscan, hheight, _⟩ :=
    header_read_strips_ok tags _ h1 h2 e2
  obtain ⟨_, _, _, _, hpos, _⟩ := header_read_tags_ok have_jpeg tags junk h1 e1
  subst e3
  simp only []
  rw [hh]
  have hclip : (h2.rows_per_strip : Int) = VIPS_CLIP 1 rps h1.height := by
    rw [hrows]
    unfold VIPS_CLIP
    omega
  refine ⟨rps, hr, hclip, ?_, ?_, hscan, hheight⟩
  · unfold VIPS_CLIP at hclip
    omega
  · unfold VIPS_CLIP at hclip
    omega

set_option maxRecDepth 100000 in
/-- Witness for C19: a 4 x 200 directory with one strip of 200 rows is read
scanline by scanline, one row at a time. -/
theorem rtiff_header_read_strip_geometry_witness :
    ∃ rps, (grey_tags 4 200).rowsperstrip = some rps ∧
      ((header_of_tags (grey_tags 4 200)).rows_per_strip : Int) =
        VIPS_CLIP 1 rps (header_of_tags (grey_tags 4 200)).height ∧
      1 ≤ (header_of_tags (grey_tags 4 200)).rows_per_strip ∧
      (header_of_tags (grey_tags 4 200)).rows_per_strip ≤
        (header_of_tags (grey_tags 4 200)).height ∧
      ((header_of_tags (grey_tags 4 200)).read_scanlinewise = true ↔
        (128 < (header_of_tags (grey_tags 4 200)).rows_per_strip ∧
          (header_of_tags (grey_tags 4 200)).separate = false ∧
          (header_of_tags (grey_tags 4 200)).photometric_interpretation ≠ PHOTOMETRIC_YCBCR ∧
          (header_of_tags (grey_tags 4 200)).read_as_rgba = false)) ∧
      (header_of_tags (grey_tags 4 200)).read_height =
        (if (header_of_tags (grey_tags 4 200)).read_scanlinewise then 1
         else (header_of_tags (grey_tags 4 200)).rows_per_strip) :=
  rtiff_header_read_strip_geometry true (grey_tags 4 200) none RtiffHeader.zero
    (header_of_tags (grey_tags 4 200)) (by decide) (by decide)

/-! ## The read size of later pages -/

theorem rtiff_header_read_read_size (have_jpeg : Bool) (tags : TiffTags)
    (outer : Option RtiffHeader) (junk h : RtiffHeader)
    (hok : rtiff_header_read have_jpeg tags outer junk = Except.ok h)
    (hstrip : h.tiled = false) :
    h.read_size =
      (if h.read_scanlinewise then (outer.map (fun o => o.scanline_size)).getD h.scanline_size
       else h.strip_size) := by
  obtain ⟨h1, h2, a, e1, e2, e3⟩ :=
    rtiff_header_read_stripped have_jpeg tags outer junk h hok hstrip
  obtain ⟨rps, _, _, _, _, _, _, _, _, _, _, _, _, hsize⟩ :=
    header_read_strips_ok tags _ h1 h2 e2
  subst e3
  exact hsize

set_option maxRecDepth 100000 in
/-- C20 (failing input): two stripped pages of 200 rows in one strip each, the
first 1 pixel wide (scanline size 1), the second 2 pixels wide (scanline
size 2), read with `n = 2`.  Both headers are read scanline by scanline.  The
header of the first page has `read_size` 1, its own scanline size; the header
read for the second page has scanline size 2 but `read_size` 1, the scanline
size of the first page. -/
theorem later_page_read_size_of_first_page :
    (first_page_header true (rtiff_of_tags [grey_tags 1 200, grey_tags 2 200] 0 2)).map
        (fun h => (h.read_scanlinewise, h.scanline_size, h.read_size)) = some (true, 1, 1) ∧
    ((first_page_header true (rtiff_of_tags [grey_tags 1 200, grey_tags 2 200] 0 2)).bind
        (fun first =>
          later_page_header true RtiffHeader.zero
            (rtiff_of_tags [grey_tags 1 200, grey_tags 2 200] 0 2) first 1)).map
        (fun h => (h.read_scanlinewise, h.scanline_size, h.read_size)) = some (true, 2, 1) := by
  decide

/-! ## Bits per sample of an accepted directory -/

theorem rtiff_header_read_bits (have_jpeg : Bool) (tags : TiffTags)
    (outer : Option RtiffHeader) (junk h : RtiffHeader)
    (hok : rtiff_header_read have_jpeg tags outer junk = Except.ok h) :
    1 ≤ h.bits_per_sample ∧ h.bits_per_sample ≤ 32 ∧
      (h.read_as_rgba = true → h.bits_per_sample = 8) := by
  obtain ⟨h1, h2, a, e1, e2, e3⟩ := rtiff_header_read_ok have_jpeg tags outer junk h hok
  obtain ⟨_, _, _, _, _, _, _, b1, b2, _, _, b3⟩ := header_read_tags_ok have_jpeg tags junk h1 e1
  have hsame : h2.bits_per_sample = h1.bits_per_sample ∧ h2.read_as_rgba = h1.read_as_rgba := by
    cases ht : h1.tiled
    · rw [ht] at e2
      obtain ⟨rps, _, _, _, _, _, _, r, _, b, _⟩ := header_read_strips_ok tags _ h1 h2 e2
      exact ⟨b, r⟩
    · rw [ht] at e2
      simp only [if_true] at e2
      obtain ⟨_, b, r, _⟩ := header_read_tiled_ok tags h1 h2 e2
      exact ⟨b, r⟩
  subst e3
  simp only []
  rw [hsame.1, hsame.2]
  exact ⟨b1, b2, fun hr => (b3 hr).1⟩

theorem rtiff_pick_reader_rgba (h : RtiffHeader)
    (hp : rtiff_pick_reader h = Reader.rtiff_parse_rgba) : h.read_as_rgba = true := by
  unfold rtiff_pick_reader at hp
  cases hr : h.read_as_rgba
  · exfalso
    simp only [hr, Bool.false_eq_true, if_false] at hp
    split_ifs at hp
  · rfl

theorem rtiff_guess_format_bits (h : RtiffHeader)
    (hfmt : rtiff_guess_format h ≠ VipsBandFormat.NOTSET) :
    h.bits_per_sample = 1 ∨ h.bits_per_sample = 2 ∨ h.bits_per_sample = 4 ∨
      h.bits_per_sample = 8 ∨ h.bits_per_sample = 16 ∨ h.bits_per_sample = 32 ∨
      h.bits_per_sample = 64 ∨ h.bits_per_sample = 128 := by
  by_contra hne
  apply hfmt
  push_neg at hne
  unfold rtiff_guess_format
  simp only []
  rw [if_neg (by tauto), if_neg (by tauto), if_neg (by tauto), if_neg (by tauto),
    if_neg (by tauto)]

theorem whole_bytes_bits (rtiff : Rtiff) (hfrac : rtiff_non_fractional rtiff = 0)
    (hfmt : rtiff_guess_format rtiff.header ≠ VipsBandFormat.NOTSET)
    (hle : rtiff.header.bits_per_sample ≤ 32) :
    rtiff.header.bits_per_sample = 8 ∨ rtiff.header.bits_per_sample = 16 ∨
      rtiff.header.bits_per_sample = 32 := by
  unfold rtiff_non_fractional at hfrac
  split_ifs at hfrac with hc
  push_neg at hc
  have hb := rtiff_guess_format_bits rtiff.header hfmt
  rcases hb with hb | hb | hb | hb | hb | hb | hb | hb <;> rw [hb] at hc hle ⊢ <;>
    first | omega | (exfalso; exact absurd hc.1 (by decide))

theorem rtiff_parse_greyscale_ok (rtiff : Rtiff) (out : VipsImage)
    (hok : (rtiff_parse_greyscale rtiff out).1 = 0) :
    1 ≤ rtiff.header.samples_per_pixel ∧ rtiff_non_fractional rtiff = 0 ∧
      rtiff_guess_format rtiff.header ≠ VipsBandFormat.NOTSET ∧
      vips_band_format_iscomplex (rtiff_guess_format rtiff.header) = false := by
  unfold rtiff_parse_greyscale at hok
  by_cases hchk : rtiff_check_min_samples rtiff 1 ≠ 0 ∨ rtiff_non_fractional rtiff ≠ 0
  · rw [if_pos hchk] at hok
    simp at hok
  · rw [if_neg hchk] at hok
    simp only [] at hok
    push_neg at hchk
    by_cases hfmt : rtiff_guess_format rtiff.header = VipsBandFormat.NOTSET
    · rw [if_pos hfmt] at hok
      simp at hok
    · rw [if_neg hfmt] at hok
      have hmin := hchk.1
      unfold rtiff_check_min_samples at hmin
      split_ifs at hmin with hs
      refine ⟨not_lt.mp hs, hchk.2, hfmt, ?_⟩
      unfold vips_check_noncomplex at hok
      simp only [] at hok
      cases hcx : vips_band_format_iscomplex (rtiff_guess_format rtiff.header)
      · rfl
      · rw [hcx] at hok
        simp at hok

theorem rtiff_parse_copy_ok (rtiff : Rtiff) (out : VipsImage)
    (hok : (rtiff_parse_copy rtiff out).1 = 0) :
    rtiff_non_fractional rtiff = 0 ∧
      rtiff_guess_format rtiff.header ≠ VipsBandFormat.NOTSET := by
  constructor
  · by_contra hfrac
    unfold rtiff_parse_copy at hok
    simp only [] at hok
    rw [if_pos hfrac] at hok
    simp at hok
  · intro hfmt
    rw [rtiff_parse_copy_notset rtiff out hfmt] at hok
    simp at hok

set_option maxRecDepth 100000 in
/-- C17 (counterexample): a LOGLUV directory with SGILOG compression, three
samples per pixel and 3 bits per sample is accepted by `rtiff_header_read`
and by the reader `rtiff_pick_reader` selects, the LogLuv reader, which is
neither a bit-expand nor a palette reader; 3 is not one of 1, 2, 4, 8, 16, 32,
64, 128 and not a whole number of bytes. -/
theorem logluv_three_bits_accepted :
    rtiff_header_read true (logluv_tags 3) none RtiffHeader.zero =
      Except.ok (reader_of_tags (logluv_tags 3)).header ∧
    rtiff_pick_reader (reader_of_tags (logluv_tags 3)).header = Reader.rtiff_parse_logluv ∧
    ((rtiff_pick_reader (reader_of_tags (logluv_tags 3)).header).run
      (reader_of_tags (logluv_tags 3)) VipsImage.new).1 = 0 ∧
    (reader_of_tags (logluv_tags 3)).header.bits_per_sample = 3 ∧
    (3 : Int) ∉ [1, 2, 4, 8, 16, 32, 64, 128] ∧ (3 : Int) % 8 ≠ 0 := by
  decide

/-- C17 (amended): whenever `rtiff_header_read` and the reader selected by
`rtiff_pick_reader` both accept a directory, `bits_per_sample` is between 1
and 32; unless the selected reader is the LogLuv reader, which does not check
it, `bits_per_sample` is one of 1, 2, 4, 8, 16, 32, and it is a whole number
of bytes unless a bit-expand or the palette reader was selected. -/
theorem accepted_bits_per_sample (have_jpeg : Bool) (tags : TiffTags)
    (outer : Option RtiffHeader) (junk : RtiffHeader) (rtiff : Rtiff) (out : VipsImage)
    (hok : rtiff_header_read have_jpeg tags outer junk = Except.ok rtiff.header)
    (hrun : ((rtiff_pick_reader rtiff.header).run rtiff out).1 = 0) :
    1 ≤ rtiff.header.bits_per_sample ∧ rtiff.header.bits_per_sample ≤ 32 ∧
    (rtiff_pick_reader rtiff.header ≠ Reader.rtiff_parse_logluv →
      rtiff.header.bits_per_sample ∈ ([1, 2, 4, 8, 16, 32] : List Int) ∧
      (rtiff.header.bits_per_sample % 8 = 0 ∨
        rtiff_pick_reader rtiff.header ∈
          [Reader.rtiff_parse_onebit, Reader.rtiff_parse_twobit,
           Reader.rtiff_parse_fourbit, Reader.rtiff_parse_palette])) := by
  obtain ⟨b1, b2, b3⟩ := rtiff_header_read_bits have_jpeg tags outer junk rtiff.header hok
  refine ⟨b1, b2, ?_⟩
  intro hne
  have hchk : ∀ n : Int, rtiff_check_bits rtiff n = 0 → rtiff.header.bits_per_sample = n := by
    intro n hn
    unfold rtiff_check_bits at hn
    split_ifs at hn with hc
    exact not_not.mp hc
  cases hrd : rtiff_pick_reader rtiff.header <;> rw [hrd] at hrun hne <;>
    simp only [Reader.run] at hrun
  · have hb := b3 (rtiff_pick_reader_rgba rtiff.header hrd)
    rw [hb]
    decide
  · unfold rtiff_parse_lab_with_alpha at hrun
    split_ifs at hrun with hc
    · simp at hrun
    · push_neg at hc
      rw [hchk 8 hc.2.1]
      decide
  · unfold rtiff_parse_labpack at hrun
    split_ifs at hrun with hc
    · simp at hrun
    · push_neg at hc
      rw [hchk 8 hc.2.1]
      decide
  · unfold rtiff_parse_labs at hrun
    split_ifs at hrun with hc
    · simp at hrun
    · push_neg at hc
      rw [hchk 16 hc.2.1]
      decide
  · exact absurd rfl hne
  · unfold rtiff_parse_onebit at hrun
    split_ifs at hrun with hc
    · simp at hrun
    · push_neg at hc
      rw [hchk 1 hc.2]
      decide
  · unfold rtiff_parse_twobit at hrun
    split_ifs at hrun with hc
    · simp at hrun
    · push_neg at hc
      rw [hchk 2 hc.2]
      decide
  · unfold rtiff_parse_fourbit at hrun
    split_ifs at hrun with hc
    · simp at hrun
    · push_neg at hc
      rw [hchk 4 hc.2]
      decide
  · obtain ⟨_, hfrac, hfmt, _⟩ := rtiff_parse_greyscale_ok rtiff out hrun
    rcases whole_bytes_bits rtiff hfrac hfmt b2 with hb | hb | hb <;> rw [hb] <;> decide
  · have hpal : rtiff_check_bits_palette rtiff = 0 := by
      by_contra hbad
      unfold rtiff_parse_palette at hrun
      simp only [] at hrun
      rw [if_pos (Or.inl hbad)] at hrun
      simp at hrun
    unfold rtiff_check_bits_palette at hpal
    split_ifs at hpal with hc
    have hbits : rtiff.header.bits_per_sample = 16 ∨ rtiff.header.bits_per_sample = 8 ∨
        rtiff.header.bits_per_sample = 4 ∨ rtiff.header.bits_per_sample = 2 ∨
        rtiff.header.bits_per_sample = 1 := by
      by_contra hno
      push_neg at hno
      exact hc hno
    rcases hbits with hb | hb | hb | hb | hb <;> rw [hb] <;> decide
  · obtain ⟨hfrac, hfmt⟩ := rtiff_parse_copy_ok rtiff out hrun
    rcases whole_bytes_bits rtiff hfrac hfmt b2 with hb | hb | hb <;> rw [hb] <;> decide

set_option maxRecDepth 100000 in
/-- Witness for C17 (amended): a stripped 8-bit grey directory, accepted by
`rtiff_header_read` and by the greyscale reader. -/
theorem accepted_bits_per_sample_witness :
    (reader_of_tags (grey_tags 4 4)).header.bits_per_sample ∈ ([1, 2, 4, 8, 16, 32] : List Int) :=
  ((accepted_bits_per_sample true (grey_tags 4 4) none RtiffHeader.zero
    (reader_of_tags (grey_tags 4 4)) VipsImage.new (by decide) (by decide)).2.2
      (by decide)).1

/-! ## The greyscale kernel -/

theorem grey_extra_length (f : Nat → GreySample) (p1 : List Nat) (k i : Nat) :
    (grey_extra f p1 k i).length = k := by
  induction k generalizing i with
  | zero => rfl
  | succ k ih => simp [grey_extra, ih]

theorem grey_extra_getD (f : Nat → GreySample) (p1 : List Nat) (k i j : Nat) (hj : j < k)
    (d : GreySample) :
    (grey_extra f p1 k i).getD j d = f (p1.getD (i + j) 0) := by
  induction k generalizing i j with
  | zero => omega
  | succ k ih =>
    cases j with
    | zero => simp [grey_extra]
    | succ j =>
      rw [grey_extra, List.getD_cons_succ, ih (i + 1) j (by omega)]
      have : i + 1 + j = i + (j + 1) := by omega
      rw [this]

theorem grey_pel_length (first copy : Nat → GreySample) (spp : Int) (hspp : 1 ≤ spp)
    (p1 : List Nat) : (grey_pel first copy spp p1).length = spp.toNat := by
  simp [grey_pel, grey_extra_length]
  omega

theorem grey_loop_spec (first copy : Nat → GreySample) (spp : Int) (hspp : 1 ≤ spp)
    (p : List Nat) (n x : Nat) (hx : x < n) (d : GreySample) :
    (grey_loop first copy spp p n).length = n * spp.toNat ∧
    (grey_loop first copy spp p n).getD (x * spp.toNat) d = first (p.getD (x * spp.toNat) 0) ∧
    ∀ i, 1 ≤ i → i < spp.toNat →
      (grey_loop first copy spp p n).getD (x * spp.toNat + i) d =
        copy (p.getD (x * spp.toNat + i) 0) := by
  have hs : ∀ p n, grey_loop first copy spp p (n + 1) =
      grey_pel first copy spp p ++ grey_loop first copy spp (p.drop spp.toNat) n :=
    fun p n => by rw [grey_loop]
  refine ⟨pel_line_length (grey_pel first copy spp) spp.toNat spp.toNat
      (grey_loop first copy spp) (fun p => by rw [grey_loop]) hs
      (grey_pel_length first copy spp hspp) n p, ?_, ?_⟩
  · have h := pel_line_getD (grey_pel first copy spp) spp.toNat spp.toNat
      (grey_loop first copy spp) hs (grey_pel_length first copy spp hspp) d n p x 0 hx
      (by omega)
    rw [Nat.add_zero] at h
    rw [h, grey_pel, List.getD_cons_zero, getD_drop_add, Nat.add_zero]
  · intro i hi1 hi
    obtain ⟨j, rfl⟩ : ∃ j, i = j + 1 := ⟨i - 1, by omega⟩
    rw [pel_line_getD (grey_pel first copy spp) spp.toNat spp.toNat
      (grey_loop first copy spp) hs (grey_pel_length first copy spp hspp) d n p x (j + 1) hx hi,
      grey_pel, List.getD_cons_succ, grey_extra_getD _ _ _ _ _ (by omega), getD_drop_add]
    congr 2
    omega

theorem GREY_LOOP_spec (complement : Nat → GreySample) (invert : Bool) (spp : Int)
    (hspp : 1 ≤ spp) (p : List Nat) (n x : Nat) (hx : x < n) (d : GreySample) :
    (GREY_LOOP complement invert spp p n).length = n * spp.toNat ∧
    (GREY_LOOP complement invert spp p n).getD (x * spp.toNat) d =
      (if invert then complement (p.getD (x * spp.toNat) 0)
       else GreySample.raw (p.getD (x * spp.toNat) 0)) ∧
    ∀ i, 1 ≤ i → i < spp.toNat →
      (GREY_LOOP complement invert spp p n).getD (x * spp.toNat + i) d =
        GreySample.raw (p.getD (x * spp.toNat + i) 0) :=
  grey_loop_spec _ _ spp hspp p n x hx d

theorem GREY_LOOP_F16_spec (invert : Bool) (spp : Int)
    (hspp : 1 ≤ spp) (p : List Nat) (n x : Nat) (hx : x < n) (d : GreySample) :
    (GREY_LOOP_F16 invert spp p n).length = n * spp.toNat ∧
    (GREY_LOOP_F16 invert spp p n).getD (x * spp.toNat) d =
      (if invert then GreySample.float (half_2_float (p.getD (x * spp.toNat) 0)).one_minus
       else GreySample.float (half_2_float (p.getD (x * spp.toNat) 0))) ∧
    ∀ i, 1 ≤ i → i < spp.toNat →
      (GREY_LOOP_F16 invert spp p n).getD (x * spp.toNat + i) d =
        GreySample.float (half_2_float (p.getD (x * spp.toNat + i) 0)) :=
  grey_loop_spec _ _ spp hspp p n x hx d

/-- C12 (amended): for every header accepted by the greyscale reader and
every scanline of `n` pixels, `rtiff_greyscale_line` reaches a handled format
and writes `samples_per_pixel` elements per pixel.  For 16-bit float samples
every band of every pixel is the 32-bit float `half_2_float (p)`.  For every
other format the first band is `MAX - p` (`MAX` = 255, 65535, 2^32 - 1 for
U8, U16, U32) exactly when photometric is MINISWHITE and the element format is
an unsigned integer, and `p` unchanged otherwise; every other band is passed
through unchanged. -/
theorem rtiff_greyscale_line_spec (rtiff : Rtiff) (out : VipsImage)
    (hok : (rtiff_parse_greyscale rtiff out).1 = 0) (p : List Nat) (n x : Nat) (hx : x < n) :
    ∃ q, rtiff_greyscale_line rtiff.header p n = some q ∧
      q.length = n * rtiff.header.samples_per_pixel.toNat ∧
      q.getD (x * rtiff.header.samples_per_pixel.toNat) (GreySample.raw 0) =
        (if rtiff_guess_format rtiff.header = VipsBandFormat.FLOAT ∧
            rtiff.header.bits_per_sample = 16 then
          GreySample.float
            (half_2_float (p.getD (x * rtiff.header.samples_per_pixel.toNat) 0))
         else if rtiff.header.photometric_interpretation = PHOTOMETRIC_MINISWHITE ∧
            vips_band_format_isuint (rtiff_guess_format rtiff.header) = true then
          GreySample.raw (grey_max (rtiff_guess_format rtiff.header) -
            p.getD (x * rtiff.header.samples_per_pixel.toNat) 0)
         else GreySample.raw (p.getD (x * rtiff.header.samples_per_pixel.toNat) 0)) ∧
      ∀ i, 1 ≤ i → i < rtiff.header.samples_per_pixel.toNat →
        q.getD (x * rtiff.header.samples_per_pixel.toNat + i) (GreySample.raw 0) =
          (if rtiff_guess_format rtiff.header = VipsBandFormat.FLOAT ∧
              rtiff.header.bits_per_sample = 16 then
            GreySample.float
              (half_2_float (p.getD (x * rtiff.header.samples_per_pixel.toNat + i) 0))
           else GreySample.raw (p.getD (x * rtiff.header.samples_per_pixel.toNat + i) 0)) := by
  obtain ⟨hspp, _, hfmt, hcx⟩ := rtiff_parse_greyscale_ok rtiff out hok
  unfold rtiff_greyscale_line
  simp only []
  cases hf : rtiff_guess_format rtiff.header
  case NOTSET => exact absurd hf hfmt
  case COMPLEX => rw [hf] at hcx; exact absurd hcx (by decide)
  case DPCOMPLEX => rw [hf] at hcx; exact absurd hcx (by decide)
  case FLOAT =>
    simp only [vips_band_format_isuint, Bool.and_false, true_and, Bool.false_eq_true,
      and_false, if_false]
    by_cases h16 : rtiff.header.bits_per_sample = 16
    · simp only [h16, if_true]
      obtain ⟨h1, h2, h3⟩ := GREY_LOOP_F16_spec false rtiff.header.samples_per_pixel hspp
        p n x hx (GreySample.raw 0)
      exact ⟨_, rfl, h1, h2, h3⟩
    · simp only [h16, if_false]
      obtain ⟨h1, h2, h3⟩ := GREY_LOOP_spec GreySample.one_minus false
        rtiff.header.samples_per_pixel hspp p n x hx (GreySample.raw 0)
      exact ⟨_, rfl, h1, h2, h3⟩
  case DOUBLE =>
    simp only [vips_band_format_isuint, Bool.and_false, reduceCtorEq, false_and,
      Bool.false_eq_true, and_false, if_false]
    obtain ⟨h1, h2, h3⟩ := GREY_LOOP_spec GreySample.one_minus false
      rtiff.header.samples_per_pixel hspp p n x hx (GreySample.raw 0)
    exact ⟨_, rfl, h1, h2, h3⟩
  case CHAR =>
    simp only [vips_band_format_isuint, Bool.and_false, reduceCtorEq, false_and,
      Bool.false_eq_true, and_false, if_false]
    obtain ⟨h1, h2, h3⟩ := GREY_LOOP_spec (signed_complement 8) false
      rtiff.header.samples_per_pixel hspp p n x hx (GreySample.raw 0)
    exact ⟨_, rfl, h1, h2, h3⟩
  case SHORT =>
    simp only [vips_band_format_isuint, Bool.and_false, reduceCtorEq, false_and,
      Bool.false_eq_true, and_false, if_false]
    obtain ⟨h1, h2, h3⟩ := GREY_LOOP_spec (signed_complement 16) false
      rtiff.header.samples_per_pixel hspp p n x hx (GreySample.raw 0)
    exact ⟨_, rfl, h1, h2, h3⟩
  case INT =>
    simp only [vips_band_format_isuint, Bool.and_false, reduceCtorEq, false_and,
      Bool.false_eq_true, and_false, if_false]
    obtain ⟨h1, h2, h3⟩ := GREY_LOOP_spec (signed_complement 32) false
      rtiff.header.samples_per_pixel hspp p n x hx (GreySample.raw 0)
    exact ⟨_, rfl, h1, h2, h3⟩
  case UCHAR =>
    simp only [vips_band_format_isuint, Bool.and_true, reduceCtorEq, false_and, if_false,
      and_true]
    obtain ⟨h1, h2, h3⟩ := GREY_LOOP_spec (unsigned_complement 255)
      (decide (rtiff.header.photometric_interpretation = PHOTOMETRIC_MINISWHITE))
      rtiff.header.samples_per_pixel hspp p n x hx (GreySample.raw 0)
    refine ⟨_, rfl, h1, ?_, h3⟩
    rw [h2]
    by_cases hw : rtiff.header.photometric_interpretation = PHOTOMETRIC_MINISWHITE
    · simp [hw, unsigned_complement, grey_max]
    · simp [hw]
  case USHORT =>
    simp only [vips_band_format_isuint, Bool.and_true, reduceCtorEq, false_and, if_false,
      and_true]
    obtain ⟨h1, h2, h3⟩ := GREY_LOOP_spec (unsigned_complement 65535)
      (decide (rtiff.header.photometric_interpretation = PHOTOMETRIC_MINISWHITE))
      rtiff.header.samples_per_pixel hspp p n x hx (GreySample.raw 0)
    refine ⟨_, rfl, h1, ?_, h3⟩
    rw [h2]
    by_cases hw : rtiff.header.photometric_interpretation = PHOTOMETRIC_MINISWHITE
    · simp [hw, unsigned_complement, grey_max]
    · simp [hw]
  case UINT =>
    simp only [vips_band_format_isuint, Bool.and_true, reduceCtorEq, false_and, if_false,
      and_true]
    obtain ⟨h1, h2, h3⟩ := GREY_LOOP_spec (unsigned_complement 4294967295)
      (decide (rtiff.header.photometric_interpretation = PHOTOMETRIC_MINISWHITE))
      rtiff.header.samples_per_pixel hspp p n x hx (GreySample.raw 0)
    refine ⟨_, rfl, h1, ?_, h3⟩
    rw [h2]
    by_cases hw : rtiff.header.photometric_interpretation = PHOTOMETRIC_MINISWHITE
    · simp [hw, unsigned_complement, grey_max]
    · simp [hw]

theorem half_2_float_infinities :
    half_2_float 0x7C00 = FloatValue.infinity false ∧
    half_2_float 0x7E00 = FloatValue.infinity false := by
  constructor
  · have h1 : (0x7C00 % 65536 : Nat) >>> 15 = 0 := by decide
    have h2 : ((0x7C00 % 65536 : Nat) &&& 0x7C00) >>> 10 = 31 := by decide
    simp only [half_2_float, h1, h2]
    norm_num
  · have h1 : (0x7E00 % 65536 : Nat) >>> 15 = 0 := by decide
    have h2 : ((0x7E00 % 65536 : Nat) &&& 0x7C00) >>> 10 = 31 := by decide
    simp only [half_2_float, h1, h2]
    norm_num

set_option maxRecDepth 100000 in
/-- C12 (counterexample): a two-band 16-bit float header with photometric
MINISBLACK is accepted by the greyscale reader; on the pixel with the source
samples 0x7C00 and 0x7E00 the kernel writes the 32-bit float plus infinity in
both bands, so two different samples give the same output and neither is
passed through unchanged. -/
theorem rtiff_greyscale_line_half_not_unchanged :
    (rtiff_parse_greyscale
      (reader_with_header (grey_header 16 SAMPLEFORMAT_IEEEFP PHOTOMETRIC_MINISBLACK 2))
      VipsImage.new).1 = 0 ∧
    rtiff_greyscale_line (grey_header 16 SAMPLEFORMAT_IEEEFP PHOTOMETRIC_MINISBLACK 2)
        [0x7C00, 0x7E00] 1 =
      some [GreySample.float (FloatValue.infinity false),
            GreySample.float (FloatValue.infinity false)] ∧
    GreySample.float (FloatValue.infinity false) ≠ GreySample.raw 0x7C00 ∧
    GreySample.float (FloatValue.infinity false) ≠ GreySample.raw 0x7E00 := by
  refine ⟨by decide, ?_, by decide, by decide⟩
  have hf : rtiff_guess_format (grey_header 16 SAMPLEFORMAT_IEEEFP PHOTOMETRIC_MINISBLACK 2) =
      VipsBandFormat.FLOAT := by decide
  have hb : (grey_header 16 SAMPLEFORMAT_IEEEFP PHOTOMETRIC_MINISBLACK 2).bits_per_sample = 16 :=
    rfl
  have hs : (grey_header 16 SAMPLEFORMAT_IEEEFP PHOTOMETRIC_MINISBLACK 2).samples_per_pixel = 2 :=
    rfl
  unfold rtiff_greyscale_line
  simp only [hf, hb, hs, if_true, vips_band_format_isuint, Bool.and_false]
  simp only [GREY_LOOP_F16, grey_loop, grey_pel, grey_extra, Bool.false_eq_true, if_false,
    List.getD_cons_zero, List.getD_cons_succ, List.append_nil, List.cons_append,
    List.nil_append, half_2_float_infinities.1, half_2_float_infinities.2]

set_option maxRecDepth 100000 in
/-- Witness for C12 (amended): an 8-bit unsigned MINISWHITE header with two
bands; the second pixel (200, 9) is written as (55, 9). -/
theorem rtiff_greyscale_line_spec_witness :
    ∃ q, rtiff_greyscale_line (grey_header 8 SAMPLEFORMAT_UINT PHOTOMETRIC_MINISWHITE 2)
        [10, 7, 200, 9] 2 = some q ∧
      q.getD (1 * 2) (GreySample.raw 0) = GreySample.raw 55 ∧
      q.getD (1 * 2 + 1) (GreySample.raw 0) = GreySample.raw 9 := by
  obtain ⟨q, hq, _, h1, h2⟩ := rtiff_greyscale_line_spec
    (reader_with_header (grey_header 8 SAMPLEFORMAT_UINT PHOTOMETRIC_MINISWHITE 2))
    VipsImage.new (by decide) [10, 7, 200, 9] 2 1 (by decide)
  exact ⟨q, hq, h1.trans (by decide), (h2 1 (by decide) (by decide)).trans (by decide)⟩

/-! ## The header reader: flags set from the compression -/

theorem header_read_tiled_core (tags : TiffTags) (h1 h2 : RtiffHeader)
    (hok : header_read_tiled tags h1 = Except.ok h2) :
    header_core_fields h2 = header_core_fields h1 := by
  cases htw : tags.tilewidth with
  | none => simp [header_read_tiled, htw] at hok
  | some tw =>
    cases htl : tags.tilelength with
    | none => simp [header_read_tiled, htw, htl] at hok
    | some tl =>
      cases hr : h1.read_as_rgba <;>
        simp only [header_read_tiled, htw, htl, hr, Bool.false_eq_true, if_false, if_true]
          at hok <;>
        split_ifs at hok <;>
        simp only [Except.ok.injEq, reduceCtorEq] at hok <;>
        subst hok <;>
        simp [header_core_fields, hr]

theorem header_read_strips_core (tags : TiffTags) (osz : Option Int) (h1 h2 : RtiffHeader)
    (hok : header_read_strips tags osz h1 = Except.ok h2) :
    header_core_fields h2 = header_core_fields h1 := by
  cases hr : tags.rowsperstrip with
  | none => simp [header_read_strips, hr] at hok
  | some rps =>
    cases hb : h1.read_as_rgba <;>
      simp only [header_read_strips, hr, hb, Bool.false_eq_true, if_false, if_true] at hok <;>
      split_ifs at hok <;>
      simp only [Except.ok.injEq, reduceCtorEq] at hok <;>
      subst hok <;>
      simp [header_core_fields, hb]

theorem rtiff_header_read_core (have_jpeg : Bool) (tags : TiffTags)
    (outer : Option RtiffHeader) (junk h : RtiffHeader)
    (hok : rtiff_header_read have_jpeg tags outer junk = Except.ok h) :
    ∃ h1, header_read_tags have_jpeg tags junk = Except.ok h1 ∧
      header_core_fields h = header_core_fields h1 := by
  obtain ⟨h1, h2, a, e1, e2, e3⟩ := rtiff_header_read_ok have_jpeg tags outer junk h hok
  refine ⟨h1, e1, ?_⟩
  have h21 : header_core_fields h2 = header_core_fields h1 := by
    cases ht : h1.tiled
    · rw [ht] at e2
      exact header_read_strips_core tags _ h1 h2 e2
    · rw [ht] at e2
      exact header_read_tiled_core tags h1 h2 e2
  rw [e3, ← h21]
  rfl

set_option maxHeartbeats 1000000 in
theorem header_read_compression_flags (have_jpeg : Bool) (tags : TiffTags)
    (h0 h6 : RtiffHeader)
    (hok : header_read_compression have_jpeg tags h0 = Except.ok h6) :
    (h6.read_as_rgba = true ↔
      (tags.compression = COMPRESSION_OJPEG ∨
        (tags.compression ≠ COMPRESSION_JPEG ∧
          h0.photometric_interpretation = PHOTOMETRIC_YCBCR ∧
          (tags.ycbcrsubsampling.1 ≠ 1 ∨ tags.ycbcrsubsampling.2 ≠ 1)))) ∧
    (h6.read_as_rgba = true → can_read_as_rgba h0 = true) ∧
    h6.we_decompress =
      (decide (tags.compression ∈ rtiff_we_decompress have_jpeg) || h0.we_decompress) := by
  have hcan_eq : can_read_as_rgba { h0 with read_as_rgba := false } = can_read_as_rgba h0 := rfl
  unfold header_read_compression at hok
  simp only [hcan_eq] at hok
  clear hcan_eq
  split_ifs at hok
  all_goals simp only [Except.ok.injEq] at hok
  all_goals subst hok
  all_goals simp only [Bool.not_true, Bool.not_false, Bool.false_and, Bool.true_and,
    Bool.and_eq_true, decide_eq_true_eq, Bool.false_eq_true, false_and, and_false, true_and,
    not_false_eq_true, not_true_eq_false, ne_eq, not_and, not_or, Bool.decide_eq_true,
    Bool.not_eq_false] at *
  all_goals (refine ⟨?_, ?_, ?_⟩ <;> simp_all)

theorem header_read_limits_flags (tags : TiffTags) (h6 h1 : RtiffHeader)
    (hok : header_read_limits tags h6 = Except.ok h1) :
    h1.read_as_rgba = h6.read_as_rgba ∧
    (h6.read_as_rgba = true →
      h1.we_decompress = false ∧ h1.photometric_interpretation = PHOTOMETRIC_RGB ∧
      h1.samples_per_pixel = 4 ∧ h1.bits_per_sample = 8 ∧
      h1.sample_format = SAMPLEFORMAT_UINT ∧ h1.separate = false) ∧
    (h6.read_as_rgba = false → h1.we_decompress = h6.we_decompress) := by
  unfold header_read_limits at hok
  by_cases hsz : h6.width ≤ 0 ∨ h6.width ≥ VIPS_MAX_COORD ∨
      h6.height ≤ 0 ∨ h6.height ≥ VIPS_MAX_COORD
  · rw [if_pos hsz] at hok
    simp at hok
  · rw [if_neg hsz] at hok
    by_cases hsp : h6.samples_per_pixel ≤ 0 ∨ h6.samples_per_pixel > 10000 ∨
        h6.bits_per_sample ≤ 0 ∨ h6.bits_per_sample > 32
    · rw [if_pos hsp] at hok
      simp at hok
    · rw [if_neg hsp] at hok
      simp only [Except.ok.injEq] at hok
      cases hr : h6.read_as_rgba <;> cases hsub : tags.subifd <;>
        cases hd : tags.imagedescription <;>
        simp only [hr, hsub, hd, Bool.false_eq_true, if_false, if_true] at hok <;>
        subst hok <;>
        simp

theorem header_read_tags_flags (have_jpeg : Bool) (tags : TiffTags) (junk h1 : RtiffHeader)
    (hok : header_read_tags have_jpeg tags junk = Except.ok h1) :
    ∃ h0, header_read_required tags junk = some h0 ∧
      (h1.read_as_rgba = true ↔
        (tags.compression = COMPRESSION_OJPEG ∨
          (tags.compression ≠ COMPRESSION_JPEG ∧
            h0.photometric_interpretation = PHOTOMETRIC_YCBCR ∧
            (tags.ycbcrsubsampling.1 ≠ 1 ∨ tags.ycbcrsubsampling.2 ≠ 1)))) ∧
      (h1.read_as_rgba = true →
        can_read_as_rgba h0 = true ∧
        h1.we_decompress = false ∧ h1.photometric_interpretation = PHOTOMETRIC_RGB ∧
        h1.samples_per_pixel = 4 ∧ h1.bits_per_sample = 8 ∧
        h1.sample_format = SAMPLEFORMAT_UINT ∧ h1.separate = false) ∧
      (h1.read_as_rgba = false →
        h1.we_decompress =
          (decide (tags.compression ∈ rtiff_we_decompress have_jpeg) || junk.we_decompress)) := by
  unfold header_read_tags at hok
  cases h0eq : header_read_required tags junk with
  | none => rw [h0eq] at hok; simp at hok
  | some h0 =>
    rw [h0eq] at hok
    simp only [] at hok
    cases h6eq : header_read_compression have_jpeg tags h0 with
    | error e => rw [h6eq] at hok; simp at hok
    | ok h6 =>
      rw [h6eq] at hok
      simp only [] at hok
      obtain ⟨c1, c2, c3⟩ := header_read_compression_flags have_jpeg tags h0 h6 h6eq
      obtain ⟨l1, l2, l3⟩ := header_read_limits_flags tags h6 h1 hok
      have hjunk : h0.we_decompress = junk.we_decompress := by
        unfold header_read_required at h0eq
        cases hw : tags.imagewidth <;> cases hl : tags.imagelength <;>
          cases hs : tags.samplesperpixel <;> cases hb : tags.bitspersample <;>
          cases hp : tags.photometric <;> cases hi : tags.inkset <;>
          simp only [hw, hl, hs, hb, hp, hi, Option.some.injEq, reduceCtorEq] at h0eq
        subst h0eq
        rfl
      refine ⟨h0, rfl, ?_, ?_, ?_⟩
      · rw [l1]
        exact c1
      · intro hr
        rw [l1] at hr
        exact ⟨c2 hr, l2 hr⟩
      · intro hr
        rw [l1] at hr
        rw [l3 hr, c3, hjunk]

/-- C21 (counterexample): a YCbCr directory with JP2K_YCC compression and
2 x 2 chroma subsampling is accepted (through the RGBA path) by
`rtiff_header_read` on the zero-initialised header; its compression is one of
those the reader decompresses, yet `we_decompress` is false. -/
theorem jp2k_subsampled_not_we_decompress :
    rtiff_header_read true (ycbcr_tags JP2K_YCC (2, 2)) none RtiffHeader.zero =
      Except.ok (header_of_tags (ycbcr_tags JP2K_YCC (2, 2))) ∧
    (ycbcr_tags JP2K_YCC (2, 2)).compression = JP2K_YCC ∧
    (header_of_tags (ycbcr_tags JP2K_YCC (2, 2))).read_as_rgba = true ∧
    (header_of_tags (ycbcr_tags JP2K_YCC (2, 2))).we_decompress = false := by
  decide

/-- C21 (amended): after `rtiff_header_read` succeeds on a header whose
`we_decompress` was false before (as in the reader's zero-initialised
header), `we_decompress` is true if and only if the header is not read as
RGBA and the compression tag is JPEG (when the JPEG engine is built in),
JP2K_YCC, JP2K_RGB or JP2K_LOSSY. -/
theorem rtiff_header_read_we_decompress (have_jpeg : Bool) (tags : TiffTags)
    (outer : Option RtiffHeader) (junk h : RtiffHeader)
    (hjunk : junk.we_decompress = false)
    (hok : rtiff_header_read have_jpeg tags outer junk = Except.ok h) :
    h.we_decompress = true ↔
      (h.read_as_rgba = false ∧
        ((have_jpeg = true ∧ tags.compression = COMPRESSION_JPEG) ∨
          tags.compression = JP2K_YCC ∨ tags.compression = JP2K_RGB ∨
          tags.compression = JP2K_LOSSY)) := by
  obtain ⟨h1, e1, hcore⟩ := rtiff_header_read_core have_jpeg tags outer junk h hok
  obtain ⟨h0, _, _, f2, f3⟩ := header_read_tags_flags have_jpeg tags junk h1 e1
  have hwe : h.we_decompress = h1.we_decompress := congrArg (fun t => t.1) hcore
  have hrg : h.read_as_rgba = h1.read_as_rgba := congrArg (fun t => t.2.1) hcore
  rw [hwe, hrg]
  have htab : tags.compression ∈ rtiff_we_decompress have_jpeg ↔
      ((have_jpeg = true ∧ tags.compression = COMPRESSION_JPEG) ∨
        tags.compression = JP2K_YCC ∨ tags.compression = JP2K_RGB ∨
        tags.compression = JP2K_LOSSY) := by
    unfold rtiff_we_decompress
    cases have_jpeg <;> simp
  cases hr : h1.read_as_rgba
  · rw [f3 hr, hjunk, Bool.or_false, decide_eq_true_eq, htab]
    simp
  · rw [(f2 hr).2.1]
    simp

set_option maxRecDepth 100000 in
/-- Witness for C21 (amended): a YCbCr directory with JP2K_YCC compression
and no chroma subsampling has `we_decompress` true. -/
theorem rtiff_header_read_we_decompress_witness :
    (header_of_tags (ycbcr_tags JP2K_YCC (1, 1))).we_decompress = true :=
  (rtiff_header_read_we_decompress true (ycbcr_tags JP2K_YCC (1, 1)) none RtiffHeader.zero
    (header_of_tags (ycbcr_tags JP2K_YCC (1, 1))) rfl (by decide)).2
    ⟨by decide, Or.inr (Or.inl rfl)⟩

/-- C22: whenever `rtiff_header_read` succeeds with `read_as_rgba` set, the
header it returns reports photometric RGB, 4 samples per pixel, 8 bits per
sample, sample format UINT, not planar-separate and `we_decompress` false. -/
theorem rtiff_header_read_rgba_rewrite (have_jpeg : Bool) (tags : TiffTags)
    (outer : Option RtiffHeader) (junk h : RtiffHeader)
    (hok : rtiff_header_read have_jpeg tags outer junk = Except.ok h)
    (hrgba : h.read_as_rgba = true) :
    h.photometric_interpretation = PHOTOMETRIC_RGB ∧ h.samples_per_pixel = 4 ∧
      h.bits_per_sample = 8 ∧ h.sample_format = SAMPLEFORMAT_UINT ∧ h.separate = false ∧
      h.we_decompress = false := by
  obtain ⟨h1, e1, hcore⟩ := rtiff_header_read_core have_jpeg tags outer junk h hok
  obtain ⟨h0, _, _, f2, _⟩ := header_read_tags_flags have_jpeg tags junk h1 e1
  unfold header_core_fields at hcore
  simp only [Prod.mk.injEq] at hcore
  obtain ⟨c1, c2, c3, c4, c5, c6, c7, _⟩ := hcore
  rw [c2] at hrgba
  obtain ⟨_, g1, g2, g3, g4, g5, g6⟩ := f2 hrgba
  rw [c1, c3, c4, c5, c6, c7]
  exact ⟨g2, g3, g4, g5, g6, g1⟩

set_option maxRecDepth 100000 in
/-- Witness for C22: an old-style JPEG directory with YCbCr photometric and
three samples per pixel is rewritten to four 8-bit RGB samples. -/
theorem rtiff_header_read_rgba_rewrite_witness :
    (header_of_tags (ycbcr_tags COMPRESSION_OJPEG (2, 2))).photometric_interpretation =
        PHOTOMETRIC_RGB ∧
      (header_of_tags (ycbcr_tags COMPRESSION_OJPEG (2, 2))).samples_per_pixel = 4 ∧
      (header_of_tags (ycbcr_tags COMPRESSION_OJPEG (2, 2))).bits_per_sample = 8 ∧
      (header_of_tags (ycbcr_tags COMPRESSION_OJPEG (2, 2))).sample_format =
        SAMPLEFORMAT_UINT ∧
      (header_of_tags (ycbcr_tags COMPRESSION_OJPEG (2, 2))).separate = false ∧
      (header_of_tags (ycbcr_tags COMPRESSION_OJPEG (2, 2))).we_decompress = false :=
  rtiff_header_read_rgba_rewrite true (ycbcr_tags COMPRESSION_OJPEG (2, 2)) none
    RtiffHeader.zero (header_of_tags (ycbcr_tags COMPRESSION_OJPEG (2, 2)))
    (by decide) (by decide)

/-! ## Subsampled YCbCr -/

theorem can_read_as_rgba_iff (h : RtiffHeader) :
    can_read_as_rgba h = true ↔
      ((h.samples_per_pixel = 1 ∨ h.samples_per_pixel = 3 ∨ h.samples_per_pixel = 4) ∧
        (h.bits_per_sample = 1 ∨ h.bits_per_sample = 2 ∨ h.bits_per_sample = 4 ∨
          h.bits_per_sample = 8 ∨ h.bits_per_sample = 16)) := by
  unfold can_read_as_rgba
  rw [decide_eq_true_eq]

set_option maxHeartbeats 1000000 in
theorem header_read_compression_subsampled (have_jpeg : Bool) (tags : TiffTags)
    (h0 : RtiffHeader)
    (hy : h0.photometric_interpretation = PHOTOMETRIC_YCBCR)
    (hj : tags.compression ≠ COMPRESSION_JPEG)
    (hs : tags.ycbcrsubsampling.1 ≠ 1 ∨ tags.ycbcrsubsampling.2 ≠ 1) :
    (can_read_as_rgba h0 = true →
      ∃ h6, header_read_compression have_jpeg tags h0 = Except.ok h6 ∧
        h6.read_as_rgba = true) ∧
    (can_read_as_rgba h0 = false →
      header_read_compression have_jpeg tags h0 =
          Except.error "subsampled images not supported" ∨
        header_read_compression have_jpeg tags h0 =
          Except.error "unsupported tiff image type") := by
  have hcan_eq : can_read_as_rgba { h0 with read_as_rgba := false } = can_read_as_rgba h0 := rfl
  have hlog : h0.photometric_interpretation ≠ PHOTOMETRIC_LOGLUV := by
    rw [hy]
    decide
  have hyl : ¬ (PHOTOMETRIC_YCBCR = PHOTOMETRIC_LOGLUV) := by decide
  have hoj_tab : COMPRESSION_OJPEG ∉ rtiff_we_decompress have_jpeg := by
    cases have_jpeg <;> decide
  constructor
  · intro hcan
    unfold header_read_compression
    simp only [hcan_eq, hcan]
    by_cases hoj : tags.compression = COMPRESSION_OJPEG
    · simp [hoj, hoj_tab, hy, hyl]
    · by_cases htab : tags.compression ∈ rtiff_we_decompress have_jpeg <;>
        simp [hoj, htab, hj, hy, hs, hyl]
  · intro hcan
    unfold header_read_compression
    simp only [hcan_eq, hcan]
    by_cases hoj : tags.compression = COMPRESSION_OJPEG
    · simp [hoj]
    · by_cases htab : tags.compression ∈ rtiff_we_decompress have_jpeg <;>
        simp [hoj, htab, hj, hy, hs, hyl]

/-- C23: for every directory with the required tags, photometric YCBCR,
compression other than JPEG and a horizontal or vertical chroma subsampling
factor other than 1: when `samples_per_pixel` is 1, 3 or 4 and
`bits_per_sample` is 1, 2, 4, 8 or 16 the compression stage of
`rtiff_header_read` sets `read_as_rgba`; otherwise `rtiff_header_read` fails
with "subsampled images not supported" (or, for old-style JPEG,
"unsupported tiff image type").  Every header `rtiff_header_read` accepts for
such a directory has `read_as_rgba` set and is routed to the RGBA reader. -/
theorem rtiff_header_read_subsampled (have_jpeg : Bool) (tags : TiffTags)
    (outer : Option RtiffHeader) (junk h0 : RtiffHeader)
    (hreq : header_read_required tags junk = some h0)
    (hy : h0.photometric_interpretation = PHOTOMETRIC_YCBCR)
    (hj : tags.compression ≠ COMPRESSION_JPEG)
    (hs : tags.ycbcrsubsampling.1 ≠ 1 ∨ tags.ycbcrsubsampling.2 ≠ 1) :
    (((h0.samples_per_pixel = 1 ∨ h0.samples_per_pixel = 3 ∨ h0.samples_per_pixel = 4) ∧
        (h0.bits_per_sample = 1 ∨ h0.bits_per_sample = 2 ∨ h0.bits_per_sample = 4 ∨
          h0.bits_per_sample = 8 ∨ h0.bits_per_sample = 16)) →
      ∃ h6, header_read_compression have_jpeg tags h0 = Except.ok h6 ∧
        h6.read_as_rgba = true) ∧
    (¬ ((h0.samples_per_pixel = 1 ∨ h0.samples_per_pixel = 3 ∨ h0.samples_per_pixel = 4) ∧
        (h0.bits_per_sample = 1 ∨ h0.bits_per_sample = 2 ∨ h0.bits_per_sample = 4 ∨
          h0.bits_per_sample = 8 ∨ h0.bits_per_sample = 16)) →
      rtiff_header_read have_jpeg tags outer junk =
          Except.error "subsampled images not supported" ∨
        rtiff_header_read have_jpeg tags outer junk =
          Except.error "unsupported tiff image type") ∧
    (∀ h, rtiff_header_read have_jpeg tags outer junk = Except.ok h →
      h.read_as_rgba = true ∧ rtiff_pick_reader h = Reader.rtiff_parse_rgba ∧
      ((h0.samples_per_pixel = 1 ∨ h0.samples_per_pixel = 3 ∨ h0.samples_per_pixel = 4) ∧
        (h0.bits_per_sample = 1 ∨ h0.bits_per_sample = 2 ∨ h0.bits_per_sample = 4 ∨
          h0.bits_per_sample = 8 ∨ h0.bits_per_sample = 16))) := by
  obtain ⟨hyes, hno⟩ := header_read_compression_subsampled have_jpeg tags h0 hy hj hs
  refine ⟨fun hshape => hyes ((can_read_as_rgba_iff h0).2 hshape), ?_, ?_⟩
  · intro hshape
    have hcan : can_read_as_rgba h0 = false := by
      cases hc : can_read_as_rgba h0
      · rfl
      · exact absurd ((can_read_as_rgba_iff h0).1 hc) hshape
    unfold rtiff_header_read header_read_tags
    rw [hreq]
    simp only []
    rcases hno hcan with he | he
    · left
      rw [he]
    · right
      rw [he]
  · intro h hok
    obtain ⟨h1, e1, hcore⟩ := rtiff_header_read_core have_jpeg tags outer junk h hok
    obtain ⟨h0b, e0, f1, f2, _⟩ := header_read_tags_flags have_jpeg tags junk h1 e1
    rw [hreq] at e0
    simp only [Option.some.injEq] at e0
    subst e0
    have hrg : h.read_as_rgba = h1.read_as_rgba := congrArg (fun t => t.2.1) hcore
    have hr1 : h1.read_as_rgba = true := f1.2 (Or.inr ⟨hj, hy, hs⟩)
    have hr : h.read_as_rgba = true := by rw [hrg, hr1]
    refine ⟨hr, ?_, (can_read_as_rgba_iff h0).1 (f2 hr1).1⟩
    unfold rtiff_pick_reader
    simp only [hr, if_true]

set_option maxRecDepth 100000 in
/-- Witness for C23: an uncompressed YCbCr directory of three 8-bit samples
with 2 x 2 subsampling is accepted with `read_as_rgba` set. -/
theorem rtiff_header_read_subsampled_witness :
    (header_of_tags (ycbcr_tags 1 (2, 2))).read_as_rgba = true ∧
      rtiff_pick_reader (header_of_tags (ycbcr_tags 1 (2, 2))) = Reader.rtiff_parse_rgba :=
  ⟨((rtiff_header_read_subsampled true (ycbcr_tags 1 (2, 2)) none RtiffHeader.zero
      ((header_read_required (ycbcr_tags 1 (2, 2)) RtiffHeader.zero).getD RtiffHeader.zero)
      rfl (by decide) (by decide) (by decide)).2.2
      (header_of_tags (ycbcr_tags 1 (2, 2))) (by decide)).1,
   ((rtiff_header_read_subsampled true (ycbcr_tags 1 (2, 2)) none RtiffHeader.zero
      ((header_read_required (ycbcr_tags 1 (2, 2)) RtiffHeader.zero).getD RtiffHeader.zero)
      rfl (by decide) (by decide) (by decide)).2.2
      (header_of_tags (ycbcr_tags 1 (2, 2))) (by decide)).2.1⟩

/-! ## The alpha band -/

theorem alpha_fold_spec (types : List Nat) (l : List Nat) :
    ∀ h0 : RtiffHeader,
      (l.foldl (fun h i =>
          if types.getD i 0 = EXTRASAMPLE_ASSOCALPHA then
            { h with alpha_band := h.samples_per_pixel - types.length + i }
          else h) h0).samples_per_pixel = h0.samples_per_pixel ∧
      (l.foldl (fun h i =>
          if types.getD i 0 = EXTRASAMPLE_ASSOCALPHA then
            { h with alpha_band := h.samples_per_pixel - types.length + i }
          else h) h0).alpha_band =
        (match (l.filter (fun i => types.getD i 0 = EXTRASAMPLE_ASSOCALPHA)).getLast? with
         | some i => h0.samples_per_pixel - types.length + i
         | none => h0.alpha_band) := by
  induction l with
  | nil => intro h0; exact ⟨rfl, rfl⟩
  | cons i l ih =>
    intro h0
    rw [List.foldl_cons]
    by_cases hc : types.getD i 0 = EXTRASAMPLE_ASSOCALPHA
    · rw [if_pos hc]
      obtain ⟨e1, e2⟩ := ih { h0 with alpha_band := h0.samples_per_pixel - types.length + i }
      refine ⟨e1, ?_⟩
      rw [e2, List.filter_cons_of_pos (by simpa using hc), List.getLast?_cons]
      cases (l.filter (fun i => decide (types.getD i 0 = EXTRASAMPLE_ASSOCALPHA))).getLast? <;>
        rfl
    · rw [if_neg hc]
      obtain ⟨e1, e2⟩ := ih h0
      refine ⟨e1, ?_⟩
      rw [e2, List.filter_cons_of_neg (by simpa using hc)]

theorem header_read_alpha_last (tags : TiffTags) (header : RtiffHeader) :
    (header_read_alpha tags header).alpha_band =
      last_alpha_band header.samples_per_pixel tags.extrasamples :=
  (alpha_fold_spec tags.extrasamples (List.range tags.extrasamples.length)
    { header with alpha_band := -1 }).2

theorem rtiff_header_read_alpha_last (have_jpeg : Bool) (tags : TiffTags)
    (outer : Option RtiffHeader) (junk h : RtiffHeader)
    (hok : rtiff_header_read have_jpeg tags outer junk = Except.ok h) :
    h.alpha_band = last_alpha_band h.samples_per_pixel tags.extrasamples := by
  unfold rtiff_header_read at hok
  cases h1eq : header_read_tags have_jpeg tags junk with
  | error e => rw [h1eq] at hok; simp at hok
  | ok h1 =>
    rw [h1eq] at hok
    simp only [] at hok
    cases h2eq : (if h1.tiled then header_read_tiled tags h1
       else header_read_strips tags (outer.map (fun o => o.scanline_size)) h1) with
    | error e => rw [h2eq] at hok; simp at hok
    | ok h2 =>
      rw [h2eq] at hok
      simp only [Except.ok.injEq] at hok
      obtain ⟨a, ha⟩ := header_read_alpha_eq tags h2
      have hspp : h.samples_per_pixel = h2.samples_per_pixel := by
        rw [← hok, ha]
      rw [hspp, ← hok]
      exact header_read_alpha_last tags h2

set_option maxRecDepth 100000 in
/-- C24 (failing input): a directory of five samples per pixel whose two
extra samples are both tagged as associated alpha.  Keeping the first gives
band 3; the header `rtiff_header_read` returns has `alpha_band` 4, the last
one.  With one tagged sample the band is that sample's, with none it is
-1. -/
theorem alpha_band_last_of_two :
    rtiff_header_read true (extra_tags 5 [EXTRASAMPLE_ASSOCALPHA, EXTRASAMPLE_ASSOCALPHA]) none
        RtiffHeader.zero =
      Except.ok (header_of_tags
        (extra_tags 5 [EXTRASAMPLE_ASSOCALPHA, EXTRASAMPLE_ASSOCALPHA])) ∧
    first_alpha_band 5 [EXTRASAMPLE_ASSOCALPHA, EXTRASAMPLE_ASSOCALPHA] = 3 ∧
    (header_of_tags
      (extra_tags 5 [EXTRASAMPLE_ASSOCALPHA, EXTRASAMPLE_ASSOCALPHA])).alpha_band = 4 ∧
    (header_of_tags (extra_tags 5 [0, EXTRASAMPLE_ASSOCALPHA])).alpha_band = 4 ∧
    (header_of_tags (extra_tags 5 [EXTRASAMPLE_ASSOCALPHA, 0])).alpha_band = 3 ∧
    (header_of_tags (extra_tags 5 [0, 2])).alpha_band = -1 := by
  decide

theorem last_alpha_band_eq_first (spp : Int) (types : List Nat)
    (huniq : ((List.range types.length).filter
      (fun i => types.getD i 0 = EXTRASAMPLE_ASSOCALPHA)).length ≤ 1) :
    last_alpha_band spp types = first_alpha_band spp types := by
  unfold last_alpha_band first_alpha_band
  rw [← List.filter_head?]
  generalize (List.range types.length).filter
    (fun i => decide (types.getD i 0 = EXTRASAMPLE_ASSOCALPHA)) = l at huniq
  match l, huniq with
  | [], _ => rfl
  | [a], _ => rfl
  | a :: b :: t, h => simp at h

/-! ## The failed flag and failed reads -/

theorem container_read_failed (rtiff : Rtiff) (strip : Int) (buf : ReadBuf) :
    (container_read rtiff strip buf).2.fail_on = rtiff.fail_on ∧
    ((container_read rtiff strip buf).2.failed = true ↔
      (rtiff.failed = true ∨
        (strip ∈ rtiff.tiff.cur.tags.warn_strips ∧ rtiff.fail_on ≥ VIPS_FAIL_ON_WARNING))) ∧
    ((container_read rtiff strip buf).1 = -1 ↔ strip ∈ rtiff.tiff.cur.tags.bad_strips) := by
  unfold container_read
  refine ⟨rfl, ?_, ?_⟩
  · by_cases hw : strip ∈ rtiff.tiff.cur.tags.warn_strips ∧
        rtiff.fail_on ≥ VIPS_FAIL_ON_WARNING
    · simp [hw]
    · simp only [hw, if_false, or_false]
  · by_cases hb : strip ∈ rtiff.tiff.cur.tags.bad_strips
    · simp [hb]
    · simp [hb]

theorem rtiff_strip_read_rc (rtiff : Rtiff) (strip : Int) (buf : ReadBuf) :
    (rtiff_strip_read rtiff strip buf).1 =
      if (strip ∈ rtiff.tiff.cur.tags.bad_strips ∧ rtiff.fail_on ≥ VIPS_FAIL_ON_WARNING) ∨
          rtiff.failed = true ∨
          (strip ∈ rtiff.tiff.cur.tags.warn_strips ∧ rtiff.fail_on ≥ VIPS_FAIL_ON_WARNING)
      then -1 else 0 := by
  obtain ⟨h1, h2, h3⟩ := container_read_failed rtiff strip buf
  unfold rtiff_strip_read
  generalize container_read rtiff strip buf = r at h1 h2 h3
  obtain ⟨length, rtiff1⟩ := r
  simp only [] at h1 h2 h3 ⊢
  rw [h1]
  by_cases ha : length = -1 ∧ rtiff.fail_on ≥ VIPS_FAIL_ON_WARNING
  · rw [if_pos ha, if_pos (Or.inl ⟨h3.1 ha.1, ha.2⟩)]
  · rw [if_neg ha]
    by_cases hf : rtiff1.failed = true
    · rw [if_pos hf, if_pos (Or.inr (h2.1 hf))]
    · rw [if_neg hf, if_neg]
      rintro (hx | hx)
      · exact ha ⟨h3.2 hx.1, hx.2⟩
      · exact hf (h2.2 hx)

theorem rtiff_strip_read_failed (rtiff : Rtiff) (strip : Int) (buf : ReadBuf)
    (hf : rtiff.failed = true) : (rtiff_strip_read rtiff strip buf).1 = -1 := by
  rw [rtiff_strip_read_rc, if_pos (Or.inr (Or.inl hf))]

theorem rtiff_rgba_strip_read_failed (rtiff : Rtiff) (strip : Int) (buf : ReadBuf)
    (hf : rtiff.failed = true) : (rtiff_rgba_strip_read rtiff strip buf).1 = -1 := by
  obtain ⟨h1, h2, h3⟩ := container_read_failed rtiff strip buf
  unfold rtiff_rgba_strip_read
  by_cases hok : (!rtiff.tiff.cur.tags.rgba_ok) = true
  · rw [if_pos hok]
  · rw [if_neg hok]
    generalize container_read rtiff strip buf = r at h1 h2 h3
    obtain ⟨length, rtiff1⟩ := r
    simp only [] at h1 h2 h3 ⊢
    by_cases ha : length = -1
    · rw [if_pos ha]
    · rw [if_neg ha, if_pos (h2.2 (Or.inl hf))]

set_option maxRecDepth 100000 in
/-- C25 (failing input): a tiled directory read under the policy of failing
on warnings.  With the `failed` flag already set, and also when the container
raises a warning during a tile read that otherwise succeeds (which sets the
flag), `rtiff_read_tile` returns 0; `rtiff_strip_read` and
`rtiff_rgba_strip_read` return -1 for a reader whose flag is set. -/
theorem rtiff_read_tile_ignores_failed :
    (tiled_reader VIPS_FAIL_ON_WARNING true).failed = true ∧
    (rtiff_read_tile (tiled_reader VIPS_FAIL_ON_WARNING true) (fun _ => 0) 0 good_tile).1 = 0 ∧
    (rtiff_read_tile (tiled_reader VIPS_FAIL_ON_WARNING false) (fun _ => 0) 0
      { good_tile with warns := true }).1 = 0 ∧
    (rtiff_read_tile (tiled_reader VIPS_FAIL_ON_WARNING false) (fun _ => 0) 0
      { good_tile with warns := true }).2.1.failed = true ∧
    (rtiff_strip_read (strip_reader VIPS_FAIL_ON_WARNING true) 0 ReadBuf.contig_buf).1 = -1 ∧
    (rtiff_rgba_strip_read (strip_reader VIPS_FAIL_ON_WARNING true) 0
      ReadBuf.contig_buf).1 = -1 := by
  decide

theorem rtiff_set_page_keeps (rtiff : Rtiff) (page : Int) :
    (rtiff_set_page rtiff page).2.header = rtiff.header ∧
      (rtiff_set_page rtiff page).2.fail_on = rtiff.fail_on ∧
      (rtiff_set_page rtiff page).2.failed = rtiff.failed := by
  unfold rtiff_set_page
  by_cases hc : rtiff.current_page ≠ page
  · rw [if_pos hc]
    cases TIFFSetDirectory rtiff.tiff page with
    | none => exact ⟨rfl, rfl, rfl⟩
    | some tiff1 =>
      simp only []
      by_cases hs : rtiff.subifd ≥ 0
      · rw [if_pos hs]
        cases tiff1.cur.tags.subifd with
        | none => exact ⟨rfl, rfl, rfl⟩
        | some subifd_count =>
          simp only []
          by_cases hge : rtiff.subifd ≥ (subifd_count : Int)
          · rw [if_pos hge]
            exact ⟨rfl, rfl, rfl⟩
          · rw [if_neg hge]
            cases TIFFSetSubDirectory tiff1 rtiff.subifd with
            | none => exact ⟨rfl, rfl, rfl⟩
            | some tiff2 => exact ⟨rfl, rfl, rfl⟩
      · rw [if_neg hs]
        exact ⟨rfl, rfl, rfl⟩
  · rw [if_neg hc]
    exact ⟨rfl, rfl, rfl⟩

theorem tile_container_call_keeps (r : Rtiff) (tile : TileAnswer) :
    (tile_container_call r tile).header = r.header ∧
      (tile_container_call r tile).fail_on = r.fail_on := by
  unfold tile_container_call rtiff_handler_warning
  split_ifs <;> exact ⟨rfl, rfl⟩

theorem rtiff_read_tile_rc (rtiff : Rtiff) (buf : Nat → Nat) (page : Int) (tile : TileAnswer)
    (hpage : (rtiff_set_page rtiff page).1 = 0)
    (hwe : rtiff.header.we_decompress = false) :
    (rtiff_read_tile rtiff buf page tile).1 =
      if (if rtiff.header.read_as_rgba then tile.rgba.isNone
          else decide (tile.read_tile < 0)) = true ∧
          rtiff.fail_on ≥ VIPS_FAIL_ON_WARNING
      then -1 else 0 := by
  have hset := rtiff_set_page_keeps rtiff page
  unfold rtiff_read_tile
  rw [hwe]
  simp only [Bool.false_eq_true, if_false]
  generalize rtiff_set_page rtiff page = r at hpage hset
  obtain ⟨rc, rtiff1⟩ := r
  simp only [] at hpage hset ⊢
  rw [if_neg (by rw [hpage]; decide)]
  rw [(tile_container_call_keeps rtiff1 tile).1, (tile_container_call_keeps rtiff1 tile).2,
    hset.1, hset.2.1]
  cases hr : rtiff.header.read_as_rgba
  · simp only [Bool.false_eq_true, if_false]
    split_ifs <;> rfl
  · simp only [if_true]
    cases htile : tile.rgba with
    | none =>
      simp only [rtiff_read_rgba_tile, Option.isNone_none, true_and]
      have hd : decide ((-1 : Int) ≠ 0) = true := by decide
      simp only [hd, true_and]
      split_ifs <;> rfl
    | some d =>
      simp only [rtiff_read_rgba_tile, Option.isNone_some, Bool.false_eq_true, false_and,
        if_false]
      have hd : decide ((0 : Int) ≠ 0) = false := by decide
      simp only [hd, Bool.false_eq_true, false_and, if_false]

set_option maxRecDepth 100000 in
/-- C26 (counterexample): under the policy of failing on errors, a strip the
container fails to read (-1) and a tile for which `TIFFReadTile` fails are
both reported as read: `rtiff_strip_read` and `rtiff_read_tile` return 0. -/
theorem failed_read_returns_success :
    (0 : Int) ∈ (bad_strip_reader VIPS_FAIL_ON_ERROR false).tiff.cur.tags.bad_strips ∧
    (rtiff_strip_read (bad_strip_reader VIPS_FAIL_ON_ERROR false) 0 ReadBuf.contig_buf).1 = 0 ∧
    (rtiff_read_tile (tiled_reader VIPS_FAIL_ON_ERROR false) (fun _ => 0) 0
      { good_tile with read_tile := -1 }).1 = 0 := by
  decide

/-- C26 (amended): whenever the container reports a failed strip read,
`rtiff_strip_read` returns failure exactly when the policy is to fail on
warnings or the `failed` flag is set, and success otherwise; whenever
`TIFFReadTile` or `TIFFReadRGBATile` fails on the selected page,
`rtiff_read_tile` returns failure exactly when the policy is to fail on
warnings, and success under every weaker policy. -/
theorem read_failure_policy (rs : Rtiff) (strip : Int) (sbuf : ReadBuf)
    (rt : Rtiff) (buf : Nat → Nat) (page : Int) (tile : TileAnswer)
    (hbad : strip ∈ rs.tiff.cur.tags.bad_strips)
    (hpage : (rtiff_set_page rt page).1 = 0)
    (hwe : rt.header.we_decompress = false)
    (htile : (if rt.header.read_as_rgba then tile.rgba.isNone
              else decide (tile.read_tile < 0)) = true) :
    ((rtiff_strip_read rs strip sbuf).1 = -1 ↔
      (rs.fail_on ≥ VIPS_FAIL_ON_WARNING ∨ rs.failed = true)) ∧
    ((rtiff_strip_read rs strip sbuf).1 = 0 ↔
      (rs.fail_on < VIPS_FAIL_ON_WARNING ∧ rs.failed = false)) ∧
    ((rtiff_read_tile rt buf page tile).1 = -1 ↔ rt.fail_on ≥ VIPS_FAIL_ON_WARNING) ∧
    ((rtiff_read_tile rt buf page tile).1 = 0 ↔ rt.fail_on < VIPS_FAIL_ON_WARNING) := by
  rw [rtiff_strip_read_rc, rtiff_read_tile_rc rt buf page tile hpage hwe]
  by_cases hs : rs.fail_on ≥ VIPS_FAIL_ON_WARNING <;>
    by_cases ht : rt.fail_on ≥ VIPS_FAIL_ON_WARNING <;>
    cases hf : rs.failed <;>
    simp [hbad, htile, hs, ht] <;>
    omega

set_option maxRecDepth 100000 in
/-- Witness for C26 (amended): under the policy of failing on warnings the
failed strip read and the failed tile read both return -1. -/
theorem read_failure_policy_witness :
    (rtiff_strip_read (bad_strip_reader VIPS_FAIL_ON_WARNING false) 0
      ReadBuf.contig_buf).1 = -1 ∧
    (rtiff_read_tile (tiled_reader VIPS_FAIL_ON_WARNING false) (fun _ => 0) 0
      { good_tile with read_tile := -1 }).1 = -1 :=
  ⟨(read_failure_policy (bad_strip_reader VIPS_FAIL_ON_WARNING false) 0 ReadBuf.contig_buf
      (tiled_reader VIPS_FAIL_ON_WARNING false) (fun _ => 0) 0
      { good_tile with read_tile := -1 } (by decide) (by decide) (by decide)
      (by decide)).1.2 (Or.inl (by decide)),
   (read_failure_policy (bad_strip_reader VIPS_FAIL_ON_WARNING false) 0 ReadBuf.contig_buf
      (tiled_reader VIPS_FAIL_ON_WARNING false) (fun _ => 0) 0
      { good_tile with read_tile := -1 } (by decide) (by decide) (by decide)
      (by decide)).2.2.1.2 (by decide)⟩

/-! ## The accuracy of single-precision rounding -/

theorem round_half_even_error (N D : Nat) (hD : 0 < D) :
    |((round_half_even N D : Nat) : ℚ) - (N : ℚ) / D| ≤ 1 / 2 := by
  have hDq : (0 : ℚ) < D := by exact_mod_cast hD
  have hr : N % D < D := Nat.mod_lt _ hD
  have hsplit : (N : ℚ) = (D : ℚ) * ((N / D : Nat) : ℚ) + ((N % D : Nat) : ℚ) := by
    exact_mod_cast (Nat.div_add_mod N D).symm
  have hdiv : (N : ℚ) / D = ((N / D : Nat) : ℚ) + ((N % D : Nat) : ℚ) / D := by
    rw [hsplit]
    field_simp
    ring
  rw [hdiv]
  unfold round_half_even
  simp only []
  generalize N / D = f at *
  generalize N % D = r at *
  have hrq : (r : ℚ) < D := by exact_mod_cast hr
  have hr0 : (0 : ℚ) ≤ r := by exact_mod_cast Nat.zero_le r
  have ht0 : (0 : ℚ) ≤ (r : ℚ) / D := div_nonneg hr0 (le_of_lt hDq)
  have ht1 : (r : ℚ) / D < 1 := (div_lt_one hDq).2 hrq
  rw [abs_le]
  split_ifs with h1 h2
  · have h : (r : ℚ) / D < 1 / 2 := by
      rw [div_lt_iff₀ hDq]
      have : ((2 * r : Nat) : ℚ) < D := by exact_mod_cast h1
      push_cast at this
      linarith
    constructor <;> linarith
  · have h : 1 / 2 < (r : ℚ) / D := by
      rw [lt_div_iff₀ hDq]
      have : (D : ℚ) < ((2 * r : Nat) : ℚ) := by exact_mod_cast h2
      push_cast at this
      linarith
    push_cast
    constructor <;> linarith
  · have he : 2 * r = D := by omega
    have h : (r : ℚ) / D = 1 / 2 := by
      rw [div_eq_iff (ne_of_gt hDq)]
      have : ((2 * r : Nat) : ℚ) = D := by exact_mod_cast he
      push_cast at this
      linarith
    rw [h]
    rcases Nat.mod_two_eq_zero_or_one f with h2 | h2 <;> rw [h2] <;> push_cast <;>
      constructor <;> linarith

theorem bit_length_spec : ∀ (fuel n : Nat), 0 < n → n < 2 ^ fuel →
    ∃ L, bit_length fuel n = L + 1 ∧ 2 ^ L ≤ n ∧ n < 2 ^ (L + 1) := by
  intro fuel
  induction fuel with
  | zero =>
    intro n h0 h1
    simp at h1
    omega
  | succ fuel ih =>
    intro n h0 h1
    have hne : n ≠ 0 := by omega
    simp only [bit_length, if_neg hne]
    by_cases h2 : n / 2 = 0
    · refine ⟨0, ?_, ?_, ?_⟩
      · rw [h2]
        cases fuel <;> simp [bit_length]
      · simp only [pow_zero]
        omega
      · simp only [Nat.zero_add, pow_one]
        omega
    · have hlt : n / 2 < 2 ^ fuel := by
        rw [pow_succ] at h1
        omega
      obtain ⟨L, hL, hlo, hhi⟩ := ih (n / 2) (by omega) hlt
      refine ⟨L + 1, by rw [hL], ?_, ?_⟩
      · rw [pow_succ]
        omega
      · rw [pow_succ] at hhi ⊢
        omega

theorem floor_log2_ratio_spec (n d : Nat) (hn : 0 < n) (hd : 0 < d) :
    (2 : ℚ) ^ (floor_log2_ratio n d) ≤ (n : ℚ) / d ∧
      (n : ℚ) / d < (2 : ℚ) ^ (floor_log2_ratio n d + 1) := by
  obtain ⟨A, hA, hAlo, hAhi⟩ := bit_length_spec n n hn (Nat.lt_two_pow _)
  obtain ⟨B, hB, hBlo, hBhi⟩ := bit_length_spec d d hd (Nat.lt_two_pow _)
  have hdq : (0 : ℚ) < d := by exact_mod_cast hd
  have hX : (0 : ℚ) < (2 : ℚ) ^ A := by positivity
  have hY : (0 : ℚ) < (2 : ℚ) ^ B := by positivity
  have h1 : (2 : ℚ) ^ A ≤ n := by exact_mod_cast hAlo
  have h2 : (n : ℚ) < 2 * (2 : ℚ) ^ A := by
    have : (n : ℚ) < ((2 ^ (A + 1) : Nat) : ℚ) := by exact_mod_cast hAhi
    rw [pow_succ] at this
    push_cast at this
    linarith
  have h3 : (2 : ℚ) ^ B ≤ d := by exact_mod_cast hBlo
  have h4 : (d : ℚ) < 2 * (2 : ℚ) ^ B := by
    have : (d : ℚ) < ((2 ^ (B + 1) : Nat) : ℚ) := by exact_mod_cast hBhi
    rw [pow_succ] at this
    push_cast at this
    linarith
  have e0 : (2 : ℚ) ^ ((A : Int) - B) = (2 : ℚ) ^ A / (2 : ℚ) ^ B := by
    rw [zpow_sub₀ (by norm_num), zpow_natCast, zpow_natCast]
  have e1 : (2 : ℚ) ^ ((A : Int) - B + 1) = 2 * (2 : ℚ) ^ A / (2 : ℚ) ^ B := by
    rw [zpow_add₀ (by norm_num), e0, zpow_one]
    ring
  have em : (2 : ℚ) ^ ((A : Int) - B - 1) = (2 : ℚ) ^ A / (2 * (2 : ℚ) ^ B) := by
    rw [zpow_sub₀ (by norm_num), e0, zpow_one]
    field_simp
    ring
  unfold floor_log2_ratio
  simp only [hA, hB]
  split_ifs with h
  · have hq : (d : ℚ) * (2 * (2 : ℚ) ^ A) ≤ n * (2 * (2 : ℚ) ^ B) := by
      have : ((d * 2 ^ (A + 1) : Nat) : ℚ) ≤ ((n * 2 ^ (B + 1) : Nat) : ℚ) := by
        exact_mod_cast h
      rw [pow_succ, pow_succ] at this
      push_cast at this
      linarith
    have he : (((A + 1 : Nat) : Int) - ((B + 1 : Nat) : Int)) = (A : Int) - B := by
      push_cast
      ring
    rw [he, e0, e1]
    constructor
    · rw [div_le_div_iff₀ hY hdq]
      linarith
    · rw [div_lt_div_iff₀ hdq hY]
      nlinarith
  · have hq : (n : ℚ) * (2 * (2 : ℚ) ^ B) < d * (2 * (2 : ℚ) ^ A) := by
      have : ((n * 2 ^ (B + 1) : Nat) : ℚ) < ((d * 2 ^ (A + 1) : Nat) : ℚ) := by
        exact_mod_cast not_le.mp h
      rw [pow_succ, pow_succ] at this
      push_cast at this
      linarith
    have he : (((A + 1 : Nat) : Int) - ((B + 1 : Nat) : Int) - 1) = (A : Int) - B - 1 := by
      push_cast
      ring
    have he2 : (A : Int) - B - 1 + 1 = (A : Int) - B := by ring
    rw [he, he2, e0, em]
    constructor
    · rw [div_le_div_iff₀ (by positivity) hdq]
      nlinarith
    · rw [div_lt_div_iff₀ hdq hY]
      linarith

/-- The error of rounding `n / d` to binary32: half a unit in the last place,
that is at most `2 ^ -24` of the value for a normal result and `2 ^ -150`
below the normal range. -/
theorem binary32_parts_error (n d : Nat) (hd : 0 < d) :
    |((binary32_parts n d).1 : ℚ) * (2 : ℚ) ^ (binary32_parts n d).2 - (n : ℚ) / d| ≤
      (n : ℚ) / d / 2 ^ 24 + 1 / 2 ^ 150 := by
  have hdq : (0 : ℚ) < d := by exact_mod_cast hd
  unfold binary32_parts
  simp only []
  rcases Nat.eq_zero_or_pos n with hn | hn
  · subst hn
    have hz : ∀ D, round_half_even 0 D = 0 := by
      intro D
      simp [round_half_even]
    simp only [Nat.zero_mul, hz, ite_self]
    norm_num
  generalize hk : (if floor_log2_ratio n d < -126 then (-126 : Int)
    else floor_log2_ratio n d) - 23 = k
  have hpk : (0 : ℚ) < (2 : ℚ) ^ k := by positivity
  have hround : |((if 0 ≤ k then round_half_even n (d * 2 ^ k.toNat)
      else round_half_even (n * 2 ^ (-k).toNat) d : Nat) : ℚ) - (n : ℚ) / d / (2 : ℚ) ^ k| ≤
        1 / 2 := by
    split_ifs with h0
    · have h := round_half_even_error n (d * 2 ^ k.toNat) (by positivity)
      have e : ((d * 2 ^ k.toNat : Nat) : ℚ) = d * (2 : ℚ) ^ k := by
        push_cast
        rw [← zpow_natCast, Int.toNat_of_nonneg h0]
      rw [e, ← div_div] at h
      exact h
    · have h := round_half_even_error (n * 2 ^ (-k).toNat) d hd
      have e : ((n * 2 ^ (-k).toNat : Nat) : ℚ) / d = (n : ℚ) / d / (2 : ℚ) ^ k := by
        push_cast
        rw [← zpow_natCast, Int.toNat_of_nonneg (by omega), zpow_neg]
        ring
      rw [e] at h
      exact h
  generalize ((if 0 ≤ k then round_half_even n (d * 2 ^ k.toNat)
      else round_half_even (n * 2 ^ (-k).toNat) d : Nat) : ℚ) = m at hround ⊢
  have hscale : |m * (2 : ℚ) ^ k - (n : ℚ) / d| ≤ (2 : ℚ) ^ k / 2 := by
    have e : m * (2 : ℚ) ^ k - (n : ℚ) / d = (m - (n : ℚ) / d / (2 : ℚ) ^ k) * (2 : ℚ) ^ k := by
      field_simp
      ring
    rw [e, abs_mul, abs_of_pos hpk]
    calc |m - (n : ℚ) / d / (2 : ℚ) ^ k| * (2 : ℚ) ^ k ≤ 1 / 2 * (2 : ℚ) ^ k :=
          mul_le_mul_of_nonneg_right hround (le_of_lt hpk)
      _ = (2 : ℚ) ^ k / 2 := by ring
  have hq0 : (0 : ℚ) ≤ (n : ℚ) / d := div_nonneg (by exact_mod_cast Nat.zero_le n) (le_of_lt hdq)
  refine le_trans hscale ?_
  by_cases hsub : floor_log2_ratio n d < -126
  · rw [if_pos hsub] at hk
    have hk2 : k = -149 := by omega
    rw [hk2]
    have e : (2 : ℚ) ^ (-149 : Int) / 2 = 1 / 2 ^ 150 := by
      rw [zpow_neg]
      norm_num
    rw [e]
    have : (0 : ℚ) ≤ (n : ℚ) / d / 2 ^ 24 := div_nonneg hq0 (by positivity)
    linarith
  · rw [if_neg hsub] at hk
    have hspec := (floor_log2_ratio_spec n d hn hd).1
    have e : (2 : ℚ) ^ k / 2 = (2 : ℚ) ^ (floor_log2_ratio n d) / 2 ^ 24 := by
      rw [← hk, zpow_sub₀ (by norm_num)]
      norm_num
      ring
    rw [e]
    have h1 : (2 : ℚ) ^ (floor_log2_ratio n d) / 2 ^ 24 ≤ (n : ℚ) / d / 2 ^ 24 :=
      div_le_div_of_nonneg_right hspec (by positivity)
    have : (0 : ℚ) ≤ 1 / 2 ^ 150 := by positivity
    linarith

/-- Rounding to a float changes a value by at most `2 ^ -24` of its size,
plus `2 ^ -150` below the normal range. -/
theorem binary32_round_error (q : ℚ) :
    |binary32_round q - q| ≤ |q| / 2 ^ 24 + 1 / 2 ^ 150 := by
  have hden : 0 < q.den := q.den_pos
  have hparts := binary32_parts_error q.num.natAbs q.den hden
  have habs : ((q.num.natAbs : Nat) : ℚ) / (q.den : ℚ) = |q| := by
    conv_rhs => rw [← Rat.num_div_den q]
    rw [abs_div, Nat.abs_cast, Nat.cast_natAbs, Int.cast_abs]
  rw [habs] at hparts
  unfold binary32_round
  simp only []
  split_ifs with h0
  · rw [abs_of_nonneg h0] at hparts
    rw [abs_of_nonneg h0]
    exact hparts
  · have hneg : q < 0 := not_le.mp h0
    rw [abs_of_neg hneg] at hparts ⊢
    have e : -(((binary32_parts q.num.natAbs q.den).1 : ℚ) *
        (2 : ℚ) ^ (binary32_parts q.num.natAbs q.den).2) - q =
        -((((binary32_parts q.num.natAbs q.den).1 : ℚ) *
          (2 : ℚ) ^ (binary32_parts q.num.natAbs q.den).2) - -q) := by ring
    rw [e, abs_neg]
    exact hparts

/-! ## The resolution -/

/-- Evaluation of `binary32_round` at a non-negative rational given in lowest
terms. -/
theorem binary32_round_eval (q : ℚ) (n d m : Nat) (k : Int) (hq : 0 ≤ q)
    (hn : q.num = (n : Int)) (hd : q.den = d) (hp : binary32_parts n d = (m, k)) :
    binary32_round q = (m : ℚ) * 2 ^ k := by
  unfold binary32_round
  simp only [hn, hd, Int.natAbs_ofNat, hp, if_pos hq]

/-- The float constant `2.54F` is 2663383 / 2 ^ 20. -/
theorem float_2_54 : binary32_round (254 / 100) = 2663383 / 1048576 := by
  rw [binary32_round_eval (254 / 100) 127 50 10653532 (-22) (by norm_num) (by norm_num)
    (by norm_num) (by decide)]
  norm_num

/-- The float constant `10.0F * 2.54F` is 13316915 / 2 ^ 19, that is
25.399999618530273. -/
theorem float_inch_divisor :
    binary32_round (10 * binary32_round (254 / 100)) = 13316915 / 524288 := by
  rw [float_2_54]
  rw [binary32_round_eval (10 * (2663383 / 1048576)) 13316915 524288 13316915 (-19)
    (by norm_num) (by norm_num) (by norm_num) (by decide)]
  norm_num

/-- The float quotient of 72 by `10.0F * 2.54F` is 5944683 / 2 ^ 21, that is
2.8346457481384277. -/
theorem float_72_per_inch :
    binary32_round (72 / (13316915 / 524288)) = 5944683 / 2097152 := by
  rw [binary32_round_eval (72 / (13316915 / 524288)) 37748736 13316915 11889366 (-22)
    (by norm_num) (by norm_num) (by norm_num) (by decide)]
  norm_num

/-- The float quotient of 72 by `10.0F` is 7549747 / 2 ^ 20, that is
7.199999809265137. -/
theorem float_72_per_cm : binary32_round (72 / 10) = 7549747 / 1048576 := by
  rw [binary32_round_eval (72 / 10) 36 5 15099494 (-21)
    (by norm_num) (by norm_num) (by norm_num) (by decide)]
  norm_num

/-- The single-precision quotient by `10.0F * 2.54F` is within `2 ^ -23` of
the exact division by 25.4 (plus `2 ^ -150` below the normal range). -/
theorem inch_quotient_error (x : ℚ) :
    |binary32_round (x / (13316915 / 524288)) - x / (254 / 10)| ≤
      |x / (254 / 10)| / 2 ^ 23 + 1 / 2 ^ 150 := by
  have h1 := binary32_round_error (x / (13316915 / 524288))
  have h2 := abs_sub_le (binary32_round (x / (13316915 / 524288))) (x / (13316915 / 524288))
    (x / (254 / 10))
  have e1 : |x / (13316915 / 524288)| = |x| * (524288 / 13316915) := by
    rw [abs_div, abs_of_pos (by norm_num : (0 : ℚ) < 13316915 / 524288)]
    ring
  have e2 : |x / (254 / 10)| = |x| * (10 / 254) := by
    rw [abs_div, abs_of_pos (by norm_num : (0 : ℚ) < 254 / 10)]
    ring
  have e3 : |x / (13316915 / 524288) - x / (254 / 10)| =
      |x| * (524288 / 13316915 - 10 / 254) := by
    have : x / (13316915 / 524288) - x / (254 / 10) =
        x * (524288 / 13316915 - 10 / 254) := by ring
    rw [this, abs_mul, abs_of_pos (by norm_num : (0 : ℚ) < 524288 / 13316915 - 10 / 254)]
  rw [e1] at h1
  rw [e3] at h2
  rw [e2]
  have hx : 0 ≤ |x| := abs_nonneg x
  have key : |x| * (524288 / 13316915) / 2 ^ 24 + |x| * (524288 / 13316915 - 10 / 254) ≤
      |x| * (10 / 254) / 2 ^ 23 := by
    have : |x| * (10 / 254) / 2 ^ 23 -
        (|x| * (524288 / 13316915) / 2 ^ 24 + |x| * (524288 / 13316915 - 10 / 254)) =
        |x| * (10 / 254 / 2 ^ 23 - 524288 / 13316915 / 2 ^ 24 -
          (524288 / 13316915 - 10 / 254)) := by ring
    have hc : (0 : ℚ) ≤ 10 / 254 / 2 ^ 23 - 524288 / 13316915 / 2 ^ 24 -
        (524288 / 13316915 - 10 / 254) := by norm_num
    have := mul_nonneg hx hc
    linarith
  linarith

/-- C27 (counterexample): with the resolution tags (72, 72) and the unit
"none", `get_resolution` leaves (72, 72) as the resolution, not 1.0 in both
axes; with the same tags and the unit inch it gives 5944683 / 2097152 =
2.8346457481384277 in both axes, the single-precision quotient by the float
constant 10.0F * 2.54F, which is not 72 / 25.4; and with the unit centimetre
it gives 7549747 / 1048576 = 7.199999809265137, the single-precision
quotient by 10.0F, which is not 72 / 10. -/
theorem get_resolution_of_72 :
    (get_resolution (resolution_tags 72 72 1) VipsImage.new).1 = 0 ∧
    (get_resolution (resolution_tags 72 72 1) VipsImage.new).2.Xres = 72 ∧
    (get_resolution (resolution_tags 72 72 1) VipsImage.new).2.Yres = 72 ∧
    (RESUNIT_NONE = 1) ∧
    (get_resolution (resolution_tags 72 72 2) VipsImage.new).1 = 0 ∧
    (get_resolution (resolution_tags 72 72 2) VipsImage.new).2.Xres = 5944683 / 2097152 ∧
    (get_resolution (resolution_tags 72 72 2) VipsImage.new).2.Yres = 5944683 / 2097152 ∧
    (5944683 / 2097152 : ℚ) ≠ 72 / (254 / 10) ∧
    (RESUNIT_INCH = 2) ∧
    (get_resolution (resolution_tags 72 72 3) VipsImage.new).1 = 0 ∧
    (get_resolution (resolution_tags 72 72 3) VipsImage.new).2.Xres = 7549747 / 1048576 ∧
    (get_resolution (resolution_tags 72 72 3) VipsImage.new).2.Yres = 7549747 / 1048576 ∧
    (7549747 / 1048576 : ℚ) ≠ 72 / 10 ∧
    (RESUNIT_CENTIMETER = 3) := by
  have hx : (get_resolution (resolution_tags 72 72 2) VipsImage.new).2.Xres =
      binary32_round (72 / binary32_round (10 * binary32_round (254 / 100))) := rfl
  have hy : (get_resolution (resolution_tags 72 72 2) VipsImage.new).2.Yres =
      binary32_round (72 / binary32_round (10 * binary32_round (254 / 100))) := rfl
  have hxc : (get_resolution (resolution_tags 72 72 3) VipsImage.new).2.Xres =
      binary32_round (72 / 10) := rfl
  have hyc : (get_resolution (resolution_tags 72 72 3) VipsImage.new).2.Yres =
      binary32_round (72 / 10) := rfl
  refine ⟨rfl, rfl, rfl, rfl, rfl, ?_, ?_, ?_, rfl, rfl, ?_, ?_, ?_, rfl⟩
  · rw [hx, float_inch_divisor, float_72_per_inch]
  · rw [hy, float_inch_divisor, float_72_per_inch]
  · norm_num
  · rw [hxc, float_72_per_cm]
  · rw [hyc, float_72_per_cm]
  · norm_num

/-- C27 (amended): with the resolution tags (x, y) and a unit present,
`get_resolution` gives, in pixels per millimetre and in single precision,
(fl (x / c), fl (y / c)) for the unit inch, where fl rounds to the nearest
float and c = 13316915 / 524288 = 25.399999618530273 is the float constant
10.0F * 2.54F, each within 2 ^ -23 of the exact quotient by 25.4 (plus
2 ^ -150 below the normal range); (fl (x / 10), fl (y / 10)) for the unit
centimetre, each within 2 ^ -24 of the exact quotient; (x, y) unchanged for
the unit none; and it fails for any other unit value.  When a resolution tag
or the unit is missing the result is 1.0 in both axes. -/
theorem get_resolution_spec (tags : TiffTags) (out : VipsImage) :
    (∀ x y ru, tags.xresolution = some x → tags.yresolution = some y →
      tags.resolutionunit = some ru →
      (((ru : Int) = RESUNIT_INCH →
        (get_resolution tags out).1 = 0 ∧
        (get_resolution tags out).2.Xres = binary32_round (x / (13316915 / 524288)) ∧
        (get_resolution tags out).2.Yres = binary32_round (y / (13316915 / 524288)) ∧
        |(get_resolution tags out).2.Xres - x / (254 / 10)| ≤
          |x / (254 / 10)| / 2 ^ 23 + 1 / 2 ^ 150 ∧
        |(get_resolution tags out).2.Yres - y / (254 / 10)| ≤
          |y / (254 / 10)| / 2 ^ 23 + 1 / 2 ^ 150) ∧
       ((ru : Int) = RESUNIT_CENTIMETER →
        (get_resolution tags out).1 = 0 ∧
        (get_resolution tags out).2.Xres = binary32_round (x / 10) ∧
        (get_resolution tags out).2.Yres = binary32_round (y / 10) ∧
        |(get_resolution tags out).2.Xres - x / 10| ≤ |x / 10| / 2 ^ 24 + 1 / 2 ^ 150 ∧
        |(get_resolution tags out).2.Yres - y / 10| ≤ |y / 10| / 2 ^ 24 + 1 / 2 ^ 150) ∧
       ((ru : Int) = RESUNIT_NONE →
        (get_resolution tags out).1 = 0 ∧
        (get_resolution tags out).2.Xres = x ∧
        (get_resolution tags out).2.Yres = y) ∧
       ((ru : Int) ≠ RESUNIT_INCH → (ru : Int) ≠ RESUNIT_CENTIMETER →
        (ru : Int) ≠ RESUNIT_NONE → (get_resolution tags out).1 = -1))) ∧
    ((tags.xresolution = none ∨ tags.yresolution = none ∨ tags.resolutionunit = none) →
      (get_resolution tags out).1 = 0 ∧
      (get_resolution tags out).2.Xres = 1 ∧
      (get_resolution tags out).2.Yres = 1) := by
  constructor
  · intro x y ru hx hy hu
    unfold get_resolution
    rw [hx, hy, hu]
    simp only []
    refine ⟨?_, ?_, ?_, ?_⟩
    · intro h
      have h1 : (ru : Int) ≠ RESUNIT_NONE := by rw [h]; decide
      rw [if_neg h1, if_pos h]
      have ex : binary32_round (x / binary32_round (10 * binary32_round (254 / 100))) =
          binary32_round (x / (13316915 / 524288)) := by rw [float_inch_divisor]
      have ey : binary32_round (y / binary32_round (10 * binary32_round (254 / 100))) =
          binary32_round (y / (13316915 / 524288)) := by rw [float_inch_divisor]
      refine ⟨rfl, ex, ey, ?_, ?_⟩
      · show |binary32_round (x / binary32_round (10 * binary32_round (254 / 100))) - _| ≤ _
        rw [ex]
        exact inch_quotient_error x
      · show |binary32_round (y / binary32_round (10 * binary32_round (254 / 100))) - _| ≤ _
        rw [ey]
        exact inch_quotient_error y
    · intro h
      have h1 : (ru : Int) ≠ RESUNIT_NONE := by rw [h]; decide
      have h2 : (ru : Int) ≠ RESUNIT_INCH := by rw [h]; decide
      rw [if_neg h1, if_neg h2, if_pos h]
      exact ⟨rfl, rfl, rfl, binary32_round_error (x / 10), binary32_round_error (y / 10)⟩
    · intro h
      rw [if_pos h]
      exact ⟨rfl, rfl, rfl⟩
    · intro h2 h3 h1
      rw [if_neg h1, if_neg h2, if_neg h3]
  · intro hmiss
    unfold get_resolution
    rcases hmiss with h | h | h
    · rw [h]
      exact ⟨rfl, rfl, rfl⟩
    · rw [h]
      cases tags.xresolution <;> exact ⟨rfl, rfl, rfl⟩
    · rw [h]
      cases tags.xresolution <;> cases tags.yresolution <;> exact ⟨rfl, rfl, rfl⟩

/-- Witness for C27 (amended): 300 pixels per inch are, in single precision,
3096189 / 262144 = 11.811023712158203 pixels per millimetre. -/
theorem get_resolution_spec_witness :
    (get_resolution (resolution_tags 300 300 2) VipsImage.new).2.Xres =
      binary32_round (300 / (13316915 / 524288)) :=
  (((get_resolution_spec (resolution_tags 300 300 2) VipsImage.new).1 300 300 2 rfl rfl rfl).1
    (by decide)).2.1

/-! ## The interpretation chosen by the copy reader -/

theorem rtiff_parse_copy_type (rtiff : Rtiff) (out : VipsImage)
    (hok : (rtiff_parse_copy rtiff out).1 = 0) :
    (rtiff_parse_copy rtiff out).2.2.BandFmt = rtiff_guess_format rtiff.header ∧
    (rtiff_parse_copy rtiff out).2.2.Type_ =
      (if rtiff.header.samples_per_pixel ≥ 3 ∧
          (rtiff.header.photometric_interpretation = PHOTOMETRIC_RGB ∨
            rtiff.header.photometric_interpretation = PHOTOMETRIC_YCBCR) then
        (if rtiff_guess_format rtiff.header = VipsBandFormat.USHORT then VipsInterpretation.RGB16
         else if !vips_band_format_isint (rtiff_guess_format rtiff.header) then
           VipsInterpretation.scRGB
         else VipsInterpretation.sRGB)
       else if rtiff.header.samples_per_pixel ≥ 3 ∧
          rtiff.header.photometric_interpretation = PHOTOMETRIC_CIELAB then
        VipsInterpretation.LAB
       else if rtiff.header.photometric_interpretation = PHOTOMETRIC_SEPARATED ∧
          rtiff.header.samples_per_pixel ≥ 4 ∧ rtiff.header.inkset = INKSET_CMYK then
        VipsInterpretation.CMYK
       else VipsInterpretation.MULTIBAND) := by
  obtain ⟨hfrac, hfmt⟩ := rtiff_parse_copy_ok rtiff out hok
  unfold rtiff_parse_copy
  simp only []
  rw [if_neg (by rw [hfrac]; decide), if_neg hfmt]
  by_cases h16 : rtiff.header.bits_per_sample = 16 ∧
      rtiff.header.sample_format = SAMPLEFORMAT_IEEEFP
  · rw [if_pos h16]
    exact ⟨rfl, rfl⟩
  · rw [if_neg h16]
    exact ⟨rfl, rfl⟩

set_option maxRecDepth 100000 in
/-- C28 (counterexample): a CIELAB header of three 32-bit float samples is
routed to the copy reader and accepted with interpretation LAB, and a
SEPARATED header with the CMYK inkset and three 8-bit samples is routed to the
copy reader and accepted with interpretation MULTIBAND. -/
theorem rtiff_parse_copy_lab_and_three_inks :
    rtiff_pick_reader (grey_header 32 SAMPLEFORMAT_IEEEFP PHOTOMETRIC_CIELAB 3) =
      Reader.rtiff_parse_copy ∧
    (rtiff_parse_copy
      (reader_with_header (grey_header 32 SAMPLEFORMAT_IEEEFP PHOTOMETRIC_CIELAB 3))
      VipsImage.new).1 = 0 ∧
    (rtiff_parse_copy
      (reader_with_header (grey_header 32 SAMPLEFORMAT_IEEEFP PHOTOMETRIC_CIELAB 3))
      VipsImage.new).2.2.Type_ = VipsInterpretation.LAB ∧
    rtiff_pick_reader
      { grey_header 8 SAMPLEFORMAT_UINT PHOTOMETRIC_SEPARATED 3 with inkset := INKSET_CMYK } =
      Reader.rtiff_parse_copy ∧
    (rtiff_parse_copy
      (reader_with_header
        { grey_header 8 SAMPLEFORMAT_UINT PHOTOMETRIC_SEPARATED 3 with inkset := INKSET_CMYK })
      VipsImage.new).1 = 0 ∧
    (rtiff_parse_copy
      (reader_with_header
        { grey_header 8 SAMPLEFORMAT_UINT PHOTOMETRIC_SEPARATED 3 with inkset := INKSET_CMYK })
      VipsImage.new).2.2.Type_ = VipsInterpretation.MULTIBAND := by
  decide

/-- C28 (amended): for every header the copy reader accepts, the element
format is the one `rtiff_guess_format` gives and the interpretation is: when
`samples_per_pixel >= 3` and photometric is RGB or YCBCR, RGB16 if the element
format is U16, scRGB if it is not an integer format (float, double or
complex), sRGB for every other integer format; otherwise LAB when
`samples_per_pixel >= 3` and photometric is CIELAB; otherwise CMYK when
photometric is SEPARATED with the CMYK inkset and `samples_per_pixel >= 4`;
in every other case MULTIBAND. -/
theorem rtiff_parse_copy_interpretation (rtiff : Rtiff) (out : VipsImage)
    (hok : (rtiff_parse_copy rtiff out).1 = 0) :
    (rtiff_parse_copy rtiff out).2.2.BandFmt = rtiff_guess_format rtiff.header ∧
    ((rtiff.header.samples_per_pixel ≥ 3 ∧
        (rtiff.header.photometric_interpretation = PHOTOMETRIC_RGB ∨
          rtiff.header.photometric_interpretation = PHOTOMETRIC_YCBCR)) →
      (rtiff_guess_format rtiff.header = VipsBandFormat.USHORT →
        (rtiff_parse_copy rtiff out).2.2.Type_ = VipsInterpretation.RGB16) ∧
      (rtiff_guess_format rtiff.header ∈
          [VipsBandFormat.FLOAT, VipsBandFormat.DOUBLE, VipsBandFormat.COMPLEX,
           VipsBandFormat.DPCOMPLEX] →
        (rtiff_parse_copy rtiff out).2.2.Type_ = VipsInterpretation.scRGB) ∧
      (rtiff_guess_format rtiff.header ∈
          [VipsBandFormat.UCHAR, VipsBandFormat.CHAR, VipsBandFormat.SHORT,
           VipsBandFormat.UINT, VipsBandFormat.INT] →
        (rtiff_parse_copy rtiff out).2.2.Type_ = VipsInterpretation.sRGB)) ∧
    (¬ (rtiff.header.samples_per_pixel ≥ 3 ∧
        (rtiff.header.photometric_interpretation = PHOTOMETRIC_RGB ∨
          rtiff.header.photometric_interpretation = PHOTOMETRIC_YCBCR)) →
      (rtiff_parse_copy rtiff out).2.2.Type_ =
        (if rtiff.header.samples_per_pixel ≥ 3 ∧
            rtiff.header.photometric_interpretation = PHOTOMETRIC_CIELAB then
          VipsInterpretation.LAB
         else if rtiff.header.photometric_interpretation = PHOTOMETRIC_SEPARATED ∧
            rtiff.header.samples_per_pixel ≥ 4 ∧ rtiff.header.inkset = INKSET_CMYK then
          VipsInterpretation.CMYK
         else VipsInterpretation.MULTIBAND)) := by
  obtain ⟨hfmt, htype⟩ := rtiff_parse_copy_type rtiff out hok
  refine ⟨hfmt, ?_, ?_⟩
  · intro hrgb
    rw [htype, if_pos hrgb]
    refine ⟨?_, ?_, ?_⟩
    · intro hf
      rw [if_pos hf]
    · intro hf
      simp only [List.mem_cons, List.mem_singleton, List.not_mem_nil, or_false] at hf
      rcases hf with hf | hf | hf | hf <;> rw [hf] <;> rfl
    · intro hf
      simp only [List.mem_cons, List.mem_singleton, List.not_mem_nil, or_false] at hf
      rcases hf with hf | hf | hf | hf | hf <;> rw [hf] <;> rfl
  · intro hrgb
    rw [htype, if_neg hrgb]

set_option maxRecDepth 100000 in
/-- Witness for C28 (amended): three 16-bit unsigned RGB samples give
RGB16. -/
theorem rtiff_parse_copy_interpretation_witness :
    (rtiff_parse_copy (reader_with_header (grey_header 16 SAMPLEFORMAT_UINT PHOTOMETRIC_RGB 3))
      VipsImage.new).2.2.Type_ = VipsInterpretation.RGB16 :=
  ((rtiff_parse_copy_interpretation
    (reader_with_header (grey_header 16 SAMPLEFORMAT_UINT PHOTOMETRIC_RGB 3)) VipsImage.new
    (by decide)).2.1 (by decide)).1 (by decide)

/-! ## Parameter validation -/

/-- C29: `rtiff_new` rejects a request before opening the source exactly when
`page < 0`, `page > 1000000`, or `n` is different from -1 and outside
[1, 1000000]: for these it returns no reader whatever the source; for every
other (page, n) pair it goes on to open the source and returns a reader for
that page and count exactly when the source opens. -/
theorem rtiff_new_validation (page n : Int) (autorotate : Bool) (subifd : Int)
    (fail_on : Nat) :
    ((page < 0 ∨ page > 1000000 ∨ (n ≠ -1 ∧ (n < 1 ∨ n > 1000000))) ↔
      ∀ opened, rtiff_new opened page n autorotate subifd fail_on = none) ∧
    ((0 ≤ page ∧ page ≤ 1000000 ∧ (n = -1 ∨ (1 ≤ n ∧ n ≤ 1000000))) ↔
      ∀ tiff, ∃ rtiff, rtiff_new (some tiff) page n autorotate subifd fail_on = some rtiff ∧
        rtiff.page = page ∧ rtiff.n = n ∧ rtiff.tiff = tiff) ∧
    rtiff_new none page n autorotate subifd fail_on = none := by
  have hnone : rtiff_new none page n autorotate subifd fail_on = none := by
    unfold rtiff_new
    split_ifs <;> rfl
  by_cases hbad : page < 0 ∨ page > 1000000 ∨ (n ≠ -1 ∧ (n < 1 ∨ n > 1000000))
  · have hrej : ∀ opened, rtiff_new opened page n autorotate subifd fail_on = none := by
      intro opened
      unfold rtiff_new
      by_cases hp : page < 0 ∨ page > 1000000
      · rw [if_pos hp]
      · rw [if_neg hp, if_pos (by tauto)]
    refine ⟨⟨fun _ => hrej, fun _ => hbad⟩, ⟨?_, ?_⟩, hnone⟩
    · intro hgood
      exfalso
      omega
    · intro hall
      obtain ⟨r, hr, _⟩ := hall (tiff_of_tags [])
      rw [hrej] at hr
      exact absurd hr (by simp)
  · have hp : ¬ (page < 0 ∨ page > 1000000) := fun h => hbad (by tauto)
    have hn : ¬ (n ≠ -1 ∧ (n < 1 ∨ n > 1000000)) := fun h => hbad (by tauto)
    have hacc : ∀ tiff, ∃ rtiff,
        rtiff_new (some tiff) page n autorotate subifd fail_on = some rtiff ∧
        rtiff.page = page ∧ rtiff.n = n ∧ rtiff.tiff = tiff := by
      intro tiff
      unfold rtiff_new
      rw [if_neg hp, if_neg hn]
      exact ⟨_, rfl, rfl, rfl, rfl⟩
    refine ⟨⟨fun h => absurd h hbad, ?_⟩, ⟨fun _ => hacc, ?_⟩, hnone⟩
    · intro hall
      obtain ⟨r, hr, _⟩ := hacc (tiff_of_tags [])
      rw [hall] at hr
      exact absurd hr (by simp)
    · intro _
      omega

/-! ## Half-precision floats: the general formula -/

theorem shiftRight_land (x y k : Nat) : (x &&& y) >>> k = (x >>> k) &&& (y >>> k) := by
  apply Nat.eq_of_testBit_eq
  intro i
  simp only [Nat.testBit_shiftRight, Nat.testBit_and]

theorem half_fields (s e m : Nat) (hs : s < 2) (he : e < 32) (hm : m < 1024) :
    (s * 32768 + e * 1024 + m) % 65536 = s * 32768 + e * 1024 + m ∧
    (s * 32768 + e * 1024 + m) >>> 15 = s ∧
    ((s * 32768 + e * 1024 + m) &&& 0x7C00) >>> 10 = e ∧
    (s * 32768 + e * 1024 + m) &&& 0x03FF = m := by
  refine ⟨by omega, ?_, ?_, ?_⟩
  · rw [Nat.shiftRight_eq_div_pow]
    omega
  · rw [shiftRight_land]
    have h31 : (0x7C00 : Nat) >>> 10 = 2 ^ 5 - 1 := by decide
    rw [h31, Nat.and_pow_two_sub_one_eq_mod, Nat.shiftRight_eq_div_pow]
    omega
  · have h1023 : (0x03FF : Nat) = 2 ^ 10 - 1 := by decide
    rw [h1023, Nat.and_pow_two_sub_one_eq_mod]
    omega

/-- C30: for every 16-bit half with sign bit `s`, 5-bit exponent field `e`
and 10-bit mantissa `m`, `half_2_float` returns
`(-1)^s * 2^(e-15) * (1 + m/1024)` when `1 <= e <= 30`,
`(-1)^s * 2^-14 * m/1024` when `e = 0`, and the infinity of sign `s` when
`e = 31`, whatever the mantissa. -/
theorem half_2_float_formula (s e m : Nat) (hs : s < 2) (he : e < 32) (hm : m < 1024) :
    (1 ≤ e ∧ e ≤ 30 →
      half_2_float (s * 32768 + e * 1024 + m) =
        FloatValue.finite ((-1) ^ s * (2 : ℚ) ^ ((e : Int) - 15) * (1 + (m : ℚ) / 1024))) ∧
    (e = 0 →
      half_2_float (s * 32768 + e * 1024 + m) =
        FloatValue.finite ((-1) ^ s * (2 : ℚ) ^ (-14 : Int) * ((m : ℚ) / 1024))) ∧
    (e = 31 →
      half_2_float (s * 32768 + e * 1024 + m) = FloatValue.infinity (decide (s = 1))) := by
  have t2 : Int.toNat 2 = 2 := rfl
  have t3 : Int.toNat 3 = 3 := rfl
  have t4 : Int.toNat 4 = 4 := rfl
  have t5 : Int.toNat 5 = 5 := rfl
  have t6 : Int.toNat 6 = 6 := rfl
  have t7 : Int.toNat 7 = 7 := rfl
  have t8 : Int.toNat 8 = 8 := rfl
  have t9 : Int.toNat 9 = 9 := rfl
  have t10 : Int.toNat 10 = 10 := rfl
  have t11 : Int.toNat 11 = 11 := rfl
  have t12 : Int.toNat 12 = 12 := rfl
  have t13 : Int.toNat 13 = 13 := rfl
  have t14 : Int.toNat 14 = 14 := rfl
  have t15 : Int.toNat 15 = 15 := rfl
  obtain ⟨f0, f1, f2, f3⟩ := half_fields s e m hs he hm
  unfold half_2_float
  simp only [f0, f1, f2, f3]
  refine ⟨?_, ?_, ?_⟩
  · rintro ⟨h1, h30⟩
    interval_cases s <;> interval_cases e <;>
      norm_num [Nat.shiftLeft_eq, t2, t3, t4, t5, t6, t7, t8, t9, t10, t11, t12, t13, t14, t15]
  · intro h0
    subst h0
    interval_cases s <;> norm_num [Nat.shiftLeft_eq, t2, t3, t4, t5, t6, t7, t8, t9, t10, t11, t12, t13, t14, t15]
  · intro h31
    subst h31
    interval_cases s <;> norm_num

/-- Witness for C30: sign bit 1, exponent field 16 and mantissa 0 (the half
0xC000) give -1 * 2^1 * 1 = -2. -/
theorem half_2_float_formula_witness :
    half_2_float (1 * 32768 + 16 * 1024 + 0) =
      FloatValue.finite ((-1) ^ 1 * (2 : ℚ) ^ (((16 : Nat) : Int) - 15) *
        (1 + ((0 : Nat) : ℚ) / 1024)) :=
  (half_2_float_formula 1 16 0 (by decide) (by decide) (by decide)).1
    ⟨by decide, by decide⟩

/-! ## Half-precision floats: no step rounds -/

theorem binary32_exact_mk (m : Int) (a b : Nat) (q : ℚ) (hm : m.natAbs < 2 ^ 24)
    (ha : a ≤ 104) (hb : b ≤ 149) (hq : q * 2 ^ b = m * 2 ^ a) : binary32_exact q := by
  refine ⟨m, (a : Int) - (b : Int), hm, by omega, by omega, ?_⟩
  rw [zpow_sub₀ (two_ne_zero), zpow_natCast, zpow_natCast]
  have hb0 : (2 : ℚ) ^ b ≠ 0 := pow_ne_zero _ two_ne_zero
  field_simp
  exact hq

theorem half_steps_exact_aux (s E P : Nat) (hs : s < 2) (hE : E ≤ 31) (hP : P ≤ 1023) :
    ∀ q ∈ (if ((E : Int) - 15) = 16 then
        [((((s : Int) * -2 + 1 : Int)) : ℚ), (P : ℚ)]
      else if ((E : Int) - 15) = -15 then
        [((((s : Int) * -2 + 1 : Int)) : ℚ), (P : ℚ), ((1 <<< 14 : Nat) : ℚ),
         ((((s : Int) * -2 + 1 : Int)) : ℚ) / ((1 <<< 14 : Nat) : ℚ), (P : ℚ) / 1024,
         ((((s : Int) * -2 + 1 : Int)) : ℚ) / ((1 <<< 14 : Nat) : ℚ) * ((P : ℚ) / 1024)]
      else if ((E : Int) - 15) > 0 then
        [((((s : Int) * -2 + 1 : Int)) : ℚ), (P : ℚ),
         ((1 <<< ((E : Int) - 15).toNat : Nat) : ℚ),
         ((((s : Int) * -2 + 1 : Int)) : ℚ) * ((1 <<< ((E : Int) - 15).toNat : Nat) : ℚ),
         (P : ℚ) / 1024, 1 + (P : ℚ) / 1024,
         ((((s : Int) * -2 + 1 : Int)) : ℚ) * ((1 <<< ((E : Int) - 15).toNat : Nat) : ℚ) *
           (1 + (P : ℚ) / 1024)]
      else
        [((((s : Int) * -2 + 1 : Int)) : ℚ), (P : ℚ),
         ((1 <<< (-((E : Int) - 15)).toNat : Nat) : ℚ),
         ((((s : Int) * -2 + 1 : Int)) : ℚ) / ((1 <<< (-((E : Int) - 15)).toNat : Nat) : ℚ),
         (P : ℚ) / 1024, 1 + (P : ℚ) / 1024,
         ((((s : Int) * -2 + 1 : Int)) : ℚ) / ((1 <<< (-((E : Int) - 15)).toNat : Nat) : ℚ) *
           (1 + (P : ℚ) / 1024)]), binary32_exact q := by
  have hsign : ((s : Int) * -2 + 1).natAbs < 2 ^ 24 := by omega
  have hsignP : (((s : Int) * -2 + 1) * (P : Int)).natAbs < 2 ^ 24 := by
    rw [Int.natAbs_mul]
    have h1 : ((s : Int) * -2 + 1).natAbs = 1 := by omega
    rw [h1]
    omega
  have hsignQ : (((s : Int) * -2 + 1) * (1024 + (P : Int))).natAbs < 2 ^ 24 := by
    rw [Int.natAbs_mul]
    have h1 : ((s : Int) * -2 + 1).natAbs = 1 := by omega
    rw [h1]
    omega
  have e_sign : binary32_exact ((((s : Int) * -2 + 1 : Int)) : ℚ) :=
    binary32_exact_mk ((s : Int) * -2 + 1) 0 0 _ hsign (by omega) (by omega) (by simp)
  have e_prec : binary32_exact (P : ℚ) :=
    binary32_exact_mk (P : Int) 0 0 _ (by omega) (by omega) (by omega) (by simp)
  have e_frac : binary32_exact ((P : ℚ) / 1024) :=
    binary32_exact_mk (P : Int) 0 10 _ (by omega) (by omega) (by omega) (by norm_num)
  have e_one : binary32_exact (1 + (P : ℚ) / 1024) :=
    binary32_exact_mk (1024 + (P : Int)) 0 10 _ (by omega) (by omega) (by omega)
      (by push_cast; ring)
  have hpw : ∀ k : Nat, ((1 <<< k : Nat) : ℚ) = 2 ^ k := by
    intro k
    rw [Nat.shiftLeft_eq, Nat.one_mul]
    push_cast
    rfl
  have hk0 : ∀ k : Nat, (2 : ℚ) ^ k ≠ 0 := fun k => pow_ne_zero _ two_ne_zero
  intro q hq
  split_ifs at hq with c1 c2 c3
  · simp only [List.mem_cons, List.mem_singleton, List.not_mem_nil, or_false] at hq
    rcases hq with rfl | rfl
    · exact e_sign
    · exact e_prec
  · simp only [List.mem_cons, List.mem_singleton, List.not_mem_nil, or_false] at hq
    rcases hq with rfl | rfl | rfl | rfl | rfl | rfl
    · exact e_sign
    · exact e_prec
    · exact binary32_exact_mk 1 14 0 _ (by decide) (by omega) (by omega)
        (by rw [hpw]; simp)
    · exact binary32_exact_mk ((s : Int) * -2 + 1) 0 14 _ hsign (by omega) (by omega)
        (by rw [hpw]; field_simp)
    · exact e_frac
    · exact binary32_exact_mk (((s : Int) * -2 + 1) * (P : Int)) 0 24 _ hsignP (by omega)
        (by omega) (by rw [hpw]; push_cast; field_simp; ring_nf; simp)
  · obtain ⟨k, hk⟩ : ∃ k : Nat, ((E : Int) - 15).toNat = k := ⟨_, rfl⟩
    have hk15 : k ≤ 15 := by omega
    rw [hk] at hq
    simp only [List.mem_cons, List.mem_singleton, List.not_mem_nil, or_false] at hq
    rcases hq with rfl | rfl | rfl | rfl | rfl | rfl | rfl
    · exact e_sign
    · exact e_prec
    · exact binary32_exact_mk 1 k 0 _ (by decide) (by omega) (by omega)
        (by rw [hpw]; simp)
    · exact binary32_exact_mk ((s : Int) * -2 + 1) k 0 _ hsign (by omega) (by omega)
        (by rw [hpw]; simp)
    · exact e_frac
    · exact e_one
    · exact binary32_exact_mk (((s : Int) * -2 + 1) * (1024 + (P : Int))) k 10 _ hsignQ
        (by omega) (by omega) (by rw [hpw]; push_cast; ring)
  · obtain ⟨k, hk⟩ : ∃ k : Nat, (-((E : Int) - 15)).toNat = k := ⟨_, rfl⟩
    have hk15 : k ≤ 15 := by omega
    rw [hk] at hq
    simp only [List.mem_cons, List.mem_singleton, List.not_mem_nil, or_false] at hq
    rcases hq with rfl | rfl | rfl | rfl | rfl | rfl | rfl
    · exact e_sign
    · exact e_prec
    · exact binary32_exact_mk 1 k 0 _ (by decide) (by omega) (by omega)
        (by rw [hpw]; simp)
    · exact binary32_exact_mk ((s : Int) * -2 + 1) 0 k _ hsign (by omega) (by omega)
        (by rw [hpw]; have := hk0 k; field_simp)
    · exact e_frac
    · exact e_one
    · exact binary32_exact_mk (((s : Int) * -2 + 1) * (1024 + (P : Int))) 0 (k + 10) _ hsignQ
        (by omega) (by omega)
        (by rw [hpw]; have := hk0 k; push_cast; field_simp; ring_nf; simp)

theorem half_2_float_steps_exact (h0 : Nat) :
    ∀ q ∈ half_2_float_steps h0, binary32_exact q := by
  have hs : (h0 % 65536) >>> 15 < 2 := by
    rw [Nat.shiftRight_eq_div_pow]
    omega
  have hE : ((h0 % 65536) &&& 0x7C00) >>> 10 ≤ 31 := by
    have hle : (h0 % 65536) &&& 0x7C00 ≤ 0x7C00 := Nat.and_le_right
    rw [Nat.shiftRight_eq_div_pow]
    omega
  have hP : (h0 % 65536) &&& 0x03FF ≤ 1023 := Nat.and_le_right
  exact half_steps_exact_aux _ _ _ hs hE hP

theorem half_2_float_last_step (h0 : Nat) (v : ℚ)
    (hv : half_2_float h0 = FloatValue.finite v) :
    (half_2_float_steps h0).getLast? = some v := by
  unfold half_2_float at hv
  unfold half_2_float_steps
  simp only [] at hv ⊢
  split_ifs at hv ⊢ with c1 c2 c3
  · simp only [FloatValue.finite.injEq] at hv
    rw [← hv]
    rfl
  · simp only [FloatValue.finite.injEq] at hv
    rw [← hv]
    rfl
  · simp only [FloatValue.finite.injEq] at hv
    rw [← hv]
    rfl

/-! ## The choice between the two tile generators -/

theorem tdiv_tmod_unique (b q r : Int) (hq : 0 ≤ q) (hr : 0 ≤ r) (hrb : r < b) :
    Int.tdiv (b * q + r) b = q ∧ Int.tmod (b * q + r) b = r := by
  have hb : 0 < b := lt_of_le_of_lt hr hrb
  have ha : 0 ≤ b * q + r := by nlinarith
  rw [Int.tdiv_eq_ediv ha hb.le, Int.tmod_eq_emod ha hb.le]
  exact (Int.ediv_emod_unique hb).mpr ⟨by ring, hr, hrb⟩

theorem tdiv_tmod_facts (a b : Int) (ha : 0 ≤ a) (hb : 0 < b) :
    0 ≤ Int.tdiv a b ∧ 0 ≤ Int.tmod a b ∧ Int.tmod a b < b ∧
      b * Int.tdiv a b + Int.tmod a b = a :=
  ⟨Int.tdiv_nonneg ha hb.le, Int.tmod_nonneg b ha, Int.tmod_lt_of_pos a hb,
    Int.tdiv_add_tmod a b⟩

/-- The top of the band of `t` rows that row `row` falls in, bands being
counted from the top of each page of `H` rows: the row is inside the band,
and the row after the band, or after the page when that comes first, is
itself the top of a band. -/
theorem band_top_facts (H t row : Int) (hH : 0 < H) (ht : 0 < t) (hrow : 0 ≤ row) :
    H * Int.tdiv row H + Int.tdiv (Int.tmod row H) t * t ≤ row ∧
    row < H * Int.tdiv row H + Int.tdiv (Int.tmod row H) t * t + t ∧
    row < H * Int.tdiv row H + H ∧
    0 ≤ Int.tdiv (Int.tmod row H) t * t ∧
    Int.tdiv (Int.tmod row H) t * t < H ∧
    0 ≤ H * Int.tdiv row H ∧
    (∀ next : Int,
      next = min (H * Int.tdiv row H + Int.tdiv (Int.tmod row H) t * t + t)
        (H * Int.tdiv row H + H) →
      H * Int.tdiv next H + Int.tdiv (Int.tmod next H) t * t = next ∧
        H * Int.tdiv next H ≤ next) := by
  obtain ⟨hq, hyp0, hypH, hsplit⟩ := tdiv_tmod_facts row H hrow hH
  obtain ⟨hs, hm0, hmt, hsplit2⟩ := tdiv_tmod_facts (Int.tmod row H) t hyp0 ht
  generalize Int.tdiv row H = q at *
  generalize Int.tmod row H = yp at *
  generalize hsdef : Int.tdiv yp t = s at *
  generalize Int.tmod yp t = m at *
  have hts : t * s = s * t := mul_comm _ _
  have hst0 : 0 ≤ s * t := mul_nonneg hs ht.le
  have hHq0 : 0 ≤ H * q := mul_nonneg hH.le hq
  refine ⟨by linarith, by linarith, by linarith, hst0, by linarith, hHq0, ?_⟩
  intro next hnext
  by_cases hc : s * t + t < H
  · have hn : next = H * q + (s + 1) * t := by
      rw [hnext, min_eq_left (by linarith)]
      ring
    have h1 := tdiv_tmod_unique H q ((s + 1) * t) hq (by nlinarith) (by linarith)
    rw [← hn] at h1
    have h2 := tdiv_tmod_unique t (s + 1) 0 (by linarith) (le_refl 0) ht
    have e : t * (s + 1) + 0 = (s + 1) * t := by ring
    rw [e] at h2
    rw [h1.1, h1.2, h2.1, hn]
    exact ⟨rfl, by nlinarith⟩
  · have hn : next = H * (q + 1) + 0 := by
      rw [hnext, min_eq_right (by linarith)]
      ring
    have h1 := tdiv_tmod_unique H (q + 1) 0 (by linarith) (le_refl 0) hH
    rw [← hn] at h1
    have h2 : Int.tdiv 0 t = 0 := Int.zero_tdiv t
    rw [h1.1, h1.2, h2, hn]
    exact ⟨by ring, by linarith⟩

/-- The left edge of the tile column that column `col` falls in: the column
is inside the tile, and the column after the tile is the left edge of a
tile. -/
theorem tile_left_facts (t col : Int) (ht : 0 < t) (hcol : 0 ≤ col) :
    Int.tdiv col t * t ≤ col ∧ col < Int.tdiv col t * t + t ∧ 0 ≤ Int.tdiv col t * t ∧
      Int.tdiv (Int.tdiv col t * t + t) t * t = Int.tdiv col t * t + t := by
  obtain ⟨hs, hm0, hmt, hsplit⟩ := tdiv_tmod_facts col t hcol ht
  generalize Int.tdiv col t = s at *
  generalize Int.tmod col t = m at *
  have hts : t * s = s * t := mul_comm _ _
  refine ⟨by linarith, by linarith, mul_nonneg hs ht.le, ?_⟩
  have h2 := tdiv_tmod_unique t (s + 1) 0 (by linarith) (le_refl 0) ht
  have e : t * (s + 1) + 0 = s * t + t := by ring
  rw [e] at h2
  rw [h2.1]
  ring

/-! ## The strip generator advances by the height of the region -/

theorem intersect_top_height (a b : VipsRect) :
    (vips_rect_intersectrect a b).top = max a.top b.top ∧
      (vips_rect_intersectrect a b).height =
        max 0 (min (a.top + a.height) (b.top + b.height) - max a.top b.top) :=
  ⟨rfl, rfl⟩

theorem intersect_left_width (a b : VipsRect) :
    (vips_rect_intersectrect a b).left = max a.left b.left ∧
      (vips_rect_intersectrect a b).width =
        max 0 (min (a.left + a.width) (b.left + b.width) - max a.left b.left) :=
  ⟨rfl, rfl⟩

/-- Two rectangles that both hold row `row` intersect in the rows from the
larger top to the smaller bottom, `row` among them. -/
theorem intersect_rows (a b : VipsRect) (row : Int)
    (ha : a.top ≤ row ∧ row < a.top + a.height) (hb : b.top ≤ row ∧ row < b.top + b.height) :
    (vips_rect_intersectrect a b).top = max a.top b.top ∧
    (vips_rect_intersectrect a b).top + (vips_rect_intersectrect a b).height =
      min (a.top + a.height) (b.top + b.height) ∧
    (vips_rect_intersectrect a b).top ≤ row ∧
    row < (vips_rect_intersectrect a b).top + (vips_rect_intersectrect a b).height := by
  obtain ⟨h1, h2⟩ := intersect_top_height a b
  generalize vips_rect_intersectrect a b = c at h1 h2 ⊢
  omega

/-- The same for columns. -/
theorem intersect_cols (a b : VipsRect) (col : Int)
    (ha : a.left ≤ col ∧ col < a.left + a.width) (hb : b.left ≤ col ∧ col < b.left + b.width) :
    (vips_rect_intersectrect a b).left = max a.left b.left ∧
    (vips_rect_intersectrect a b).left + (vips_rect_intersectrect a b).width =
      min (a.left + a.width) (b.left + b.width) ∧
    (vips_rect_intersectrect a b).left ≤ col ∧
    col < (vips_rect_intersectrect a b).left + (vips_rect_intersectrect a b).width := by
  obtain ⟨h1, h2⟩ := intersect_left_width a b
  generalize vips_rect_intersectrect a b = c at h1 h2 ⊢
  omega

theorem to_int32_of_range (x : Int) (h0 : -2147483648 ≤ x) (h1 : x ≤ 2147483647) :
    to_int32 x = x := by
  unfold to_int32
  omega

/-! ## The plane interleave -/

theorem interleave_bytes_length (plane : Nat → Nat) (p q : Nat) :
    ∀ (m k0 : Nat), (interleave_bytes plane p q m k0).length = m := by
  intro m
  induction m with
  | zero => intro k0; rfl
  | succ m ih => intro k0; simp only [interleave_bytes, List.length_cons, ih]

theorem interleave_bytes_mem (plane : Nat → Nat) (p q : Nat) :
    ∀ (m k0 k : Nat), k0 ≤ k → k < k0 + m →
      (q + k, plane (p + k)) ∈ interleave_bytes plane p q m k0 := by
  intro m
  induction m with
  | zero => intro k0 k h1 h2; omega
  | succ m ih =>
    intro k0 k h1 h2
    simp only [interleave_bytes, List.mem_cons]
    by_cases hk : k = k0
    · left; rw [hk]
    · right; exact ih (k0 + 1) k (by omega) (by omega)

theorem interleave_bytes_bounds (plane : Nat → Nat) (p q : Nat) :
    ∀ (m k0 : Nat) (e : Nat × Nat), e ∈ interleave_bytes plane p q m k0 →
      q + k0 ≤ e.1 ∧ e.1 < q + k0 + m := by
  intro m
  induction m with
  | zero => intro k0 e he; simp [interleave_bytes] at he
  | succ m ih =>
    intro k0 e he
    simp only [interleave_bytes, List.mem_cons] at he
    rcases he with he | he
    · rw [he]; simp only []; omega
    · have := ih (k0 + 1) e he
      omega

theorem interleave_bytes_nodup (plane : Nat → Nat) (p q : Nat) :
    ∀ (m k0 : Nat), ((interleave_bytes plane p q m k0).map Prod.fst).Nodup := by
  intro m
  induction m with
  | zero => intro k0; simp [interleave_bytes]
  | succ m ih =>
    intro k0
    simp only [interleave_bytes, List.map_cons, List.nodup_cons]
    refine ⟨?_, ih (k0 + 1)⟩
    intro hmem
    rw [List.mem_map] at hmem
    obtain ⟨e, he, heq⟩ := hmem
    have := interleave_bytes_bounds plane p q m (k0 + 1) e he
    omega

theorem interleave_pels_length (plane : Nat → Nat) (B S : Nat) :
    ∀ (m p q : Nat), (interleave_pels plane B S m p q).length = m * B := by
  intro m
  induction m with
  | zero => intro p q; simp [interleave_pels]
  | succ m ih =>
    intro p q
    simp only [interleave_pels, List.length_append, interleave_bytes_length, ih]
    ring

theorem interleave_pels_mem (plane : Nat → Nat) (B S : Nat) :
    ∀ (m p q j k : Nat), j < m → k < B →
      (q + j * (B * S) + k, plane (p + j * B + k)) ∈ interleave_pels plane B S m p q := by
  intro m
  induction m with
  | zero => intro p q j k hj; omega
  | succ m ih =>
    intro p q j k hj hk
    simp only [interleave_pels, List.mem_append]
    cases j with
    | zero =>
      left
      have := interleave_bytes_mem plane p q B 0 k (by omega) (by omega)
      simpa using this
    | succ j =>
      right
      have := ih (p + B) (q + B * S) j k (by omega) hk
      have e1 : q + B * S + j * (B * S) + k = q + (j + 1) * (B * S) + k := by ring
      have e2 : p + B + j * B + k = p + (j + 1) * B + k := by ring
      rw [e1, e2] at this
      exact this

theorem interleave_pels_decode (plane : Nat → Nat) (B S : Nat) :
    ∀ (m p q : Nat) (e : Nat × Nat), e ∈ interleave_pels plane B S m p q →
      ∃ j k, j < m ∧ k < B ∧ e.1 = q + j * (B * S) + k := by
  intro m
  induction m with
  | zero => intro p q e he; simp [interleave_pels] at he
  | succ m ih =>
    intro p q e he
    simp only [interleave_pels, List.mem_append] at he
    rcases he with he | he
    · have := interleave_bytes_bounds plane p q B 0 e he
      exact ⟨0, e.1 - q, by omega, by omega, by omega⟩
    · obtain ⟨j, k, hj, hk, he⟩ := ih (p + B) (q + B * S) e he
      refine ⟨j + 1, k, by omega, hk, ?_⟩
      rw [he]
      ring

theorem interleave_pels_nodup (plane : Nat → Nat) (B S : Nat) (hS : 1 ≤ S) :
    ∀ (m p q : Nat), ((interleave_pels plane B S m p q).map Prod.fst).Nodup := by
  intro m
  induction m with
  | zero => intro p q; simp [interleave_pels]
  | succ m ih =>
    intro p q
    simp only [interleave_pels, List.map_append]
    rw [List.nodup_append]
    refine ⟨interleave_bytes_nodup plane p q B 0, ih _ _, ?_⟩
    intro a ha hb
    rw [List.mem_map] at ha hb
    obtain ⟨e1, he1, h1⟩ := ha
    obtain ⟨e2, he2, h2⟩ := hb
    have b1 := interleave_bytes_bounds plane p q B 0 e1 he1
    obtain ⟨j, k, _, _, hj⟩ := interleave_pels_decode plane B S m _ _ e2 he2
    have hBS : B ≤ B * S := Nat.le_mul_of_pos_right B hS
    have : q + B * S ≤ e2.1 := by
      rw [hj]
      have : 0 ≤ j * (B * S) := Nat.zero_le _
      omega
    omega

/-- The plane of an interleaved offset: sample `i` of pixel `j`, byte `k`,
lies at an offset whose sample index is `i`. -/
theorem interleave_offset_plane (B S i j k : Nat) (hi : i < S) (hk : k < B) :
    ((j * S + i) * B + k) / B % S = i := by
  have hB : 0 < B := by omega
  have h1 : ((j * S + i) * B + k) / B = j * S + i := by
    rw [Nat.add_comm, Nat.add_mul_div_right _ _ hB, Nat.div_eq_of_lt hk, Nat.zero_add]
  rw [h1, Nat.add_comm, Nat.add_mul_mod_self_right, Nat.mod_eq_of_lt hi]

theorem toNat_mul_natCast (c : Nat) (b : Int) : ((c : Int) * b).toNat = c * b.toNat := by
  rcases le_or_lt 0 b with hb | hb
  · obtain ⟨n, rfl⟩ := Int.eq_ofNat_of_zero_le hb
    rw [Int.toNat_ofNat]
    have : ((c : Int) * (n : Int)) = ((c * n : Nat) : Int) := by push_cast; rfl
    rw [this, Int.toNat_ofNat]
  · have h0 : b.toNat = 0 := by omega
    have hc : (0 : Int) ≤ c := Int.ofNat_nonneg c
    have hle : (c : Int) * b ≤ 0 := by nlinarith
    have h1 : ((c : Int) * b).toNat = 0 := by omega
    rw [h0, h1, Nat.mul_zero]

/-- The stores of the plane loop when every read succeeds: the planes `c` to
`c + k - 1`, each interleaved at its sample offset. -/
theorem strip_read_planes_stores_spec (strip_data : Int → Nat → Nat)
    (strips_per_plane strip bI sI pI : Int) (hS : 1 ≤ sI.toNat) :
    ∀ (k c : Nat) (rtiff : Rtiff), c + k ≤ sI.toNat →
      (strip_read_planes_stores strip_data strips_per_plane strip bI sI pI k (c : Int)
        rtiff).1 = 0 →
      (strip_read_planes_stores strip_data strips_per_plane strip bI sI pI k (c : Int)
          rtiff).2.2.length = k * (pI.toNat * bI.toNat) ∧
      (∀ t j kk, t < k → j < pI.toNat → kk < bI.toNat →
        ((j * sI.toNat + (c + t)) * bI.toNat + kk,
          strip_data (strips_per_plane * ((c + t : Nat) : Int) + strip) (j * bI.toNat + kk)) ∈
          (strip_read_planes_stores strip_data strips_per_plane strip bI sI pI k (c : Int)
            rtiff).2.2) ∧
      (∀ e ∈ (strip_read_planes_stores strip_data strips_per_plane strip bI sI pI k (c : Int)
            rtiff).2.2,
        ∃ i j kk, c ≤ i ∧ i < c + k ∧ j < pI.toNat ∧ kk < bI.toNat ∧
          e.1 = (j * sI.toNat + i) * bI.toNat + kk) ∧
      ((strip_read_planes_stores strip_data strips_per_plane strip bI sI pI k (c : Int)
          rtiff).2.2.map Prod.fst).Nodup := by
  intro k
  induction k with
  | zero =>
    intro c rtiff _ _
    simp [strip_read_planes_stores]
  | succ k ih =>
    intro c rtiff hck hok
    simp only [strip_read_planes_stores] at hok ⊢
    generalize rtiff_strip_read rtiff (strips_per_plane * (c : Int) + strip)
      ReadBuf.plane_buf = rd at hok ⊢
    obtain ⟨rc, rtiff1⟩ := rd
    simp only [] at hok ⊢
    by_cases hrc : rc ≠ 0
    · rw [if_pos hrc] at hok
      simp at hok
    · rw [if_neg hrc] at hok ⊢
      have hc1 : ((c : Int) + 1) = ((c + 1 : Nat) : Int) := by push_cast; rfl
      rw [hc1] at hok ⊢
      have hrec := ih (c + 1) rtiff1 (by omega)
      generalize strip_read_planes_stores strip_data strips_per_plane strip bI sI pI k
        ((c + 1 : Nat) : Int) rtiff1 = rest at hok hrec ⊢
      obtain ⟨rc2, rtiff2, stores2⟩ := rest
      simp only [] at hok hrec ⊢
      obtain ⟨hlen, hmem, hdec, hnd⟩ := hrec hok
      rw [toNat_mul_natCast]
      refine ⟨?_, ?_, ?_, ?_⟩
      · rw [List.length_append, interleave_pels_length, hlen]
        ring
      · intro t j kk ht hj hkk
        rw [List.mem_append]
        cases t with
        | zero =>
          left
          have := interleave_pels_mem (strip_data (strips_per_plane * (c : Int) + strip))
            bI.toNat sI.toNat pI.toNat 0 (c * bI.toNat) j kk hj hkk
          have e1 : c * bI.toNat + j * (bI.toNat * sI.toNat) + kk =
              (j * sI.toNat + (c + 0)) * bI.toNat + kk := by ring
          rw [e1, Nat.zero_add] at this
          exact this
        | succ t =>
          right
          have := hmem t j kk (by omega) hj hkk
          have e1 : c + 1 + t = c + (t + 1) := by ring
          rw [e1] at this
          exact this
      · intro e he
        rw [List.mem_append] at he
        rcases he with he | he
        · obtain ⟨j, kk, hj, hkk, hje⟩ := interleave_pels_decode _ _ _ _ _ _ e he
          refine ⟨c, j, kk, le_refl _, by omega, hj, hkk, ?_⟩
          rw [hje]
          ring
        · obtain ⟨i, j, kk, h1, h2, hj, hkk, hje⟩ := hdec e he
          exact ⟨i, j, kk, by omega, by omega, hj, hkk, hje⟩
      · rw [List.map_append, List.nodup_append]
        refine ⟨interleave_pels_nodup _ _ _ hS _ _ _, hnd, ?_⟩
        intro a ha hb
        rw [List.mem_map] at ha hb
        obtain ⟨e1, he1, h1⟩ := ha
        obtain ⟨e2, he2, h2⟩ := hb
        obtain ⟨j, kk, hj, hkk, hje⟩ := interleave_pels_decode _ _ _ _ _ _ e1 he1
        obtain ⟨i2, j2, kk2, hi1, hi2, hj2, hkk2, hje2⟩ := hdec e2 he2
        have p1 : a / bI.toNat % sI.toNat = c := by
          rw [← h1, hje]
          have e : c * bI.toNat + j * (bI.toNat * sI.toNat) + kk =
              (j * sI.toNat + c) * bI.toNat + kk := by ring
          rw [e]
          exact interleave_offset_plane _ _ _ _ _ (by omega) hkk
        have p2 : a / bI.toNat % sI.toNat = i2 := by
          rw [← h2, hje2]
          exact interleave_offset_plane _ _ _ _ _ (by omega) hkk2
        omega

theorem apply_stores_not_mem (a : Nat) :
    ∀ (stores : List (Nat × Nat)) (buf : Nat → Nat), a ∉ stores.map Prod.fst →
      apply_stores buf stores a = buf a := by
  intro stores
  induction stores with
  | nil => intro buf _; rfl
  | cons e rest ih =>
    intro buf h
    obtain ⟨a0, v0⟩ := e
    simp only [List.map_cons, List.mem_cons, not_or] at h
    simp only [apply_stores]
    rw [ih _ h.2, Function.update_noteq h.1]

theorem apply_stores_mem (a v : Nat) :
    ∀ (stores : List (Nat × Nat)) (buf : Nat → Nat), (stores.map Prod.fst).Nodup →
      (a, v) ∈ stores → apply_stores buf stores a = v := by
  intro stores
  induction stores with
  | nil => intro buf _ h; simp at h
  | cons e rest ih =>
    intro buf hnd h
    obtain ⟨a0, v0⟩ := e
    simp only [List.map_cons, List.nodup_cons] at hnd
    simp only [apply_stores]
    rw [List.mem_cons] at h
    rcases h with h | h
    · simp only [Prod.mk.injEq] at h
      obtain ⟨h1, h2⟩ := h
      subst h1 h2
      rw [apply_stores_not_mem _ _ _ hnd.1, Function.update_same]
    · exact ih _ hnd.2 h

/-- The return code and reader state of the strip read with stores are those
of `rtiff_strip_read_interleaved`. -/
theorem strip_read_planes_stores_rc (strip_data : Int → Nat → Nat)
    (strips_per_plane strip bI sI pI : Int) :
    ∀ (k : Nat) (i : Int) (rtiff : Rtiff),
      ((strip_read_planes_stores strip_data strips_per_plane strip bI sI pI k i rtiff).1,
        (strip_read_planes_stores strip_data strips_per_plane strip bI sI pI k i rtiff).2.1) =
      strip_read_planes strips_per_plane strip k i rtiff := by
  intro k
  induction k with
  | zero => intro i rtiff; rfl
  | succ k ih =>
    intro i rtiff
    simp only [strip_read_planes_stores, strip_read_planes]
    generalize rtiff_strip_read rtiff (strips_per_plane * i + strip) ReadBuf.plane_buf = rd
    obtain ⟨rc, rtiff1⟩ := rd
    simp only []
    by_cases hrc : rc ≠ 0
    · rw [if_pos hrc, if_pos hrc]
    · rw [if_neg hrc, if_neg hrc]
      exact ih (i + 1) rtiff1

theorem rtiff_strip_read_interleaved_stores_rc (rtiff : Rtiff) (page strip : Int)
    (buf : ReadBuf) (strip_data : Int → Nat → Nat) :
    ((rtiff_strip_read_interleaved_stores rtiff page strip buf strip_data).1,
      (rtiff_strip_read_interleaved_stores rtiff page strip buf strip_data).2.1) =
    rtiff_strip_read_interleaved rtiff page strip buf := by
  unfold rtiff_strip_read_interleaved_stores rtiff_strip_read_interleaved
  simp only []
  generalize rtiff_set_page rtiff page = sp
  obtain ⟨rc, rtiff1⟩ := sp
  simp only []
  by_cases hrc : rc ≠ 0
  · rw [if_pos hrc, if_pos hrc]
  · rw [if_neg hrc, if_neg hrc]
    by_cases hr : rtiff1.header.read_as_rgba = true
    · rw [if_pos hr, if_pos hr]
      split_ifs <;> rfl
    · rw [if_neg hr, if_neg hr]
      by_cases hs : rtiff1.header.separate = true
      · rw [if_pos hs, if_pos hs]
        exact strip_read_planes_stores_rc _ _ _ _ _ _ _ _ _
      · rw [if_neg hs, if_neg hs]
        split_ifs <;> rfl

theorem strips_per_plane_ceil (page_height read_height : Int) (hph : 1 ≤ page_height)
    (hrh : 1 ≤ read_height) :
    (1 + Int.tdiv (page_height - 1) read_height - 1) * read_height < page_height ∧
      page_height ≤ (1 + Int.tdiv (page_height - 1) read_height) * read_height := by
  have h0 : (0 : Int) ≤ page_height - 1 := by omega
  have hsplit := Int.tdiv_add_tmod (page_height - 1) read_height
  have hnn := Int.tmod_nonneg read_height h0
  have hlt := Int.tmod_lt_of_pos (page_height - 1) (by omega : 0 < read_height)
  constructor
  · nlinarith
  · nlinarith

theorem shiftRight_three (b : Int) (B : Nat) (h : b / 8 = (B : Int)) : (b >>> 3).toNat = B := by
  have hb : 0 ≤ b := by omega
  obtain ⟨m, rfl⟩ := Int.eq_ofNat_of_zero_le hb
  have h1 := Int.shiftRight_coe_nat m 3
  simp only [Nat.cast_ofNat] at h1
  rw [h1, Int.toNat_ofNat, Nat.shiftRight_eq_div_pow]
  omega

/-- The claimed interleave while the pixel count fits a C `int`: for a
planar-separate header that is not read as RGBA, with `S` samples per pixel,
`B = bits_per_sample / 8` bytes per sample and a strip of
`P = page_width * strip_height` pixels, `P` and `strip * read_height` within
the range of an `int`, a successful `rtiff_strip_read_interleaved` takes
plane `i` from the strip with index `c * i + strip`, where `c` is page
height over read height rounded up, and leaves
`out[(j * S + i) * B + k] = plane_i[j * B + k]` for every plane `i < S`,
pixel `j < P` and byte `k < B`; it makes `P * S * B` stores and each of the
first `P * S * B` bytes of `out` is written exactly once. -/
theorem rtiff_strip_read_interleaved_in_range (rtiff : Rtiff) (page strip : Int) (buf : ReadBuf)
    (strip_data : Int → Nat → Nat) (out : Nat → Nat) (S B P : Nat)
    (hsep : rtiff.header.separate = true) (hrgba : rtiff.header.read_as_rgba = false)
    (hph : 1 ≤ rtiff.header.height) (hrh : 1 ≤ rtiff.header.read_height)
    (hS : rtiff.header.samples_per_pixel = (S : Int))
    (hB : rtiff.header.bits_per_sample / 8 = (B : Int))
    (hy0 : -2147483648 ≤ strip * (rtiff.header.read_height : Int))
    (hy1 : strip * (rtiff.header.read_height : Int) ≤ 2147483647)
    (hP : (rtiff.header.width : Int) *
        min (rtiff.header.read_height : Int)
          ((rtiff.header.height : Int) - strip * rtiff.header.read_height) = (P : Int))
    (hfit : P ≤ 2147483647)
    (hok : (rtiff_strip_read_interleaved_stores rtiff page strip buf strip_data).1 = 0) :
    ∃ c : Int,
      (c - 1) * rtiff.header.read_height < rtiff.header.height ∧
      (rtiff.header.height : Int) ≤ c * rtiff.header.read_height ∧
      (∀ i j k, i < S → j < P → k < B →
        apply_stores out
            (rtiff_strip_read_interleaved_stores rtiff page strip buf strip_data).2.2
            ((j * S + i) * B + k) =
          strip_data (c * (i : Int) + strip) (j * B + k)) ∧
      (∀ a, a < P * S * B →
        ((rtiff_strip_read_interleaved_stores rtiff page strip buf strip_data).2.2.map
          Prod.fst).count a = 1) ∧
      (rtiff_strip_read_interleaved_stores rtiff page strip buf strip_data).2.2.length =
        P * S * B := by
  have hceil := strips_per_plane_ceil (rtiff.header.height : Int) (rtiff.header.read_height : Int)
    (by exact_mod_cast hph) (by exact_mod_cast hrh)
  refine ⟨1 + Int.tdiv ((rtiff.header.height : Int) - 1) rtiff.header.read_height,
    hceil.1, hceil.2, ?_⟩
  have hset := (rtiff_set_page_keeps rtiff page).1
  unfold rtiff_strip_read_interleaved_stores at hok ⊢
  simp only [] at hok ⊢
  generalize rtiff_set_page rtiff page = sp at hok hset ⊢
  obtain ⟨rc, rtiff1⟩ := sp
  simp only [] at hok hset ⊢
  by_cases hrc : rc ≠ 0
  · rw [if_pos hrc] at hok
    simp at hok
  · rw [if_neg hrc] at hok ⊢
    rw [hset, hrgba, hsep] at hok ⊢
    simp only [Bool.false_eq_true, if_false, if_true] at hok ⊢
    have hy : to_int32 (strip * (rtiff.header.read_height : Int)) =
        strip * (rtiff.header.read_height : Int) := to_int32_of_range _ hy0 hy1
    have hw : to_int32 ((rtiff.header.width : Int) *
        min (rtiff.header.read_height : Int)
          ((rtiff.header.height : Int) - strip * rtiff.header.read_height)) =
        (rtiff.header.width : Int) *
          min (rtiff.header.read_height : Int)
            ((rtiff.header.height : Int) - strip * rtiff.header.read_height) := by
      rw [hP]
      exact to_int32_of_range _ (by omega) (by omega)
    rw [hy, hw] at hok ⊢
    have hBn : (rtiff.header.bits_per_sample >>> 3).toNat = B :=
      shiftRight_three _ _ hB
    have hSn : rtiff.header.samples_per_pixel.toNat = S := by rw [hS, Int.toNat_ofNat]
    have hPn : ((rtiff.header.width : Int) *
        min (rtiff.header.read_height : Int)
          ((rtiff.header.height : Int) - strip * rtiff.header.read_height)).toNat = P := by
      rw [hP, Int.toNat_ofNat]
    rcases Nat.eq_zero_or_pos S with hS0 | hSpos
    · subst hS0
      rw [hSn]
      simp [strip_read_planes_stores]
    · have hspec := strip_read_planes_stores_spec strip_data
        (1 + Int.tdiv ((rtiff.header.height : Int) - 1) rtiff.header.read_height) strip
        (rtiff.header.bits_per_sample >>> 3) rtiff.header.samples_per_pixel
        ((rtiff.header.width : Int) *
          min (rtiff.header.read_height : Int)
            ((rtiff.header.height : Int) - strip * rtiff.header.read_height))
        (by rw [hSn]; exact hSpos) rtiff.header.samples_per_pixel.toNat 0 rtiff1
        (by omega) (by simpa using hok)
      simp only [Nat.cast_zero] at hspec
      generalize strip_read_planes_stores strip_data
        (1 + Int.tdiv ((rtiff.header.height : Int) - 1) rtiff.header.read_height) strip
        (rtiff.header.bits_per_sample >>> 3) rtiff.header.samples_per_pixel
        ((rtiff.header.width : Int) *
          min (rtiff.header.read_height : Int)
            ((rtiff.header.height : Int) - strip * rtiff.header.read_height))
        rtiff.header.samples_per_pixel.toNat 0 rtiff1 = res at hspec ⊢
      rw [hBn, hSn, hPn] at hspec
      obtain ⟨hlen, hmem, hdec, hnd⟩ := hspec
      refine ⟨?_, ?_, ?_⟩
      · intro i j k hi hj hk
        apply apply_stores_mem _ _ _ _ hnd
        have := hmem i j k hi hj hk
        simpa using this
      · intro a ha
        apply List.count_eq_one_of_mem hnd
        rw [List.mem_map]
        have hBpos : 0 < B := by
          rcases Nat.eq_zero_or_pos B with h | h
          · rw [h] at ha; simp at ha
          · exact h
        have ht : a / B < P * S := by
          apply Nat.div_lt_of_lt_mul
          calc a < P * S * B := ha
            _ = B * (P * S) := by ring
        have hj : a / B / S < P := by
          apply Nat.div_lt_of_lt_mul
          calc a / B < P * S := ht
            _ = S * P := by ring
        have hi : a / B % S < S := Nat.mod_lt _ hSpos
        have hk : a % B < B := Nat.mod_lt _ hBpos
        have hm := hmem (a / B % S) (a / B / S) (a % B) hi hj hk
        refine ⟨_, hm, ?_⟩
        simp only [Nat.zero_add]
        have e1 : a / B / S * S + a / B % S = a / B := by
          rw [Nat.mul_comm]; exact Nat.div_add_mod _ _
        rw [e1, Nat.mul_comm]
        exact Nat.div_add_mod _ _
      · rw [hlen]
        ring

set_option maxRecDepth 100000 in
/-- The interleave on a 4x2 page of three 8-bit samples in separate planes,
one strip per plane, where byte `o` of strip `s` is `100 * s + o`: every
sample of the interleaved strip is the byte of its plane. -/
theorem rtiff_strip_read_interleaved_small :
    (rtiff_strip_read_interleaved_stores (reader_of_tags separate_tags) 0 0
      ReadBuf.contig_buf (fun s o => 100 * s.toNat + o)).1 = 0 ∧
    ∃ c : Int,
      (∀ i j k, i < 3 → j < 8 → k < 1 →
        apply_stores zero_buf
            (rtiff_strip_read_interleaved_stores (reader_of_tags separate_tags) 0 0
              ReadBuf.contig_buf (fun s o => 100 * s.toNat + o)).2.2
            ((j * 3 + i) * 1 + k) =
          (fun (s : Int) (o : Nat) => 100 * s.toNat + o) (c * (i : Int) + 0) (j * 1 + k)) :=
  ⟨by decide,
   (rtiff_strip_read_interleaved_in_range (reader_of_tags separate_tags) 0 0
      ReadBuf.contig_buf (fun s o => 100 * s.toNat + o) zero_buf 3 1 8 (by decide) (by decide)
      (by decide) (by decide) (by decide) (by decide) (by decide) (by decide) (by decide)
      (by decide) (by decide)).imp
      (fun _ h => h.2.2.1)⟩

set_option maxRecDepth 100000 in
/-- C33 (the code at the failing input): the 50000 x 50000 directory of three
8-bit samples in separate planes, one strip per plane, passes
`rtiff_header_read` with a read height of 50000 rows.  Reading strip 0 of
page 0 succeeds, but `pels_per_strip` = 50000 * 50000 = 2500000000 is more
than `INT_MAX` and wraps to -1794967296, so the loop over the pixels of a
plane does not run: nothing is stored into `out`, whatever the planes hold,
while the claim has 2500000000 * 3 bytes written.  On the 4x2 directory of
three 8-bit planes, where byte `o` of strip `s` is `100 * s + o`, the 24
bytes are stored as claimed: sample 2 of pixel 5 is byte 5 of strip 2. -/
theorem rtiff_strip_read_interleaved_overflow :
    rtiff_header_read true huge_separate_tags none RtiffHeader.zero =
      Except.ok (header_of_tags huge_separate_tags) ∧
    (header_of_tags huge_separate_tags).separate = true ∧
    (header_of_tags huge_separate_tags).read_as_rgba = false ∧
    (header_of_tags huge_separate_tags).width = 50000 ∧
    (header_of_tags huge_separate_tags).height = 50000 ∧
    (header_of_tags huge_separate_tags).read_height = 50000 ∧
    (header_of_tags huge_separate_tags).samples_per_pixel = 3 ∧
    (header_of_tags huge_separate_tags).bits_per_sample = 8 ∧
    (((header_of_tags huge_separate_tags).width : Int) *
        min ((header_of_tags huge_separate_tags).read_height : Int)
          (((header_of_tags huge_separate_tags).height : Int) -
            0 * (header_of_tags huge_separate_tags).read_height) = 2500000000 ∧
      (2147483647 : Int) < 2500000000 ∧
      to_int32 2500000000 = -1794967296) ∧
    (rtiff_strip_read_interleaved (reader_of_tags huge_separate_tags) 0 0
      ReadBuf.contig_buf).1 = 0 ∧
    (∀ strip_data : Int → Nat → Nat,
      (rtiff_strip_read_interleaved_stores (reader_of_tags huge_separate_tags) 0 0
        ReadBuf.contig_buf strip_data).1 = 0 ∧
      (rtiff_strip_read_interleaved_stores (reader_of_tags huge_separate_tags) 0 0
        ReadBuf.contig_buf strip_data).2.2 = []) ∧
    ((rtiff_strip_read_interleaved_stores (reader_of_tags separate_tags) 0 0
        ReadBuf.contig_buf (fun s o => 100 * s.toNat + o)).2.2.length = 24 ∧
      apply_stores zero_buf
        (rtiff_strip_read_interleaved_stores (reader_of_tags separate_tags) 0 0
          ReadBuf.contig_buf (fun s o => 100 * s.toNat + o)).2.2 17 = 205) := by
  refine ⟨by decide, by decide, by decide, by decide, by decide, by decide, by decide,
    by decide, by decide, by decide, ?_, by decide⟩
  intro strip_data
  exact ⟨rfl, rfl⟩

/-! ## The bit-packed palette kernel -/

set_option maxRecDepth 1000000 in
theorem palette_step_ok_1 : palette_step_ok 1 8 := by decide
set_option maxRecDepth 1000000 in
theorem palette_step_ok_2 : palette_step_ok 2 4 := by decide
set_option maxRecDepth 1000000 in
theorem palette_step_ok_4 : palette_step_ok 4 2 := by decide

theorem getD_lt_256 (p : List Nat) (hp : ∀ b ∈ p, b < 256) (c : Nat) : p.getD c 0 < 256 := by
  rw [List.getD_eq_getElem?_getD]
  cases h : p[c]? with
  | none => simp
  | some v => exact hp v (List.getElem?_mem h)

theorem headD_drop (p : List Nat) (c : Nat) : (p.drop c).headD 0 = p.getD c 0 := by
  rw [List.getD_eq_getElem?_getD, List.headD_eq_head?_getD, List.head?_drop]

theorem bit_field_lt (N b s : Nat) : bit_field N b s < 2 ^ N := by
  unfold bit_field
  exact Nat.mod_lt _ (Nat.pos_pow_of_pos N (by norm_num))

/-- What `rtiff_palette_line_bit` writes for sample number `x` of the packed
scanline `p`: the table entries for the first sample of a pixel, the sample
left-justified in a byte otherwise. -/
theorem palette_bit_loop_spec (header : RtiffHeader) (read : PaletteRead) (N m : Nat)
    (hNm : N * m = 8) (hm : 2 ≤ m) (hstep : palette_step_ok N m)
    (hbps : header.bits_per_sample = (N : Int))
    (p0 : List Nat) (hp : ∀ b ∈ p0, b < 256) :
    ∀ (k c s : Nat) (bit : Int) (data : Nat) (p : List Nat), s < m →
      (s = 0 → bit ≤ 0 ∧ p = p0.drop c) →
      (s ≠ 0 → bit = 8 - (N : Int) * s ∧ data = (p0.getD c 0 <<< (N * s)) % 256 ∧
        p = p0.drop (c + 1)) →
      palette_bit_loop header read k (c * m + s) bit data p =
        (List.range' (c * m + s) k).flatMap (fun x =>
          if Int.tmod (x : Int) header.samples_per_pixel = 0 then
            palette_lookup read.mono read.red8 read.green8 read.blue8 (packed_sample N p0 x)
          else [packed_sample N p0 x <<< (8 - N)]) := by
  have hN8 : N ≤ 8 := by
    calc N = N * 1 := (Nat.mul_one N).symm
      _ ≤ N * m := Nat.mul_le_mul_left N (by omega)
      _ = 8 := hNm
  have hdiv : 8 / N = m := by
    have hNpos : 0 < N := by
      rcases Nat.eq_zero_or_pos N with h | h
      · rw [h] at hNm; simp at hNm
      · exact h
    rw [← hNm]
    exact Nat.mul_div_cancel_left m hNpos
  have hpack : ∀ c s, s < m → packed_sample N p0 (c * m + s) = bit_field N (p0.getD c 0) s := by
    intro c s hs
    unfold packed_sample
    rw [hdiv]
    have h1 : (c * m + s) / m = c := by
      rw [Nat.add_comm, Nat.add_mul_div_right _ _ (by omega : 0 < m), Nat.div_eq_of_lt hs,
        Nat.zero_add]
    have h2 : (c * m + s) % m = s := by
      rw [Nat.add_comm, Nat.add_mul_mod_self_right, Nat.mod_eq_of_lt hs]
    rw [h1, h2]
  have hshift : ∀ b s, (bit_field N b s <<< (8 - N)) % 256 = bit_field N b s <<< (8 - N) := by
    intro b s
    apply Nat.mod_eq_of_lt
    rw [Nat.shiftLeft_eq]
    have h1 := bit_field_lt N b s
    calc bit_field N b s * 2 ^ (8 - N) < 2 ^ N * 2 ^ (8 - N) :=
          Nat.mul_lt_mul_of_pos_right h1 (Nat.pos_pow_of_pos _ (by norm_num))
      _ = 2 ^ 8 := by rw [← pow_add]; congr 1; omega
      _ = 256 := by norm_num
  have htn : (8 - (N : Int)).toNat = 8 - N := by omega
  intro k
  induction k with
  | zero => intros; rfl
  | succ k ih =>
    intro c s bit data p hs h0 h1
    have hb := getD_lt_256 p0 hp c
    rw [List.range'_succ, List.flatMap_cons, hpack c s hs]
    simp only [palette_bit_loop, hbps, htn, Int.toNat_ofNat]
    by_cases hs0 : s = 0
    · obtain ⟨hbit, hpd⟩ := h0 hs0
      subst hs0
      have hst := hstep (p0.getD c 0) hb 0 (by omega)
      simp only [Nat.mul_zero, Nat.shiftLeft_zero, Nat.mod_eq_of_lt hb, Nat.zero_add,
        Nat.mul_one] at hst
      simp only [hbit, if_true, hpd, headD_drop, hst.1, hshift, Nat.add_zero, List.tail_drop]
      congr 1
      have := ih c 1 (8 - (N : Int)) ((p0.getD c 0 <<< N) % 256) (p0.drop (c + 1)) (by omega)
        (by intro h; omega)
        (by intro _; exact ⟨by simp, by simp, rfl⟩)
      simpa using this
    · obtain ⟨hbit, hdata, hpd⟩ := h1 hs0
      have hst := hstep (p0.getD c 0) hb s hs
      have hbpos : ¬ bit ≤ 0 := by
        rw [hbit]
        have : N * s < N * m := Nat.mul_lt_mul_of_pos_left hs (by
          rcases Nat.eq_zero_or_pos N with h | h
          · rw [h] at hNm; simp at hNm
          · exact h)
        have h2 : ((N * s : Nat) : Int) < 8 := by rw [hNm] at this; exact_mod_cast this
        push_cast at h2
        omega
      simp only [hbpos, if_false, hdata, hst.1, hst.2, hshift]
      congr 1
      by_cases hlast : s + 1 = m
      · have hx : c * m + s + 1 = (c + 1) * m + 0 := by rw [← hlast]; ring
        rw [hx]
        apply ih (c + 1) 0 _ _ _ (by omega)
        · intro _
          refine ⟨?_, hpd⟩
          rw [hbit]
          have : (N : Int) * (s + 1) = 8 := by
            rw [show ((s : Int) + 1) = ((s + 1 : Nat) : Int) by push_cast; rfl, hlast]
            exact_mod_cast hNm
          linarith
        · intro h; exact absurd rfl h
      · have hx : c * m + s + 1 = c * m + (s + 1) := by ring
        rw [hx]
        apply ih c (s + 1) _ _ _ (by omega)
        · intro h; omega
        · intro _
          refine ⟨?_, rfl, hpd⟩
          rw [hbit]
          push_cast
          ring

theorem palette_bit_loop_flat (header : RtiffHeader) (read : PaletteRead) (N S : Nat)
    (hN : N = 1 ∨ N = 2 ∨ N = 4) (hbps : header.bits_per_sample = (N : Int))
    (hS : header.samples_per_pixel = (S : Int)) (p : List Nat) (hp : ∀ b ∈ p, b < 256)
    (K : Nat) :
    palette_bit_loop header read K 0 0 0 p =
      (List.range K).flatMap (fun x =>
        if x % S = 0 then
          palette_lookup read.mono read.red8 read.green8 read.blue8 (packed_sample N p x)
        else [packed_sample N p x <<< (8 - N)]) := by
  have hcond : ∀ x : Nat, (Int.tmod (x : Int) header.samples_per_pixel = 0) ↔ x % S = 0 := by
    intro x
    rw [hS, ← Int.ofNat_tmod]
    exact Int.natCast_eq_zero
  have key : ∀ m, N * m = 8 → 2 ≤ m → palette_step_ok N m →
      palette_bit_loop header read K 0 0 0 p =
        (List.range K).flatMap (fun x =>
          if x % S = 0 then
            palette_lookup read.mono read.red8 read.green8 read.blue8 (packed_sample N p x)
          else [packed_sample N p x <<< (8 - N)]) := by
    intro m hNm hm hstep
    have h := palette_bit_loop_spec header read N m hNm hm hstep hbps p hp K 0 0 0 0 p
      (by omega) (by intro _; exact ⟨le_refl _, rfl⟩) (by intro h; exact absurd rfl h)
    simp only [Nat.zero_mul, Nat.add_zero] at h
    rw [h, List.range_eq_range']
    congr 1
    funext x
    simp only [hcond]
  rcases hN with h | h | h <;> subst h
  · exact key 8 (by norm_num) (by norm_num) palette_step_ok_1
  · exact key 4 (by norm_num) (by norm_num) palette_step_ok_2
  · exact key 2 (by norm_num) (by norm_num) palette_step_ok_4

/-- What `rtiff_palette_line_bit` writes, for every `n`: the samples below the
32-bit loop bound. -/
theorem rtiff_palette_line_bit_flat (header : RtiffHeader) (read : PaletteRead) (N S : Nat)
    (hN : N = 1 ∨ N = 2 ∨ N = 4) (hbps : header.bits_per_sample = (N : Int))
    (hS : header.samples_per_pixel = (S : Int)) (p : List Nat) (hp : ∀ b ∈ p, b < 256)
    (n : Nat) :
    rtiff_palette_line_bit header read p n =
      (List.range (to_int32 ((n : Int) * (S : Int))).toNat).flatMap (fun x =>
        if x % S = 0 then
          palette_lookup read.mono read.red8 read.green8 read.blue8 (packed_sample N p x)
        else [packed_sample N p x <<< (8 - N)]) := by
  unfold rtiff_palette_line_bit
  rw [hS]
  exact palette_bit_loop_flat header read N S hN hbps hS p hp _

/-- The claimed behaviour while the sample count fits a C `int`: for a header
of N bits per sample, N in 1, 2, 4, with S samples per pixel, a packed
scanline `p` of bytes and `n * S` at most `INT_MAX`, `rtiff_palette_line_bit`
on `n` pixels writes, for the sample numbers x = 0 .. n * S - 1 in order,
where sample x is the x-th N-bit field of `p` counted from the most
significant bits: for the first sample of a pixel (x a multiple of S) its
entry in the 8-bit tables (one byte for a mono palette, red, green and blue
otherwise), and for every other sample the value shifted left by 8 - N. -/
theorem rtiff_palette_line_bit_in_range (header : RtiffHeader) (read : PaletteRead)
    (N S : Nat) (hN : N = 1 ∨ N = 2 ∨ N = 4) (hbps : header.bits_per_sample = (N : Int))
    (hS : header.samples_per_pixel = (S : Int)) (p : List Nat) (hp : ∀ b ∈ p, b < 256)
    (n : Nat) (hfit : n * S ≤ 2147483647) :
    rtiff_palette_line_bit header read p n =
      (List.range (n * S)).flatMap (fun x =>
        if x % S = 0 then
          palette_lookup read.mono read.red8 read.green8 read.blue8 (packed_sample N p x)
        else [packed_sample N p x <<< (8 - N)]) := by
  rw [rtiff_palette_line_bit_flat header read N S hN hbps hS p hp n]
  have hk : (to_int32 ((n : Int) * (S : Int))).toNat = n * S := by
    have h1 : ((n : Int) * (S : Int)) = ((n * S : Nat) : Int) := by push_cast; rfl
    rw [h1, to_int32_of_range _ (by omega) (by omega), Int.toNat_ofNat]
  rw [hk]

set_option maxRecDepth 100000 in
/-- Two pixels of two 4-bit samples, 0xA5 and 0x3C, through a mono palette
whose entry `i` is `16 * i`. -/
theorem rtiff_palette_line_bit_small :
    rtiff_palette_line_bit (header_of_bits 4 PHOTOMETRIC_PALETTE 2)
      (palette_read 16 ((List.range 16).map (fun i => 16 * i))
        ((List.range 16).map (fun i => 16 * i)) ((List.range 16).map (fun i => 16 * i)))
      [0xA5, 0x3C] 2 = [160, 80, 48, 192] := by
  rw [rtiff_palette_line_bit_in_range (header_of_bits 4 PHOTOMETRIC_PALETTE 2) _ 4 2
    (by decide) rfl rfl [0xA5, 0x3C] (by decide) 2 (by decide)]
  decide

set_option maxRecDepth 100000 in
/-- C34 (the code at the failing input): the palette directory of 5000000 x 1
pixels with 430 one-bit samples per pixel passes `rtiff_header_read`, is
given to `rtiff_parse_palette`, which selects `rtiff_palette_line_bit`, and
gets an output image 5000000 pixels wide.  Its scanline holds
5000000 * 430 = 2150000000 samples, more than `INT_MAX`; the loop bound
`n * samples_per_pixel` wraps to -2144967296 and the kernel writes nothing,
whatever the source line and the tables.  On a line of two pixels of two
4-bit samples, 0xA5 and 0x3C, through a mono palette whose entry `i` is
`16 * i`, it writes the four bytes claimed. -/
theorem rtiff_palette_line_bit_overflow :
    rtiff_header_read true wide_palette_tags none RtiffHeader.zero =
      Except.ok (header_of_tags wide_palette_tags) ∧
    (header_of_tags wide_palette_tags).width = 5000000 ∧
    (header_of_tags wide_palette_tags).samples_per_pixel = 430 ∧
    (header_of_tags wide_palette_tags).bits_per_sample = 1 ∧
    rtiff_pick_reader (header_of_tags wide_palette_tags) = Reader.rtiff_parse_palette ∧
    (rtiff_parse_palette (reader_of_tags wide_palette_tags) VipsImage.new).1 = 0 ∧
    (rtiff_parse_palette (reader_of_tags wide_palette_tags) VipsImage.new).2.1.sfn =
      some ScanlineFn.rtiff_palette_line_bit ∧
    (rtiff_set_header (reader_of_tags wide_palette_tags) VipsImage.new).1 = 0 ∧
    (rtiff_set_header (reader_of_tags wide_palette_tags) VipsImage.new).2.2.Xsize = 5000000 ∧
    ((5000000 : Int) * (header_of_tags wide_palette_tags).samples_per_pixel = 2150000000 ∧
      (2147483647 : Int) < 2150000000 ∧
      to_int32 ((5000000 : Int) * (header_of_tags wide_palette_tags).samples_per_pixel) =
        -2144967296) ∧
    (∀ (read : PaletteRead) (p : List Nat),
      rtiff_palette_line_bit (header_of_tags wide_palette_tags) read p 5000000 = []) ∧
    rtiff_palette_line_bit (header_of_bits 4 PHOTOMETRIC_PALETTE 2)
      (palette_read 16 ((List.range 16).map (fun i => 16 * i))
        ((List.range 16).map (fun i => 16 * i)) ((List.range 16).map (fun i => 16 * i)))
      [0xA5, 0x3C] 2 = [160, 80, 48, 192] := by
  refine ⟨by decide, by decide, by decide, by decide, by decide, by decide, by decide,
    by decide, by decide, by decide, ?_, by decide⟩
  intro read p
  rfl

/-! ## The format switch of the greyscale kernel -/

theorem rtiff_parse_greyscale_header (rtiff : Rtiff) (out : VipsImage) :
    (rtiff_parse_greyscale rtiff out).2.1.header = rtiff.header := by
  unfold rtiff_parse_greyscale
  simp only []
  split_ifs <;> rfl

theorem rtiff_greyscale_line_some (header : RtiffHeader) (p : List Nat) (n : Nat)
    (hfmt : rtiff_guess_format header ≠ VipsBandFormat.NOTSET)
    (hcx : vips_band_format_iscomplex (rtiff_guess_format header) = false) :
    (rtiff_greyscale_line header p n).isSome = true := by
  unfold rtiff_greyscale_line
  simp only []
  cases hf : rtiff_guess_format header <;> rw [hf] at hfmt hcx <;>
    first
      | exact absurd rfl hfmt
      | exact absurd hcx (by decide)
      | (simp only []; split_ifs <;> rfl)
      | rfl

/-- C35: for every header accepted by `rtiff_parse_greyscale`, the band
format `rtiff_guess_format` gives is one of CHAR, UCHAR, SHORT, USHORT, INT,
UINT, FLOAT and DOUBLE, and the format switch of `rtiff_greyscale_line`,
run on the header of the reader state the reader returns, reaches a handled
case for every source line and pixel count: it never falls to its default
branch. -/
theorem rtiff_greyscale_line_handled (rtiff : Rtiff) (out : VipsImage)
    (hok : (rtiff_parse_greyscale rtiff out).1 = 0) (p : List Nat) (n : Nat) :
    rtiff_guess_format rtiff.header ∈
      [VipsBandFormat.CHAR, VipsBandFormat.UCHAR, VipsBandFormat.SHORT,
       VipsBandFormat.USHORT, VipsBandFormat.INT, VipsBandFormat.UINT,
       VipsBandFormat.FLOAT, VipsBandFormat.DOUBLE] ∧
    (rtiff_parse_greyscale rtiff out).2.1.sfn = some ScanlineFn.rtiff_greyscale_line ∧
    (rtiff_greyscale_line (rtiff_parse_greyscale rtiff out).2.1.header p n).isSome = true := by
  obtain ⟨_, hfrac, hfmt, hcx⟩ := rtiff_parse_greyscale_ok rtiff out hok
  refine ⟨?_, ?_, ?_⟩
  · cases hf : rtiff_guess_format rtiff.header <;> rw [hf] at hfmt hcx <;>
      first
        | exact absurd rfl hfmt
        | exact absurd hcx (by decide)
        | simp
  · unfold rtiff_parse_greyscale at hok ⊢
    simp only [] at hok ⊢
    split_ifs at hok ⊢ <;> first | rfl | (simp at hok)
  · rw [rtiff_parse_greyscale_header]
    exact rtiff_greyscale_line_some rtiff.header p n hfmt hcx

set_option maxRecDepth 100000 in
/-- Witness for C35: an 8-bit unsigned greyscale header of one sample is
accepted and its two-pixel line is handled. -/
theorem rtiff_greyscale_line_handled_witness :
    (rtiff_parse_greyscale (reader_with_header (grey_header 8 SAMPLEFORMAT_UINT
      PHOTOMETRIC_MINISBLACK 1)) VipsImage.new).1 = 0 ∧
    (rtiff_greyscale_line (rtiff_parse_greyscale (reader_with_header (grey_header 8
      SAMPLEFORMAT_UINT PHOTOMETRIC_MINISBLACK 1)) VipsImage.new).2.1.header [3, 5] 2).isSome
      = true :=
  ⟨by decide,
   (rtiff_greyscale_line_handled (reader_with_header (grey_header 8 SAMPLEFORMAT_UINT
      PHOTOMETRIC_MINISBLACK 1)) VipsImage.new (by decide) [3, 5] 2).2.2⟩

/-! ## The source bytes read by the bit-expanding kernels -/

theorem rtiff_header_equal_reader_fields (h1 h2 : RtiffHeader)
    (heq : rtiff_header_equal h1 h2 = true) :
    h1.samples_per_pixel = h2.samples_per_pixel ∧
      h1.bits_per_sample = h2.bits_per_sample ∧
      h1.photometric_interpretation = h2.photometric_interpretation := by
  unfold rtiff_header_equal at heq
  split_ifs at heq with hc
  all_goals
    push_neg at hc
    exact ⟨hc.2.2.1, hc.2.2.2.1, hc.2.2.2.2.1⟩

/-- Two headers that compare equal under `rtiff_header_equal` and agree on
`read_as_rgba`, a field the comparison does not look at, get the same
reader. -/
theorem rtiff_pick_reader_of_header_equal (h1 h2 : RtiffHeader)
    (heq : rtiff_header_equal h1 h2 = true) (hrgba : h1.read_as_rgba = h2.read_as_rgba) :
    rtiff_pick_reader h1 = rtiff_pick_reader h2 := by
  obtain ⟨hs, hb, hp⟩ := rtiff_header_equal_reader_fields h1 h2 heq
  unfold rtiff_pick_reader
  simp only [hs, hb, hp, hrgba]

set_option maxRecDepth 100000 in
/-- C37 (failing input): a file of two 4x4 pages with LZW compression, the
first RGB with alpha in four 8-bit samples, the second YCbCr with 2x2 chroma
subsampling.  The header of the second page is rewritten for the RGBA path,
`rtiff_header_equal` finds the two headers equal and `rtiff_header_read_all`
accepts the file, yet `rtiff_pick_reader` selects the copy reader for the
first header and the RGBA reader for the second: the two headers differ in
`read_as_rgba` only among the fields the choice depends on. -/
theorem header_equal_pages_differ_in_reader :
    rtiff_header_read true (rgb_alpha_tags 5) none RtiffHeader.zero =
      Except.ok (header_of_tags (rgb_alpha_tags 5)) ∧
    rtiff_header_read true (ycbcr_tags 5 (2, 2)) (some (header_of_tags (rgb_alpha_tags 5)))
      RtiffHeader.zero = Except.ok (header_of_tags (ycbcr_tags 5 (2, 2))) ∧
    rtiff_header_equal (header_of_tags (rgb_alpha_tags 5))
      (header_of_tags (ycbcr_tags 5 (2, 2))) = true ∧
    (reader_of_two_pages (rgb_alpha_tags 5) (ycbcr_tags 5 (2, 2))).1 = 0 ∧
    (reader_of_two_pages (rgb_alpha_tags 5) (ycbcr_tags 5 (2, 2))).2.header =
      header_of_tags (rgb_alpha_tags 5) ∧
    rtiff_pick_reader (header_of_tags (rgb_alpha_tags 5)) = Reader.rtiff_parse_copy ∧
    rtiff_pick_reader (header_of_tags (ycbcr_tags 5 (2, 2))) = Reader.rtiff_parse_rgba ∧
    (header_of_tags (rgb_alpha_tags 5)).read_as_rgba = false ∧
    (header_of_tags (ycbcr_tags 5 (2, 2))).read_as_rgba = true := by
  refine ⟨by decide, by decide, by decide, by decide, by decide, by decide, by decide,
    by decide, by decide⟩

/-! ## The unaligned tile generator paints every pixel once -/

theorem rtiff_read_tile_header (rtiff : Rtiff) (buf : Nat → Nat) (page : Int)
    (tile : TileAnswer) :
    (rtiff_read_tile rtiff buf page tile).2.1.header = rtiff.header := by
  have hset := (rtiff_set_page_keeps rtiff page).1
  unfold rtiff_read_tile
  generalize rtiff_set_page rtiff page = sp at hset
  obtain ⟨rc, rtiff1⟩ := sp
  simp only [] at hset ⊢
  have hc := (tile_container_call_keeps rtiff1 tile).1
  split_ifs <;> simp only [hc, hset]

theorem tile_hit_arith_x (xs tw W rleft rwidth x left e : Int)
    (b1 : xs ≤ rleft + x) (hxs : 0 ≤ xs)
    (hleft : left = max (max xs 0) rleft)
    (hend : e = min (min (xs + tw) (0 + W)) (rleft + rwidth))
    (hx0 : 0 ≤ x) (hright : rleft + rwidth ≤ W) (hal : x = 0 ∨ xs = rleft + x) :
    left = rleft + x ∧ e ≤ rleft + rwidth ∧ (e < rleft + rwidth → e = xs + tw) := by
  omega

theorem tile_hit_arith_y (ys th Hh P rtop rheight y top e : Int)
    (b1 : P + ys ≤ rtop + y) (hys : 0 ≤ ys)
    (htop : top = max (max ys 0 + P) rtop)
    (hend : e = min (min (ys + th) (0 + Hh) + P) (rtop + rheight))
    (hy0 : 0 ≤ y) (hal : y = 0 ∨ P + ys = rtop + y) :
    top = rtop + y ∧ e ≤ rtop + rheight ∧
      (e < rtop + rheight → e = min (P + ys + th) (P + Hh)) := by
  omega

/-- The hit of the inner iteration at `(x, y)`, when column `left + x` is the
first column of the region or of a tile and row `top + y` the first row of
the region or of a row of tiles: it starts at that column and row, is not
empty, stays inside the region, and the column and the row after it are again
first ones when still inside the region. -/
theorem unaligned_hit_facts (tw th ph : Int) (rtiff : Rtiff) (r : VipsRect) (x y : Int)
    (htw : 0 < tw) (hth : 0 < th) (hph : 0 < ph) (hH : (rtiff.header.height : Int) = ph)
    (hleft : 0 ≤ r.left) (htop : 0 ≤ r.top)
    (hright : r.left + r.width ≤ rtiff.header.width)
    (hx0 : 0 ≤ x) (hx : x < r.width) (hy0 : 0 ≤ y) (hy : y < r.height)
    (hxal : x = 0 ∨ tile_left tw (r.left + x) = r.left + x)
    (hyal : y = 0 ∨ band_top ph th (r.top + y) = r.top + y) :
    ((unaligned_hit tw th ph rtiff r x y).2.left = r.left + x ∧
      0 < (unaligned_hit tw th ph rtiff r x y).2.width ∧
      x + (unaligned_hit tw th ph rtiff r x y).2.width ≤ r.width ∧
      (x + (unaligned_hit tw th ph rtiff r x y).2.width < r.width →
        tile_left tw (r.left + (x + (unaligned_hit tw th ph rtiff r x y).2.width)) =
          r.left + (x + (unaligned_hit tw th ph rtiff r x y).2.width))) ∧
    ((unaligned_hit tw th ph rtiff r x y).2.top = r.top + y ∧
      0 < (unaligned_hit tw th ph rtiff r x y).2.height ∧
      y + (unaligned_hit tw th ph rtiff r x y).2.height ≤ r.height ∧
      (y + (unaligned_hit tw th ph rtiff r x y).2.height < r.height →
        band_top ph th (r.top + (y + (unaligned_hit tw th ph rtiff r x y).2.height)) =
          r.top + (y + (unaligned_hit tw th ph rtiff r x y).2.height))) := by
  obtain ⟨c1, c2, c3, cnext⟩ := tile_left_facts tw (r.left + x) htw (add_nonneg hleft hx0)
  obtain ⟨b1, b2, b3, b4, b5, b6, bnext⟩ :=
    band_top_facts ph th (r.top + y) hph hth (add_nonneg htop hy0)
  obtain ⟨_, p0, pH, psplit⟩ := tdiv_tmod_facts (r.top + y) ph (add_nonneg htop hy0) hph
  have hdef : (unaligned_hit tw th ph rtiff r x y).2 =
      vips_rect_intersectrect
        { vips_rect_intersectrect
            { left := Int.tdiv (r.left + x) tw * tw,
              top := Int.tdiv (Int.tmod (r.top + y) ph) th * th,
              width := tw, height := th }
            { left := 0, top := 0, width := rtiff.header.width,
              height := rtiff.header.height } with
          top := (vips_rect_intersectrect
            { left := Int.tdiv (r.left + x) tw * tw,
              top := Int.tdiv (Int.tmod (r.top + y) ph) th * th,
              width := tw, height := th }
            { left := 0, top := 0, width := rtiff.header.width,
              height := rtiff.header.height }).top + Int.tdiv (r.top + y) ph * ph } r := rfl
  rw [hdef]
  clear hdef
  unfold tile_left at hxal ⊢
  unfold band_top at hyal ⊢
  rw [hH]
  have hcomm : ph * Int.tdiv (r.top + y) ph = Int.tdiv (r.top + y) ph * ph := mul_comm _ _
  rw [hcomm] at b1 b2 b3 b6 bnext hyal psplit
  generalize Int.tdiv (r.top + y) ph * ph = P at b1 b2 b3 b6 bnext hyal psplit ⊢
  generalize Int.tdiv (Int.tmod (r.top + y) ph) th * th = ys at b1 b2 b4 b5 bnext hyal ⊢
  generalize Int.tdiv (r.left + x) tw * tw = xs at c1 c2 c3 cnext hxal ⊢
  generalize Int.tmod (r.top + y) ph = py at p0 pH psplit
  obtain ⟨tc1, ec1, lc1, uc1⟩ := intersect_cols
    { left := xs, top := ys, width := tw, height := th }
    { left := 0, top := 0, width := rtiff.header.width, height := ph } (r.left + x)
    ⟨c1, c2⟩ ⟨add_nonneg hleft hx0, by simp only []; linarith⟩
  obtain ⟨tr1, er1, lr1, ur1⟩ := intersect_rows
    { left := xs, top := ys, width := tw, height := th }
    { left := 0, top := 0, width := rtiff.header.width, height := ph } py
    ⟨by simp only []; linarith, by simp only []; linarith⟩
    ⟨p0, by simp only []; linarith⟩
  generalize vips_rect_intersectrect
    { left := xs, top := ys, width := tw, height := th }
    { left := 0, top := 0, width := rtiff.header.width, height := ph } = t1
    at tc1 ec1 lc1 uc1 tr1 er1 lr1 ur1 ⊢
  simp only [] at tc1 ec1 tr1 er1
  obtain ⟨tc3, ec3, lc3, uc3⟩ := intersect_cols
    { t1 with top := t1.top + P } r (r.left + x) ⟨lc1, uc1⟩ ⟨by linarith, by linarith⟩
  obtain ⟨tr3, er3, lr3, ur3⟩ := intersect_rows
    { t1 with top := t1.top + P } r (r.top + y)
    ⟨by simp only []; linarith, by simp only []; linarith⟩ ⟨by linarith, by linarith⟩
  generalize vips_rect_intersectrect { t1 with top := t1.top + P } r = hit
    at tc3 ec3 lc3 uc3 tr3 er3 lr3 ur3 ⊢
  simp only [] at tc3 ec3 tr3 er3
  rw [tc1] at tc3
  rw [ec1] at ec3
  rw [tr1] at tr3
  have er3b : hit.top + hit.height = min (min (ys + th) (0 + ph) + P) (r.top + r.height) := by
    rw [er3, ← er1]
    congr 1
    ring
  have fx := tile_hit_arith_x xs tw rtiff.header.width r.left r.width x hit.left
    (hit.left + hit.width) c1 c3 tc3 ec3 hx0 hright hxal
  have fy := tile_hit_arith_y ys th ph P r.top r.height y hit.top (hit.top + hit.height)
    b1 b4 tr3 er3b hy0 hyal
  refine ⟨⟨fx.1, by linarith, by linarith, ?_⟩, ⟨fy.1, by linarith, by linarith, ?_⟩⟩
  · intro hlt
    have hx2 : r.left + (x + hit.width) = xs + tw := by
      have := fx.2.2 (by linarith)
      linarith
    rw [hx2]
    exact cnext
  · intro hlt
    have hy2 : r.top + (y + hit.height) = hit.top + hit.height := by linarith
    have hn := bnext (r.top + (y + hit.height)) (by rw [hy2]; exact fy.2.2 (by linarith))
    exact hn.1

theorem unaligned_hit_rows (tw th ph : Int) (rt1 rt2 : Rtiff) (r : VipsRect) (x1 x2 y : Int)
    (h : rt1.header = rt2.header) :
    (unaligned_hit tw th ph rt1 r x1 y).2.top = (unaligned_hit tw th ph rt2 r x2 y).2.top ∧
      (unaligned_hit tw th ph rt1 r x1 y).2.height =
        (unaligned_hit tw th ph rt2 r x2 y).2.height := by
  have key : ∀ (rt : Rtiff) (x : Int), (unaligned_hit tw th ph rt r x y).2.height =
      max 0 (min (max (Int.tdiv (Int.tmod (r.top + y) ph) th * th) 0 +
          Int.tdiv (r.top + y) ph * ph +
          max 0 (min (Int.tdiv (Int.tmod (r.top + y) ph) th * th + th)
            (0 + (rt.header.height : Int)) -
              max (Int.tdiv (Int.tmod (r.top + y) ph) th * th) 0))
        (r.top + r.height) -
        max (max (Int.tdiv (Int.tmod (r.top + y) ph) th * th) 0 +
          Int.tdiv (r.top + y) ph * ph) r.top) := fun _ _ => rfl
  refine ⟨rfl, ?_⟩
  rw [key rt1 x1, key rt2 x2, h]

theorem unaligned_row_succ (tw th ph : Int) (tiles : TileSource) (r : VipsRect) (y : Int)
    (fuel : Nat) (x : Int) (rtiff : Rtiff) (buf : Nat → Nat) (hh : Int) :
    unaligned_row tw th ph tiles r y (fuel + 1) x rtiff buf hh =
      if x < r.width then
        (if (rtiff_read_tile rtiff buf (rtiff.page + Int.tdiv (r.top + y) ph)
              (tiles (rtiff.page + Int.tdiv (r.top + y) ph)
                (Int.tdiv (r.left + x) tw * tw)
                (Int.tdiv (Int.tmod (r.top + y) ph) th * th))).1 ≠ 0 then
          some (-1,
            (rtiff_read_tile rtiff buf (rtiff.page + Int.tdiv (r.top + y) ph)
              (tiles (rtiff.page + Int.tdiv (r.top + y) ph)
                (Int.tdiv (r.left + x) tw * tw)
                (Int.tdiv (Int.tmod (r.top + y) ph) th * th))).2.1,
            (rtiff_read_tile rtiff buf (rtiff.page + Int.tdiv (r.top + y) ph)
              (tiles (rtiff.page + Int.tdiv (r.top + y) ph)
                (Int.tdiv (r.left + x) tw * tw)
                (Int.tdiv (Int.tmod (r.top + y) ph) th * th))).2.2, hh, [])
         else
          (match unaligned_row tw th ph tiles r y fuel
              (x + (unaligned_hit tw th ph
                (rtiff_read_tile rtiff buf (rtiff.page + Int.tdiv (r.top + y) ph)
                  (tiles (rtiff.page + Int.tdiv (r.top + y) ph)
                    (Int.tdiv (r.left + x) tw * tw)
                    (Int.tdiv (Int.tmod (r.top + y) ph) th * th))).2.1 r x y).2.width)
              (rtiff_read_tile rtiff buf (rtiff.page + Int.tdiv (r.top + y) ph)
                (tiles (rtiff.page + Int.tdiv (r.top + y) ph)
                  (Int.tdiv (r.left + x) tw * tw)
                  (Int.tdiv (Int.tmod (r.top + y) ph) th * th))).2.1
              (rtiff_read_tile rtiff buf (rtiff.page + Int.tdiv (r.top + y) ph)
                (tiles (rtiff.page + Int.tdiv (r.top + y) ph)
                  (Int.tdiv (r.left + x) tw * tw)
                  (Int.tdiv (Int.tmod (r.top + y) ph) th * th))).2.2
              (unaligned_hit tw th ph
                (rtiff_read_tile rtiff buf (rtiff.page + Int.tdiv (r.top + y) ph)
                  (tiles (rtiff.page + Int.tdiv (r.top + y) ph)
                    (Int.tdiv (r.left + x) tw * tw)
                    (Int.tdiv (Int.tmod (r.top + y) ph) th * th))).2.1 r x y).2.height with
           | none => none
           | some (rc2, rtiff2, buf2, hh2, hits) =>
             some (rc2, rtiff2, buf2, hh2,
               (unaligned_hit tw th ph
                (rtiff_read_tile rtiff buf (rtiff.page + Int.tdiv (r.top + y) ph)
                  (tiles (rtiff.page + Int.tdiv (r.top + y) ph)
                    (Int.tdiv (r.left + x) tw * tw)
                    (Int.tdiv (Int.tmod (r.top + y) ph) th * th))).2.1 r x y).2 :: hits)))
      else some (0, rtiff, buf, hh, []) := rfl

/-- The inner loop of `rtiff_fill_region_unaligned` for the row of tiles at
`y`, from `x` on, when column `left + x` is the first column of the region or
of a tile: it returns, every hit it paints is not empty, and when no tile
read fails the hits cover the pixels of the row of tiles from column
`left + x` on, each once, and leave `hit.height` at the height of the row of
tiles. -/
theorem unaligned_row_spec (tw th ph : Int) (tiles : TileSource) (r : VipsRect) (y : Int)
    (base : Rtiff)
    (htw : 0 < tw) (hth : 0 < th) (hph : 0 < ph) (hH : (base.header.height : Int) = ph)
    (hleft : 0 ≤ r.left) (htop : 0 ≤ r.top)
    (hright : r.left + r.width ≤ base.header.width)
    (hy0 : 0 ≤ y) (hy : y < r.height)
    (hyal : y = 0 ∨ band_top ph th (r.top + y) = r.top + y) :
    ∀ (fuel : Nat) (x : Int) (rtiff : Rtiff) (buf : Nat → Nat) (hhv : Int),
      rtiff.header = base.header → 0 ≤ x → x ≤ r.width →
      (x < r.width → x = 0 ∨ tile_left tw (r.left + x) = r.left + x) →
      (r.width - x).toNat < fuel →
      ∃ rc rtiff1 buf1 hh1 hits,
        unaligned_row tw th ph tiles r y fuel x rtiff buf hhv =
          some (rc, rtiff1, buf1, hh1, hits) ∧
        rtiff1.header = base.header ∧
        (∀ h ∈ hits, 0 < h.width ∧ 0 < h.height) ∧
        (rc = 0 →
          hh1 = (if x < r.width then (unaligned_hit tw th ph base r 0 y).2.height else hhv) ∧
          ∀ px py, hits.countP (fun h => rect_includes h px py) =
            if r.left + x ≤ px ∧ px < r.left + r.width ∧ r.top + y ≤ py ∧
                py < r.top + y + (unaligned_hit tw th ph base r 0 y).2.height
            then 1 else 0) := by
  intro fuel
  induction fuel with
  | zero => intro x rtiff buf hhv _ _ _ _ hf; omega
  | succ fuel ih =>
    intro x rtiff buf hhv hhdr hx0 hxle hxal hfuel
    rw [unaligned_row_succ]
    by_cases hx : x < r.width
    · simp only [hx, if_true]
      have hkeep := rtiff_read_tile_header rtiff buf (rtiff.page + Int.tdiv (r.top + y) ph)
        (tiles (rtiff.page + Int.tdiv (r.top + y) ph) (Int.tdiv (r.left + x) tw * tw)
          (Int.tdiv (Int.tmod (r.top + y) ph) th * th))
      generalize rtiff_read_tile rtiff buf (rtiff.page + Int.tdiv (r.top + y) ph)
        (tiles (rtiff.page + Int.tdiv (r.top + y) ph) (Int.tdiv (r.left + x) tw * tw)
          (Int.tdiv (Int.tmod (r.top + y) ph) th * th)) = rd at hkeep ⊢
      obtain ⟨rc, rtiff1, buf1⟩ := rd
      simp only [] at hkeep ⊢
      have hhdr1 : rtiff1.header = base.header := by rw [hkeep, hhdr]
      by_cases hrc : rc ≠ 0
      · rw [if_pos hrc]
        refine ⟨-1, rtiff1, buf1, hhv, [], rfl, hhdr1, by simp, ?_⟩
        intro h
        exact absurd h (by decide)
      · rw [if_neg hrc]
        obtain ⟨⟨fx1, fx2, fx3, fx4⟩, ⟨fy1, fy2, fy3, fy4⟩⟩ :=
          unaligned_hit_facts tw th ph rtiff1 r x y htw hth hph (by rw [hhdr1]; exact hH)
            hleft htop (by rw [hhdr1]; exact hright) hx0 hx hy0 hy (hxal hx) hyal
        obtain ⟨_, hrows⟩ := unaligned_hit_rows tw th ph rtiff1 base r x 0 y hhdr1
        obtain ⟨rc2, rtiff2, buf2, hh2, hits, hrec, hhdr2, hpos, hcount⟩ :=
          ih (x + (unaligned_hit tw th ph rtiff1 r x y).2.width) rtiff1 buf1
            (unaligned_hit tw th ph rtiff1 r x y).2.height hhdr1 (by omega) fx3
            (fun hlt => Or.inr (fx4 hlt)) (by omega)
        rw [hrec]
        refine ⟨rc2, rtiff2, buf2, hh2, _ :: hits, rfl, hhdr2, ?_, ?_⟩
        · intro h hmem
          rw [List.mem_cons] at hmem
          rcases hmem with hmem | hmem
          · rw [hmem]
            exact ⟨fx2, fy2⟩
          · exact hpos h hmem
        · intro hrc2
          obtain ⟨hc1, hc2⟩ := hcount hrc2
          constructor
          · rw [hc1]
            split_ifs
            · rfl
            · exact hrows
          · intro px py
            rw [List.countP_cons, hc2 px py]
            simp only [rect_includes, decide_eq_true_eq]
            rw [fx1, fy1, ← hrows]
            generalize (unaligned_hit tw th ph rtiff1 r x y).2.width = w at fx2 fx3 ⊢
            generalize (unaligned_hit tw th ph rtiff1 r x y).2.height = hgt at fy2 fy3 ⊢
            split_ifs <;> omega
    · simp only [hx, if_false]
      refine ⟨0, rtiff, buf, hhv, [], rfl, hhdr, by simp, ?_⟩
      intro _
      refine ⟨rfl, ?_⟩
      intro px py
      simp only [List.countP_nil]
      split_ifs <;> omega

/-- The outer loop of `rtiff_fill_region_unaligned` from `y` on, for a region
of positive width, when row `top + y` is the first row of the region or of a
row of tiles: it returns, every hit it paints is not empty, and when no tile
read fails the hits cover the pixels of the region from row `top + y` on,
each once. -/
theorem unaligned_loop_spec (tw th ph : Int) (tiles : TileSource) (r : VipsRect)
    (xfuel : Nat) (base : Rtiff)
    (htw : 0 < tw) (hth : 0 < th) (hph : 0 < ph) (hH : (base.header.height : Int) = ph)
    (hleft : 0 ≤ r.left) (htop : 0 ≤ r.top)
    (hright : r.left + r.width ≤ base.header.width)
    (hw : 0 < r.width) (hxf : r.width < xfuel) :
    ∀ (fuel : Nat) (y : Int) (rtiff : Rtiff) (buf : Nat → Nat),
      rtiff.header = base.header → 0 ≤ y → y ≤ r.height →
      (y < r.height → y = 0 ∨ band_top ph th (r.top + y) = r.top + y) →
      (r.height - y).toNat < fuel →
      ∃ rc rtiff1 buf1 hits,
        unaligned_loop tw th ph tiles r xfuel fuel y rtiff buf = some (rc, rtiff1, buf1, hits) ∧
        (∀ h ∈ hits, 0 < h.width ∧ 0 < h.height) ∧
        (rc = 0 →
          ∀ px py, hits.countP (fun h => rect_includes h px py) =
            if r.left ≤ px ∧ px < r.left + r.width ∧ r.top + y ≤ py ∧ py < r.top + r.height
            then 1 else 0) := by
  intro fuel
  induction fuel with
  | zero => intro y rtiff buf _ _ _ _ hf; omega
  | succ fuel ih =>
    intro y rtiff buf hhdr hy0 hyle hyal hfuel
    simp only [unaligned_loop]
    by_cases hy : y < r.height
    · simp only [hy, if_true]
      obtain ⟨rc, rtiff1, buf1, hh1, hits, hrow, hhdr1, hpos, hcount⟩ :=
        unaligned_row_spec tw th ph tiles r y base htw hth hph hH hleft htop hright hy0 hy
          (hyal hy) xfuel 0 rtiff buf 0 hhdr (le_refl 0) hw.le (fun _ => Or.inl rfl)
          (by omega)
      rw [hrow]
      simp only []
      by_cases hrc : rc ≠ 0
      · rw [if_pos hrc]
        refine ⟨-1, rtiff1, buf1, hits, rfl, hpos, ?_⟩
        intro h
        exact absurd h (by decide)
      · rw [if_neg hrc]
        have hrc0 : rc = 0 := not_not.mp hrc
        obtain ⟨hc1, hc2⟩ := hcount hrc0
        rw [if_pos hw] at hc1
        obtain ⟨_, ⟨fy1, fy2, fy3, fy4⟩⟩ :=
          unaligned_hit_facts tw th ph base r 0 y htw hth hph hH hleft htop hright
            (le_refl 0) hw hy0 hy (Or.inl rfl) (hyal hy)
        rw [← hc1] at fy2 fy3 fy4 hc2
        obtain ⟨rc2, rtiff2, buf2, hits2, hrec, hpos2, hcount2⟩ :=
          ih (y + hh1) rtiff1 buf1 hhdr1 (by omega) fy3 (fun hlt => Or.inr (fy4 hlt))
            (by omega)
        rw [hrec]
        refine ⟨rc2, rtiff2, buf2, hits ++ hits2, rfl, ?_, ?_⟩
        · intro h hmem
          rw [List.mem_append] at hmem
          rcases hmem with hmem | hmem
          · exact hpos h hmem
          · exact hpos2 h hmem
        · intro hrc2
          intro px py
          rw [List.countP_append, hc2 px py, hcount2 hrc2 px py]
          simp only [Int.add_zero]
          split_ifs <;> omega
    · simp only [hy, if_false]
      refine ⟨0, rtiff, buf, [], rfl, by simp, ?_⟩
      intro _ px py
      simp only [List.countP_nil]
      split_ifs <;> omega

theorem unaligned_loop_empty_width (tw th ph : Int) (tiles : TileSource) (r : VipsRect)
    (xfuel : Nat) (hw : r.width ≤ 0) (hh : 0 < r.height) :
    ∀ (fuel : Nat) (rtiff : Rtiff) (buf : Nat → Nat),
      (unaligned_loop tw th ph tiles r xfuel fuel 0 rtiff buf).isNone = true := by
  intro fuel
  induction fuel with
  | zero => intro rtiff buf; rfl
  | succ fuel ih =>
    intro rtiff buf
    simp only [unaligned_loop, hh, if_true]
    cases xfuel with
    | zero => rfl
    | succ k =>
      have hx : ¬ (0 : Int) < r.width := not_lt.mpr hw
      simp only [unaligned_row, hx, if_false, ne_eq, not_true_eq_false, Int.add_zero]
      have := ih rtiff buf
      cases hres : unaligned_loop tw th ph tiles r (k + 1) fuel 0 rtiff buf with
      | none => rfl
      | some v => rw [hres] at this; simp at this

set_option maxRecDepth 100000 in
/-- C38 (counterexample): on a region of width 0 and height 1 the inner loop
never runs, `hit.height` stays 0 and `y` never advances:
`rtiff_fill_region_unaligned` does not return, whatever the number of
iterations allowed.  And when a tile read fails (here `TIFFReadTile` under
the policy of failing on warnings) the function returns -1 with nothing
painted, so the pixel (0, 0) of a 16x16 region is not covered. -/
theorem rtiff_fill_region_unaligned_empty_width :
    (∀ fuel : Nat,
      (rtiff_fill_region_unaligned fuel (tiled_reader VIPS_FAIL_ON_NONE false)
        { left := 0, top := 0, width := 0, height := 1 } good_tiles zero_buf).isNone = true) ∧
    (rtiff_fill_region_unaligned 20 (tiled_reader VIPS_FAIL_ON_WARNING false)
        { left := 0, top := 0, width := 16, height := 16 } bad_tiles zero_buf).map
      (fun res => (res.1, res.2.2.2)) = some (-1, []) := by
  constructor
  · intro fuel
    unfold rtiff_fill_region_unaligned
    exact unaligned_loop_empty_width _ _ _ _ _ _ (by decide) (by decide) fuel _ _
  · decide

/-- C38 (amended): for every region of positive width lying inside the
output image, with positive tile and page sizes, `rtiff_fill_region_unaligned`
returns (with any fuel above the width and the height of the region); every
inner iteration that reads its tile intersects the tile, clipped to its page,
with the region in a rectangle of positive width and height; and when no tile
read fails these rectangles cover every pixel of the region exactly once and
no pixel outside it. -/
theorem rtiff_fill_region_unaligned_covers (fuel : Nat) (rtiff : Rtiff) (r : VipsRect)
    (tiles : TileSource) (buf : Nat → Nat)
    (htw : 0 < rtiff.header.tile_width) (hth : 0 < rtiff.header.tile_height)
    (hph : 0 < rtiff.header.height)
    (hleft : 0 ≤ r.left) (htop : 0 ≤ r.top) (hw : 0 < r.width) (hheight : 0 ≤ r.height)
    (hright : r.left + r.width ≤ rtiff.header.width)
    (hfx : r.width < fuel) (hfy : r.height < fuel) :
    ∃ rc rtiff1 buf1 hits,
      rtiff_fill_region_unaligned fuel rtiff r tiles buf = some (rc, rtiff1, buf1, hits) ∧
      (∀ h ∈ hits, 0 < h.width ∧ 0 < h.height) ∧
      (rc = 0 →
        ∀ px py, hits.countP (fun h => rect_includes h px py) =
          if rect_includes r px py = true then 1 else 0) := by
  obtain ⟨rc, rtiff1, buf1, hits, h1, h2, h3⟩ :=
    unaligned_loop_spec rtiff.header.tile_width rtiff.header.tile_height rtiff.header.height
      tiles r fuel rtiff (by exact_mod_cast htw) (by exact_mod_cast hth)
      (by exact_mod_cast hph) rfl hleft htop hright hw hfx fuel 0 rtiff buf rfl (le_refl 0)
      hheight (fun _ => Or.inl rfl) (by omega)
  refine ⟨rc, rtiff1, buf1, hits, h1, h2, ?_⟩
  intro hrc px py
  rw [h3 hrc px py]
  simp only [rect_includes, decide_eq_true_eq, Int.add_zero]

set_option maxRecDepth 100000 in
/-- Witness for C38: the region of 32 by 16 pixels at (0, 8) of a 64x64 page
with 16x16 tiles is painted in four hits of 16 by 8 pixels. -/
theorem rtiff_fill_region_unaligned_covers_witness :
    (rtiff_fill_region_unaligned 40 (tiled_reader VIPS_FAIL_ON_NONE false)
        { left := 0, top := 8, width := 32, height := 16 } good_tiles zero_buf).map
      (fun res => (res.1, res.2.2.2)) =
      some (0, [{ left := 0, top := 8, width := 16, height := 8 },
                { left := 16, top := 8, width := 16, height := 8 },
                { left := 0, top := 16, width := 16, height := 8 },
                { left := 16, top := 16, width := 16, height := 8 }]) ∧
    ∃ rc rtiff1 buf1 hits,
      rtiff_fill_region_unaligned 40 (tiled_reader VIPS_FAIL_ON_NONE false)
        { left := 0, top := 8, width := 32, height := 16 } good_tiles zero_buf =
        some (rc, rtiff1, buf1, hits) ∧
      (∀ h ∈ hits, 0 < h.width ∧ 0 < h.height) ∧
      (rc = 0 →
        ∀ px py, hits.countP (fun h => rect_includes h px py) =
          if rect_includes { left := 0, top := 8, width := 32, height := 16 } px py = true
          then 1 else 0) :=
  ⟨by decide,
   rtiff_fill_region_unaligned_covers 40 (tiled_reader VIPS_FAIL_ON_NONE false)
      { left := 0, top := 8, width := 32, height := 16 } good_tiles zero_buf (by decide)
      (by decide) (by decide) (by decide) (by decide) (by decide) (by decide) (by decide)
      (by decide) (by decide)⟩

/-! ## The memcpy flag -/

theorem memcpy_after_reader (rd : Reader) (rtiff : Rtiff) (out : VipsImage)
    (hm : rtiff.memcpy = false) (hok : (rd.run rtiff out).1 = 0) :
    ((rd.run rtiff out).2.1.memcpy = true ↔
      (rd = Reader.rtiff_parse_rgba ∨
        (rd = Reader.rtiff_parse_copy ∧
          rtiff.header.photometric_interpretation ≠ PHOTOMETRIC_YCBCR ∧
          ¬ (rtiff.header.bits_per_sample = 16 ∧
              rtiff.header.sample_format = SAMPLEFORMAT_IEEEFP)))) ∧
    ((rd.run rtiff out).2.1.memcpy = true →
      (rd.run rtiff out).2.1.sfn = some ScanlineFn.rtiff_memcpy_line) := by
  cases rd
  case rtiff_parse_rgba => simp [Reader.run, rtiff_parse_rgba]
  case rtiff_parse_lab_with_alpha =>
    simp only [Reader.run, rtiff_parse_lab_with_alpha] at hok ⊢
    split_ifs at hok ⊢ <;> simp_all
  case rtiff_parse_labpack =>
    simp only [Reader.run, rtiff_parse_labpack] at hok ⊢
    split_ifs at hok ⊢ <;> simp_all
  case rtiff_parse_labs =>
    simp only [Reader.run, rtiff_parse_labs] at hok ⊢
    split_ifs at hok ⊢ <;> simp_all
  case rtiff_parse_logluv =>
    simp only [Reader.run, rtiff_parse_logluv] at hok ⊢
    split_ifs at hok ⊢ <;> simp_all
  case rtiff_parse_onebit =>
    simp only [Reader.run, rtiff_parse_onebit] at hok ⊢
    split_ifs at hok ⊢ <;> simp_all
  case rtiff_parse_twobit =>
    simp only [Reader.run, rtiff_parse_twobit] at hok ⊢
    split_ifs at hok ⊢ <;> simp_all
  case rtiff_parse_fourbit =>
    simp only [Reader.run, rtiff_parse_fourbit] at hok ⊢
    split_ifs at hok ⊢ <;> simp_all
  case rtiff_parse_greyscale =>
    simp only [Reader.run, rtiff_parse_greyscale] at hok ⊢
    split_ifs at hok ⊢ <;> simp_all
  case rtiff_parse_palette =>
    have hmem : (rtiff_parse_palette rtiff out).2.1.memcpy = rtiff.memcpy := by
      unfold rtiff_parse_palette
      simp only []
      by_cases hc : rtiff_check_bits_palette rtiff ≠ 0 ∨ rtiff_check_min_samples rtiff 1 ≠ 0
      · rw [if_pos hc]
      · rw [if_neg hc]
        cases hcm : rtiff.tiff.cur.tags.colormap with
        | none => rfl
        | some m =>
          rcases m with ⟨r16, g16, b16⟩
          rfl
    simp only [Reader.run, hmem, hm]
    simp
  case rtiff_parse_copy =>
    simp only [Reader.run, rtiff_parse_copy] at hok ⊢
    split_ifs at hok ⊢ <;> simp_all

/-- C39: starting from a reader state whose memcpy flag is clear, as
`rtiff_new` leaves it, after a successful run of the reader selected by
`rtiff_pick_reader` the memcpy flag is set exactly when that reader is the
RGBA reader, or the copy reader on data that is neither YCbCr nor 16-bit
float; whenever the flag is set the scanline kernel is `rtiff_memcpy_line`,
so every reader that installs another kernel leaves the flag clear. -/
theorem reader_run_memcpy (rtiff : Rtiff) (out : VipsImage) (hm : rtiff.memcpy = false)
    (hok : ((rtiff_pick_reader rtiff.header).run rtiff out).1 = 0) :
    (((rtiff_pick_reader rtiff.header).run rtiff out).2.1.memcpy = true ↔
      (rtiff_pick_reader rtiff.header = Reader.rtiff_parse_rgba ∨
        (rtiff_pick_reader rtiff.header = Reader.rtiff_parse_copy ∧
          rtiff.header.photometric_interpretation ≠ PHOTOMETRIC_YCBCR ∧
          ¬ (rtiff.header.bits_per_sample = 16 ∧
              rtiff.header.sample_format = SAMPLEFORMAT_IEEEFP)))) ∧
    (((rtiff_pick_reader rtiff.header).run rtiff out).2.1.memcpy = true →
      ((rtiff_pick_reader rtiff.header).run rtiff out).2.1.sfn =
        some ScanlineFn.rtiff_memcpy_line) ∧
    (∀ (opened : Option TiffHandle) (page n subifd : Int) (autorotate : Bool) (fail_on : Nat)
        (fresh : Rtiff),
      rtiff_new opened page n autorotate subifd fail_on = some fresh → fresh.memcpy = false) := by
  refine ⟨(memcpy_after_reader _ rtiff out hm hok).1,
    (memcpy_after_reader _ rtiff out hm hok).2, ?_⟩
  intro opened page n subifd autorotate fail_on fresh hnew
  unfold rtiff_new at hnew
  split_ifs at hnew
  cases opened with
  | none => simp at hnew
  | some t =>
    simp only [Option.some.injEq] at hnew
    rw [← hnew]

set_option maxRecDepth 100000 in
/-- Witness for C39: the reader on a 4x4 RGB directory with alpha runs the
copy reader and ends with the memcpy flag set and the plain copy kernel. -/
theorem reader_run_memcpy_witness :
    (reader_of_tags (rgb_alpha_tags 5)).memcpy = false ∧
    ((rtiff_pick_reader (reader_of_tags (rgb_alpha_tags 5)).header).run
      (reader_of_tags (rgb_alpha_tags 5)) VipsImage.new).1 = 0 ∧
    (((rtiff_pick_reader (reader_of_tags (rgb_alpha_tags 5)).header).run
      (reader_of_tags (rgb_alpha_tags 5)) VipsImage.new).2.1.memcpy = true →
      ((rtiff_pick_reader (reader_of_tags (rgb_alpha_tags 5)).header).run
        (reader_of_tags (rgb_alpha_tags 5)) VipsImage.new).2.1.sfn =
        some ScanlineFn.rtiff_memcpy_line) :=
  ⟨by decide, by decide,
   (reader_run_memcpy (reader_of_tags (rgb_alpha_tags 5)) VipsImage.new (by decide)
      (by decide)).2.1⟩

/-! ## The palette lookups stay inside the tables -/

theorem palette_lookup_congr (mono : Bool) (r g b r2 g2 b2 : List Nat) (i : Nat)
    (h : r2.getD i 0 = r.getD i 0 ∧ g2.getD i 0 = g.getD i 0 ∧ b2.getD i 0 = b.getD i 0) :
    palette_lookup mono r2 g2 b2 i = palette_lookup mono r g b i := by
  unfold palette_lookup
  rw [h.1, h.2.1, h.2.2]

theorem mem_drop_lt (p : List Nat) (bound k : Nat) (hp : ∀ b ∈ p, b < bound) :
    ∀ b ∈ p.drop k, b < bound :=
  fun b hb => hp b (List.mem_of_mem_drop hb)

theorem getD_lt_bound (p : List Nat) (bound : Nat) (hpos : 0 < bound)
    (hp : ∀ b ∈ p, b < bound) (c : Nat) : p.getD c 0 < bound := by
  rw [List.getD_eq_getElem?_getD]
  cases h : p[c]? with
  | none => simpa using hpos
  | some v => exact hp v (List.getElem?_mem h)

theorem rtiff_palette_line8_tables (header : RtiffHeader) (read alt : PaletteRead)
    (hmono : alt.mono = read.mono)
    (hagree : ∀ i, i < 256 → alt.red8.getD i 0 = read.red8.getD i 0 ∧
      alt.green8.getD i 0 = read.green8.getD i 0 ∧ alt.blue8.getD i 0 = read.blue8.getD i 0) :
    ∀ (n : Nat) (p : List Nat), (∀ b ∈ p, b < 256) →
      rtiff_palette_line8 header alt p n = rtiff_palette_line8 header read p n := by
  intro n
  induction n with
  | zero => intros; rfl
  | succ n ih =>
    intro p hp
    simp only [rtiff_palette_line8, hmono]
    rw [palette_lookup_congr _ _ _ _ _ _ _ _ (hagree _ (getD_lt_bound p 256 (by norm_num) hp 0)),
      ih _ (mem_drop_lt p 256 _ hp)]

theorem rtiff_palette_line16_tables (header : RtiffHeader) (read alt : PaletteRead)
    (hmono : alt.mono = read.mono)
    (hagree : ∀ i, i < 65536 → alt.red16.getD i 0 = read.red16.getD i 0 ∧
      alt.green16.getD i 0 = read.green16.getD i 0 ∧
      alt.blue16.getD i 0 = read.blue16.getD i 0) :
    ∀ (n : Nat) (p : List Nat), (∀ b ∈ p, b < 65536) →
      rtiff_palette_line16 header alt p n = rtiff_palette_line16 header read p n := by
  intro n
  induction n with
  | zero => intros; rfl
  | succ n ih =>
    intro p hp
    simp only [rtiff_palette_line16, hmono]
    rw [palette_lookup_congr _ _ _ _ _ _ _ _
        (hagree _ (getD_lt_bound p 65536 (by norm_num) hp 0)),
      ih _ (mem_drop_lt p 65536 _ hp)]

theorem packed_sample_lt (N : Nat) (p : List Nat) (x : Nat) : packed_sample N p x < 1 <<< N := by
  unfold packed_sample
  rw [Nat.shiftLeft_eq, Nat.one_mul]
  exact bit_field_lt _ _ _

theorem rtiff_palette_line_bit_tables (header : RtiffHeader) (read alt : PaletteRead)
    (N S : Nat) (hN : N = 1 ∨ N = 2 ∨ N = 4) (hbps : header.bits_per_sample = (N : Int))
    (hS : header.samples_per_pixel = (S : Int))
    (hmono : alt.mono = read.mono)
    (hagree : ∀ i, i < 1 <<< N → alt.red8.getD i 0 = read.red8.getD i 0 ∧
      alt.green8.getD i 0 = read.green8.getD i 0 ∧ alt.blue8.getD i 0 = read.blue8.getD i 0)
    (p : List Nat) (hp : ∀ b ∈ p, b < 256) (n : Nat) :
    rtiff_palette_line_bit header alt p n = rtiff_palette_line_bit header read p n := by
  rw [rtiff_palette_line_bit_flat header alt N S hN hbps hS p hp n,
    rtiff_palette_line_bit_flat header read N S hN hbps hS p hp n]
  congr 1
  funext x
  rw [hmono, palette_lookup_congr _ _ _ _ _ _ _ _ (hagree _ (packed_sample_lt N p x))]

/-- C40: no palette kernel looks up a table entry at or beyond index
`1 << bits_per_sample`.  For every source line, the output of each kernel
depends on the tables only through their entries below that index: tables
`alt` that agree with `read` below it give the same output, for 1, 2 or 4
bits (where the index, the packed sample, is below `1 << bits_per_sample`)
on lines of bytes, for 8 bits on lines of bytes, and for 16 bits on lines of
16-bit values.  The three 8-bit tables `rtiff_parse_palette` builds have
exactly `1 << bits_per_sample` entries. -/
theorem palette_lookups_in_range (header : RtiffHeader) (read alt : PaletteRead)
    (hmono : alt.mono = read.mono) (p : List Nat) (n : Nat) :
    (∀ (N S : Nat), (N = 1 ∨ N = 2 ∨ N = 4) → header.bits_per_sample = (N : Int) →
      header.samples_per_pixel = (S : Int) → (∀ b ∈ p, b < 256) →
      (∀ x, packed_sample N p x < 1 <<< N) ∧
      ((∀ i, i < 1 <<< N → alt.red8.getD i 0 = read.red8.getD i 0 ∧
          alt.green8.getD i 0 = read.green8.getD i 0 ∧
          alt.blue8.getD i 0 = read.blue8.getD i 0) →
        rtiff_palette_line_bit header alt p n = rtiff_palette_line_bit header read p n)) ∧
    ((∀ b ∈ p, b < 256) →
      (∀ i, i < 1 <<< 8 → alt.red8.getD i 0 = read.red8.getD i 0 ∧
        alt.green8.getD i 0 = read.green8.getD i 0 ∧
        alt.blue8.getD i 0 = read.blue8.getD i 0) →
      rtiff_palette_line8 header alt p n = rtiff_palette_line8 header read p n) ∧
    ((∀ b ∈ p, b < 65536) →
      (∀ i, i < 1 <<< 16 → alt.red16.getD i 0 = read.red16.getD i 0 ∧
        alt.green16.getD i 0 = read.green16.getD i 0 ∧
        alt.blue16.getD i 0 = read.blue16.getD i 0) →
      rtiff_palette_line16 header alt p n = rtiff_palette_line16 header read p n) ∧
    (∀ (rtiff : Rtiff) (out : VipsImage) (red16 green16 blue16 : List Nat),
      rtiff.tiff.cur.tags.colormap = some (red16, green16, blue16) →
      (rtiff_parse_palette rtiff out).1 = 0 →
      ∃ built, (rtiff_parse_palette rtiff out).2.1.client = Client.palette built ∧
        built.red8.length = 1 <<< rtiff.header.bits_per_sample.toNat ∧
        built.green8.length = 1 <<< rtiff.header.bits_per_sample.toNat ∧
        built.blue8.length = 1 <<< rtiff.header.bits_per_sample.toNat) := by
  refine ⟨?_, ?_, ?_, ?_⟩
  · intro N S hN hbps hS hp
    exact ⟨packed_sample_lt N p, fun hagree =>
      rtiff_palette_line_bit_tables header read alt N S hN hbps hS hmono hagree p hp n⟩
  · intro hp hagree
    exact rtiff_palette_line8_tables header read alt hmono hagree n p hp
  · intro hp hagree
    exact rtiff_palette_line16_tables header read alt hmono hagree n p hp
  · intro rtiff out red16 green16 blue16 hmap hok
    refine ⟨_, (rtiff_parse_palette_ok rtiff out red16 green16 blue16 hmap hok).1, ?_, ?_, ?_⟩ <;>
      simp [palette_read]

set_option maxRecDepth 100000 in
/-- Witness for C40: a 4-bit line of two pixels of two samples gives the same
bytes through a mono palette of 16 entries and through the same tables with a
17th entry appended. -/
theorem palette_lookups_in_range_witness :
    rtiff_palette_line_bit (header_of_bits 4 PHOTOMETRIC_PALETTE 2)
      { palette_read 16 ((List.range 16).map (fun i => 16 * i))
          ((List.range 16).map (fun i => 16 * i)) ((List.range 16).map (fun i => 16 * i)) with
        red8 := (List.range 16).map (fun i => 16 * i) ++ [7],
        green8 := (List.range 16).map (fun i => 16 * i) ++ [7],
        blue8 := (List.range 16).map (fun i => 16 * i) ++ [7] }
      [0xA5, 0x3C] 2 =
    rtiff_palette_line_bit (header_of_bits 4 PHOTOMETRIC_PALETTE 2)
      (palette_read 16 ((List.range 16).map (fun i => 16 * i))
        ((List.range 16).map (fun i => 16 * i)) ((List.range 16).map (fun i => 16 * i)))
      [0xA5, 0x3C] 2 :=
  ((palette_lookups_in_range (header_of_bits 4 PHOTOMETRIC_PALETTE 2)
      (palette_read 16 ((List.range 16).map (fun i => 16 * i))
        ((List.range 16).map (fun i => 16 * i)) ((List.range 16).map (fun i => 16 * i)))
      { palette_read 16 ((List.range 16).map (fun i => 16 * i))
          ((List.range 16).map (fun i => 16 * i)) ((List.range 16).map (fun i => 16 * i)) with
        red8 := (List.range 16).map (fun i => 16 * i) ++ [7],
        green8 := (List.range 16).map (fun i => 16 * i) ++ [7],
        blue8 := (List.range 16).map (fun i => 16 * i) ++ [7] }
      (by decide) [0xA5, 0x3C] 2).1 4 2 (by decide) rfl rfl (by decide)).2 (by decide)

end Tiff2Vips
